import Mathlib

/-!
Open E-Ink firmware: panel driver and screen state machine

A shallow embedding of `src/drivers/eink_driver.c` and `src/app/display_manager.c`
(with the constants of `config/config.h`) and theorems about it.

Conventions of the embedding

* The file-scope `static` variables of a C module become the fields of a state record, and a
  C function becomes a Lean function from state (and arguments) to state (and return value).
* `uint8_t`, `uint16_t` and `uint32_t` values are natural numbers; where the C code truncates
  (assignment to a narrower type, unsigned wrap-around) the model reduces modulo `2^w`
  explicitly.
* Everything the driver does to the outside world (pin writes, bus transfers, delays) is
  appended, in program order, to `EinkState.trace`.  The only input from the outside world
  is the level of the BUSY pin, given as the stream `EinkState.busy_pin` of sampled levels.
* An array access outside the array is undefined behaviour in C.  The model performs no
  write in that case and raises the sticky ghost flag `EinkState.mem_fault`; a pixel read
  outside `display_buffer` has no value (`none`).  A state with `mem_fault = true` no longer
  describes the real machine.
* A `while (1)` loop runs on fuel; running out of fuel raises the sticky ghost flag
  `EinkState.hang`.
* `int` values are integers without a bound; that those of `eink_draw_line` stay far inside
  the 32-bit `int` of the target is what `eink_draw_line_checked` records.
* The drawing calls a screen makes to the driver are also given as data, a list of
  `draw_call` values that `draw_calls_run` makes one after the other, so that a theorem can
  write them out.
-/

namespace OpenEink

/-! ## config.h -/

def EINK_WIDTH : Nat := 250
def EINK_HEIGHT : Nat := 122
def FONT_SMALL_SIZE : Nat := 8
def FONT_MEDIUM_SIZE : Nat := 12
def FONT_LARGE_SIZE : Nat := 16
def DISPLAY_FULL_REFRESH_INTERVAL : Nat := 10
def UI_TITLE_HEIGHT : Nat := 20
def UI_STATUS_HEIGHT : Nat := 15
def ERROR_NONE : Nat := 0x00
def ERROR_INIT_FAILED : Nat := 0x01
def ERROR_INVALID_PARAM : Nat := 0x07

/-! ## eink_driver.c: private definitions -/

def EINK_CMD_DRIVER_OUTPUT_CONTROL : Nat := 0x01
def EINK_CMD_BOOSTER_SOFT_START_CONTROL : Nat := 0x0C
def EINK_CMD_DEEP_SLEEP_MODE : Nat := 0x10
def EINK_CMD_DATA_ENTRY_MODE_SETTING : Nat := 0x11
def EINK_CMD_SW_RESET : Nat := 0x12
def EINK_CMD_MASTER_ACTIVATION : Nat := 0x20
def EINK_CMD_DISPLAY_UPDATE_CONTROL_2 : Nat := 0x22
def EINK_CMD_WRITE_RAM : Nat := 0x24
def EINK_CMD_WRITE_VCOM_REGISTER : Nat := 0x2C
def EINK_CMD_WRITE_LUT_REGISTER : Nat := 0x32
def EINK_CMD_SET_DUMMY_LINE_PERIOD : Nat := 0x3A
def EINK_CMD_SET_GATE_TIME : Nat := 0x3B
def EINK_CMD_SET_RAM_X_ADDRESS_START_END : Nat := 0x44
def EINK_CMD_SET_RAM_Y_ADDRESS_START_END : Nat := 0x45
def EINK_CMD_SET_RAM_X_ADDRESS_COUNTER : Nat := 0x4E
def EINK_CMD_SET_RAM_Y_ADDRESS_COUNTER : Nat := 0x4F
def EINK_CMD_TERMINATE_FRAME_READ_WRITE : Nat := 0xFF

def EINK_DISPLAY_MODE_FULL : Nat := 0
def EINK_DISPLAY_MODE_PARTIAL : Nat := 1
def EINK_COLOR_WHITE : Nat := 0xFF
def EINK_COLOR_BLACK : Nat := 0x00

/-- The length of `display_buffer`: `EINK_WIDTH * EINK_HEIGHT / 8` with C integer division. -/
def DISPLAY_BUFFER_SIZE : Nat := EINK_WIDTH * EINK_HEIGHT / 8

def lut_full_update : List Nat :=
  [0x02, 0x02, 0x01, 0x11, 0x12, 0x12, 0x22, 0x22,
   0x66, 0x69, 0x69, 0x59, 0x58, 0x99, 0x99, 0x88,
   0x00, 0x00, 0x00, 0x00, 0xF8, 0xB4, 0x13, 0x51,
   0x35, 0x51, 0x51, 0x19, 0x01, 0x00]

def lut_partial_update : List Nat :=
  [0x10, 0x18, 0x18, 0x08, 0x18, 0x18, 0x08, 0x00,
   0x00, 0x00, 0x00, 0x00, 0x00, 0x00, 0x00, 0x00,
   0x00, 0x00, 0x00, 0x00, 0x13, 0x14, 0x44, 0x12,
   0x00, 0x00, 0x00, 0x00, 0x00, 0x00]

/-! ## The outside world -/

/-- The pins of the panel (`EINK_CS_PIN`, `EINK_DC_PIN`, `EINK_RST_PIN`, `EINK_BUSY_PIN`). -/
inductive Pin where
  | CS
  | DC
  | RST
  | BUSY
  deriving DecidableEq, Repr

/-- One call into the SDK (GPIO, SPI, timer) made by the driver. -/
inductive HwEvent where
  /-- The call `spi_initialize(&spi_cfg)`. -/
  | spi_initialize_call
  /-- The call `GPIO_ConfigurePin(GPIO_PORT_0, pin, OUTPUT or INPUT, PID_GPIO, false)`. -/
  | gpio_configure (pin : Pin) (output : Bool)
  /-- The call `GPIO_SetActive(GPIO_PORT_0, pin)`: the pin is driven high. -/
  | gpio_set_active (pin : Pin)
  /-- The call `GPIO_SetInactive(GPIO_PORT_0, pin)`: the pin is driven low. -/
  | gpio_set_inactive (pin : Pin)
  /-- The call `spi_send(data, length, SPI_OP_BLOCKING)` with the bytes transferred. -/
  | spi_send (bytes : List Nat)
  /-- The call `timer_usleep(us)`. -/
  | timer_usleep (us : Nat)
  deriving DecidableEq, Repr

/-- The file-scope variables of `eink_driver.c`, the trace of SDK calls, the BUSY input and
the ghost flags. -/
structure EinkState where
  eink_initialized : Bool
  display_buffer : List Nat
  current_display_mode : Nat
  refresh_counter : Nat
  /-- SDK calls made so far, oldest first. -/
  trace : List HwEvent
  /-- The level `GPIO_GetPinStatus(GPIO_PORT_0, EINK_BUSY_PIN)` returns at its n-th call. -/
  busy_pin : Nat → Bool
  /-- Number of calls of `GPIO_GetPinStatus` so far. -/
  busy_reads : Nat
  /-- Ghost: an access outside an array has happened. -/
  mem_fault : Bool
  /-- Ghost: a loop ran out of fuel. -/
  hang : Bool

/-- The driver at power-on: the C initialisers of the file-scope variables (the buffer is
zero-initialised), nothing emitted yet, BUSY input stream `busy`. -/
def power_on (busy : Nat → Bool) : EinkState :=
  { eink_initialized := false
    display_buffer := List.replicate DISPLAY_BUFFER_SIZE 0
    current_display_mode := EINK_DISPLAY_MODE_FULL
    refresh_counter := 0
    trace := []
    busy_pin := busy
    busy_reads := 0
    mem_fault := false
    hang := false }

/-- Appends one SDK call to the trace. -/
def emit (s : EinkState) (e : HwEvent) : EinkState :=
  { s with trace := s.trace ++ [e] }

/-! ## eink_driver.c: private functions -/

def eink_spi_init (s : EinkState) : EinkState :=
  emit s .spi_initialize_call

def eink_gpio_init (s : EinkState) : EinkState :=
  let s := emit s (.gpio_configure .DC true)
  let s := emit s (.gpio_configure .RST true)
  emit s (.gpio_configure .BUSY false)

def eink_reset (s : EinkState) : EinkState :=
  let s := emit s (.gpio_set_active .RST)
  let s := emit s (.timer_usleep 200000)
  let s := emit s (.gpio_set_inactive .RST)
  let s := emit s (.timer_usleep 200000)
  let s := emit s (.gpio_set_active .RST)
  emit s (.timer_usleep 200000)

def eink_send_command (s : EinkState) (command : Nat) : EinkState :=
  let s := emit s (.gpio_set_inactive .DC)
  emit s (.spi_send [command % 256])

def eink_send_data (s : EinkState) (data : Nat) : EinkState :=
  let s := emit s (.gpio_set_active .DC)
  emit s (.spi_send [data % 256])

def eink_send_data_buffer (s : EinkState) (data : List Nat) (length : Nat) : EinkState :=
  let s := emit s (.gpio_set_active .DC)
  emit s (.spi_send (data.take (length % 65536)))

/-- The loop of `eink_wait_busy`; `timeout` is the local counter.  The loop leaves after at
most `501 - timeout` iterations, so that `fuel = 501` is never used up from `timeout = 0`. -/
def eink_wait_busy_loop : Nat → Nat → EinkState → EinkState
  | 0, _, s => { s with hang := true }
  | fuel + 1, timeout, s =>
    let busy := s.busy_pin s.busy_reads
    let s := { s with busy_reads := s.busy_reads + 1 }
    if busy = true then
      let s := emit s (.timer_usleep 10000)
      let timeout := timeout + 1
      if timeout > 500 then s
      else eink_wait_busy_loop fuel timeout s
    else s

def eink_wait_busy (s : EinkState) : EinkState :=
  eink_wait_busy_loop 501 0 s

def eink_set_lut (s : EinkState) (lut : List Nat) : EinkState :=
  let s := eink_send_command s EINK_CMD_WRITE_LUT_REGISTER
  eink_send_data_buffer s lut 30

def eink_set_memory_area (s : EinkState) (x_start y_start x_end y_end : Nat) : EinkState :=
  let s := eink_send_command s EINK_CMD_SET_RAM_X_ADDRESS_START_END
  let s := eink_send_data s ((x_start >>> 3) &&& 0xFF)
  let s := eink_send_data s ((x_end >>> 3) &&& 0xFF)
  let s := eink_send_command s EINK_CMD_SET_RAM_Y_ADDRESS_START_END
  let s := eink_send_data s (y_start &&& 0xFF)
  let s := eink_send_data s ((y_start >>> 8) &&& 0xFF)
  let s := eink_send_data s (y_end &&& 0xFF)
  eink_send_data s ((y_end >>> 8) &&& 0xFF)

def eink_set_memory_pointer (s : EinkState) (x y : Nat) : EinkState :=
  let s := eink_send_command s EINK_CMD_SET_RAM_X_ADDRESS_COUNTER
  let s := eink_send_data s ((x >>> 3) &&& 0xFF)
  let s := eink_send_command s EINK_CMD_SET_RAM_Y_ADDRESS_COUNTER
  let s := eink_send_data s (y &&& 0xFF)
  eink_send_data s ((y >>> 8) &&& 0xFF)

/-- The effect of `memset(display_buffer, value, sizeof(display_buffer))`. -/
def memset_display_buffer (s : EinkState) (value : Nat) : EinkState :=
  { s with display_buffer := List.replicate DISPLAY_BUFFER_SIZE (value % 256) }

/-- The read-modify-write `display_buffer[byte_index] = f (display_buffer[byte_index])`. -/
def display_buffer_update (s : EinkState) (byte_index : Nat) (f : Nat → Nat) : EinkState :=
  match s.display_buffer[byte_index]? with
  | some b => { s with display_buffer := s.display_buffer.set byte_index (f b % 256) }
  | none => { s with mem_fault := true }

/-! ## eink_driver.c: public functions -/

def eink_init (s : EinkState) : EinkState × Nat :=
  if s.eink_initialized = true then (s, ERROR_NONE)
  else
    let s := eink_spi_init s
    let s := eink_gpio_init s
    let s := eink_reset s
    let s := eink_wait_busy s
    let s := eink_send_command s EINK_CMD_SW_RESET
    let s := eink_wait_busy s
    let s := eink_send_command s EINK_CMD_DRIVER_OUTPUT_CONTROL
    let s := eink_send_data s ((EINK_HEIGHT - 1) &&& 0xFF)
    let s := eink_send_data s (((EINK_HEIGHT - 1) >>> 8) &&& 0xFF)
    let s := eink_send_data s 0x00
    let s := eink_send_command s EINK_CMD_BOOSTER_SOFT_START_CONTROL
    let s := eink_send_data s 0xD7
    let s := eink_send_data s 0xD6
    let s := eink_send_data s 0x9D
    let s := eink_send_command s EINK_CMD_WRITE_VCOM_REGISTER
    let s := eink_send_data s 0xA8
    let s := eink_send_command s EINK_CMD_SET_DUMMY_LINE_PERIOD
    let s := eink_send_data s 0x1A
    let s := eink_send_command s EINK_CMD_SET_GATE_TIME
    let s := eink_send_data s 0x08
    let s := eink_send_command s EINK_CMD_DATA_ENTRY_MODE_SETTING
    let s := eink_send_data s 0x03
    let s := eink_set_lut s lut_full_update
    let s := memset_display_buffer s EINK_COLOR_WHITE
    ({ s with eink_initialized := true }, ERROR_NONE)

def eink_clear (s : EinkState) : EinkState × Nat :=
  if s.eink_initialized = false then (s, ERROR_INIT_FAILED)
  else (memset_display_buffer s EINK_COLOR_WHITE, ERROR_NONE)

def eink_set_pixel (s : EinkState) (x y color : Nat) : EinkState × Nat :=
  if s.eink_initialized = false then (s, ERROR_INIT_FAILED)
  else if x ≥ EINK_WIDTH ∨ y ≥ EINK_HEIGHT then (s, ERROR_INVALID_PARAM)
  else
    let byte_index := (y * EINK_WIDTH + x) / 8
    let bit_index := x % 8
    if color = 0 then
      (display_buffer_update s byte_index (fun b => b &&& (0xFF ^^^ (0x80 >>> bit_index))),
        ERROR_NONE)
    else
      (display_buffer_update s byte_index (fun b => b ||| (0x80 >>> bit_index)), ERROR_NONE)

/-- The result is `none` when the code reads outside `display_buffer`. -/
def eink_get_pixel (s : EinkState) (x y : Nat) : Option Nat :=
  if s.eink_initialized = false ∨ x ≥ EINK_WIDTH ∨ y ≥ EINK_HEIGHT then some 0xFF
  else
    let byte_index := (y * EINK_WIDTH + x) / 8
    let bit_index := x % 8
    match s.display_buffer[byte_index]? with
    | some b => some (if b &&& (0x80 >>> bit_index) ≠ 0 then 1 else 0)
    | none => none

/-- Conversion of a C `int` value to `uint16_t`. -/
def u16 (i : Int) : Nat := (i % 65536).toNat

/-- The `while (1)` loop of `eink_draw_line`: `x0`, `y0` and `err` are the variables the loop
changes. -/
def eink_draw_line_loop (x1 y1 : Nat) (dx dy sx sy : Int) (color : Nat) :
    Nat → EinkState → Nat → Nat → Int → EinkState
  | 0, s, _, _, _ => { s with hang := true }
  | fuel + 1, s, x0, y0, err =>
    let s := (eink_set_pixel s x0 y0 color).1
    if x0 = x1 ∧ y0 = y1 then s
    else
      let e2 := 2 * err
      let err1 := if e2 > -dy then err - dy else err
      let x0 := if e2 > -dy then u16 ((x0 : Int) + sx) else x0
      let err2 := if e2 < dx then err1 + dx else err1
      let y0 := if e2 < dx then u16 ((y0 : Int) + sy) else y0
      eink_draw_line_loop x1 y1 dx dy sx sy color fuel s x0 y0 err2

/-- The fuel given to the loop of `eink_draw_line`: one iteration for the starting point and
one for every unit step along either axis. -/
def eink_draw_line_fuel (x0 y0 x1 y1 : Nat) : Nat :=
  ((x1 : Int) - x0).natAbs + ((y1 : Int) - y0).natAbs + 1

def eink_draw_line (s : EinkState) (x0 y0 x1 y1 color : Nat) : EinkState × Nat :=
  if s.eink_initialized = false then (s, ERROR_INIT_FAILED)
  else
    let dx : Int := ((x1 : Int) - x0).natAbs
    let dy : Int := ((y1 : Int) - y0).natAbs
    let sx : Int := if x0 < x1 then 1 else -1
    let sy : Int := if y0 < y1 then 1 else -1
    let err : Int := dx - dy
    (eink_draw_line_loop x1 y1 dx dy sx sy color (eink_draw_line_fuel x0 y0 x1 y1) s x0 y0 err,
      ERROR_NONE)

def eink_draw_rectangle (s : EinkState) (x y width height color : Nat) (filled : Bool) :
    EinkState × Nat :=
  if s.eink_initialized = false then (s, ERROR_INIT_FAILED)
  else if filled = true then
    ((List.range height).foldl
      (fun s i => (List.range width).foldl
        (fun s j => (eink_set_pixel s (u16 ((x : Int) + j)) (u16 ((y : Int) + i)) color).1) s)
      s, ERROR_NONE)
  else
    let x_end := u16 ((x : Int) + width - 1)
    let y_end := u16 ((y : Int) + height - 1)
    let s := (eink_draw_line s x y x_end y color).1
    let s := (eink_draw_line s x y_end x_end y_end color).1
    let s := (eink_draw_line s x y x y_end color).1
    let s := (eink_draw_line s x_end y x_end y_end color).1
    (s, ERROR_NONE)

/-- The `while (*text)` loop of `eink_display_text`: `text` is what is left of the string,
`char_x` and `char_y` the cursor. -/
def eink_display_text_loop (x font_size color : Nat) :
    List Nat → EinkState → Nat → Nat → EinkState
  | [], s, _, _ => s
  | c :: text, s, char_x, char_y =>
    let s := if c = 10 then s
      else (eink_draw_rectangle s char_x char_y (u16 ((font_size : Int) - 2))
              (u16 ((font_size : Int) - 2)) color false).1
    let char_y1 := if c = 10 then u16 ((char_y : Int) + font_size + 2) else char_y
    let char_x1 := if c = 10 then x else u16 ((char_x : Int) + font_size)
    let char_y2 := if char_x1 ≥ EINK_WIDTH then u16 ((char_y1 : Int) + font_size + 2) else char_y1
    let char_x2 := if char_x1 ≥ EINK_WIDTH then x else char_x1
    if char_y2 ≥ EINK_HEIGHT then s
    else eink_display_text_loop x font_size color text s char_x2 char_y2

/-- The characters of a C string up to its terminating NUL. -/
def c_str (bytes : List Nat) : List Nat := bytes.takeWhile (fun b => b ≠ 0)

/-- A `text` of `none` is the null pointer. -/
def eink_display_text (s : EinkState) (x y : Nat) (text : Option (List Nat))
    (font_size color : Nat) : EinkState × Nat :=
  if s.eink_initialized = false ∨ text = none then (s, ERROR_INVALID_PARAM)
  else (eink_display_text_loop x font_size color (c_str (text.getD [])) s x y, ERROR_NONE)

def eink_refresh (s : EinkState) (mode : Nat) : EinkState × Nat :=
  if s.eink_initialized = false then (s, ERROR_INIT_FAILED)
  else
    let s := eink_set_memory_area s 0 0 (EINK_WIDTH - 1) (EINK_HEIGHT - 1)
    let s := eink_set_memory_pointer s 0 0
    let s := eink_send_command s EINK_CMD_WRITE_RAM
    let s := eink_send_data_buffer s s.display_buffer DISPLAY_BUFFER_SIZE
    let s :=
      if mode = EINK_DISPLAY_MODE_FULL ∨ s.refresh_counter % DISPLAY_FULL_REFRESH_INTERVAL = 0
      then { eink_set_lut s lut_full_update with current_display_mode := EINK_DISPLAY_MODE_FULL }
      else { eink_set_lut s lut_partial_update with
              current_display_mode := EINK_DISPLAY_MODE_PARTIAL }
    let s := eink_send_command s EINK_CMD_DISPLAY_UPDATE_CONTROL_2
    let s := eink_send_data s 0xC4
    let s := eink_send_command s EINK_CMD_MASTER_ACTIVATION
    let s := eink_send_command s EINK_CMD_TERMINATE_FRAME_READ_WRITE
    let s := eink_wait_busy s
    ({ s with refresh_counter := (s.refresh_counter + 1) % 2 ^ 32 }, ERROR_NONE)

def eink_sleep (s : EinkState) : EinkState × Nat :=
  if s.eink_initialized = false then (s, ERROR_INIT_FAILED)
  else
    let s := eink_send_command s EINK_CMD_DEEP_SLEEP_MODE
    let s := eink_send_data s 0x01
    (s, ERROR_NONE)

def eink_wakeup (s : EinkState) : EinkState × Nat :=
  if s.eink_initialized = false then (s, ERROR_INIT_FAILED)
  else
    let s := eink_reset s
    let s := eink_wait_busy s
    let s := eink_send_command s EINK_CMD_SW_RESET
    let s := eink_wait_busy s
    (s, ERROR_NONE)

/-! ## button_manager.h -/

/-- The enumerators of `button_event_t`, with the values C gives them in declaration order. -/
def BUTTON_EVENT_PRESS : Nat := 0
def BUTTON_EVENT_RELEASE : Nat := 1
def BUTTON_EVENT_LONG_PRESS : Nat := 2

/-! ## display_manager.c -/

inductive screen_state_t where
  | SCREEN_WELCOME
  | SCREEN_MAIN_MENU
  | SCREEN_SETTINGS
  | SCREEN_ABOUT
  | SCREEN_ERROR
  | SCREEN_SLEEP
  deriving DecidableEq, Repr

open screen_state_t

/-- The three functions a `menu_item_t.action` pointer of `main_menu_items` points to. -/
inductive menu_action_t where
  | menu_action_settings
  | menu_action_about
  | menu_action_sleep
  deriving DecidableEq, Repr

/-- A menu entry; an `action` of `none` is the null function pointer. -/
structure menu_item_t where
  title : List Nat
  action : Option menu_action_t

/-- The bytes of a string literal, without the terminating NUL. -/
def lit (str : String) : List Nat := str.toList.map Char.toNat

def FIRMWARE_VERSION : List Nat := lit "1.0.0"

def main_menu_items : List menu_item_t :=
  [ { title := lit "Settings", action := some .menu_action_settings },
    { title := lit "About", action := some .menu_action_about },
    { title := lit "Sleep", action := some .menu_action_sleep } ]

def main_menu_count : Nat := main_menu_items.length % 256

/-- The file-scope variables of `display_manager.c`, together with the state of the driver
below it.  `status_text` is the 64-byte array; `build_date` is the value of the `__DATE__` of
the compilation. -/
structure DisplayState where
  eink : EinkState
  current_screen : screen_state_t
  menu_selection : Nat
  display_needs_refresh : Bool
  status_text : List Nat
  build_date : List Nat

/-- The bytes `strncpy(dst, src, n)` writes to `dst[0 .. n-1]`: the characters of `src` up to
`n` of them, padded with NUL. -/
def strncpy (src : List Nat) (n : Nat) : List Nat :=
  (c_str src).take n ++ List.replicate (n - (c_str src).length) 0

/-- The statements `strncpy(status_text, text, sizeof(status_text) - 1);
status_text[sizeof(status_text) - 1] = 0`. -/
def status_text_assign (status_text text : List Nat) : List Nat :=
  (strncpy text 63 ++ status_text.drop 63).set 63 0

/-- The display manager before `main` runs: the C initialisers of its variables over the
driver at power-on. -/
def display_power_on (busy : Nat → Bool) (date : List Nat) : DisplayState :=
  { eink := power_on busy
    current_screen := SCREEN_WELCOME
    menu_selection := 0
    display_needs_refresh := false
    status_text := lit "Ready" ++ List.replicate 59 0
    build_date := date }

def display_init (d : DisplayState) : DisplayState × Nat :=
  let r := eink_init d.eink
  let d := { d with eink := r.1 }
  if r.2 ≠ 0 then (d, r.2)
  else ({ d with current_screen := SCREEN_WELCOME, display_needs_refresh := true }, ERROR_NONE)

def display_welcome_screen (d : DisplayState) : DisplayState :=
  { d with current_screen := SCREEN_WELCOME, display_needs_refresh := true }

def display_main_menu (d : DisplayState) : DisplayState :=
  { d with current_screen := SCREEN_MAIN_MENU, menu_selection := 0,
           display_needs_refresh := true }

/-- An `error_msg` of `none` is the null pointer. -/
def display_error_screen (d : DisplayState) (error_msg : Option (List Nat)) : DisplayState :=
  { d with current_screen := SCREEN_ERROR,
           status_text := status_text_assign d.status_text
             (error_msg.getD (lit "Unknown Error")),
           display_needs_refresh := true }

/-- A `text` of `none` is the null pointer. -/
def display_set_status (d : DisplayState) (text : Option (List Nat)) : DisplayState :=
  match text with
  | some text =>
    { d with status_text := status_text_assign d.status_text text,
             display_needs_refresh := true }
  | none => d

def display_force_refresh (d : DisplayState) : DisplayState :=
  { d with display_needs_refresh := true }

def draw_welcome_screen (d : DisplayState) : DisplayState :=
  let e := d.eink
  let e := (eink_display_text e 50 30 (some (lit "OpenEInk")) FONT_LARGE_SIZE 0).1
  let e := (eink_display_text e 40 50 (some (lit "Open Source")) FONT_MEDIUM_SIZE 0).1
  let e := (eink_display_text e 30 70 (some (lit "E-Ink Firmware")) FONT_MEDIUM_SIZE 0).1
  let e := (eink_display_text e 60 90 (some (lit "v" ++ FIRMWARE_VERSION)) FONT_SMALL_SIZE 0).1
  let e := (eink_display_text e 20 110 (some (lit "Press any key to continue"))
    FONT_SMALL_SIZE 0).1
  let e := (eink_draw_rectangle e 5 5 (EINK_WIDTH - 10) (EINK_HEIGHT - 10) 0 false).1
  { d with eink := e }

def draw_header (d : DisplayState) (title : List Nat) : DisplayState :=
  let e := d.eink
  let e := (eink_draw_rectangle e 0 0 EINK_WIDTH UI_TITLE_HEIGHT 0 true).1
  let e := (eink_display_text e 10 5 (some title) FONT_MEDIUM_SIZE 1).1
  { d with eink := e }

def draw_status_bar (d : DisplayState) : DisplayState :=
  let status_y := EINK_HEIGHT - UI_STATUS_HEIGHT
  let e := d.eink
  let e := (eink_draw_line e 0 status_y EINK_WIDTH status_y 0).1
  let e := (eink_display_text e 5 (status_y + 2) (some d.status_text) FONT_SMALL_SIZE 0).1
  let e := (eink_draw_rectangle e (EINK_WIDTH - 25) (status_y + 2) 20 10 0 false).1
  let e := (eink_draw_rectangle e (EINK_WIDTH - 5) (status_y + 5) 3 4 0 true).1
  { d with eink := e }

/-- Records an access outside an array of the display manager. -/
def display_fault (d : DisplayState) : DisplayState :=
  { d with eink := { d.eink with mem_fault := true } }

/-- The body of the `for` loop of `draw_main_menu` for the entry of index `i`. -/
def draw_main_menu_item (d : DisplayState) (i : Nat) : DisplayState :=
  let y := u16 (30 + (i : Int) * 20)
  let e := d.eink
  let e := if i = d.menu_selection
    then (eink_display_text e 10 y (some (lit ">")) FONT_MEDIUM_SIZE 0).1 else e
  match main_menu_items[i]? with
  | some item => { d with eink := (eink_display_text e 25 y (some item.title) FONT_MEDIUM_SIZE 0).1 }
  | none => display_fault { d with eink := e }

def draw_main_menu (d : DisplayState) : DisplayState :=
  let d := draw_header d (lit "Main Menu")
  let d := (List.range main_menu_count).foldl draw_main_menu_item d
  draw_status_bar d

def draw_settings_screen (d : DisplayState) : DisplayState :=
  let d := draw_header d (lit "Settings")
  let e := d.eink
  let e := (eink_display_text e 10 30 (some (lit "Display:")) FONT_MEDIUM_SIZE 0).1
  let e := (eink_display_text e 20 45 (some (lit "Brightness: Auto")) FONT_SMALL_SIZE 0).1
  let e := (eink_display_text e 20 60 (some (lit "Refresh: Optimized")) FONT_SMALL_SIZE 0).1
  let e := (eink_display_text e 10 80 (some (lit "Power:")) FONT_MEDIUM_SIZE 0).1
  let e := (eink_display_text e 20 95 (some (lit "Sleep: 30s")) FONT_SMALL_SIZE 0).1
  let e := (eink_display_text e 10 110 (some (lit "Press any key to return"))
    FONT_SMALL_SIZE 0).1
  { d with eink := e }

def draw_about_screen (d : DisplayState) : DisplayState :=
  let d := draw_header d (lit "About")
  let e := d.eink
  let e := (eink_display_text e 10 30 (some (lit "OpenEInk Firmware")) FONT_MEDIUM_SIZE 0).1
  let e := (eink_display_text e 10 45 (some (lit "Version: " ++ FIRMWARE_VERSION))
    FONT_SMALL_SIZE 0).1
  let e := (eink_display_text e 10 60 (some (lit "Build: " ++ d.build_date)) FONT_SMALL_SIZE 0).1
  let e := (eink_display_text e 10 80 (some (lit "Features:")) FONT_SMALL_SIZE 0).1
  let e := (eink_display_text e 15 95 (some (lit "- No activation required"))
    FONT_SMALL_SIZE 0).1
  let e := (eink_display_text e 15 105 (some (lit "- Open source")) FONT_SMALL_SIZE 0).1
  let e := (eink_display_text e 15 115 (some (lit "- Low power design")) FONT_SMALL_SIZE 0).1
  { d with eink := e }

def draw_error_screen (d : DisplayState) (error_msg : List Nat) : DisplayState :=
  let d := draw_header d (lit "Error")
  let e := d.eink
  let e := (eink_draw_line e 50 40 70 60 0).1
  let e := (eink_draw_line e 70 40 50 60 0).1
  let e := (eink_display_text e 10 80 (some error_msg) FONT_MEDIUM_SIZE 0).1
  let e := (eink_display_text e 10 110 (some (lit "Press any key to continue"))
    FONT_SMALL_SIZE 0).1
  { d with eink := e }

def display_process (d : DisplayState) : DisplayState :=
  if d.display_needs_refresh = false then d
  else
    let d := { d with eink := (eink_clear d.eink).1 }
    let d := match d.current_screen with
      | SCREEN_WELCOME => draw_welcome_screen d
      | SCREEN_MAIN_MENU => draw_main_menu d
      | SCREEN_SETTINGS => draw_settings_screen d
      | SCREEN_ABOUT => draw_about_screen d
      | SCREEN_ERROR => draw_error_screen d d.status_text
      | SCREEN_SLEEP => d
    let d := { d with eink := (eink_refresh d.eink 1).1 }
    { d with display_needs_refresh := false }

def menu_action_settings (d : DisplayState) : DisplayState :=
  { d with current_screen := SCREEN_SETTINGS, display_needs_refresh := true }

def menu_action_about (d : DisplayState) : DisplayState :=
  { d with current_screen := SCREEN_ABOUT, display_needs_refresh := true }

def menu_action_sleep (d : DisplayState) : DisplayState :=
  let d := display_set_status d (some (lit "Entering sleep mode..."))
  let d := display_process d
  let d := { d with eink := (eink_sleep d.eink).1 }
  { d with current_screen := SCREEN_SLEEP }

/-- The call through the function pointer `action`. -/
def menu_action_call (d : DisplayState) : menu_action_t → DisplayState
  | .menu_action_settings => menu_action_settings d
  | .menu_action_about => menu_action_about d
  | .menu_action_sleep => menu_action_sleep d

def display_handle_button (d : DisplayState) (button_id event : Nat) : DisplayState :=
  match d.current_screen with
  | SCREEN_WELCOME =>
    if event = 1 then display_main_menu d else d
  | SCREEN_MAIN_MENU =>
    if button_id = 1 ∧ event = 1 then
      if d.menu_selection > 0 then
        { d with menu_selection := (d.menu_selection - 1) % 256, display_needs_refresh := true }
      else d
    else if button_id = 2 ∧ event = 1 then
      if (d.menu_selection : Int) < (main_menu_count : Int) - 1 then
        { d with menu_selection := (d.menu_selection + 1) % 256, display_needs_refresh := true }
      else d
    else if button_id = 3 ∧ event = 1 then
      match main_menu_items[d.menu_selection]? with
      | some item =>
        match item.action with
        | some action => menu_action_call d action
        | none => d
      | none => display_fault d
    else d
  | SCREEN_SETTINGS | SCREEN_ABOUT =>
    if event = 1 then display_main_menu d else d
  | SCREEN_ERROR =>
    if event = 1 then display_main_menu d else d
  | SCREEN_SLEEP => d

/-! ## Observers -/

/-- The SDK calls made by the call `eink_refresh(mode)` in state `s`: what the call adds to
the trace. -/
def refresh_events (s : EinkState) (mode : Nat) : List HwEvent :=
  (eink_refresh s mode).1.trace.drop s.trace.length

/-- The bytes a sequence of SDK calls puts on the bus, each with the level the command/data
line has when it is transferred (`false` is low, `true` is high); `dc` is the level of the
line before the first call. -/
def bus_bytes : Bool → List HwEvent → List (Bool × Nat)
  | _, [] => []
  | _, .gpio_set_active .DC :: es => bus_bytes true es
  | _, .gpio_set_inactive .DC :: es => bus_bytes false es
  | dc, .spi_send bytes :: es => bytes.map (fun b => (dc, b)) ++ bus_bytes dc es
  | dc, _ :: es => bus_bytes dc es

/-- The waveform table a sequence of bus bytes loads: the data bytes that follow the first
write-LUT command. -/
def lut_written : List (Bool × Nat) → Option (List Nat)
  | [] => none
  | (dc, b) :: rest =>
    if dc = false ∧ b = EINK_CMD_WRITE_LUT_REGISTER then
      some ((rest.takeWhile (fun p => p.1 = true)).map (fun p => p.2))
    else lut_written rest

/-- The driver after the consecutive calls `eink_refresh(mode)`, one for each mode of the
list. -/
def refresh_all (s : EinkState) (modes : List Nat) : EinkState :=
  modes.foldl (fun s mode => (eink_refresh s mode).1) s

/-- The waveform table loaded by call number `n + 1` of the consecutive calls
`eink_refresh(mode)` for the modes of the list, started in state `s`. -/
def waveform_of_call (s : EinkState) (modes : List Nat) (n : Nat) : Option (List Nat) :=
  lut_written (bus_bytes false
    (refresh_events (refresh_all s (modes.take n)) (modes.getD n EINK_DISPLAY_MODE_PARTIAL)))

/-- The driver after `eink_init` at power-on with a panel that is never busy. -/
def ready_state : EinkState := (eink_init (power_on (fun _ => false))).1

/-- The display manager after the consecutive calls `display_handle_button(button_id, event)`,
one for each pair of the list. -/
def handle_buttons (d : DisplayState) (events : List (Nat × Nat)) : DisplayState :=
  events.foldl (fun d e => display_handle_button d e.1 e.2) d

/-- The display manager after `display_init` at power-on with a panel that is never busy. -/
def welcome_state : DisplayState :=
  (display_init (display_power_on (fun _ => false) (lit "May 28 2025"))).1

/-- The number of poll delays the call `eink_wait_busy()` makes in state `s`. -/
def wait_polls (s : EinkState) : Nat :=
  (eink_wait_busy s).trace.length - s.trace.length

/-- The SDK calls of `eink_send_command(command)`. -/
def cmd (command : Nat) : List HwEvent :=
  [.gpio_set_inactive .DC, .spi_send [command]]

/-- The SDK calls of `eink_send_data(data)`. -/
def dat (data : Nat) : List HwEvent :=
  [.gpio_set_active .DC, .spi_send [data]]

/-- The waveform table `eink_refresh(mode)` chooses in state `s`. -/
def refresh_lut (s : EinkState) (mode : Nat) : List Nat :=
  if mode = EINK_DISPLAY_MODE_FULL ∨ s.refresh_counter % DISPLAY_FULL_REFRESH_INTERVAL = 0
  then lut_full_update else lut_partial_update

/-- The variables of the display manager other than the dirty flag are the same in `d1` as in
`d`: only the driver below may differ. -/
def same_ui (d d1 : DisplayState) : Prop :=
  d1.current_screen = d.current_screen ∧ d1.menu_selection = d.menu_selection ∧
  d1.status_text = d.status_text ∧ d1.build_date = d.build_date

/-- The variables of the driver that drawing does not touch: everything but the framebuffer
and the ghost flags. -/
def driver_vars (s : EinkState) : Bool × Nat × List HwEvent × Nat × Nat × (Nat → Bool) :=
  (s.eink_initialized, s.refresh_counter, s.trace, s.current_display_mode, s.busy_reads,
    s.busy_pin)

/-- The `switch (current_screen)` of `display_process`: the draw routine of the current
screen. -/
def display_process_draw (d : DisplayState) : DisplayState :=
  match d.current_screen with
  | SCREEN_WELCOME => draw_welcome_screen d
  | SCREEN_MAIN_MENU => draw_main_menu d
  | SCREEN_SETTINGS => draw_settings_screen d
  | SCREEN_ABOUT => draw_about_screen d
  | SCREEN_ERROR => draw_error_screen d d.status_text
  | SCREEN_SLEEP => d

/-- The display manager at power-on, driver not initialised, after `display_force_refresh`. -/
def cold_dirty_state : DisplayState :=
  display_force_refresh (display_power_on (fun _ => false) [])

/-- The display manager after `display_init` and three button events that open the main menu
and move the cursor to its last entry, Sleep. -/
def sleep_entry_state : DisplayState :=
  handle_buttons welcome_state [(1, 1), (2, 1), (2, 1)]

/-- The call `eink_set_pixel(p.1, p.2, color)` with its return value dropped, as the drawing
routines make it. -/
def plot (color : Nat) (s : EinkState) (p : Nat × Nat) : EinkState :=
  (eink_set_pixel s p.1 p.2 color).1

/-- The coordinates the loop of `eink_draw_line` passes to `eink_set_pixel`, in the order of
the calls, and whether the loop has left through its `break`: the loop of
`eink_draw_line_loop` with the calls recorded instead of made. -/
def eink_draw_line_loop_points (x1 y1 : Nat) (dx dy sx sy : Int) :
    Nat → Nat → Nat → Int → List (Nat × Nat) × Bool
  | 0, _, _, _ => ([], false)
  | fuel + 1, x0, y0, err =>
    if x0 = x1 ∧ y0 = y1 then ([(x0, y0)], true)
    else
      let e2 := 2 * err
      let err1 := if e2 > -dy then err - dy else err
      let x0n := if e2 > -dy then u16 ((x0 : Int) + sx) else x0
      let err2 := if e2 < dx then err1 + dx else err1
      let y0n := if e2 < dx then u16 ((y0 : Int) + sy) else y0
      ((x0, y0) :: (eink_draw_line_loop_points x1 y1 dx dy sx sy fuel x0n y0n err2).1,
        (eink_draw_line_loop_points x1 y1 dx dy sx sy fuel x0n y0n err2).2)

/-- The loop of `eink_draw_line(x0, y0, x1, y1, color)` with its calls of `eink_set_pixel`
recorded: the coordinates in the order of the calls, and whether the loop left through its
`break` before the fuel ran out. -/
def eink_draw_line_run (x0 y0 x1 y1 : Nat) : List (Nat × Nat) × Bool :=
  eink_draw_line_loop_points x1 y1 (((x1 : Int) - x0).natAbs) (((y1 : Int) - y0).natAbs)
    (if x0 < x1 then 1 else -1) (if y0 < y1 then 1 else -1)
    (eink_draw_line_fuel x0 y0 x1 y1) x0 y0
    ((((x1 : Int) - x0).natAbs : Int) - (((y1 : Int) - y0).natAbs : Int))

/-- The coordinates `eink_draw_line(x0, y0, x1, y1, color)` passes to `eink_set_pixel` on an
initialised driver, in the order of the calls. -/
def eink_draw_line_points (x0 y0 x1 y1 : Nat) : List (Nat × Nat) :=
  (eink_draw_line_run x0 y0 x1 y1).1

/-- The modification `eink_set_pixel` applies to the byte of a pixel: clear bit `bit_index`
(counted from the most significant bit) for the colour 0, set it for every other colour. -/
def pixel_op (color bit_index : Nat) : Nat → Nat :=
  if color = 0 then fun b => b &&& (0xFF ^^^ (0x80 >>> bit_index))
  else fun b => b ||| (0x80 >>> bit_index)

/-- The call `eink_draw_rectangle(p.1, p.2, font_size - 2, font_size - 2, color, false)` with
its return value dropped, as `eink_display_text` makes it for a character at `p`. -/
def glyph (font_size color : Nat) (s : EinkState) (p : Nat × Nat) : EinkState :=
  (eink_draw_rectangle s p.1 p.2 (u16 ((font_size : Int) - 2)) (u16 ((font_size : Int) - 2))
    color false).1

/-- The calls of `eink_draw_rectangle` the loop of `eink_display_text` makes, each given by the
top-left corner it passes, in the order of the calls, and whether the loop has left through its
`break` (the cursor `char_y` at or beyond `EINK_HEIGHT` after a character): the loop of
`eink_display_text_loop` with the calls recorded instead of made. -/
def eink_display_text_loop_glyphs (x font_size : Nat) :
    List Nat → Nat → Nat → List (Nat × Nat) × Bool
  | [], _, _ => ([], false)
  | c :: text, char_x, char_y =>
    let here := if c = 10 then [] else [(char_x, char_y)]
    let char_y1 := if c = 10 then u16 ((char_y : Int) + font_size + 2) else char_y
    let char_x1 := if c = 10 then x else u16 ((char_x : Int) + font_size)
    let char_y2 := if char_x1 ≥ EINK_WIDTH then u16 ((char_y1 : Int) + font_size + 2) else char_y1
    let char_x2 := if char_x1 ≥ EINK_WIDTH then x else char_x1
    if char_y2 ≥ EINK_HEIGHT then (here, true)
    else
      (here ++ (eink_display_text_loop_glyphs x font_size text char_x2 char_y2).1,
        (eink_display_text_loop_glyphs x font_size text char_x2 char_y2).2)

/-- The top-left corners of the glyphs `eink_display_text(x, y, text, font_size, color)` draws
on an initialised driver, in the order of the calls. -/
def eink_display_text_glyphs (x y : Nat) (text : List Nat) (font_size : Nat) :
    List (Nat × Nat) :=
  (eink_display_text_loop_glyphs x font_size (c_str text) x y).1

/-- Whether the loop of `eink_display_text(x, y, text, font_size, color)` leaves through its
`break` on an initialised driver. -/
def eink_display_text_stops (x y : Nat) (text : List Nat) (font_size : Nat) : Bool :=
  (eink_display_text_loop_glyphs x font_size (c_str text) x y).2

/-- Modelled from the spec: the glyph positions of a text given by its lines, numbered from
`i`: the top-left corner of character `j` of line `i` is `(x + j * s, y + i * (s + 2))`. -/
def text_grid (x y s : Nat) : List (List Nat) → Nat → List (Nat × Nat)
  | [], _ => []
  | line :: rest, i =>
    (List.range line.length).map (fun j => (x + j * s, y + i * (s + 2)))
      ++ text_grid x y s rest (i + 1)

/-- The loop of `eink_draw_line` with its arithmetic checked instead of the pixels set:
whether the loop leaves through its `break` before the fuel runs out with every `int` value it
computes (`2 * err`, `err - dy`, `err + dx`, `x0 + sx`, `y0 + sy`) between `-lim` and `lim`,
and every value it assigns to `x0` and `y0` in the range 0 to 65535 of `uint16_t`, so that no
assignment wraps around. -/
def eink_draw_line_loop_checked (lim : Int) (x1 y1 : Nat) (dx dy sx sy : Int) :
    Nat → Nat → Nat → Int → Bool
  | 0, _, _, _ => false
  | fuel + 1, x0, y0, err =>
    if x0 = x1 ∧ y0 = y1 then true
    else
      let e2 := 2 * err
      let err1 := if e2 > -dy then err - dy else err
      let x0n := if e2 > -dy then u16 ((x0 : Int) + sx) else x0
      let err2 := if e2 < dx then err1 + dx else err1
      let y0n := if e2 < dx then u16 ((y0 : Int) + sy) else y0
      decide (-lim ≤ e2 ∧ e2 ≤ lim) &&
      (if e2 > -dy then
        decide (-lim ≤ err - dy ∧ err - dy ≤ lim ∧ 0 ≤ (x0 : Int) + sx ∧ (x0 : Int) + sx ≤ 65535)
       else true) &&
      (if e2 < dx then
        decide (-lim ≤ err1 + dx ∧ err1 + dx ≤ lim ∧ 0 ≤ (y0 : Int) + sy ∧ (y0 : Int) + sy ≤ 65535)
       else true) &&
      eink_draw_line_loop_checked lim x1 y1 dx dy sx sy fuel x0n y0n err2

/-- The call `eink_draw_line(x0, y0, x1, y1, color)` on an initialised driver with its
arithmetic checked: the differences `x1 - x0` and `y1 - y0`, their absolute values and the
initial `err` lie between `-lim` and `lim`, and so does every value in the loop, which leaves
through its `break` without an assignment to `x0` or `y0` wrapping around. -/
def eink_draw_line_checked (lim : Int) (x0 y0 x1 y1 : Nat) : Bool :=
  decide (-lim ≤ (x1 : Int) - x0 ∧ (x1 : Int) - x0 ≤ lim ∧
    -lim ≤ (y1 : Int) - y0 ∧ (y1 : Int) - y0 ≤ lim ∧
    -lim ≤ ((((x1 : Int) - x0).natAbs : Int) - (((y1 : Int) - y0).natAbs : Int)) ∧
    ((((x1 : Int) - x0).natAbs : Int) - (((y1 : Int) - y0).natAbs : Int)) ≤ lim) &&
  eink_draw_line_loop_checked lim x1 y1 (((x1 : Int) - x0).natAbs) (((y1 : Int) - y0).natAbs)
    (if x0 < x1 then 1 else -1) (if y0 < y1 then 1 else -1)
    (eink_draw_line_fuel x0 y0 x1 y1) x0 y0
    ((((x1 : Int) - x0).natAbs : Int) - (((y1 : Int) - y0).natAbs : Int))

/-- One drawing call the display manager makes to the driver, with the arguments it passes. -/
inductive draw_call where
  | text (x y : Nat) (text : List Nat) (font_size color : Nat)
  | line (x0 y0 x1 y1 color : Nat)
  | rectangle (x y width height color : Nat) (filled : Bool)

/-- Makes one drawing call and drops its return value, as the draw routines of the display
manager do. -/
def draw_call_run (s : EinkState) : draw_call → EinkState
  | .text x y text font_size color => (eink_display_text s x y (some text) font_size color).1
  | .line x0 y0 x1 y1 color => (eink_draw_line s x0 y0 x1 y1 color).1
  | .rectangle x y width height color filled =>
    (eink_draw_rectangle s x y width height color filled).1

/-- Makes the drawing calls of a list one after the other. -/
def draw_calls_run (s : EinkState) (calls : List draw_call) : EinkState :=
  calls.foldl draw_call_run s

/-- The colour a drawing call passes. -/
def draw_call_color : draw_call → Nat
  | .text _ _ _ _ color => color
  | .line _ _ _ _ color => color
  | .rectangle _ _ _ _ color _ => color

/-- The driver is initialised and its framebuffer has the size the code declares. -/
def buffer_ready (s : EinkState) : Prop :=
  s.eink_initialized = true ∧ s.display_buffer.length = DISPLAY_BUFFER_SIZE

/-- The driver is initialised and `eink_get_pixel(x, y)` finds the pixel in the framebuffer
with the value a call `eink_set_pixel(x, y, color)` leaves there: 0 for the colour 0 and 1 for
every other colour. -/
def pixel_drawn (color x y : Nat) (s : EinkState) : Prop :=
  buffer_ready s ∧ eink_get_pixel s x y = some (if color = 0 then 0 else 1)

/-- The coordinates `eink_draw_rectangle(x, y, width, height, color, filled)` passes to
`eink_set_pixel` on an initialised driver, in the order of the calls: the rows of the filled
rectangle, or the four lines of the outline. -/
def eink_draw_rectangle_points (x y width height : Nat) (filled : Bool) : List (Nat × Nat) :=
  if filled = true then
    (List.range height).flatMap (fun (i : Nat) => (List.range width).map
      (fun (j : Nat) => (u16 ((x : Int) + (j : Int)), u16 ((y : Int) + (i : Int)))))
  else
    let x_end := u16 ((x : Int) + width - 1)
    let y_end := u16 ((y : Int) + height - 1)
    eink_draw_line_points x y x_end y ++ (eink_draw_line_points x y_end x_end y_end ++
      (eink_draw_line_points x y x y_end ++ eink_draw_line_points x_end y x_end y_end))

/-- The coordinates `eink_display_text(x, y, text, font_size, color)` passes to
`eink_set_pixel` on an initialised driver, in the order of the calls: those of the outline of
each glyph. -/
def eink_display_text_points (x y : Nat) (text : List Nat) (font_size : Nat) :
    List (Nat × Nat) :=
  (eink_display_text_glyphs x y text font_size).flatMap (fun p =>
    eink_draw_rectangle_points p.1 p.2 (u16 ((font_size : Int) - 2))
      (u16 ((font_size : Int) - 2)) false)

/-- The coordinates a drawing call passes to `eink_set_pixel` on an initialised driver, in the
order of the calls. -/
def draw_call_points : draw_call → List (Nat × Nat)
  | .text x y text font_size _ => eink_display_text_points x y text font_size
  | .line x0 y0 x1 y1 _ => eink_draw_line_points x0 y0 x1 y1
  | .rectangle x y width height _ filled => eink_draw_rectangle_points x y width height filled

/-- The coordinates a drawing call passes are values of `uint16_t`, as the parameters of the
driver are. -/
def draw_call_u16 : draw_call → Bool
  | .text x y _ _ _ => decide (x < 65536) && decide (y < 65536)
  | .line x0 y0 x1 y1 _ =>
    decide (x0 < 65536) && decide (y0 < 65536) && decide (x1 < 65536) && decide (y1 < 65536)
  | .rectangle x y _ _ _ _ => decide (x < 65536) && decide (y < 65536)

/-- The call `eink_set_pixel(p.1, p.2, color)` writes the bit `eink_get_pixel(x, y)` reads:
`p` is in range and has the byte index and the bit index of `(x, y)`. -/
def writes_bit_of (x y : Nat) (p : Nat × Nat) : Bool :=
  decide (p.1 < EINK_WIDTH) && decide (p.2 < EINK_HEIGHT) &&
  decide ((p.2 * EINK_WIDTH + p.1) / 8 = (y * EINK_WIDTH + x) / 8) && decide (p.1 % 8 = x % 8)

/-- One of the calls of `eink_set_pixel` a drawing call makes writes the bit
`eink_get_pixel(x, y)` reads. -/
def draw_call_touches (c : draw_call) (x y : Nat) : Bool :=
  (draw_call_points c).any (writes_bit_of x y)

/-- A call of `eink_display_text` that starts at `(x, y)` with a character other than the
newline, whose glyph has its corner there. -/
def draw_call_starts_at (x y : Nat) : draw_call → Bool
  | .text tx ty text _ _ => decide (tx = x) && decide (ty = y) && (c_str text).headD 10 != 10
  | _ => false

/-- Every call of the list has the colour `color` or writes no bit of the pixel `(x, y)`. -/
def draw_calls_keep (color x y : Nat) : List draw_call → Bool
  | [] => true
  | c :: calls =>
    (decide (draw_call_color c = color) || (draw_call_u16 c && !draw_call_touches c x y)) &&
      draw_calls_keep color x y calls

/-- The call of index `i` of the list has the colour `color` and sets the pixel `(x, y)`, and
every later call has that colour or writes no bit of the pixel. -/
def draw_calls_pin (color x y : Nat) : Nat → List draw_call → Bool
  | _, [] => false
  | 0, c :: calls =>
    decide (draw_call_color c = color) &&
      (draw_call_starts_at x y c || (draw_call_u16 c && draw_call_touches c x y)) &&
      draw_calls_keep color x y calls
  | i + 1, _ :: calls => draw_calls_pin color x y i calls

/-! ## Lemmas: the driver -/

@[simp] theorem emit_trace (s : EinkState) (e : HwEvent) : (emit s e).trace = s.trace ++ [e] :=
  rfl

@[simp] theorem emit_eink_initialized (s : EinkState) (e : HwEvent) :
    (emit s e).eink_initialized = s.eink_initialized := rfl

@[simp] theorem emit_display_buffer (s : EinkState) (e : HwEvent) :
    (emit s e).display_buffer = s.display_buffer := rfl

@[simp] theorem emit_refresh_counter (s : EinkState) (e : HwEvent) :
    (emit s e).refresh_counter = s.refresh_counter := rfl

@[simp] theorem emit_mem_fault (s : EinkState) (e : HwEvent) :
    (emit s e).mem_fault = s.mem_fault := rfl

/-- What `eink_wait_busy` leaves alone, and the shape of what it emits: poll delays only. -/
theorem eink_wait_busy_loop_frame (fuel timeout : Nat) (s : EinkState) :
    (eink_wait_busy_loop fuel timeout s).eink_initialized = s.eink_initialized ∧
    (eink_wait_busy_loop fuel timeout s).display_buffer = s.display_buffer ∧
    (eink_wait_busy_loop fuel timeout s).refresh_counter = s.refresh_counter ∧
    (eink_wait_busy_loop fuel timeout s).mem_fault = s.mem_fault ∧
    ∃ n, (eink_wait_busy_loop fuel timeout s).trace
      = s.trace ++ List.replicate n (.timer_usleep 10000) := by
  induction fuel generalizing timeout s with
  | zero => exact ⟨rfl, rfl, rfl, rfl, 0, by simp [eink_wait_busy_loop]⟩
  | succ fuel ih =>
    unfold eink_wait_busy_loop
    by_cases hb : s.busy_pin s.busy_reads = true
    · by_cases ht : timeout + 1 > 500
      · simp only [hb, ht, if_true]
        exact ⟨rfl, rfl, rfl, rfl, 1, rfl⟩
      · simp only [hb, ht, if_true, if_false]
        obtain ⟨h1, h2, h3, h4, n, h5⟩ := ih (timeout + 1)
          (emit { s with busy_reads := s.busy_reads + 1 } (.timer_usleep 10000))
        refine ⟨h1, h2, h3, h4, n + 1, ?_⟩
        rw [h5]
        simp [List.replicate_succ]
    · simp only [hb, if_false]
      exact ⟨rfl, rfl, rfl, rfl, 0, by simp⟩

@[simp] theorem eink_wait_busy_eink_initialized (s : EinkState) :
    (eink_wait_busy s).eink_initialized = s.eink_initialized :=
  (eink_wait_busy_loop_frame 501 0 s).1

@[simp] theorem eink_wait_busy_display_buffer (s : EinkState) :
    (eink_wait_busy s).display_buffer = s.display_buffer :=
  (eink_wait_busy_loop_frame 501 0 s).2.1

@[simp] theorem eink_wait_busy_refresh_counter (s : EinkState) :
    (eink_wait_busy s).refresh_counter = s.refresh_counter :=
  (eink_wait_busy_loop_frame 501 0 s).2.2.1

@[simp] theorem eink_wait_busy_mem_fault (s : EinkState) :
    (eink_wait_busy s).mem_fault = s.mem_fault :=
  (eink_wait_busy_loop_frame 501 0 s).2.2.2.1

@[simp] theorem eink_wait_busy_trace (s : EinkState) :
    (eink_wait_busy s).trace = s.trace ++ List.replicate (wait_polls s) (.timer_usleep 10000) := by
  obtain ⟨n, hn⟩ := (eink_wait_busy_loop_frame 501 0 s).2.2.2.2
  have h : (eink_wait_busy s).trace = s.trace ++ List.replicate n (.timer_usleep 10000) := hn
  have hp : wait_polls s = n := by simp [wait_polls, h]
  rw [hp, h]

/-- The state `eink_refresh(mode)` leaves on an initialised driver: return value, trace,
refresh counter and the variables it does not touch. -/
theorem eink_refresh_ready (s : EinkState) (mode : Nat) (h : s.eink_initialized = true) :
    (eink_refresh s mode).2 = ERROR_NONE ∧
    (eink_refresh s mode).1.eink_initialized = true ∧
    (eink_refresh s mode).1.display_buffer = s.display_buffer ∧
    (eink_refresh s mode).1.refresh_counter = (s.refresh_counter + 1) % 2 ^ 32 ∧
    (eink_refresh s mode).1.mem_fault = s.mem_fault ∧
    ∃ n, (eink_refresh s mode).1.trace = s.trace ++
      (cmd 0x44 ++ dat 0x00 ++ dat 0x1F ++
       cmd 0x45 ++ dat 0x00 ++ dat 0x00 ++ dat 0x79 ++ dat 0x00 ++
       cmd 0x4E ++ dat 0x00 ++
       cmd 0x4F ++ dat 0x00 ++ dat 0x00 ++
       cmd 0x24 ++ [.gpio_set_active .DC, .spi_send (s.display_buffer.take 3812)] ++
       cmd 0x32 ++ [.gpio_set_active .DC, .spi_send (refresh_lut s mode)] ++
       cmd 0x22 ++ dat 0xC4 ++ cmd 0x20 ++ cmd 0xFF ++
       List.replicate n (.timer_usleep 10000)) := by
  unfold eink_refresh
  rw [if_neg (by simp [h])]
  by_cases hm : mode = EINK_DISPLAY_MODE_FULL ∨
      s.refresh_counter % DISPLAY_FULL_REFRESH_INTERVAL = 0
  · refine ⟨rfl, ?_, ?_, ?_, ?_, ?_⟩
    all_goals simp [hm, h, refresh_lut, cmd, dat, eink_set_memory_area, eink_set_memory_pointer,
      eink_send_command, eink_send_data, eink_send_data_buffer, eink_set_lut]
    refine ⟨rfl, rfl, rfl, rfl, rfl, rfl, rfl, rfl, rfl, rfl, by decide, rfl, rfl, rfl⟩
  · refine ⟨rfl, ?_, ?_, ?_, ?_, ?_⟩
    all_goals simp [hm, h, refresh_lut, cmd, dat, eink_set_memory_area, eink_set_memory_pointer,
      eink_send_command, eink_send_data, eink_send_data_buffer, eink_set_lut]
    refine ⟨rfl, rfl, rfl, rfl, rfl, rfl, rfl, rfl, rfl, rfl, by decide, rfl, rfl, rfl⟩

theorem bus_bytes_usleep (dc : Bool) (n us : Nat) :
    bus_bytes dc (List.replicate n (.timer_usleep us)) = [] := by
  induction n with
  | zero => rfl
  | succ n ih => simpa [List.replicate_succ, bus_bytes] using ih

/-- The bytes `eink_refresh(mode)` puts on the bus of an initialised driver. -/
theorem bus_bytes_refresh (s : EinkState) (mode : Nat) (dc : Bool)
    (h : s.eink_initialized = true) :
    bus_bytes dc (refresh_events s mode) =
      [(false, 0x44), (true, 0x00), (true, 0x1F),
       (false, 0x45), (true, 0x00), (true, 0x00), (true, 0x79), (true, 0x00),
       (false, 0x4E), (true, 0x00),
       (false, 0x4F), (true, 0x00), (true, 0x00),
       (false, 0x24)] ++
      ((s.display_buffer.take 3812).map (fun b => (true, b)) ++
      ((false, 0x32) :: ((refresh_lut s mode).map (fun b => (true, b)) ++
      [(false, 0x22), (true, 0xC4), (false, 0x20), (false, 0xFF)]))) := by
  obtain ⟨-, -, -, -, -, n, hn⟩ := eink_refresh_ready s mode h
  unfold refresh_events
  rw [hn, List.drop_left]
  simp [cmd, dat, bus_bytes, bus_bytes_usleep]

theorem lut_written_data (l : List Nat) (r : List (Bool × Nat)) :
    lut_written (l.map (fun b => (true, b)) ++ r) = lut_written r := by
  induction l with
  | nil => rfl
  | cons a l ih => simpa [lut_written] using ih

theorem takeWhile_data (l : List Nat) (c : Nat) (r : List (Bool × Nat)) :
    ((l.map (fun b => (true, b)) ++ (false, c) :: r).takeWhile (fun p => p.1 = true)).map
      (fun p => p.2) = l := by
  induction l with
  | nil => simp
  | cons a l ih => simp [ih]

/-- The waveform table `eink_refresh(mode)` loads on an initialised driver, read off the
bus. -/
theorem lut_written_refresh (s : EinkState) (mode : Nat) (dc : Bool)
    (h : s.eink_initialized = true) :
    lut_written (bus_bytes dc (refresh_events s mode)) = some (refresh_lut s mode) := by
  rw [bus_bytes_refresh s mode dc h]
  simp [lut_written, EINK_CMD_WRITE_LUT_REGISTER, lut_written_data, takeWhile_data,
    -List.map_take]

theorem refresh_all_ready (modes : List Nat) (s : EinkState) (h : s.eink_initialized = true)
    (hc : s.refresh_counter < 2 ^ 32) :
    (refresh_all s modes).eink_initialized = true ∧
    (refresh_all s modes).refresh_counter = (s.refresh_counter + modes.length) % 2 ^ 32 := by
  induction modes generalizing s with
  | nil =>
    refine ⟨h, ?_⟩
    show s.refresh_counter = (s.refresh_counter + 0) % 2 ^ 32
    omega
  | cons m ms ih =>
    obtain ⟨-, h1, -, h2, -, -⟩ := eink_refresh_ready s m h
    have h3 : (eink_refresh s m).1.refresh_counter < 2 ^ 32 := by
      rw [h2]; exact Nat.mod_lt _ (by norm_num)
    obtain ⟨h4, h5⟩ := ih (eink_refresh s m).1 h1 h3
    refine ⟨h4, ?_⟩
    show (refresh_all (eink_refresh s m).1 ms).refresh_counter = _
    rw [h5, h2]
    simp only [List.length_cons]
    omega

/-- The waveform table loaded by call number `n + 1` of a sequence of refreshes. -/
theorem waveform_of_call_eq (s : EinkState) (modes : List Nat) (n : Nat)
    (h : s.eink_initialized = true) (hc : s.refresh_counter < 2 ^ 32) (hn : n < modes.length) :
    waveform_of_call s modes n = some
      (if modes.getD n EINK_DISPLAY_MODE_PARTIAL = EINK_DISPLAY_MODE_FULL ∨
          ((s.refresh_counter + n) % 2 ^ 32) % DISPLAY_FULL_REFRESH_INTERVAL = 0
       then lut_full_update else lut_partial_update) := by
  obtain ⟨h1, h2⟩ := refresh_all_ready (modes.take n) s h hc
  unfold waveform_of_call
  rw [lut_written_refresh _ _ _ h1, refresh_lut, h2]
  simp [List.length_take, Nat.min_eq_left (Nat.le_of_lt hn)]

/-! ## Lemmas: pixels -/

theorem testBit_mask (k j : Nat) : (0x80 >>> k).testBit j = decide (k + j = 7) := by
  rw [Nat.testBit_shiftRight, show (0x80 : Nat) = 2 ^ 7 from rfl, Nat.testBit_two_pow]
  simp [eq_comm]

theorem or_mask_ne_zero (b k : Nat) (hk : k < 8) :
    ((b ||| (0x80 >>> k)) % 256) &&& (0x80 >>> k) ≠ 0 := by
  intro h0
  have h1 : (((b ||| (0x80 >>> k)) % 2 ^ 8) &&& (0x80 >>> k)).testBit (7 - k) = false := by
    rw [show (2 : Nat) ^ 8 = 256 from rfl, h0]; simp
  have h2 : k + (7 - k) = 7 := by omega
  have h3 : 7 - k < 8 := by omega
  simp only [Nat.testBit_and, Nat.testBit_mod_two_pow, Nat.testBit_or, testBit_mask, h2, h3,
    decide_True, Bool.or_true, Bool.and_self] at h1
  exact absurd h1 (by decide)

theorem and_mask_eq_zero (b k : Nat) :
    ((b &&& (0xFF ^^^ (0x80 >>> k))) % 256) &&& (0x80 >>> k) = 0 := by
  apply Nat.eq_of_testBit_eq
  intro i
  rw [show (256 : Nat) = 2 ^ 8 from rfl, show (0xFF : Nat) = 2 ^ 8 - 1 from rfl]
  simp only [Nat.testBit_and, Nat.testBit_mod_two_pow, Nat.testBit_xor, testBit_mask,
    Nat.testBit_two_pow_sub_one, Nat.zero_testBit]
  by_cases h : k + i = 7
  · have : i < 8 := by omega
    simp [h, this]
  · simp [h]

/-- What `eink_init` leaves on a driver that is not initialised yet. -/
theorem eink_init_fresh (s : EinkState) (h : s.eink_initialized = false) :
    (eink_init s).2 = ERROR_NONE ∧
    (eink_init s).1.eink_initialized = true ∧
    (eink_init s).1.display_buffer = List.replicate DISPLAY_BUFFER_SIZE 0xFF ∧
    (eink_init s).1.refresh_counter = s.refresh_counter ∧
    (eink_init s).1.mem_fault = s.mem_fault := by
  unfold eink_init
  rw [if_neg (by simp [h])]
  refine ⟨rfl, rfl, rfl, ?_, ?_⟩ <;>
    simp [memset_display_buffer, eink_set_lut, eink_send_command, eink_send_data,
      eink_send_data_buffer, eink_reset, eink_gpio_init, eink_spi_init]

theorem ready_state_ready :
    ready_state.eink_initialized = true ∧
    ready_state.display_buffer = List.replicate DISPLAY_BUFFER_SIZE 0xFF ∧
    ready_state.refresh_counter = 0 ∧
    ready_state.mem_fault = false :=
  let h := eink_init_fresh (power_on (fun _ => false)) rfl
  ⟨h.2.1, h.2.2.1, h.2.2.2.1, h.2.2.2.2⟩

/-- Inside the buffer, a written pixel reads back: for an in-range coordinate whose byte index
lies inside `display_buffer`, `eink_set_pixel` succeeds and `eink_get_pixel` then returns 0
for the colour 0 and 1 for every other colour. -/
theorem set_get_pixel_inside (s : EinkState) (x y color : Nat)
    (h : s.eink_initialized = true) (hx : x < EINK_WIDTH) (hy : y < EINK_HEIGHT)
    (hin : (y * EINK_WIDTH + x) / 8 < s.display_buffer.length) :
    (eink_set_pixel s x y color).2 = ERROR_NONE ∧
    (eink_set_pixel s x y color).1.mem_fault = s.mem_fault ∧
    eink_get_pixel (eink_set_pixel s x y color).1 x y = some (if color = 0 then 0 else 1) := by
  have hk : x % 8 < 8 := Nat.mod_lt _ (by norm_num)
  have hget : s.display_buffer[(y * EINK_WIDTH + x) / 8]?
      = some (s.display_buffer[(y * EINK_WIDTH + x) / 8]) := List.getElem?_eq_getElem hin
  unfold eink_set_pixel
  rw [if_neg (by simp [h]), if_neg (by omega)]
  by_cases hc : color = 0
  · simp only [hc, if_true, display_buffer_update, hget]
    refine ⟨trivial, trivial, ?_⟩
    unfold eink_get_pixel
    rw [if_neg (by simp [h]; omega)]
    simp [hin, and_mask_eq_zero]
  · simp only [hc, if_false, display_buffer_update, hget]
    refine ⟨trivial, trivial, ?_⟩
    unfold eink_get_pixel
    rw [if_neg (by simp [h]; omega)]
    simp [hin, or_mask_ne_zero _ _ hk]

/-- Outside the buffer: for an in-range coordinate whose byte index is not an index of
`display_buffer`, `eink_set_pixel` returns `ERROR_NONE` having accessed the array out of
bounds, and `eink_get_pixel` reads out of bounds. -/
theorem set_get_pixel_outside (s : EinkState) (x y color : Nat)
    (h : s.eink_initialized = true) (hx : x < EINK_WIDTH) (hy : y < EINK_HEIGHT)
    (hout : s.display_buffer.length ≤ (y * EINK_WIDTH + x) / 8) :
    (eink_set_pixel s x y color).2 = ERROR_NONE ∧
    (eink_set_pixel s x y color).1.mem_fault = true ∧
    (eink_set_pixel s x y color).1.display_buffer = s.display_buffer ∧
    eink_get_pixel (eink_set_pixel s x y color).1 x y = none := by
  have hget : s.display_buffer[(y * EINK_WIDTH + x) / 8]? = none :=
    List.getElem?_eq_none hout
  unfold eink_set_pixel
  rw [if_neg (by simp [h]), if_neg (by omega)]
  by_cases hc : color = 0
  · simp only [hc, if_true, display_buffer_update, hget]
    refine ⟨trivial, trivial, trivial, ?_⟩
    unfold eink_get_pixel
    rw [if_neg (by simp [h]; omega)]
    simp [hget]
  · simp only [hc, if_false, display_buffer_update, hget]
    refine ⟨trivial, trivial, trivial, ?_⟩
    unfold eink_get_pixel
    rw [if_neg (by simp [h]; omega)]
    simp [hget]

theorem eink_init_initialized (s : EinkState) :
    (eink_init s).2 = ERROR_NONE ∧ (eink_init s).1.eink_initialized = true := by
  by_cases h : s.eink_initialized = true
  · unfold eink_init
    rw [if_pos h]
    exact ⟨rfl, h⟩
  · have h' := eink_init_fresh s (by simpa using h)
    exact ⟨h'.1, h'.2.1⟩

/-- What `eink_sleep` does on an initialised driver: the deep-sleep command and nothing
else. -/
theorem eink_sleep_ready (s : EinkState) (h : s.eink_initialized = true) :
    (eink_sleep s).2 = ERROR_NONE ∧
    (eink_sleep s).1.eink_initialized = true ∧
    (eink_sleep s).1.display_buffer = s.display_buffer ∧
    (eink_sleep s).1.refresh_counter = s.refresh_counter ∧
    (eink_sleep s).1.trace = s.trace ++ (cmd 0x10 ++ dat 0x01) := by
  unfold eink_sleep
  rw [if_neg (by simp [h])]
  refine ⟨rfl, ?_, ?_, ?_, ?_⟩ <;>
    simp [h, cmd, dat, eink_send_command, eink_send_data, EINK_CMD_DEEP_SLEEP_MODE]

/-- What `eink_wakeup` leaves alone on an initialised driver. -/
theorem eink_wakeup_ready (s : EinkState) (h : s.eink_initialized = true) :
    (eink_wakeup s).2 = ERROR_NONE ∧
    (eink_wakeup s).1.eink_initialized = true ∧
    (eink_wakeup s).1.display_buffer = s.display_buffer ∧
    (eink_wakeup s).1.refresh_counter = s.refresh_counter := by
  unfold eink_wakeup
  rw [if_neg (by simp [h])]
  refine ⟨rfl, ?_, ?_, ?_⟩ <;> simp [h, eink_send_command, eink_reset]

/-! ## Lemmas: the display manager -/

theorem same_ui_refl (d : DisplayState) : same_ui d d := ⟨rfl, rfl, rfl, rfl⟩

theorem same_ui_trans {d d1 d2 : DisplayState} (h1 : same_ui d d1) (h2 : same_ui d1 d2) :
    same_ui d d2 :=
  ⟨h2.1.trans h1.1, h2.2.1.trans h1.2.1, h2.2.2.1.trans h1.2.2.1, h2.2.2.2.trans h1.2.2.2⟩

theorem draw_main_menu_item_ui (d : DisplayState) (i : Nat) :
    same_ui d (draw_main_menu_item d i) ∧
    (draw_main_menu_item d i).display_needs_refresh = d.display_needs_refresh := by
  unfold draw_main_menu_item
  cases main_menu_items[i]? <;> exact ⟨⟨rfl, rfl, rfl, rfl⟩, rfl⟩

theorem draw_main_menu_items_ui (l : List Nat) (d : DisplayState) :
    same_ui d (l.foldl draw_main_menu_item d) ∧
    (l.foldl draw_main_menu_item d).display_needs_refresh = d.display_needs_refresh := by
  induction l generalizing d with
  | nil => exact ⟨same_ui_refl d, rfl⟩
  | cons i l ih =>
    obtain ⟨h1, h2⟩ := draw_main_menu_item_ui d i
    obtain ⟨h3, h4⟩ := ih (draw_main_menu_item d i)
    exact ⟨same_ui_trans h1 h3, h4.trans h2⟩

theorem draw_main_menu_ui (d : DisplayState) :
    same_ui d (draw_main_menu d) ∧
    (draw_main_menu d).display_needs_refresh = d.display_needs_refresh := by
  obtain ⟨h1, h2⟩ := draw_main_menu_items_ui (List.range main_menu_count)
    (draw_header d (lit "Main Menu"))
  exact ⟨⟨h1.1, h1.2.1, h1.2.2.1, h1.2.2.2⟩, h2⟩

/-- The call `display_process()` leaves the screen, the menu cursor and the status text as
they are, and the dirty flag false. -/
theorem display_process_ui (d : DisplayState) :
    same_ui d (display_process d) ∧ (display_process d).display_needs_refresh = false := by
  unfold display_process
  by_cases hd : d.display_needs_refresh = false
  · rw [if_pos hd]
    exact ⟨same_ui_refl d, hd⟩
  · rw [if_neg hd]
    refine ⟨?_, rfl⟩
    unfold same_ui
    cases hs : d.current_screen with
    | SCREEN_MAIN_MENU =>
      obtain ⟨h1, -⟩ := draw_main_menu_ui
        { d with eink := (eink_clear d.eink).1, current_screen := SCREEN_MAIN_MENU }
      exact ⟨h1.1, h1.2.1, h1.2.2.1, h1.2.2.2⟩
    | _ => exact ⟨rfl, rfl, rfl, rfl⟩

theorem main_menu_count_eq : main_menu_count = 3 := rfl

theorem menu_action_call_cursor (d : DisplayState) (action : menu_action_t) :
    (menu_action_call d action).menu_selection = d.menu_selection := by
  cases action
  · rfl
  · rfl
  · exact (display_process_ui
      (display_set_status d (some (lit "Entering sleep mode...")))).1.2.1

/-- How one call of `display_handle_button` can move the menu cursor: not at all, to 0, one up
from a position above 0 (only for button 1), or one down to a position inside the menu (only
for button 2). -/
theorem display_handle_button_cursor (d : DisplayState) (button_id event : Nat)
    (hc : d.menu_selection < main_menu_count) :
    (display_handle_button d button_id event).menu_selection = d.menu_selection ∨
    (display_handle_button d button_id event).menu_selection = 0 ∨
    (button_id = 1 ∧ 0 < d.menu_selection ∧
      (display_handle_button d button_id event).menu_selection = d.menu_selection - 1) ∨
    (button_id = 2 ∧ d.menu_selection + 1 < main_menu_count ∧
      (display_handle_button d button_id event).menu_selection = d.menu_selection + 1) := by
  unfold display_handle_button
  split
  · split_ifs
    · exact Or.inr (Or.inl rfl)
    · exact Or.inl rfl
  · split_ifs with h1 h2 h3 h4 h5
    · refine Or.inr (Or.inr (Or.inl ⟨h1.1, h2, ?_⟩))
      exact Nat.mod_eq_of_lt (by rw [main_menu_count_eq] at hc; omega)
    · exact Or.inl rfl
    · refine Or.inr (Or.inr (Or.inr ⟨h3.1, ?_, ?_⟩))
      · rw [main_menu_count_eq] at h4 ⊢; omega
      · exact Nat.mod_eq_of_lt (by rw [main_menu_count_eq] at hc; omega)
    · exact Or.inl rfl
    · left
      cases main_menu_items[d.menu_selection]? with
      | none => rfl
      | some item =>
        cases hact : item.action with
        | none => simp only [hact]
        | some action => simp only [hact]; exact menu_action_call_cursor d action
    · exact Or.inl rfl
  · split_ifs
    · exact Or.inr (Or.inl rfl)
    · exact Or.inl rfl
  · split_ifs
    · exact Or.inr (Or.inl rfl)
    · exact Or.inl rfl
  · split_ifs
    · exact Or.inr (Or.inl rfl)
    · exact Or.inl rfl
  · exact Or.inl rfl

theorem display_handle_button_in_range (d : DisplayState) (button_id event : Nat)
    (hc : d.menu_selection < main_menu_count) :
    (display_handle_button d button_id event).menu_selection < main_menu_count := by
  rcases display_handle_button_cursor d button_id event hc with h | h | ⟨-, h1, h⟩ | ⟨-, h1, h⟩
  · rw [h]; exact hc
  · rw [h]; decide
  · rw [h]; omega
  · rw [h]; exact h1

theorem handle_buttons_in_range (events : List (Nat × Nat)) (d : DisplayState)
    (hc : d.menu_selection < main_menu_count) :
    (handle_buttons d events).menu_selection < main_menu_count := by
  induction events generalizing d with
  | nil => exact hc
  | cons e es ih => exact ih _ (display_handle_button_in_range d e.1 e.2 hc)

theorem handle_buttons_up_at_top (n event : Nat) (d : DisplayState)
    (hc : d.menu_selection = 0) :
    (handle_buttons d (List.replicate n (1, event))).menu_selection = 0 := by
  induction n generalizing d with
  | zero => exact hc
  | succ n ih =>
    refine ih (display_handle_button d 1 event) ?_
    rcases display_handle_button_cursor d 1 event (by rw [hc]; decide)
      with h | h | ⟨-, h1, -⟩ | ⟨h1, -, -⟩
    · rw [h]; exact hc
    · exact h
    · omega
    · exact absurd h1 (by decide)

/-- What `display_init` leaves: it returns `ERROR_NONE` with the Welcome screen marked
dirty. -/
theorem display_init_welcome (d : DisplayState) :
    (display_init d).2 = ERROR_NONE ∧
    (display_init d).1.current_screen = SCREEN_WELCOME ∧
    (display_init d).1.display_needs_refresh = true ∧
    (display_init d).1.menu_selection = d.menu_selection ∧
    (display_init d).1.eink.eink_initialized = true := by
  have h := eink_init_initialized d.eink
  have h0 : ¬ (eink_init d.eink).2 ≠ 0 := by rw [h.1]; decide
  unfold display_init
  simp only []
  rw [if_neg h0]
  exact ⟨rfl, rfl, rfl, rfl, h.2⟩

theorem main_menu_button_1 (d : DisplayState) (h : d.current_screen = SCREEN_MAIN_MENU) :
    display_handle_button d 1 1 =
      if d.menu_selection > 0 then
        { d with menu_selection := (d.menu_selection - 1) % 256, display_needs_refresh := true }
      else d := by
  unfold display_handle_button
  split <;> simp_all

theorem main_menu_button_2 (d : DisplayState) (h : d.current_screen = SCREEN_MAIN_MENU) :
    display_handle_button d 2 1 =
      if (d.menu_selection : Int) < (main_menu_count : Int) - 1 then
        { d with menu_selection := (d.menu_selection + 1) % 256, display_needs_refresh := true }
      else d := by
  unfold display_handle_button
  split <;> simp_all

theorem main_menu_button_3 (d : DisplayState) (h : d.current_screen = SCREEN_MAIN_MENU) :
    display_handle_button d 3 1 =
      match main_menu_items[d.menu_selection]? with
      | some item =>
        match item.action with
        | some action => menu_action_call d action
        | none => d
      | none => display_fault d := by
  unfold display_handle_button
  split <;> simp_all

/-- An event value other than 1 is ignored on every screen. -/
theorem display_handle_button_ignored (d : DisplayState) (button_id event : Nat)
    (he : event ≠ 1) : display_handle_button d button_id event = d := by
  unfold display_handle_button
  split <;> simp [he]

/-- On the Sleep screen every call of `display_handle_button` returns the state it was given. -/
theorem display_handle_button_sleep (d : DisplayState) (button_id event : Nat)
    (h : d.current_screen = SCREEN_SLEEP) : display_handle_button d button_id event = d := by
  unfold display_handle_button
  split <;> simp_all

theorem handle_buttons_sleep (events : List (Nat × Nat)) (d : DisplayState)
    (h : d.current_screen = SCREEN_SLEEP) : handle_buttons d events = d := by
  induction events with
  | nil => rfl
  | cons e es ih =>
    show handle_buttons (display_handle_button d e.1 e.2) es = d
    rw [display_handle_button_sleep d e.1 e.2 h]
    exact ih

/-- On the screens Settings, About and Error the event value 1 leads to `display_main_menu`,
whatever the button. -/
theorem display_handle_button_back (d : DisplayState) (button_id : Nat)
    (h : d.current_screen = SCREEN_SETTINGS ∨ d.current_screen = SCREEN_ABOUT ∨
      d.current_screen = SCREEN_ERROR) :
    display_handle_button d button_id 1 = display_main_menu d := by
  unfold display_handle_button
  rcases h with h | h | h <;> simp [h]

/-! ## Lemmas: drawing leaves the rest of the driver alone -/

theorem driver_vars_fields {s s1 : EinkState} (h : driver_vars s1 = driver_vars s) :
    s1.eink_initialized = s.eink_initialized ∧ s1.refresh_counter = s.refresh_counter ∧
    s1.trace = s.trace := by
  simp only [driver_vars, Prod.mk.injEq] at h
  exact ⟨h.1, h.2.1, h.2.2.1⟩

@[simp] theorem display_buffer_update_driver_vars (s : EinkState) (byte_index : Nat)
    (f : Nat → Nat) : driver_vars (display_buffer_update s byte_index f) = driver_vars s := by
  unfold display_buffer_update
  cases s.display_buffer[byte_index]? <;> rfl

@[simp] theorem eink_set_pixel_driver_vars (s : EinkState) (x y color : Nat) :
    driver_vars (eink_set_pixel s x y color).1 = driver_vars s := by
  unfold eink_set_pixel
  split_ifs <;> first | rfl | exact display_buffer_update_driver_vars _ _ _

@[simp] theorem eink_draw_line_loop_driver_vars (x1 y1 : Nat) (dx dy sx sy : Int) (color : Nat)
    (fuel : Nat) (s : EinkState) (x0 y0 : Nat) (err : Int) :
    driver_vars (eink_draw_line_loop x1 y1 dx dy sx sy color fuel s x0 y0 err)
      = driver_vars s := by
  induction fuel generalizing s x0 y0 err with
  | zero => rfl
  | succ fuel ih =>
    unfold eink_draw_line_loop
    simp only []
    split_ifs <;> simp [ih]

@[simp] theorem eink_draw_line_driver_vars (s : EinkState) (x0 y0 x1 y1 color : Nat) :
    driver_vars (eink_draw_line s x0 y0 x1 y1 color).1 = driver_vars s := by
  unfold eink_draw_line
  split_ifs <;> simp

theorem foldl_driver_vars {α : Type} (f : EinkState → α → EinkState)
    (hf : ∀ s a, driver_vars (f s a) = driver_vars s) (l : List α) (s : EinkState) :
    driver_vars (l.foldl f s) = driver_vars s := by
  induction l generalizing s with
  | nil => rfl
  | cons a l ih => exact (ih (f s a)).trans (hf s a)

@[simp] theorem eink_draw_rectangle_driver_vars (s : EinkState) (x y width height color : Nat)
    (filled : Bool) :
    driver_vars (eink_draw_rectangle s x y width height color filled).1 = driver_vars s := by
  unfold eink_draw_rectangle
  split_ifs
  · rfl
  · exact foldl_driver_vars _
      (fun s i => foldl_driver_vars _ (fun s j => eink_set_pixel_driver_vars s _ _ _) _ s) _ s
  · simp

@[simp] theorem eink_display_text_loop_driver_vars (x font_size color : Nat) (text : List Nat)
    (s : EinkState) (char_x char_y : Nat) :
    driver_vars (eink_display_text_loop x font_size color text s char_x char_y)
      = driver_vars s := by
  induction text generalizing s char_x char_y with
  | nil => rfl
  | cons c text ih =>
    unfold eink_display_text_loop
    simp only []
    split_ifs <;> simp [ih]

@[simp] theorem eink_display_text_driver_vars (s : EinkState) (x y : Nat)
    (text : Option (List Nat)) (font_size color : Nat) :
    driver_vars (eink_display_text s x y text font_size color).1 = driver_vars s := by
  unfold eink_display_text
  split_ifs
  · rfl
  · exact eink_display_text_loop_driver_vars _ _ _ _ _ _ _

@[simp] theorem eink_clear_driver_vars (s : EinkState) :
    driver_vars (eink_clear s).1 = driver_vars s := by
  unfold eink_clear
  split_ifs <;> rfl

/-- What `eink_clear` does on an initialised driver. -/
theorem eink_clear_ready (s : EinkState) (h : s.eink_initialized = true) :
    (eink_clear s).2 = ERROR_NONE ∧
    (eink_clear s).1.display_buffer = List.replicate DISPLAY_BUFFER_SIZE 0xFF := by
  unfold eink_clear
  rw [if_neg (by simp [h])]
  exact ⟨rfl, rfl⟩

@[simp] theorem draw_welcome_screen_driver_vars (d : DisplayState) :
    driver_vars (draw_welcome_screen d).eink = driver_vars d.eink := by
  simp [draw_welcome_screen]

@[simp] theorem draw_header_driver_vars (d : DisplayState) (title : List Nat) :
    driver_vars (draw_header d title).eink = driver_vars d.eink := by
  simp [draw_header]

@[simp] theorem draw_status_bar_driver_vars (d : DisplayState) :
    driver_vars (draw_status_bar d).eink = driver_vars d.eink := by
  simp [draw_status_bar]

@[simp] theorem draw_main_menu_item_driver_vars (d : DisplayState) (i : Nat) :
    driver_vars (draw_main_menu_item d i).eink = driver_vars d.eink := by
  unfold draw_main_menu_item
  cases main_menu_items[i]? with
  | none =>
    show driver_vars _ = driver_vars d.eink
    split_ifs
    · exact eink_display_text_driver_vars _ _ _ _ _ _
    · rfl
  | some item =>
    show driver_vars (eink_display_text _ _ _ _ _ _).1 = driver_vars d.eink
    rw [eink_display_text_driver_vars]
    split_ifs
    · exact eink_display_text_driver_vars _ _ _ _ _ _
    · rfl

theorem draw_main_menu_items_driver_vars (l : List Nat) (d : DisplayState) :
    driver_vars (l.foldl draw_main_menu_item d).eink = driver_vars d.eink := by
  induction l generalizing d with
  | nil => rfl
  | cons i l ih => exact (ih _).trans (draw_main_menu_item_driver_vars d i)

@[simp] theorem draw_main_menu_driver_vars (d : DisplayState) :
    driver_vars (draw_main_menu d).eink = driver_vars d.eink := by
  simp [draw_main_menu, draw_main_menu_items_driver_vars]

@[simp] theorem draw_settings_screen_driver_vars (d : DisplayState) :
    driver_vars (draw_settings_screen d).eink = driver_vars d.eink := by
  simp [draw_settings_screen]

@[simp] theorem draw_about_screen_driver_vars (d : DisplayState) :
    driver_vars (draw_about_screen d).eink = driver_vars d.eink := by
  simp [draw_about_screen]

@[simp] theorem draw_error_screen_driver_vars (d : DisplayState) (error_msg : List Nat) :
    driver_vars (draw_error_screen d error_msg).eink = driver_vars d.eink := by
  simp [draw_error_screen]

/-- The draw routine of the current screen writes to the framebuffer only. -/
theorem display_process_draw_driver_vars (d : DisplayState) :
    driver_vars (display_process_draw d).eink = driver_vars d.eink := by
  unfold display_process_draw
  split <;> simp

/-- With the dirty flag set, `display_process` is: clear, draw the current screen, one
`eink_refresh(1)`, dirty flag false. -/
theorem display_process_dirty (d : DisplayState) (h : d.display_needs_refresh = true) :
    display_process d =
      { display_process_draw { d with eink := (eink_clear d.eink).1 } with
        eink := (eink_refresh
          (display_process_draw { d with eink := (eink_clear d.eink).1 }).eink 1).1,
        display_needs_refresh := false } := by
  unfold display_process display_process_draw
  rw [if_neg (by simp [h])]

/-- The trace after `eink_refresh` on an initialised driver is the trace before followed by
the events of the call. -/
theorem eink_refresh_trace (s : EinkState) (mode : Nat) (h : s.eink_initialized = true) :
    (eink_refresh s mode).1.trace = s.trace ++ refresh_events s mode := by
  obtain ⟨-, -, -, -, -, n, hn⟩ := eink_refresh_ready s mode h
  unfold refresh_events
  rw [hn, List.drop_left]

/-- The state in which `display_process` calls `eink_refresh`: the driver variables are those
before the call of `display_process`. -/
theorem display_process_drawn (d : DisplayState) :
    (display_process_draw { d with eink := (eink_clear d.eink).1 }).eink.eink_initialized
      = d.eink.eink_initialized ∧
    (display_process_draw { d with eink := (eink_clear d.eink).1 }).eink.refresh_counter
      = d.eink.refresh_counter ∧
    (display_process_draw { d with eink := (eink_clear d.eink).1 }).eink.trace
      = d.eink.trace := by
  have h : driver_vars (display_process_draw { d with eink := (eink_clear d.eink).1 }).eink
      = driver_vars d.eink := by
    rw [display_process_draw_driver_vars]
    exact eink_clear_driver_vars d.eink
  exact driver_vars_fields h

theorem eink_refresh_cold (s : EinkState) (mode : Nat) (h : s.eink_initialized = false) :
    eink_refresh s mode = (s, ERROR_INIT_FAILED) := by
  unfold eink_refresh
  rw [if_pos h]

/-- One call of `eink_refresh` adds at most one to the refresh counter. -/
theorem eink_refresh_counter (s : EinkState) (mode : Nat) :
    (eink_refresh s mode).1.refresh_counter = s.refresh_counter ∨
    (eink_refresh s mode).1.refresh_counter = (s.refresh_counter + 1) % 2 ^ 32 := by
  by_cases h : s.eink_initialized = true
  · exact Or.inr (eink_refresh_ready s mode h).2.2.2.1
  · rw [eink_refresh_cold s mode (by simpa using h)]
    exact Or.inl rfl

theorem eink_sleep_counter (s : EinkState) :
    (eink_sleep s).1.refresh_counter = s.refresh_counter := by
  unfold eink_sleep
  split_ifs <;> simp [eink_send_command, eink_send_data]

/-- One call of `display_process` adds at most one to the refresh counter. -/
theorem display_process_counter (d : DisplayState) :
    (display_process d).eink.refresh_counter = d.eink.refresh_counter ∨
    (display_process d).eink.refresh_counter = (d.eink.refresh_counter + 1) % 2 ^ 32 := by
  by_cases h : d.display_needs_refresh = true
  · rw [display_process_dirty d h]
    have h2 := (display_process_drawn d).2.1
    rcases eink_refresh_counter
      (display_process_draw { d with eink := (eink_clear d.eink).1 }).eink 1 with e | e
    · exact Or.inl (e.trans h2)
    · exact Or.inr (by rw [← h2]; exact e)
  · left
    unfold display_process
    rw [if_pos (by simpa using h)]

/-- What a menu action does to the refresh counter and the dirty flag: the actions Settings
and About set the dirty flag and leave the driver alone; the action Sleep ends on the Sleep
screen with the dirty flag false, after at most one refresh. -/
theorem menu_action_call_effect (d : DisplayState) (action : menu_action_t) :
    ((menu_action_call d action).display_needs_refresh = true ∧
      (menu_action_call d action).eink = d.eink) ∨
    (action = .menu_action_sleep ∧
      (menu_action_call d action).current_screen = SCREEN_SLEEP ∧
      (menu_action_call d action).display_needs_refresh = false ∧
      ((menu_action_call d action).eink.refresh_counter = d.eink.refresh_counter ∨
       (menu_action_call d action).eink.refresh_counter
        = (d.eink.refresh_counter + 1) % 2 ^ 32)) := by
  cases action
  · exact Or.inl ⟨rfl, rfl⟩
  · exact Or.inl ⟨rfl, rfl⟩
  · refine Or.inr ⟨rfl, rfl, ?_, ?_⟩
    · exact (display_process_ui _).2
    · show (eink_sleep _).1.refresh_counter = _ ∨ (eink_sleep _).1.refresh_counter = _
      rw [eink_sleep_counter]
      exact display_process_counter (display_set_status d (some (lit "Entering sleep mode...")))

/-- The six things one call of `display_handle_button` can do. -/
theorem display_handle_button_cases (d : DisplayState) (button_id event : Nat) :
    display_handle_button d button_id event = d ∨
    display_handle_button d button_id event = display_main_menu d ∨
    display_handle_button d button_id event =
      { d with menu_selection := (d.menu_selection - 1) % 256, display_needs_refresh := true } ∨
    display_handle_button d button_id event =
      { d with menu_selection := (d.menu_selection + 1) % 256, display_needs_refresh := true } ∨
    (d.current_screen = SCREEN_MAIN_MENU ∧ button_id = 3 ∧ event = 1 ∧
      ∃ item action, main_menu_items[d.menu_selection]? = some item ∧
        item.action = some action ∧
        display_handle_button d button_id event = menu_action_call d action) ∨
    display_handle_button d button_id event = display_fault d := by
  unfold display_handle_button
  split
  · split_ifs
    · exact Or.inr (Or.inl rfl)
    · exact Or.inl rfl
  · rename_i hs
    split_ifs with h1 h2 h3 h4 h5
    · exact Or.inr (Or.inr (Or.inl rfl))
    · exact Or.inl rfl
    · exact Or.inr (Or.inr (Or.inr (Or.inl rfl)))
    · exact Or.inl rfl
    · cases hget : main_menu_items[d.menu_selection]? with
      | none => exact Or.inr (Or.inr (Or.inr (Or.inr (Or.inr rfl))))
      | some item =>
        cases hact : item.action with
        | none => simp only [hact]; exact Or.inl trivial
        | some action =>
          simp only [hact]
          exact Or.inr (Or.inr (Or.inr (Or.inr (Or.inl
            ⟨hs, h5.1, h5.2, item, action, rfl, hact, rfl⟩))))
    · exact Or.inl rfl
  · split_ifs
    · exact Or.inr (Or.inl rfl)
    · exact Or.inl rfl
  · split_ifs
    · exact Or.inr (Or.inl rfl)
    · exact Or.inl rfl
  · split_ifs
    · exact Or.inr (Or.inl rfl)
    · exact Or.inl rfl
  · exact Or.inl rfl

/-- The only entry of the menu whose action is the sleep action is entry 2. -/
theorem sleep_entry_index (c : Nat) (item : menu_item_t)
    (hget : main_menu_items[c]? = some item)
    (hact : item.action = some .menu_action_sleep) : c = 2 := by
  have hlt : c < main_menu_items.length := by
    by_contra hge
    rw [List.getElem?_eq_none (by omega)] at hget
    exact Option.noConfusion hget
  have hlt3 : c < 3 := hlt
  have hcases : c = 0 ∨ c = 1 ∨ c = 2 := by omega
  rcases hcases with e | e | e
  · subst e
    have : item = { title := lit "Settings", action := some .menu_action_settings } :=
      (Option.some.inj hget).symm
    rw [this] at hact
    exact absurd hact (by decide)
  · subst e
    have : item = { title := lit "About", action := some .menu_action_about } :=
      (Option.some.inj hget).symm
    rw [this] at hact
    exact absurd hact (by decide)
  · exact e

/-- The refresh counter after one button event: the one before, unless the event ran the sleep
action, which ends on the Sleep screen with the dirty flag false after at most one refresh. -/
theorem display_handle_button_counter (d : DisplayState) (button_id event : Nat) :
    (display_handle_button d button_id event).eink.refresh_counter = d.eink.refresh_counter ∨
    ((display_handle_button d button_id event).current_screen = SCREEN_SLEEP ∧
     (display_handle_button d button_id event).display_needs_refresh = false ∧
     (display_handle_button d button_id event).eink.refresh_counter
      = (d.eink.refresh_counter + 1) % 2 ^ 32) := by
  rcases display_handle_button_cases d button_id event
    with e | e | e | e | ⟨-, -, -, item, action, -, -, e⟩ | e
  · rw [e]; exact Or.inl rfl
  · rw [e]; exact Or.inl rfl
  · rw [e]; exact Or.inl rfl
  · rw [e]; exact Or.inl rfl
  · rw [e]
    rcases menu_action_call_effect d action with ⟨-, h⟩ | ⟨-, h1, h2, h3 | h3⟩
    · rw [h]; exact Or.inl rfl
    · exact Or.inl h3
    · exact Or.inr ⟨h1, h2, h3⟩
  · rw [e]; exact Or.inl rfl

/-- Along a sequence of button events either no refresh has happened yet, or exactly one has
and the display manager sits on the Sleep screen with the dirty flag false. -/
theorem handle_buttons_counter (events : List (Nat × Nat)) (d : DisplayState) (c : Nat)
    (h : d.eink.refresh_counter = c ∨
      (d.current_screen = SCREEN_SLEEP ∧ d.display_needs_refresh = false ∧
        d.eink.refresh_counter = (c + 1) % 2 ^ 32)) :
    (handle_buttons d events).eink.refresh_counter = c ∨
    ((handle_buttons d events).current_screen = SCREEN_SLEEP ∧
      (handle_buttons d events).display_needs_refresh = false ∧
      (handle_buttons d events).eink.refresh_counter = (c + 1) % 2 ^ 32) := by
  induction events generalizing d with
  | nil => exact h
  | cons e es ih =>
    apply ih (display_handle_button d e.1 e.2)
    rcases h with h | ⟨h1, h2, h3⟩
    · rcases display_handle_button_counter d e.1 e.2 with k | ⟨k1, k2, k3⟩
      · exact Or.inl (k.trans h)
      · exact Or.inr ⟨k1, k2, by rw [k3, h]⟩
    · rw [display_handle_button_sleep d e.1 e.2 h1]
      exact Or.inr ⟨h1, h2, h3⟩

/-- The sleep action ends on the Sleep screen with the dirty flag false. -/
theorem menu_action_sleep_end (d : DisplayState) :
    (menu_action_sleep d).current_screen = SCREEN_SLEEP ∧
    (menu_action_sleep d).display_needs_refresh = false :=
  ⟨rfl, (display_process_ui (display_set_status d (some (lit "Entering sleep mode...")))).2⟩

/-- The bus bytes of a trace that goes on with a command are those of the part before it
followed by those of the rest, sent from the command/data line low. -/
theorem bus_bytes_append_low (l r : List HwEvent) (dc : Bool) :
    bus_bytes dc (l ++ .gpio_set_inactive .DC :: r) = bus_bytes dc l ++ bus_bytes false r := by
  induction l generalizing dc with
  | nil => simp [bus_bytes]
  | cons e l ih =>
    cases e with
    | spi_initialize_call => simpa [bus_bytes] using ih dc
    | gpio_configure pin output => simpa [bus_bytes] using ih dc
    | gpio_set_active pin => cases pin <;> simp [bus_bytes, ih]
    | gpio_set_inactive pin => cases pin <;> simp [bus_bytes, ih]
    | spi_send bytes => simp [bus_bytes, ih]
    | timer_usleep us => simpa [bus_bytes] using ih dc

theorem c_str_sleep_status (status_text : List Nat) :
    c_str (status_text_assign status_text (lit "Entering sleep mode..."))
      = lit "Entering sleep mode..." := by
  rfl

theorem display_process_draw_main_menu (d : DisplayState)
    (h : d.current_screen = SCREEN_MAIN_MENU) : display_process_draw d = draw_main_menu d := by
  unfold display_process_draw
  rw [h]

/-- A redraw of the main menu followed by `eink_sleep`, on an initialised driver: framebuffer,
trace and refresh counter at the end. -/
theorem process_main_menu_then_sleep (d : DisplayState) (hd : d.display_needs_refresh = true)
    (hs : d.current_screen = SCREEN_MAIN_MENU) (hi : d.eink.eink_initialized = true) :
    (eink_sleep (display_process d).eink).1.display_buffer
      = (draw_main_menu { d with eink := (eink_clear d.eink).1 }).eink.display_buffer ∧
    (eink_sleep (display_process d).eink).1.trace
      = d.eink.trace ++
        (refresh_events (draw_main_menu { d with eink := (eink_clear d.eink).1 }).eink 1 ++
          (cmd 0x10 ++ dat 0x01)) ∧
    (eink_sleep (display_process d).eink).1.refresh_counter
      = (d.eink.refresh_counter + 1) % 2 ^ 32 := by
  have hdraw : display_process_draw { d with eink := (eink_clear d.eink).1 }
      = draw_main_menu { d with eink := (eink_clear d.eink).1 } :=
    display_process_draw_main_menu _ hs
  obtain ⟨g1, g2, g3⟩ := display_process_drawn d
  rw [hdraw] at g1 g2 g3
  obtain ⟨-, r2, r3, r4, -, -⟩ := eink_refresh_ready _ 1 (g1.trans hi)
  have hp : (display_process d).eink
      = (eink_refresh (draw_main_menu { d with eink := (eink_clear d.eink).1 }).eink 1).1 := by
    rw [display_process_dirty d hd, hdraw]
  obtain ⟨-, -, k3, k4, k5⟩ := eink_sleep_ready _ (hp ▸ r2)
  refine ⟨?_, ?_, ?_⟩
  · rw [k3, hp, r3]
  · rw [k5, hp, eink_refresh_trace _ _ (g1.trans hi), g3, List.append_assoc]
  · rw [k4, hp, r4, g2]

/-! ## Lemmas: lines -/

/-- The loop of `eink_draw_line` makes the calls `eink_draw_line_loop_points` records: the
state it leaves is the one after plotting the recorded coordinates in order, with `hang`
raised when the fuel ran out before the `break`. -/
theorem eink_draw_line_loop_eq (x1 y1 : Nat) (dx dy sx sy : Int) (color fuel : Nat)
    (s : EinkState) (x0 y0 : Nat) (err : Int) :
    eink_draw_line_loop x1 y1 dx dy sx sy color fuel s x0 y0 err =
      if (eink_draw_line_loop_points x1 y1 dx dy sx sy fuel x0 y0 err).2 = true then
        (eink_draw_line_loop_points x1 y1 dx dy sx sy fuel x0 y0 err).1.foldl (plot color) s
      else
        { (eink_draw_line_loop_points x1 y1 dx dy sx sy fuel x0 y0 err).1.foldl (plot color) s
          with hang := true } := by
  induction fuel generalizing s x0 y0 err with
  | zero => rfl
  | succ fuel ih =>
    unfold eink_draw_line_loop eink_draw_line_loop_points
    by_cases hb : x0 = x1 ∧ y0 = y1
    · simp only [hb, and_self, if_true]
      rfl
    · simp only [hb, if_false]
      rw [ih]
      rfl

theorem eink_draw_line_points_example :
    eink_draw_line_points 0 0 2 1 = [(0, 0), (1, 0), (2, 1)] ∧
    eink_draw_line_points 2 1 0 0 = [(2, 1), (1, 1), (0, 0)] := by
  decide

/-- On an initialised driver, a line whose loop reaches its `break` leaves the state after
plotting its coordinates in order. -/
theorem eink_draw_line_eq (s : EinkState) (x0 y0 x1 y1 color : Nat)
    (h : s.eink_initialized = true) (hrun : (eink_draw_line_run x0 y0 x1 y1).2 = true) :
    (eink_draw_line s x0 y0 x1 y1 color).1
      = (eink_draw_line_points x0 y0 x1 y1).foldl (plot color) s := by
  unfold eink_draw_line
  rw [if_neg (by simp [h])]
  show eink_draw_line_loop _ _ _ _ _ _ _ _ _ _ _ _ = _
  rw [eink_draw_line_loop_eq]
  exact if_pos hrun

theorem u16_succ (a : Nat) (h : a + 1 < 65536) : u16 ((a : Int) + 1) = a + 1 := by
  unfold u16
  omega

theorem u16_pred (a : Nat) (h0 : 0 < a) (h : a < 65536) : u16 ((a : Int) + -1) = a - 1 := by
  unfold u16
  omega

/-- A row drawn left to right: the loop steps `x0` up by one until it reaches `x1`. -/
theorem hline_loop_up (x1 y : Nat) (D sy : Int) (hD : 0 < D) (hb : x1 < 65536) (n : Nat) :
    ∀ fuel x0, x0 + n = x1 → n < fuel →
      eink_draw_line_loop_points x1 y D 0 1 sy fuel x0 y D
        = ((List.range' x0 (n + 1)).map (fun x => (x, y)), true) := by
  induction n with
  | zero =>
    intro fuel x0 hx hf
    obtain ⟨f, rfl⟩ : ∃ f, fuel = f + 1 := ⟨fuel - 1, by omega⟩
    unfold eink_draw_line_loop_points
    rw [if_pos ⟨by omega, rfl⟩]
    rfl
  | succ n ih =>
    intro fuel x0 hx hf
    obtain ⟨f, rfl⟩ : ∃ f, fuel = f + 1 := ⟨fuel - 1, by omega⟩
    unfold eink_draw_line_loop_points
    rw [if_neg (by omega)]
    have c1 : 2 * D > -(0 : Int) := by omega
    have c2 : ¬ 2 * D < D := by omega
    simp only [c1, c2, if_true, if_false, sub_zero]
    rw [u16_succ x0 (by omega), ih f (x0 + 1) (by omega) (by omega)]
    rfl

/-- A row drawn right to left: the loop steps `x0` down by one until it reaches `x1`. -/
theorem hline_loop_down (x1 y : Nat) (D sy : Int) (hD : 0 < D) (n : Nat) :
    ∀ fuel x0, x0 = x1 + n → x0 < 65536 → n < fuel →
      eink_draw_line_loop_points x1 y D 0 (-1) sy fuel x0 y D
        = (((List.range' x1 (n + 1)).map (fun x => (x, y))).reverse, true) := by
  induction n with
  | zero =>
    intro fuel x0 hx hb hf
    obtain ⟨f, rfl⟩ : ∃ f, fuel = f + 1 := ⟨fuel - 1, by omega⟩
    unfold eink_draw_line_loop_points
    rw [if_pos ⟨by omega, rfl⟩]
    subst hx
    rfl
  | succ n ih =>
    intro fuel x0 hx hb hf
    obtain ⟨f, rfl⟩ : ∃ f, fuel = f + 1 := ⟨fuel - 1, by omega⟩
    unfold eink_draw_line_loop_points
    rw [if_neg (by omega)]
    have c1 : 2 * D > -(0 : Int) := by omega
    have c2 : ¬ 2 * D < D := by omega
    simp only [c1, c2, if_true, if_false, sub_zero]
    rw [u16_pred x0 (by omega) hb, ih f (x0 - 1) (by omega) (by omega) (by omega)]
    rw [List.range'_concat x1 (n + 1)]
    simp [hx]

/-- A column drawn top to bottom: the loop steps `y0` up by one until it reaches `y1`. -/
theorem vline_loop_up (x y1 : Nat) (D sx : Int) (hD : 0 < D) (hb : y1 < 65536) (n : Nat) :
    ∀ fuel y0, y0 + n = y1 → n < fuel →
      eink_draw_line_loop_points x y1 0 D sx 1 fuel x y0 (-D)
        = ((List.range' y0 (n + 1)).map (fun y => (x, y)), true) := by
  induction n with
  | zero =>
    intro fuel y0 hy hf
    obtain ⟨f, rfl⟩ : ∃ f, fuel = f + 1 := ⟨fuel - 1, by omega⟩
    unfold eink_draw_line_loop_points
    rw [if_pos ⟨rfl, by omega⟩]
    rfl
  | succ n ih =>
    intro fuel y0 hy hf
    obtain ⟨f, rfl⟩ : ∃ f, fuel = f + 1 := ⟨fuel - 1, by omega⟩
    unfold eink_draw_line_loop_points
    rw [if_neg (by omega)]
    have c1 : ¬ 2 * -D > -D := by omega
    have c2 : 2 * -D < (0 : Int) := by omega
    simp only [c1, c2, if_true, if_false, add_zero]
    rw [u16_succ y0 (by omega), ih f (y0 + 1) (by omega) (by omega)]
    rfl

/-- A column drawn bottom to top: the loop steps `y0` down by one until it reaches `y1`. -/
theorem vline_loop_down (x y1 : Nat) (D sx : Int) (hD : 0 < D) (n : Nat) :
    ∀ fuel y0, y0 = y1 + n → y0 < 65536 → n < fuel →
      eink_draw_line_loop_points x y1 0 D sx (-1) fuel x y0 (-D)
        = (((List.range' y1 (n + 1)).map (fun y => (x, y))).reverse, true) := by
  induction n with
  | zero =>
    intro fuel y0 hy hb hf
    obtain ⟨f, rfl⟩ : ∃ f, fuel = f + 1 := ⟨fuel - 1, by omega⟩
    unfold eink_draw_line_loop_points
    rw [if_pos ⟨rfl, by omega⟩]
    subst hy
    rfl
  | succ n ih =>
    intro fuel y0 hy hb hf
    obtain ⟨f, rfl⟩ : ∃ f, fuel = f + 1 := ⟨fuel - 1, by omega⟩
    unfold eink_draw_line_loop_points
    rw [if_neg (by omega)]
    have c1 : ¬ 2 * -D > -D := by omega
    have c2 : 2 * -D < (0 : Int) := by omega
    simp only [c1, c2, if_true, if_false, add_zero]
    rw [u16_pred y0 (by omega) hb, ih f (y0 - 1) (by omega) (by omega) (by omega)]
    rw [List.range'_concat y1 (n + 1)]
    simp [hy]

/-- The recorded run of a row: from `x0` up to `x1`, or down to it, one pixel at a time. -/
theorem hline_run (x0 x1 y : Nat) (h0 : x0 < 65536) (h1 : x1 < 65536) :
    eink_draw_line_run x0 y x1 y =
      if x0 ≤ x1 then ((List.range' x0 (x1 - x0 + 1)).map (fun x => (x, y)), true)
      else (((List.range' x1 (x0 - x1 + 1)).map (fun x => (x, y))).reverse, true) := by
  unfold eink_draw_line_run eink_draw_line_fuel
  have hy : (((y : Int) - y).natAbs : Int) = 0 := by simp
  rw [hy, sub_zero]
  by_cases hlt : x0 < x1
  · have hD : (((x1 : Int) - x0).natAbs : Int) = ((x1 - x0 : Nat) : Int) := by omega
    rw [if_pos hlt, if_pos (Nat.le_of_lt hlt), hD]
    refine hline_loop_up x1 y _ _ ?_ h1 (x1 - x0) _ x0 ?_ ?_ <;> omega
  · by_cases heq : x0 = x1
    · subst heq
      rw [if_neg hlt, if_pos (Nat.le_refl _)]
      simp [eink_draw_line_loop_points]
    · have hD : (((x1 : Int) - x0).natAbs : Int) = ((x0 - x1 : Nat) : Int) := by omega
      rw [if_neg hlt, if_neg (show ¬ x0 ≤ x1 by omega), hD]
      refine hline_loop_down x1 y _ _ ?_ (x0 - x1) _ x0 ?_ h0 ?_ <;> omega

/-- The recorded run of a column: from `y0` up to `y1`, or down to it, one pixel at a time. -/
theorem vline_run (x y0 y1 : Nat) (h0 : y0 < 65536) (h1 : y1 < 65536) :
    eink_draw_line_run x y0 x y1 =
      if y0 ≤ y1 then ((List.range' y0 (y1 - y0 + 1)).map (fun y => (x, y)), true)
      else (((List.range' y1 (y0 - y1 + 1)).map (fun y => (x, y))).reverse, true) := by
  unfold eink_draw_line_run eink_draw_line_fuel
  have hx : (((x : Int) - x).natAbs : Int) = 0 := by simp
  rw [hx, zero_sub]
  by_cases hlt : y0 < y1
  · have hD : (((y1 : Int) - y0).natAbs : Int) = ((y1 - y0 : Nat) : Int) := by omega
    rw [if_pos hlt, if_pos (Nat.le_of_lt hlt), hD]
    refine vline_loop_up x y1 _ _ ?_ h1 (y1 - y0) _ y0 ?_ ?_ <;> omega
  · by_cases heq : y0 = y1
    · subst heq
      rw [if_neg hlt, if_pos (Nat.le_refl _)]
      simp [eink_draw_line_loop_points]
    · have hD : (((y1 : Int) - y0).natAbs : Int) = ((y0 - y1 : Nat) : Int) := by omega
      rw [if_neg hlt, if_neg (show ¬ y0 ≤ y1 by omega), hD]
      refine vline_loop_down x y1 _ _ ?_ (y0 - y1) _ y0 ?_ h0 ?_ <;> omega

/-- The two directions of a row or a column: the loop reaches its `break` both ways, and the
coordinates of one direction are those of the other in reverse order. -/
theorem axis_line_reverse (x0 y0 x1 y1 : Nat) (h : x0 = x1 ∨ y0 = y1)
    (hx0 : x0 < 65536) (hy0 : y0 < 65536) (hx1 : x1 < 65536) (hy1 : y1 < 65536) :
    (eink_draw_line_run x0 y0 x1 y1).2 = true ∧ (eink_draw_line_run x1 y1 x0 y0).2 = true ∧
    eink_draw_line_points x1 y1 x0 y0 = (eink_draw_line_points x0 y0 x1 y1).reverse := by
  unfold eink_draw_line_points
  rcases h with h | h
  · subst h
    rw [vline_run x0 y0 y1 hy0 hy1, vline_run x0 y1 y0 hy1 hy0]
    by_cases hle : y0 ≤ y1
    · by_cases hge : y1 ≤ y0
      · have e : y0 = y1 := by omega
        subst e
        simp
      · rw [if_pos hle, if_neg hge]
        exact ⟨rfl, rfl, rfl⟩
    · rw [if_neg hle, if_pos (by omega)]
      exact ⟨rfl, rfl, (List.reverse_reverse _).symm⟩
  · subst h
    rw [hline_run x0 x1 y0 hx0 hx1, hline_run x1 x0 y0 hx1 hx0]
    by_cases hle : x0 ≤ x1
    · by_cases hge : x1 ≤ x0
      · have e : x0 = x1 := by omega
        subst e
        simp
      · rw [if_pos hle, if_neg hge]
        exact ⟨rfl, rfl, rfl⟩
    · rw [if_neg hle, if_pos (by omega)]
      exact ⟨rfl, rfl, (List.reverse_reverse _).symm⟩

/-! ## Lemmas: plotting in another order -/

theorem or_or_comm (b m n : Nat) :
    ((b ||| m) % 256 ||| n) % 256 = ((b ||| n) % 256 ||| m) % 256 := by
  apply Nat.eq_of_testBit_eq
  intro i
  rw [show (256 : Nat) = 2 ^ 8 from rfl]
  simp only [Nat.testBit_mod_two_pow, Nat.testBit_or]
  cases decide (i < 8) <;> cases b.testBit i <;> cases m.testBit i <;> cases n.testBit i <;> rfl

theorem and_and_comm (b m n : Nat) :
    ((b &&& m) % 256 &&& n) % 256 = ((b &&& n) % 256 &&& m) % 256 := by
  apply Nat.eq_of_testBit_eq
  intro i
  rw [show (256 : Nat) = 2 ^ 8 from rfl]
  simp only [Nat.testBit_mod_two_pow, Nat.testBit_and]
  cases decide (i < 8) <;> cases b.testBit i <;> cases m.testBit i <;> cases n.testBit i <;> rfl

/-- Two read-modify-write accesses to the framebuffer can be made in either order when their
modifications commute on a byte. -/
theorem display_buffer_update_comm (s : EinkState) (i j : Nat) (f g : Nat → Nat)
    (hfg : ∀ b, g (f b % 256) % 256 = f (g b % 256) % 256) :
    display_buffer_update (display_buffer_update s i f) j g
      = display_buffer_update (display_buffer_update s j g) i f := by
  unfold display_buffer_update
  cases hi : s.display_buffer[i]? with
  | none =>
    cases hj : s.display_buffer[j]? with
    | none => simp [hi, hj]
    | some bj =>
      have hlen : s.display_buffer.length ≤ i := by
        by_contra hc
        rw [List.getElem?_eq_getElem (by omega)] at hi
        exact Option.noConfusion hi
      have hi' : (s.display_buffer.set j (g bj % 256))[i]? = none :=
        List.getElem?_eq_none (by rw [List.length_set]; exact hlen)
      simp [hi, hj, hi']
  | some bi =>
    cases hj : s.display_buffer[j]? with
    | none =>
      have hlen : s.display_buffer.length ≤ j := by
        by_contra hc
        rw [List.getElem?_eq_getElem (by omega)] at hj
        exact Option.noConfusion hj
      have hj' : (s.display_buffer.set i (f bi % 256))[j]? = none :=
        List.getElem?_eq_none (by rw [List.length_set]; exact hlen)
      simp [hi, hj, hj']
    | some bj =>
      have hil : i < s.display_buffer.length := by
        by_contra hc
        rw [List.getElem?_eq_none (by omega)] at hi
        exact Option.noConfusion hi
      by_cases hij : i = j
      · subst hij
        have hb : bj = bi := by
          rw [hi] at hj
          exact (Option.some.inj hj).symm
        subst hb
        simp [List.getElem?_set_self hil, List.set_set, hfg]
      · have h1 : (s.display_buffer.set i (f bi % 256))[j]? = some bj := by
          rw [List.getElem?_set_ne hij]; exact hj
        have h2 : (s.display_buffer.set j (g bj % 256))[i]? = some bi := by
          rw [List.getElem?_set_ne (Ne.symm hij)]; exact hi
        simp [h1, h2, List.set_comm _ _ _ hij]

/-- The call `eink_set_pixel` as one guarded framebuffer update. -/
theorem plot_eq (color : Nat) (s : EinkState) (p : Nat × Nat) :
    plot color s p =
      if s.eink_initialized = false ∨ p.1 ≥ EINK_WIDTH ∨ p.2 ≥ EINK_HEIGHT then s
      else display_buffer_update s ((p.2 * EINK_WIDTH + p.1) / 8) (pixel_op color (p.1 % 8)) := by
  unfold plot eink_set_pixel pixel_op
  by_cases hi : s.eink_initialized = false
  · simp [hi]
  · by_cases hr : p.1 ≥ EINK_WIDTH ∨ p.2 ≥ EINK_HEIGHT
    · simp [hi, hr]
    · by_cases hc : color = 0 <;> simp [hi, hr, hc]

theorem display_buffer_update_initialized (s : EinkState) (i : Nat) (f : Nat → Nat) :
    (display_buffer_update s i f).eink_initialized = s.eink_initialized :=
  (driver_vars_fields (display_buffer_update_driver_vars s i f)).1

theorem pixel_op_comm (color k n b : Nat) :
    pixel_op color n (pixel_op color k b % 256) % 256
      = pixel_op color k (pixel_op color n b % 256) % 256 := by
  unfold pixel_op
  by_cases hc : color = 0
  · simp only [hc, if_true]
    exact and_and_comm b _ _
  · simp only [hc, if_false]
    exact or_or_comm b _ _

/-- Two pixels plotted in the same colour can be plotted in either order. -/
theorem plot_comm (color : Nat) (s : EinkState) (p q : Nat × Nat) :
    plot color (plot color s p) q = plot color (plot color s q) p := by
  by_cases hp : s.eink_initialized = false ∨ p.1 ≥ EINK_WIDTH ∨ p.2 ≥ EINK_HEIGHT
  · have e1 : plot color s p = s := by rw [plot_eq, if_pos hp]
    have e2 : plot color (plot color s q) p = plot color s q := by
      rw [plot_eq color (plot color s q) p]
      apply if_pos
      rcases hp with h | h
      · left
        rw [plot_eq color s q]
        split_ifs
        · exact h
        · rw [display_buffer_update_initialized]; exact h
      · exact Or.inr h
    rw [e1, e2]
  · by_cases hq : s.eink_initialized = false ∨ q.1 ≥ EINK_WIDTH ∨ q.2 ≥ EINK_HEIGHT
    · have e1 : plot color s q = s := by rw [plot_eq, if_pos hq]
      have e2 : plot color (plot color s p) q = plot color s p := by
        rw [plot_eq color (plot color s p) q]
        apply if_pos
        rcases hq with h | h
        · left
          rw [plot_eq color s p, if_neg hp, display_buffer_update_initialized]
          exact h
        · exact Or.inr h
      rw [e1, e2]
    · have hi : ¬ s.eink_initialized = false := fun h => hp (Or.inl h)
      rw [plot_eq color s p, if_neg hp, plot_eq color s q, if_neg hq, plot_eq, plot_eq,
        if_neg, if_neg]
      · exact display_buffer_update_comm s _ _ _ _ (pixel_op_comm color _ _)
      · rw [display_buffer_update_initialized]
        exact fun h => hp (h.elim (fun h => absurd h hi) Or.inr)
      · rw [display_buffer_update_initialized]
        exact fun h => hq (h.elim (fun h => absurd h hi) Or.inr)

/-- Plotting a list of pixels in one colour leaves the same state as plotting them in the
reverse order. -/
theorem foldl_plot_reverse (color : Nat) (l : List (Nat × Nat)) (s : EinkState) :
    l.reverse.foldl (plot color) s = l.foldl (plot color) s :=
  (List.reverse_perm l).foldl_eq' (fun x _ y _ z => plot_comm color z x y) s

/-! ## Lemmas: a pixel and the other pixels -/

theorem pixel_op_other_bit (color k n b : Nat) (hkn : k ≠ n) :
    (pixel_op color k b % 256) &&& (0x80 >>> n) = b &&& (0x80 >>> n) := by
  apply Nat.eq_of_testBit_eq
  intro i
  unfold pixel_op
  rw [show (256 : Nat) = 2 ^ 8 from rfl, show (0xFF : Nat) = 2 ^ 8 - 1 from rfl]
  by_cases h7 : n + i = 7
  · have hk : ¬ k + i = 7 := by omega
    have hi : i < 8 := by omega
    by_cases hc : color = 0
    · simp only [hc, if_true, Nat.testBit_and, Nat.testBit_mod_two_pow, Nat.testBit_xor,
        testBit_mask, Nat.testBit_two_pow_sub_one]
      simp [h7, hk, hi]
    · simp only [hc, if_false, Nat.testBit_and, Nat.testBit_mod_two_pow, Nat.testBit_or,
        testBit_mask]
      simp [h7, hk, hi]
  · simp only [Nat.testBit_and, testBit_mask]
    simp [h7]

theorem plot_initialized (color : Nat) (s : EinkState) (p : Nat × Nat) :
    (plot color s p).eink_initialized = s.eink_initialized :=
  (driver_vars_fields (eink_set_pixel_driver_vars s p.1 p.2 color)).1

theorem display_buffer_update_length (s : EinkState) (i : Nat) (f : Nat → Nat) :
    (display_buffer_update s i f).display_buffer.length = s.display_buffer.length := by
  unfold display_buffer_update
  cases s.display_buffer[i]? with
  | none => rfl
  | some b => exact List.length_set _ _ _

theorem plot_length (color : Nat) (s : EinkState) (p : Nat × Nat) :
    (plot color s p).display_buffer.length = s.display_buffer.length := by
  rw [plot_eq]
  split_ifs
  · rfl
  · exact display_buffer_update_length _ _ _

/-- Plotting a pixel does not change what `eink_get_pixel` returns for a coordinate whose
byte index or bit index is another one. -/
theorem get_pixel_plot_other (color : Nat) (s : EinkState) (p : Nat × Nat) (x y : Nat)
    (h : (p.2 * EINK_WIDTH + p.1) / 8 ≠ (y * EINK_WIDTH + x) / 8 ∨ p.1 % 8 ≠ x % 8) :
    eink_get_pixel (plot color s p) x y = eink_get_pixel s x y := by
  rw [plot_eq]
  split_ifs with hc
  · rfl
  · unfold eink_get_pixel
    rw [display_buffer_update_initialized]
    split_ifs
    · rfl
    · unfold display_buffer_update
      cases hb : s.display_buffer[(p.2 * EINK_WIDTH + p.1) / 8]? with
      | none => rfl
      | some b =>
        by_cases hij : (p.2 * EINK_WIDTH + p.1) / 8 = (y * EINK_WIDTH + x) / 8
        · have hbit : p.1 % 8 ≠ x % 8 := h.resolve_left (fun hne => hne hij)
          have hlen : (y * EINK_WIDTH + x) / 8 < s.display_buffer.length := by
            rw [← hij]
            by_contra hcon
            rw [List.getElem?_eq_none (by omega)] at hb
            exact Option.noConfusion hb
          rw [hij] at hb ⊢
          simp only [List.getElem?_set_self hlen, hb]
          rw [pixel_op_other_bit color _ _ b hbit]
        · simp only [List.getElem?_set_ne hij]

/-- On the freshly initialised driver every pixel whose byte lies inside the framebuffer reads
as light. -/
theorem get_pixel_ready (x y : Nat) (hx : x < EINK_WIDTH) (hy : y < EINK_HEIGHT)
    (hin : (y * EINK_WIDTH + x) / 8 < DISPLAY_BUFFER_SIZE) :
    eink_get_pixel ready_state x y = some 1 := by
  obtain ⟨h, hbuf, -, -⟩ := ready_state_ready
  have hk : x % 8 < 8 := Nat.mod_lt _ (by norm_num)
  have hbit : ∀ k < 8, 255 &&& (0x80 >>> k) ≠ 0 := by decide
  unfold eink_get_pixel
  rw [if_neg (by simp [h]; omega), hbuf]
  simp [List.getElem?_replicate, hin, hbit _ hk]

/-! ## Lemmas: the busy-wait -/

@[simp] theorem emit_hang (s : EinkState) (e : HwEvent) : (emit s e).hang = s.hang := rfl

/-- The loop of `eink_wait_busy` never runs out of fuel when the fuel covers the iterations
left before the timeout. -/
theorem eink_wait_busy_loop_hang (fuel timeout : Nat) (s : EinkState)
    (hf : 0 < fuel) (ht : 501 ≤ timeout + fuel) :
    (eink_wait_busy_loop fuel timeout s).hang = s.hang := by
  induction fuel generalizing timeout s with
  | zero => omega
  | succ fuel ih =>
    unfold eink_wait_busy_loop
    by_cases hb : s.busy_pin s.busy_reads = true
    · by_cases h5 : timeout + 1 > 500
      · simp only [hb, h5, if_true]; rfl
      · simp only [hb, h5, if_true, if_false]
        rw [ih (timeout + 1) _ (by omega) (by omega)]; rfl
    · simp only [hb, if_false]; rfl

@[simp] theorem eink_wait_busy_hang (s : EinkState) : (eink_wait_busy s).hang = s.hang :=
  eink_wait_busy_loop_hang 501 0 s (by omega) (by omega)

/-- With a pin that stays high the loop of `eink_wait_busy` makes `501 - timeout` reads and
as many delays. -/
theorem eink_wait_busy_loop_stuck (fuel timeout : Nat) (s : EinkState) (ht : timeout ≤ 500)
    (hf : 501 ≤ timeout + fuel) (hb : ∀ k, s.busy_pin (s.busy_reads + k) = true) :
    (eink_wait_busy_loop fuel timeout s).trace
      = s.trace ++ List.replicate (501 - timeout) (.timer_usleep 10000) ∧
    (eink_wait_busy_loop fuel timeout s).busy_reads = s.busy_reads + (501 - timeout) := by
  induction fuel generalizing timeout s with
  | zero => omega
  | succ fuel ih =>
    unfold eink_wait_busy_loop
    have hb0 : s.busy_pin s.busy_reads = true := by simpa using hb 0
    by_cases h5 : timeout + 1 > 500
    · have : 501 - timeout = 1 := by omega
      simp only [hb0, h5, if_true, this]
      exact ⟨rfl, rfl⟩
    · simp only [hb0, h5, if_true, if_false]
      obtain ⟨h2, h3⟩ := ih (timeout + 1)
        (emit { s with busy_reads := s.busy_reads + 1 } (.timer_usleep 10000)) (by omega)
        (by omega) (by
          intro k
          show s.busy_pin (s.busy_reads + 1 + k) = true
          rw [Nat.add_assoc, Nat.add_comm 1 k]
          exact hb (k + 1))
      have e : 501 - timeout = (501 - (timeout + 1)) + 1 := by omega
      refine ⟨?_, ?_⟩
      · rw [h2, e]; simp [List.replicate_succ]
      · rw [h3]; show s.busy_reads + 1 + (501 - (timeout + 1)) = _; omega

/-- With the pin low at the first read `eink_wait_busy` returns at once: one read, no call of
the SDK. -/
theorem eink_wait_busy_idle (s : EinkState) (h : s.busy_pin s.busy_reads = false) :
    eink_wait_busy s = { s with busy_reads := s.busy_reads + 1 } := by
  unfold eink_wait_busy eink_wait_busy_loop
  simp [h]

/-- The call `eink_refresh` never exhausts the fuel of its busy-wait. -/
theorem eink_refresh_hang (s : EinkState) (mode : Nat) :
    (eink_refresh s mode).1.hang = s.hang := by
  unfold eink_refresh
  by_cases h : s.eink_initialized = false
  · rw [if_pos h]
  · rw [if_neg h]
    by_cases hm : mode = EINK_DISPLAY_MODE_FULL ∨
        s.refresh_counter % DISPLAY_FULL_REFRESH_INTERVAL = 0
    all_goals simp [hm, eink_set_memory_area, eink_set_memory_pointer,
      eink_send_command, eink_send_data, eink_send_data_buffer, eink_set_lut]

/-- On an initialised driver whose framebuffer holds 0xFF in every byte, every pixel whose
byte lies inside the framebuffer reads as light. -/
theorem get_pixel_all_light (s : EinkState) (x y : Nat) (h : s.eink_initialized = true)
    (hbuf : s.display_buffer = List.replicate DISPLAY_BUFFER_SIZE 0xFF)
    (hx : x < EINK_WIDTH) (hy : y < EINK_HEIGHT)
    (hin : (y * EINK_WIDTH + x) / 8 < DISPLAY_BUFFER_SIZE) :
    eink_get_pixel s x y = some 1 := by
  have hk : x % 8 < 8 := Nat.mod_lt _ (by norm_num)
  have hbit : ∀ k < 8, 255 &&& (0x80 >>> k) ≠ 0 := by decide
  unfold eink_get_pixel
  rw [if_neg (by simp [h]; omega), hbuf]
  simp [List.getElem?_replicate, hin, hbit _ hk]

/-- What `eink_get_pixel` returns depends on an in-range coordinate only through its byte
index and its bit index. -/
theorem get_pixel_same_bit (s : EinkState) (x y x1 y1 : Nat)
    (hx : x < EINK_WIDTH) (hy : y < EINK_HEIGHT) (hx1 : x1 < EINK_WIDTH) (hy1 : y1 < EINK_HEIGHT)
    (hbyte : (y * EINK_WIDTH + x) / 8 = (y1 * EINK_WIDTH + x1) / 8) (hbit : x % 8 = x1 % 8) :
    eink_get_pixel s x y = eink_get_pixel s x1 y1 := by
  unfold eink_get_pixel
  by_cases hi : s.eink_initialized = false
  · rw [if_pos (Or.inl hi), if_pos (Or.inl hi)]
  · rw [if_neg (not_or.mpr ⟨hi, not_or.mpr ⟨Nat.not_le.mpr hx, Nat.not_le.mpr hy⟩⟩),
      if_neg (not_or.mpr ⟨hi, not_or.mpr ⟨Nat.not_le.mpr hx1, Nat.not_le.mpr hy1⟩⟩)]
    simp only [hbyte, hbit]

/-- After `eink_set_pixel(p, color)` on an initialised driver every in-range coordinate with
the byte index and the bit index of `p` reads as the colour written. -/
theorem get_pixel_plot_same (color : Nat) (s : EinkState) (p : Nat × Nat) (x y : Nat)
    (h : s.eink_initialized = true)
    (hp1 : p.1 < EINK_WIDTH) (hp2 : p.2 < EINK_HEIGHT)
    (hx : x < EINK_WIDTH) (hy : y < EINK_HEIGHT)
    (hbyte : (p.2 * EINK_WIDTH + p.1) / 8 = (y * EINK_WIDTH + x) / 8) (hbit : p.1 % 8 = x % 8)
    (hin : (y * EINK_WIDTH + x) / 8 < s.display_buffer.length) :
    eink_get_pixel (plot color s p) x y = some (if color = 0 then 0 else 1) := by
  rw [get_pixel_same_bit _ x y p.1 p.2 hx hy hp1 hp2 hbyte.symm hbit.symm]
  exact (set_get_pixel_inside s p.1 p.2 color h hp1 hp2 (by rw [hbyte]; exact hin)).2.2

/-- A pixel that reads as the colour being drawn keeps reading so when another pixel is set
to that colour. -/
theorem get_pixel_plot_keep (color : Nat) (s : EinkState) (q : Nat × Nat) (x y : Nat)
    (h : s.eink_initialized = true) (hx : x < EINK_WIDTH) (hy : y < EINK_HEIGHT)
    (hin : (y * EINK_WIDTH + x) / 8 < s.display_buffer.length)
    (hv : eink_get_pixel s x y = some (if color = 0 then 0 else 1)) :
    eink_get_pixel (plot color s q) x y = some (if color = 0 then 0 else 1) := by
  by_cases hd : (q.2 * EINK_WIDTH + q.1) / 8 ≠ (y * EINK_WIDTH + x) / 8 ∨ q.1 % 8 ≠ x % 8
  · rw [get_pixel_plot_other color s q x y hd]
    exact hv
  · have hbyte : (q.2 * EINK_WIDTH + q.1) / 8 = (y * EINK_WIDTH + x) / 8 := by
      by_contra hne
      exact hd (Or.inl hne)
    have hbit : q.1 % 8 = x % 8 := by
      by_contra hne
      exact hd (Or.inr hne)
    by_cases hr : q.1 ≥ EINK_WIDTH ∨ q.2 ≥ EINK_HEIGHT
    · rw [plot_eq, if_pos (Or.inr hr)]
      exact hv
    · exact get_pixel_plot_same color s q x y h (by omega) (by omega) hx hy hbyte hbit hin

theorem foldl_plot_initialized (color : Nat) (l : List (Nat × Nat)) (s : EinkState) :
    (l.foldl (plot color) s).eink_initialized = s.eink_initialized := by
  induction l generalizing s with
  | nil => rfl
  | cons p l ih => rw [List.foldl_cons, ih, plot_initialized]

theorem foldl_plot_length (color : Nat) (l : List (Nat × Nat)) (s : EinkState) :
    (l.foldl (plot color) s).display_buffer.length = s.display_buffer.length := by
  induction l generalizing s with
  | nil => rfl
  | cons p l ih => rw [List.foldl_cons, ih, plot_length]

/-- A pixel that reads as the colour being drawn keeps reading so while further pixels are
set to that colour. -/
theorem get_pixel_foldl_plot_keep (color : Nat) (l : List (Nat × Nat)) (s : EinkState)
    (x y : Nat) (h : s.eink_initialized = true) (hx : x < EINK_WIDTH) (hy : y < EINK_HEIGHT)
    (hin : (y * EINK_WIDTH + x) / 8 < s.display_buffer.length)
    (hv : eink_get_pixel s x y = some (if color = 0 then 0 else 1)) :
    eink_get_pixel (l.foldl (plot color) s) x y = some (if color = 0 then 0 else 1) := by
  induction l generalizing s with
  | nil => exact hv
  | cons q l ih =>
    rw [List.foldl_cons]
    exact ih (plot color s q) ((plot_initialized color s q).trans h)
      (by rw [plot_length]; exact hin) (get_pixel_plot_keep color s q x y h hx hy hin hv)

/-- After a list of pixels has been set to one colour, every in-range coordinate that shares
its byte index and bit index with an in-range pixel of the list reads as that colour. -/
theorem get_pixel_foldl_plot_mem (color : Nat) (l : List (Nat × Nat)) (s : EinkState)
    (p : Nat × Nat) (x y : Nat) (hp : p ∈ l) (h : s.eink_initialized = true)
    (hp1 : p.1 < EINK_WIDTH) (hp2 : p.2 < EINK_HEIGHT)
    (hx : x < EINK_WIDTH) (hy : y < EINK_HEIGHT)
    (hbyte : (p.2 * EINK_WIDTH + p.1) / 8 = (y * EINK_WIDTH + x) / 8) (hbit : p.1 % 8 = x % 8)
    (hin : (y * EINK_WIDTH + x) / 8 < s.display_buffer.length) :
    eink_get_pixel (l.foldl (plot color) s) x y = some (if color = 0 then 0 else 1) := by
  induction l generalizing s with
  | nil => simp at hp
  | cons q l ih =>
    rw [List.foldl_cons]
    rcases List.mem_cons.mp hp with hq | hq
    · subst hq
      exact get_pixel_foldl_plot_keep color l (plot color s p) x y
        ((plot_initialized color s p).trans h) hx hy (by rw [plot_length]; exact hin)
        (get_pixel_plot_same color s p x y h hp1 hp2 hx hy hbyte hbit hin)
    · exact ih (plot color s q) hq ((plot_initialized color s q).trans h)
        (by rw [plot_length]; exact hin)

/-- A pixel whose byte index lies outside the framebuffer cannot be read. -/
theorem get_pixel_outside (s : EinkState) (x y : Nat) (h : s.eink_initialized = true)
    (hx : x < EINK_WIDTH) (hy : y < EINK_HEIGHT)
    (hout : s.display_buffer.length ≤ (y * EINK_WIDTH + x) / 8) :
    eink_get_pixel s x y = none := by
  unfold eink_get_pixel
  rw [if_neg (not_or.mpr ⟨by simp [h], not_or.mpr ⟨Nat.not_le.mpr hx, Nat.not_le.mpr hy⟩⟩)]
  simp only [List.getElem?_eq_none hout]

/-- The filled mode of `eink_draw_rectangle` sets the pixels of the rectangle row by row. -/
theorem eink_draw_rectangle_filled (s : EinkState) (x y width height color : Nat)
    (h : s.eink_initialized = true) :
    eink_draw_rectangle s x y width height color true =
      (((List.range height).flatMap (fun (i : Nat) => (List.range width).map
          (fun (j : Nat) => (u16 ((x : Int) + (j : Int)), u16 ((y : Int) + (i : Int)))))).foldl
            (plot color) s,
        ERROR_NONE) := by
  unfold eink_draw_rectangle
  rw [if_neg (by simp [h]), if_pos rfl]
  simp only [bind_pure_comp, List.map_eq_map]
  congr 1
  clear h
  generalize List.range height = rows
  induction rows generalizing s with
  | nil => rfl
  | cons i rows ih =>
    rw [List.map_cons, List.foldl_cons, List.flatMap_cons, List.foldl_append, ← ih]
    congr 1
    rw [List.foldl_map, List.foldl_map]
    rfl

/-! ## Lemmas: text -/

/-- The loop of `eink_display_text` draws the recorded glyphs in order. -/
theorem eink_display_text_loop_eq (x font_size color : Nat) (text : List Nat) (s : EinkState)
    (char_x char_y : Nat) :
    eink_display_text_loop x font_size color text s char_x char_y =
      (eink_display_text_loop_glyphs x font_size text char_x char_y).1.foldl
        (glyph font_size color) s := by
  induction text generalizing s char_x char_y with
  | nil => rfl
  | cons c text ih =>
    unfold eink_display_text_loop eink_display_text_loop_glyphs
    by_cases hc : c = 10
    · simp only [hc, if_true]
      split_ifs <;> simp [ih]
    · simp only [hc, if_false]
      split_ifs <;> simp [ih, glyph]

theorem eink_display_text_eq (s : EinkState) (x y : Nat) (text : List Nat)
    (font_size color : Nat) (h : s.eink_initialized = true) :
    eink_display_text s x y (some text) font_size color =
      ((eink_display_text_glyphs x y text font_size).foldl (glyph font_size color) s,
        ERROR_NONE) := by
  unfold eink_display_text eink_display_text_glyphs
  rw [if_neg (by simp [h]), eink_display_text_loop_eq]
  rfl

theorem u16_lt (i : Int) : u16 i < 65536 := by
  unfold u16
  omega

theorem u16_of_lt (a : Nat) (h : a < 65536) : u16 (a : Int) = a := by
  unfold u16
  omega

/-- One iteration of the loop of `eink_display_text`, as recorded: the glyph of the character
(none for a newline), and then either the `break` or the rest of the text from a cursor that
is at the origin `x` or left of `EINK_WIDTH`, and above `EINK_HEIGHT`. -/
theorem eink_display_text_loop_glyphs_step (x font_size c char_x char_y : Nat) :
    ∃ (x2 y2 : Nat) (go : Bool), (x2 = x ∨ x2 < EINK_WIDTH) ∧ (go = true → y2 < EINK_HEIGHT) ∧
      ∀ text, eink_display_text_loop_glyphs x font_size (c :: text) char_x char_y =
        ((if c = 10 then [] else [(char_x, char_y)]) ++
            (if go = true then (eink_display_text_loop_glyphs x font_size text x2 y2).1 else []),
          if go = true then (eink_display_text_loop_glyphs x font_size text x2 y2).2
          else true) := by
  simp only [eink_display_text_loop_glyphs]
  by_cases h10 : c = 10
  · by_cases hw : x ≥ EINK_WIDTH
    · by_cases hs : u16 ((u16 ((char_y : Int) + font_size + 2) : Int) + font_size + 2)
          ≥ EINK_HEIGHT
      · exact ⟨x, 0, false, Or.inl rfl, by simp, by simp [h10, hw, hs]⟩
      · exact ⟨x, _, true, Or.inl rfl, fun _ => Nat.lt_of_not_le hs, by simp [h10, hw, hs]⟩
    · by_cases hs : u16 ((char_y : Int) + font_size + 2) ≥ EINK_HEIGHT
      · exact ⟨x, 0, false, Or.inl rfl, by simp, by simp [h10, hw, hs]⟩
      · exact ⟨x, _, true, Or.inl rfl, fun _ => Nat.lt_of_not_le hs, by simp [h10, hw, hs]⟩
  · by_cases hw : u16 ((char_x : Int) + font_size) ≥ EINK_WIDTH
    · by_cases hs : u16 ((char_y : Int) + font_size + 2) ≥ EINK_HEIGHT
      · exact ⟨x, 0, false, Or.inl rfl, by simp, by simp [h10, hw, hs]⟩
      · exact ⟨x, _, true, Or.inl rfl, fun _ => Nat.lt_of_not_le hs, by simp [h10, hw, hs]⟩
    · by_cases hs : char_y ≥ EINK_HEIGHT
      · exact ⟨x, 0, false, Or.inl rfl, by simp, by simp [h10, hw, hs]⟩
      · exact ⟨_, _, true, Or.inr (Nat.lt_of_not_le hw), fun _ => Nat.lt_of_not_le hs,
          by simp [h10, hw, hs]⟩

/-- The glyphs of the loop all have their corner left of `EINK_WIDTH` when the origin and the
cursor are. -/
theorem glyphs_x_lt (x font_size : Nat) (hx : x < EINK_WIDTH) (text : List Nat)
    (char_x char_y : Nat) (hc : char_x < EINK_WIDTH) :
    ∀ p ∈ (eink_display_text_loop_glyphs x font_size text char_x char_y).1,
      p.1 < EINK_WIDTH := by
  induction text generalizing char_x char_y with
  | nil => intro p hp; simp [eink_display_text_loop_glyphs] at hp
  | cons c text ih =>
    obtain ⟨x2, y2, go, h2, -, he⟩ :=
      eink_display_text_loop_glyphs_step x font_size c char_x char_y
    have hx2 : x2 < EINK_WIDTH := by
      rcases h2 with h2 | h2
      · rw [h2]; exact hx
      · exact h2
    intro p hp
    rw [he text] at hp
    rcases List.mem_append.mp hp with hp | hp
    · by_cases h10 : c = 10
      · simp [h10] at hp
      · simp only [h10, if_false, List.mem_singleton] at hp
        rw [hp]; exact hc
    · cases go with
      | false => simp at hp
      | true => exact ih x2 y2 hx2 p (by simpa using hp)

/-- The glyphs of the loop all have their corner above `EINK_HEIGHT` when the cursor is. -/
theorem glyphs_y_lt (x font_size : Nat) (text : List Nat)
    (char_x char_y : Nat) (hc : char_y < EINK_HEIGHT) :
    ∀ p ∈ (eink_display_text_loop_glyphs x font_size text char_x char_y).1,
      p.2 < EINK_HEIGHT := by
  induction text generalizing char_x char_y with
  | nil => intro p hp; simp [eink_display_text_loop_glyphs] at hp
  | cons c text ih =>
    obtain ⟨x2, y2, go, -, h2, he⟩ :=
      eink_display_text_loop_glyphs_step x font_size c char_x char_y
    intro p hp
    rw [he text] at hp
    rcases List.mem_append.mp hp with hp | hp
    · by_cases h10 : c = 10
      · simp [h10] at hp
      · simp only [h10, if_false, List.mem_singleton] at hp
        rw [hp]; exact hc
    · cases go with
      | false => simp at hp
      | true => exact ih x2 y2 (h2 rfl) p (by simpa using hp)

/-- The glyphs of the loop that follow the glyph of the first character all have their corner
above `EINK_HEIGHT`. -/
theorem glyphs_later_y_lt (x font_size c : Nat) (text : List Nat) (char_x char_y : Nat) :
    ∀ p ∈ (eink_display_text_loop_glyphs x font_size (c :: text) char_x char_y).1.drop
        (if c = 10 then 0 else 1), p.2 < EINK_HEIGHT := by
  obtain ⟨x2, y2, go, -, h2, he⟩ :=
    eink_display_text_loop_glyphs_step x font_size c char_x char_y
  intro p hp
  rw [he text] at hp
  have hp2 : p ∈ (if go = true then (eink_display_text_loop_glyphs x font_size text x2 y2).1
      else []) := by
    by_cases h10 : c = 10
    · simpa [h10] using hp
    · simpa [h10] using hp
  cases go with
  | false => simp at hp2
  | true => exact glyphs_y_lt x font_size text x2 y2 (h2 rfl) p (by simpa using hp2)

/-- Once the loop has left through its `break`, what follows in the text is not looked at. -/
theorem glyphs_stop_append (x font_size : Nat) (text rest : List Nat) (char_x char_y : Nat)
    (h : (eink_display_text_loop_glyphs x font_size text char_x char_y).2 = true) :
    eink_display_text_loop_glyphs x font_size (text ++ rest) char_x char_y =
      eink_display_text_loop_glyphs x font_size text char_x char_y := by
  induction text generalizing char_x char_y with
  | nil => simp [eink_display_text_loop_glyphs] at h
  | cons c text ih =>
    obtain ⟨x2, y2, go, -, -, he⟩ :=
      eink_display_text_loop_glyphs_step x font_size c char_x char_y
    rw [List.cons_append, he (text ++ rest), he text]
    rw [he text] at h
    cases go with
    | false => rfl
    | true =>
      simp only [if_true] at h ⊢
      rw [ih x2 y2 h]

theorem intercalate_newline_cons (line l2 : List Nat) (ls : List (List Nat)) :
    List.intercalate [10] (line :: l2 :: ls)
      = line ++ 10 :: List.intercalate [10] (l2 :: ls) := by
  simp [List.intercalate, List.intersperse]

theorem intercalate_newline_single (line : List Nat) :
    List.intercalate [10] [line] = line := by
  simp [List.intercalate, List.intersperse]

/-- A text made of lines without NUL has no NUL. -/
theorem c_str_intercalate (lines : List (List Nat)) (hz : ∀ line ∈ lines, ∀ c ∈ line, c ≠ 0) :
    c_str (List.intercalate [10] lines) = List.intercalate [10] lines := by
  unfold c_str
  rw [List.takeWhile_eq_self_iff]
  intro c hc
  have key : ∀ (ls : List (List Nat)), (∀ line ∈ ls, ∀ c ∈ line, c ≠ 0) →
      ∀ c ∈ List.intercalate [10] ls, c ≠ 0 := by
    intro ls
    induction ls with
    | nil => intro _ c hc; simp [List.intercalate] at hc
    | cons line ls ih =>
      intro hz c hc
      cases ls with
      | nil =>
        rw [intercalate_newline_single] at hc
        exact hz line (List.mem_cons_self _ _) c hc
      | cons l2 ls =>
        rw [intercalate_newline_cons] at hc
        rcases List.mem_append.mp hc with hc | hc
        · exact hz line (List.mem_cons_self _ _) c hc
        · rcases List.mem_cons.mp hc with hc | hc
          · rw [hc]; decide
          · exact ih (fun l hl => hz l (List.mem_cons_of_mem _ hl)) c hc
  simpa using key lines hz c hc

/-- The glyphs of the characters of one line that fits: one every `s` pixels, on the row of
the cursor. -/
theorem glyphs_line (x s : Nat) (chars rest : List Nat) (cx cy : Nat)
    (hn : ∀ c ∈ chars, c ≠ 10) (hfit : cx + chars.length * s < EINK_WIDTH)
    (hy : cy < EINK_HEIGHT) :
    eink_display_text_loop_glyphs x s (chars ++ rest) cx cy =
      ((List.range chars.length).map (fun j => (cx + j * s, cy)) ++
          (eink_display_text_loop_glyphs x s rest (cx + chars.length * s) cy).1,
        (eink_display_text_loop_glyphs x s rest (cx + chars.length * s) cy).2) := by
  induction chars generalizing cx with
  | nil => simp
  | cons c chars ih =>
    have hc : c ≠ 10 := hn c (List.mem_cons_self _ _)
    have hlen : (c :: chars).length = chars.length + 1 := rfl
    rw [hlen, Nat.succ_mul] at hfit
    have hW : EINK_WIDTH = 250 := rfl
    have hu : u16 ((cx : Int) + s) = cx + s := by
      have := u16_of_lt (cx + s) (by omega)
      rw [← this]; congr 1
    rw [List.cons_append, eink_display_text_loop_glyphs]
    simp only [hc, if_false, hu]
    rw [if_neg (show ¬ cx + s ≥ EINK_WIDTH by omega), if_neg (show ¬ cx + s ≥ EINK_WIDTH by omega),
      if_neg (show ¬ cy ≥ EINK_HEIGHT by omega),
      ih (cx + s) (fun c hc => hn c (List.mem_cons_of_mem _ hc)) (by omega)]
    have e1 : cx + s + chars.length * s = cx + (c :: chars).length * s := by
      rw [hlen, Nat.succ_mul]; omega
    rw [e1, hlen, List.range_succ_eq_map, List.map_cons, List.map_map]
    have e2 : (fun j => (cx + s + j * s, cy)) = ((fun j => (cx + j * s, cy)) ∘ Nat.succ) := by
      funext j
      simp only [Function.comp, Nat.succ_mul, Prod.mk.injEq, and_true]
      omega
    rw [e2]
    simp

/-- A newline moves the cursor to the origin `x` of the next line. -/
theorem glyphs_newline (x s : Nat) (rest : List Nat) (cx cy : Nat)
    (hx : x < EINK_WIDTH) (hy : cy + s + 2 < EINK_HEIGHT) :
    eink_display_text_loop_glyphs x s (10 :: rest) cx cy =
      eink_display_text_loop_glyphs x s rest x (cy + s + 2) := by
  have hH : EINK_HEIGHT = 122 := rfl
  have hu : u16 ((cy : Int) + s + 2) = cy + s + 2 := by
    have := u16_of_lt (cy + s + 2) (by omega)
    rw [← this]; congr 1
  rw [eink_display_text_loop_glyphs]
  simp only [if_true, hu]
  rw [if_neg (show ¬ x ≥ EINK_WIDTH by omega), if_neg (show ¬ x ≥ EINK_WIDTH by omega),
    if_neg (show ¬ cy + s + 2 ≥ EINK_HEIGHT by omega)]
  simp

/-- The glyphs of a text whose lines all fit, from the start of line `i`. -/
theorem glyphs_lines (x y s : Nat) (lines : List (List Nat)) (i : Nat) (hne : lines ≠ [])
    (hn : ∀ line ∈ lines, ∀ c ∈ line, c ≠ 10)
    (hfx : ∀ line ∈ lines, x + line.length * s < EINK_WIDTH)
    (hfy : y + (i + (lines.length - 1)) * (s + 2) < EINK_HEIGHT) :
    eink_display_text_loop_glyphs x s (List.intercalate [10] lines) x (y + i * (s + 2)) =
      (text_grid x y s lines i, false) := by
  induction lines generalizing i with
  | nil => exact absurd rfl hne
  | cons line ls ih =>
    have hx : x < EINK_WIDTH :=
      Nat.lt_of_le_of_lt (Nat.le_add_right _ _) (hfx line (List.mem_cons_self _ _))
    have hyi : y + i * (s + 2) < EINK_HEIGHT :=
      Nat.lt_of_le_of_lt (Nat.add_le_add_left (Nat.mul_le_mul_right _ (Nat.le_add_right _ _)) _)
        hfy
    cases ls with
    | nil =>
      rw [intercalate_newline_single]
      have := glyphs_line x s line [] x (y + i * (s + 2))
        (hn line (List.mem_cons_self _ _)) (hfx line (List.mem_cons_self _ _)) hyi
      rw [List.append_nil] at this
      rw [this]
      simp [text_grid, eink_display_text_loop_glyphs]
    | cons l2 ls =>
      have hlen : (line :: l2 :: ls).length - 1 = (l2 :: ls).length - 1 + 1 := rfl
      rw [hlen] at hfy
      have hy1 : y + i * (s + 2) + s + 2 = y + (i + 1) * (s + 2) := by
        rw [Nat.succ_mul]; omega
      have hy2 : y + (i + 1) * (s + 2) < EINK_HEIGHT :=
        Nat.lt_of_le_of_lt (Nat.add_le_add_left (Nat.mul_le_mul_right _ (by omega)) _) hfy
      rw [intercalate_newline_cons,
        glyphs_line x s line _ x (y + i * (s + 2))
          (hn line (List.mem_cons_self _ _)) (hfx line (List.mem_cons_self _ _)) hyi,
        glyphs_newline x s _ _ _ hx (by rw [hy1]; exact hy2), hy1,
        ih (i + 1) (by simp) (fun l hl => hn l (List.mem_cons_of_mem _ hl))
          (fun l hl => hfx l (List.mem_cons_of_mem _ hl))
          (by rw [show i + 1 + ((l2 :: ls).length - 1) = i + ((l2 :: ls).length - 1 + 1) by omega]
              exact hfy)]
      rfl

/-! ## Lemmas: rectangles -/

theorem hline_run_finished (x0 x1 y : Nat) (h0 : x0 < 65536) (h1 : x1 < 65536) :
    (eink_draw_line_run x0 y x1 y).2 = true := by
  rw [hline_run x0 x1 y h0 h1]
  split_ifs <;> rfl

theorem vline_run_finished (x y0 y1 : Nat) (h0 : y0 < 65536) (h1 : y1 < 65536) :
    (eink_draw_line_run x y0 x y1).2 = true := by
  rw [vline_run x y0 y1 h0 h1]
  split_ifs <;> rfl

/-- The outline mode of `eink_draw_rectangle` sets the pixels of its four lines, in the order
top, bottom, left, right. -/
theorem eink_draw_rectangle_outline (s : EinkState) (x y width height color : Nat)
    (h : s.eink_initialized = true) (hx : x < 65536) (hy : y < 65536) :
    eink_draw_rectangle s x y width height color false =
      ((eink_draw_line_points x y (u16 ((x : Int) + width - 1)) y ++
        (eink_draw_line_points x (u16 ((y : Int) + height - 1)) (u16 ((x : Int) + width - 1))
          (u16 ((y : Int) + height - 1)) ++
        (eink_draw_line_points x y x (u16 ((y : Int) + height - 1)) ++
        eink_draw_line_points (u16 ((x : Int) + width - 1)) y (u16 ((x : Int) + width - 1))
          (u16 ((y : Int) + height - 1))))).foldl (plot color) s, ERROR_NONE) := by
  have hxe := u16_lt ((x : Int) + width - 1)
  have hye := u16_lt ((y : Int) + height - 1)
  unfold eink_draw_rectangle
  rw [if_neg (by simp [h]), if_neg (by simp)]
  simp only
  rw [eink_draw_line_eq s _ _ _ _ _ h (hline_run_finished _ _ _ hx hxe),
    eink_draw_line_eq _ _ _ _ _ _ ((foldl_plot_initialized _ _ _).trans h)
      (hline_run_finished _ _ _ hx hxe),
    eink_draw_line_eq _ _ _ _ _ _
      ((foldl_plot_initialized _ _ _).trans ((foldl_plot_initialized _ _ _).trans h))
      (vline_run_finished _ _ _ hy hye),
    eink_draw_line_eq _ _ _ _ _ _
      ((foldl_plot_initialized _ _ _).trans ((foldl_plot_initialized _ _ _).trans
        ((foldl_plot_initialized _ _ _).trans h)))
      (vline_run_finished _ _ _ hy hye)]
  simp only [List.foldl_append]

/-- The loop of `eink_draw_line` plots its starting point first. -/
theorem eink_draw_line_points_start (x0 y0 x1 y1 : Nat) :
    (x0, y0) ∈ eink_draw_line_points x0 y0 x1 y1 := by
  unfold eink_draw_line_points eink_draw_line_run eink_draw_line_fuel
  rw [eink_draw_line_loop_points]
  split_ifs <;> simp

/-- A loop of `eink_draw_line` that leaves through its `break` has plotted the end point. -/
theorem eink_draw_line_loop_points_end (x1 y1 : Nat) (dx dy sx sy : Int) (fuel x0 y0 : Nat)
    (err : Int) (h : (eink_draw_line_loop_points x1 y1 dx dy sx sy fuel x0 y0 err).2 = true) :
    (x1, y1) ∈ (eink_draw_line_loop_points x1 y1 dx dy sx sy fuel x0 y0 err).1 := by
  induction fuel generalizing x0 y0 err with
  | zero => simp [eink_draw_line_loop_points] at h
  | succ fuel ih =>
    rw [eink_draw_line_loop_points] at h ⊢
    by_cases hb : x0 = x1 ∧ y0 = y1
    · rw [if_pos hb]
      simp [hb.1, hb.2]
    · rw [if_neg hb] at h ⊢
      exact List.mem_cons_of_mem _ (ih _ _ _ h)

/-- After a call of `eink_draw_line` whose loop leaves through its `break`, each end point
that is in range and stored in the framebuffer reads as the colour drawn. -/
theorem draw_line_endpoints_stored (s : EinkState) (x0 y0 x1 y1 color : Nat)
    (h : s.eink_initialized = true) (hrun : (eink_draw_line_run x0 y0 x1 y1).2 = true) :
    (x0 < EINK_WIDTH → y0 < EINK_HEIGHT →
      (y0 * EINK_WIDTH + x0) / 8 < s.display_buffer.length →
      eink_get_pixel (eink_draw_line s x0 y0 x1 y1 color).1 x0 y0
        = some (if color = 0 then 0 else 1)) ∧
    (x1 < EINK_WIDTH → y1 < EINK_HEIGHT →
      (y1 * EINK_WIDTH + x1) / 8 < s.display_buffer.length →
      eink_get_pixel (eink_draw_line s x0 y0 x1 y1 color).1 x1 y1
        = some (if color = 0 then 0 else 1)) := by
  rw [eink_draw_line_eq s x0 y0 x1 y1 color h hrun]
  constructor
  · intro hx hy hin
    exact get_pixel_foldl_plot_mem color _ s (x0, y0) x0 y0
      (eink_draw_line_points_start x0 y0 x1 y1) h hx hy hx hy rfl rfl hin
  · intro hx hy hin
    exact get_pixel_foldl_plot_mem color _ s (x1, y1) x1 y1
      (eink_draw_line_loop_points_end _ _ _ _ _ _ _ _ _ _ hrun) h hx hy hx hy rfl rfl hin

/-- The one-pixel filled rectangle at (0, 1) in colour 0: afterwards the pixel (248, 0), which
has the byte index and the bit index of (0, 1), reads as 0 as well. -/
theorem filled_pixel_shared (s : EinkState) (h : s.eink_initialized = true)
    (hlen : s.display_buffer.length = DISPLAY_BUFFER_SIZE) :
    (eink_draw_rectangle s 0 1 1 1 0 true).2 = ERROR_NONE ∧
    eink_get_pixel (eink_draw_rectangle s 0 1 1 1 0 true).1 0 1 = some 0 ∧
    eink_get_pixel (eink_draw_rectangle s 0 1 1 1 0 true).1 248 0 = some 0 := by
  have hpts : (List.range 1).flatMap (fun (i : Nat) => (List.range 1).map
      (fun (j : Nat) => (u16 (((0 : Nat) : Int) + (j : Int)), u16 (((1 : Nat) : Int) + (i : Int)))))
      = [(0, 1)] := by decide
  rw [eink_draw_rectangle_filled s 0 1 1 1 0 h, hpts]
  refine ⟨rfl, ?_, ?_⟩
  · exact get_pixel_foldl_plot_mem 0 _ s (0, 1) 0 1 (by simp) h (by decide)
      (by decide) (by decide) (by decide) rfl rfl (by rw [hlen]; decide)
  · exact get_pixel_foldl_plot_mem 0 _ s (0, 1) 248 0 (by simp) h (by decide)
      (by decide) (by decide) (by decide) (by decide) (by decide) (by rw [hlen]; decide)

/-- The outline of the rectangle of width 2 and height 2 at (0, 1) in colour 0: the pixels
its lines set, and the pixel (248, 0), which has the byte index and the bit index of the
corner (0, 1), reads as 0 afterwards as well. -/
theorem outline_pixel_shared (s : EinkState) (h : s.eink_initialized = true)
    (hlen : s.display_buffer.length = DISPLAY_BUFFER_SIZE) :
    (eink_draw_rectangle s 0 1 2 2 0 false).2 = ERROR_NONE ∧
    (eink_draw_rectangle s 0 1 2 2 0 false).1 =
      [(0, 1), (1, 1), (0, 2), (1, 2), (0, 1), (0, 2), (1, 1), (1, 2)].foldl (plot 0) s ∧
    eink_get_pixel (eink_draw_rectangle s 0 1 2 2 0 false).1 0 1 = some 0 ∧
    eink_get_pixel (eink_draw_rectangle s 0 1 2 2 0 false).1 248 0 = some 0 := by
  have hpts : eink_draw_line_points 0 1 (u16 (((0 : Nat) : Int) + (2 : Nat) - 1)) 1 ++
        (eink_draw_line_points 0 (u16 (((1 : Nat) : Int) + (2 : Nat) - 1))
          (u16 (((0 : Nat) : Int) + (2 : Nat) - 1)) (u16 (((1 : Nat) : Int) + (2 : Nat) - 1)) ++
        (eink_draw_line_points 0 1 0 (u16 (((1 : Nat) : Int) + (2 : Nat) - 1)) ++
        eink_draw_line_points (u16 (((0 : Nat) : Int) + (2 : Nat) - 1)) 1
          (u16 (((0 : Nat) : Int) + (2 : Nat) - 1)) (u16 (((1 : Nat) : Int) + (2 : Nat) - 1))))
      = [(0, 1), (1, 1), (0, 2), (1, 2), (0, 1), (0, 2), (1, 1), (1, 2)] := by decide
  rw [eink_draw_rectangle_outline s 0 1 2 2 0 h (by norm_num) (by norm_num), hpts]
  refine ⟨rfl, rfl, ?_, ?_⟩
  · exact get_pixel_foldl_plot_mem 0 _ s (0, 1) 0 1 (by simp) h (by decide)
      (by decide) (by decide) (by decide) rfl rfl (by rw [hlen]; decide)
  · exact get_pixel_foldl_plot_mem 0 _ s (0, 1) 248 0 (by simp) h (by decide)
      (by decide) (by decide) (by decide) (by decide) (by decide) (by rw [hlen]; decide)

/-! ## Lemmas: the line loop ends -/

/-- The loop of `eink_draw_line` after `a` steps along x and `b` steps along y, with the error
term that belongs to them: with fuel for the steps that are left it reaches its `break`. -/
theorem eink_draw_line_loop_points_finished (x1 y1 xi yi dx dy : Nat) (sx sy : Int)
    (hsx : sx = 1 ∨ sx = -1) (hsy : sy = 1 ∨ sy = -1)
    (hx1 : (x1 : Int) = xi + sx * dx) (hy1 : (y1 : Int) = yi + sy * dy)
    (hxi : xi < 65536) (hyi : yi < 65536) (hx1b : x1 < 65536) (hy1b : y1 < 65536)
    (fuel a b x0 y0 : Nat) (err : Int)
    (ha : a ≤ dx) (hb : b ≤ dy)
    (hx0 : (x0 : Int) = xi + sx * a) (hy0 : (y0 : Int) = yi + sy * b)
    (herr : err = (dx : Int) - dy - a * dy + b * dx)
    (hfuel : (dx - a) + (dy - b) + 1 ≤ fuel) :
    (eink_draw_line_loop_points x1 y1 dx dy sx sy fuel x0 y0 err).2 = true := by
  induction fuel generalizing a b x0 y0 err with
  | zero => omega
  | succ fuel ih =>
    rw [eink_draw_line_loop_points]
    by_cases hbrk : x0 = x1 ∧ y0 = y1
    · rw [if_pos hbrk]
    · rw [if_neg hbrk]
      simp only
      have hab : a < dx ∨ b < dy := by
        by_contra hn
        have ea : a = dx := by omega
        have eb : b = dy := by omega
        apply hbrk
        subst ea eb
        constructor <;> omega
      have hP : (a : Int) * dy ≤ (dx : Int) * dy :=
        mul_le_mul_of_nonneg_right (by exact_mod_cast ha) (by positivity)
      have hQ : (b : Int) * dx ≤ (dy : Int) * dx :=
        mul_le_mul_of_nonneg_right (by exact_mod_cast hb) (by positivity)
      have hxstep : 2 * err > -(dy : Int) → a < dx := by
        intro h2
        by_contra hn
        have ea : a = dx := by omega
        have hb1 : b < dy := by omega
        have hQ1 : ((b : Int) + 1) * dx ≤ (dy : Int) * dx :=
          mul_le_mul_of_nonneg_right (by exact_mod_cast hb1) (by positivity)
        rw [ea] at herr
        nlinarith
      have hystep : 2 * err < (dx : Int) → b < dy := by
        intro h2
        by_contra hn
        have eb : b = dy := by omega
        have ha1 : a < dx := by omega
        have hP1 : ((a : Int) + 1) * dy ≤ (dx : Int) * dy :=
          mul_le_mul_of_nonneg_right (by exact_mod_cast ha1) (by positivity)
        rw [eb] at herr
        nlinarith
      have hsome : 2 * err > -(dy : Int) ∨ 2 * err < (dx : Int) := by
        by_contra hn
        push_neg at hn
        omega
      have hux : 2 * err > -(dy : Int) →
          ((u16 ((x0 : Int) + sx) : Nat) : Int) = xi + sx * (a + 1 : Nat) := by
        intro h1
        have ha1 := hxstep h1
        unfold u16
        rcases hsx with h | h <;> subst h <;> push_cast <;> omega
      have huy : 2 * err < (dx : Int) →
          ((u16 ((y0 : Int) + sy) : Nat) : Int) = yi + sy * (b + 1 : Nat) := by
        intro h2
        have hb1 := hystep h2
        unfold u16
        rcases hsy with h | h <;> subst h <;> push_cast <;> omega
      by_cases h1 : 2 * err > -(dy : Int)
      · have ha1 := hxstep h1
        by_cases h2 : 2 * err < (dx : Int)
        · have hb1 := hystep h2
          simp only [h1, h2, if_true]
          exact ih (a + 1) (b + 1) _ _ _ (by omega) (by omega) (hux h1) (huy h2)
            (by rw [herr]; push_cast; ring) (by omega)
        · simp only [h1, h2, if_true, if_false]
          exact ih (a + 1) b _ _ _ (by omega) hb (hux h1) hy0
            (by rw [herr]; push_cast; ring) (by omega)
      · have h2 : 2 * err < (dx : Int) := by
          rcases hsome with h | h
          · exact absurd h h1
          · exact h
        have hb1 := hystep h2
        simp only [h1, h2, if_true, if_false]
        exact ih a (b + 1) _ _ _ ha (by omega) hx0 (huy h2)
          (by rw [herr]; push_cast; ring) (by omega)

/-- The loop of `eink_draw_line` reaches its `break` for every pair of `uint16_t` end
points. -/
theorem eink_draw_line_run_finished (x0 y0 x1 y1 : Nat) (hx0 : x0 < 65536) (hy0 : y0 < 65536)
    (hx1 : x1 < 65536) (hy1 : y1 < 65536) :
    (eink_draw_line_run x0 y0 x1 y1).2 = true := by
  unfold eink_draw_line_run eink_draw_line_fuel
  refine eink_draw_line_loop_points_finished x1 y1 x0 y0 _ _ _ _ ?_ ?_ ?_ ?_ hx0 hy0 hx1 hy1
    _ 0 0 x0 y0 _ (Nat.zero_le _) (Nat.zero_le _) ?_ ?_ ?_ ?_
  · split_ifs <;> simp
  · split_ifs <;> simp
  · split_ifs <;> omega
  · split_ifs <;> omega
  · simp
  · simp
  · push_cast; ring
  · omega

/-- After `eink_draw_line` on an initialised driver, each end point that is in range and
stored in the framebuffer reads as the colour drawn. -/
theorem draw_line_endpoints_in_buffer (s : EinkState) (x0 y0 x1 y1 color : Nat)
    (h : s.eink_initialized = true)
    (hx0 : x0 < EINK_WIDTH) (hy0 : y0 < EINK_HEIGHT)
    (hx1 : x1 < EINK_WIDTH) (hy1 : y1 < EINK_HEIGHT)
    (hin0 : (y0 * EINK_WIDTH + x0) / 8 < s.display_buffer.length)
    (hin1 : (y1 * EINK_WIDTH + x1) / 8 < s.display_buffer.length) :
    eink_get_pixel (eink_draw_line s x0 y0 x1 y1 color).1 x0 y0
      = some (if color = 0 then 0 else 1) ∧
    eink_get_pixel (eink_draw_line s x0 y0 x1 y1 color).1 x1 y1
      = some (if color = 0 then 0 else 1) := by
  have hW : EINK_WIDTH = 250 := rfl
  have hH : EINK_HEIGHT = 122 := rfl
  have hrun := eink_draw_line_run_finished x0 y0 x1 y1 (by omega) (by omega) (by omega)
    (by omega)
  obtain ⟨e0, e1⟩ := draw_line_endpoints_stored s x0 y0 x1 y1 color h hrun
  exact ⟨e0 hx0 hy0 hin0, e1 hx1 hy1 hin1⟩

/-! ## Lemmas: calls before `eink_init` -/

/-- What the status-returning operations of the driver do while it is not initialised: all
of them return without touching the state; seven return `ERROR_INIT_FAILED`, and
`eink_display_text` returns `ERROR_INVALID_PARAM`. -/
theorem calls_before_init (s : EinkState) (h : s.eink_initialized = false)
    (x y x1 y1 width height color font_size mode : Nat) (filled : Bool)
    (text : Option (List Nat)) :
    eink_clear s = (s, ERROR_INIT_FAILED) ∧
    eink_set_pixel s x y color = (s, ERROR_INIT_FAILED) ∧
    eink_draw_line s x y x1 y1 color = (s, ERROR_INIT_FAILED) ∧
    eink_draw_rectangle s x y width height color filled = (s, ERROR_INIT_FAILED) ∧
    eink_refresh s mode = (s, ERROR_INIT_FAILED) ∧
    eink_sleep s = (s, ERROR_INIT_FAILED) ∧
    eink_wakeup s = (s, ERROR_INIT_FAILED) ∧
    eink_display_text s x y text font_size color = (s, ERROR_INVALID_PARAM) := by
  refine ⟨?_, ?_, ?_, ?_, ?_, ?_, ?_, ?_⟩
  · unfold eink_clear; rw [if_pos h]
  · unfold eink_set_pixel; rw [if_pos h]
  · unfold eink_draw_line; rw [if_pos h]
  · unfold eink_draw_rectangle; rw [if_pos h]
  · unfold eink_refresh; rw [if_pos h]
  · unfold eink_sleep; rw [if_pos h]
  · unfold eink_wakeup; rw [if_pos h]
  · unfold eink_display_text; rw [if_pos (Or.inl h)]

/-! ## Lemmas: shared bits, the RAM window, empty rectangles -/

/-- Setting the pixel (0, 1) to colour 0 makes the pixel (248, 0) read as 0 as well. -/
theorem set_pixel_shared_bit (s : EinkState) (h : s.eink_initialized = true)
    (hlen : s.display_buffer.length = DISPLAY_BUFFER_SIZE) :
    (eink_set_pixel s 0 1 0).2 = ERROR_NONE ∧
    eink_get_pixel (eink_set_pixel s 0 1 0).1 248 0 = some 0 := by
  refine ⟨(set_get_pixel_inside s 0 1 0 h (by decide) (by decide)
    (by rw [hlen]; decide)).1, ?_⟩
  exact get_pixel_plot_same 0 s (0, 1) 248 0 h (by decide) (by decide) (by decide) (by decide)
    (by decide) (by decide) (by rw [hlen]; decide)

/-- The bytes `eink_refresh` puts on the bus up to the write-RAM command, and the number of
data bytes it sends after that command. -/
theorem refresh_window_and_stream (s : EinkState) (mode : Nat) (h : s.eink_initialized = true)
    (hlen : s.display_buffer.length = DISPLAY_BUFFER_SIZE) :
    (bus_bytes false (refresh_events s mode)).take 14 =
      [(false, 0x44), (true, 0x00), (true, 0x1F),
       (false, 0x45), (true, 0x00), (true, 0x00), (true, 0x79), (true, 0x00),
       (false, 0x4E), (true, 0x00),
       (false, 0x4F), (true, 0x00), (true, 0x00),
       (false, 0x24)] ∧
    (((bus_bytes false (refresh_events s mode)).drop 14).takeWhile
      (fun p => p.1 = true)).length = 3812 := by
  rw [bus_bytes_refresh s mode false h]
  constructor
  · rfl
  · have e : ∀ (l r : List (Bool × Nat)), ([(false, 0x44), (true, 0x00), (true, 0x1F),
        (false, 0x45), (true, 0x00), (true, 0x00), (true, 0x79), (true, 0x00),
        (false, 0x4E), (true, 0x00), (false, 0x4F), (true, 0x00), (true, 0x00),
        (false, 0x24)] ++ l).drop 14 = l := fun l r => rfl
    rw [e _ []]
    have hk := takeWhile_data (s.display_buffer.take 3812) 0x32
      ((refresh_lut s mode).map (fun b => (true, b)) ++
        [(false, 0x22), (true, 0xC4), (false, 0x20), (false, 0xFF)])
    have hl := congrArg List.length hk
    rw [List.length_map] at hl
    rw [hl, List.length_take, hlen]
    decide

/-- The filled mode of `eink_draw_rectangle` with width 0 or height 0 sets no pixel. -/
theorem eink_draw_rectangle_filled_empty (s : EinkState) (x y width height color : Nat)
    (h : s.eink_initialized = true) (hz : width = 0 ∨ height = 0) :
    eink_draw_rectangle s x y width height color true = (s, ERROR_NONE) := by
  rw [eink_draw_rectangle_filled s x y width height color h]
  have he : (List.range height).flatMap (fun (i : Nat) => (List.range width).map
      (fun (j : Nat) => (u16 ((x : Int) + (j : Int)), u16 ((y : Int) + (i : Int))))) = [] := by
    rw [List.flatMap_eq_nil_iff]
    intro i hi
    rcases hz with hz | hz
    · subst hz
      rfl
    · subst hz
      simp at hi
  rw [he]
  rfl

/-- The outline mode of `eink_draw_rectangle(5, 5, 0, 0, 0, false)`: the four lines run from
5 back to 4 and set four pixels. -/
theorem outline_empty_sets_pixels (s : EinkState) (h : s.eink_initialized = true)
    (hlen : s.display_buffer.length = DISPLAY_BUFFER_SIZE) :
    (eink_draw_rectangle s 5 5 0 0 0 false).2 = ERROR_NONE ∧
    (eink_draw_rectangle s 5 5 0 0 0 false).1 =
      [(5, 5), (4, 5), (5, 4), (4, 4), (5, 5), (5, 4), (4, 5), (4, 4)].foldl (plot 0) s ∧
    eink_get_pixel (eink_draw_rectangle s 5 5 0 0 0 false).1 4 4 = some 0 := by
  have hpts : eink_draw_line_points 5 5 (u16 (((5 : Nat) : Int) + (0 : Nat) - 1)) 5 ++
        (eink_draw_line_points 5 (u16 (((5 : Nat) : Int) + (0 : Nat) - 1))
          (u16 (((5 : Nat) : Int) + (0 : Nat) - 1)) (u16 (((5 : Nat) : Int) + (0 : Nat) - 1)) ++
        (eink_draw_line_points 5 5 5 (u16 (((5 : Nat) : Int) + (0 : Nat) - 1)) ++
        eink_draw_line_points (u16 (((5 : Nat) : Int) + (0 : Nat) - 1)) 5
          (u16 (((5 : Nat) : Int) + (0 : Nat) - 1)) (u16 (((5 : Nat) : Int) + (0 : Nat) - 1))))
      = [(5, 5), (4, 5), (5, 4), (4, 4), (5, 5), (5, 4), (4, 5), (4, 4)] := by decide
  rw [eink_draw_rectangle_outline s 5 5 0 0 0 h (by norm_num) (by norm_num), hpts]
  refine ⟨rfl, rfl, ?_⟩
  exact get_pixel_foldl_plot_mem 0 _ s (4, 4) 4 4 (by simp) h (by decide)
    (by decide) (by decide) (by decide) rfl rfl (by rw [hlen]; decide)

/-- The call `eink_display_text(5, 5, "A", 2, 0)` draws its one glyph as the outline of a
rectangle of width 0 and height 0. -/
theorem display_text_size_two (s : EinkState) (h : s.eink_initialized = true) :
    eink_display_text s 5 5 (some (lit "A")) 2 0
      = ((eink_draw_rectangle s 5 5 0 0 0 false).1, ERROR_NONE) := by
  rw [eink_display_text_eq s 5 5 (lit "A") 2 0 h]
  have hg : eink_display_text_glyphs 5 5 (lit "A") 2 = [(5, 5)] := by decide
  rw [hg]
  rfl

/-- The outline of a rectangle of width 0 at the left edge: `x + width - 1` wraps to 65535,
so that the top line runs along the whole row and sets every pixel of it. -/
theorem outline_zero_width_sets_row (s : EinkState) (h : s.eink_initialized = true)
    (hlen : s.display_buffer.length = DISPLAY_BUFFER_SIZE) (px : Nat) (hpx : px < EINK_WIDTH) :
    u16 (((0 : Nat) : Int) + (0 : Nat) - 1) = 65535 ∧
    (eink_draw_rectangle s 0 5 0 1 0 false).2 = ERROR_NONE ∧
    eink_get_pixel (eink_draw_rectangle s 0 5 0 1 0 false).1 px 5 = some 0 := by
  have hW : EINK_WIDTH = 250 := rfl
  have hxe : u16 (((0 : Nat) : Int) + (0 : Nat) - 1) = 65535 := by decide
  have hye : u16 (((5 : Nat) : Int) + (1 : Nat) - 1) = 5 := by decide
  rw [eink_draw_rectangle_outline s 0 5 0 1 0 h (by norm_num) (by norm_num), hxe, hye]
  refine ⟨rfl, rfl, ?_⟩
  have hmem : (px, 5) ∈ eink_draw_line_points 0 5 65535 5 := by
    unfold eink_draw_line_points
    rw [hline_run 0 65535 5 (by norm_num) (by norm_num), if_pos (by norm_num)]
    exact List.mem_map.mpr ⟨px, List.mem_range'_1.mpr ⟨Nat.zero_le _, by omega⟩, rfl⟩
  have hin : (5 * EINK_WIDTH + px) / 8 < s.display_buffer.length := by
    rw [hlen]
    have : (5 * EINK_WIDTH + px) / 8 ≤ (5 * 250 + 249) / 8 :=
      Nat.div_le_div_right (by omega)
    exact Nat.lt_of_le_of_lt this (by decide)
  have hmem2 := List.mem_append_left
    (eink_draw_line_points 0 5 65535 5 ++
      (eink_draw_line_points 0 5 0 5 ++ eink_draw_line_points 65535 5 65535 5)) hmem
  revert hmem2
  generalize eink_draw_line_points 0 5 65535 5 ++
    (eink_draw_line_points 0 5 65535 5 ++
      (eink_draw_line_points 0 5 0 5 ++ eink_draw_line_points 65535 5 65535 5)) = pts
  intro hmem2
  have h5 : 5 < EINK_HEIGHT := by decide
  exact get_pixel_foldl_plot_mem 0 pts s (px, 5) px 5 hmem2 h hpx h5 hpx h5 rfl rfl hin

/-- What `eink_get_pixel` returns depends on the driver only through the initialised flag
and the framebuffer. -/
theorem get_pixel_buffer_eq (s t : EinkState) (x y : Nat)
    (hi : s.eink_initialized = t.eink_initialized) (hb : s.display_buffer = t.display_buffer) :
    eink_get_pixel s x y = eink_get_pixel t x y := by
  unfold eink_get_pixel
  rw [hi, hb]

/-! ## Lemmas: the status text -/

theorem c_str_ne_zero (text : List Nat) : ∀ c ∈ c_str text, c ≠ 0 := by
  intro c hc
  have := List.mem_takeWhile_imp hc
  simpa using this

theorem c_str_append_zeros (l : List Nat) (k : Nat) (hl : ∀ c ∈ l, c ≠ 0) (hk : 0 < k) :
    c_str (l ++ List.replicate k 0) = l := by
  unfold c_str
  obtain ⟨k, rfl⟩ : ∃ j, k = j + 1 := ⟨k - 1, by omega⟩
  rw [List.replicate_succ, List.takeWhile_append_of_pos (fun c hc => by simpa using hl c hc)]
  simp

/-- The 64 bytes of `status_text` after the two statements of `display_set_status`. -/
theorem status_text_assign_eq (status_text text : List Nat) (hlen : status_text.length = 64) :
    status_text_assign status_text text
      = (c_str text).take 63 ++ List.replicate (64 - min (c_str text).length 63) 0 := by
  unfold status_text_assign strncpy
  have h63 : ((c_str text).take 63 ++ List.replicate (63 - (c_str text).length) 0).length
      = 63 := by
    rw [List.length_append, List.length_take, List.length_replicate]
    omega
  obtain ⟨z, hz⟩ : ∃ z, status_text.drop 63 = [z] := by
    have hd : (status_text.drop 63).length = 1 := by rw [List.length_drop, hlen]
    match hm : status_text.drop 63, hd with
    | [z], _ => exact ⟨z, rfl⟩
  rw [hz, List.set_append_right _ _ (by rw [h63]), h63]
  have e : 64 - min (c_str text).length 63 = (63 - (c_str text).length) + 1 := by omega
  rw [e, List.replicate_succ', ← List.append_assoc]
  rfl

theorem welcome_state_status_length : welcome_state.status_text.length = 64 := by
  have h0 : ¬ (eink_init (display_power_on (fun _ => false) (lit "May 28 2025")).eink).2 ≠ 0 := by
    rw [(eink_init_initialized _).1]; decide
  unfold welcome_state display_init
  simp only []
  rw [if_neg h0]
  rfl

/-! ## Lemmas: the steps of the line loop -/

/-- One iteration of the loop of `eink_draw_line` that does not leave, after `a` steps along x
and `b` steps along y: a step along x is only taken while x has not arrived, likewise for y,
one of the two is taken, and the coordinate stepped stays between the two end points. -/
theorem eink_draw_line_step_facts (x1 y1 xi yi dx dy : Nat) (sx sy : Int)
    (hsx : sx = 1 ∨ sx = -1) (hsy : sy = 1 ∨ sy = -1)
    (hx1 : (x1 : Int) = xi + sx * dx) (hy1 : (y1 : Int) = yi + sy * dy)
    (hxi : xi < 65536) (hyi : yi < 65536) (hx1b : x1 < 65536) (hy1b : y1 < 65536)
    (a b x0 y0 : Nat) (err : Int)
    (ha : a ≤ dx) (hb : b ≤ dy)
    (hx0 : (x0 : Int) = xi + sx * a) (hy0 : (y0 : Int) = yi + sy * b)
    (herr : err = (dx : Int) - dy - a * dy + b * dx)
    (hbrk : ¬ (x0 = x1 ∧ y0 = y1)) :
    (2 * err > -(dy : Int) → a < dx ∧ 0 ≤ (x0 : Int) + sx ∧ (x0 : Int) + sx ≤ 65535 ∧
      ((u16 ((x0 : Int) + sx) : Nat) : Int) = xi + sx * (a + 1 : Nat)) ∧
    (2 * err < (dx : Int) → b < dy ∧ 0 ≤ (y0 : Int) + sy ∧ (y0 : Int) + sy ≤ 65535 ∧
      ((u16 ((y0 : Int) + sy) : Nat) : Int) = yi + sy * (b + 1 : Nat)) ∧
    (2 * err > -(dy : Int) ∨ 2 * err < (dx : Int)) := by
  have hab : a < dx ∨ b < dy := by
    by_contra hn
    have ea : a = dx := by omega
    have eb : b = dy := by omega
    apply hbrk
    subst ea eb
    constructor <;> omega
  have hxstep : 2 * err > -(dy : Int) → a < dx := by
    intro h2
    by_contra hn
    have ea : a = dx := by omega
    have hb1 : b < dy := by omega
    have hQ1 : ((b : Int) + 1) * dx ≤ (dy : Int) * dx :=
      mul_le_mul_of_nonneg_right (by exact_mod_cast hb1) (by positivity)
    rw [ea] at herr
    nlinarith
  have hystep : 2 * err < (dx : Int) → b < dy := by
    intro h2
    by_contra hn
    have eb : b = dy := by omega
    have ha1 : a < dx := by omega
    have hP1 : ((a : Int) + 1) * dy ≤ (dx : Int) * dy :=
      mul_le_mul_of_nonneg_right (by exact_mod_cast ha1) (by positivity)
    rw [eb] at herr
    nlinarith
  refine ⟨?_, ?_, ?_⟩
  · intro h1
    have ha1 := hxstep h1
    refine ⟨ha1, ?_, ?_, ?_⟩
    · rcases hsx with h | h <;> subst h <;> omega
    · rcases hsx with h | h <;> subst h <;> omega
    · unfold u16
      rcases hsx with h | h <;> subst h <;> push_cast <;> omega
  · intro h2
    have hb1 := hystep h2
    refine ⟨hb1, ?_, ?_, ?_⟩
    · rcases hsy with h | h <;> subst h <;> omega
    · rcases hsy with h | h <;> subst h <;> omega
    · unfold u16
      rcases hsy with h | h <;> subst h <;> push_cast <;> omega
  · by_contra hn
    push_neg at hn
    omega

theorem getLast?_cons_of_getLast? {α : Type} (x y : α) (l : List α)
    (h : l.getLast? = some y) : (x :: l).getLast? = some y := by
  cases l with
  | nil => simp at h
  | cons z l => rw [List.getLast?_cons_cons]; exact h

/-- The loop of `eink_draw_line` after `a` steps along x and `b` steps along y, for end
points of `uint16_t`: every value it computes is within 262140 in absolute value, no
assignment wraps around, the last pixel it sets is the end point, and every pixel it sets
is a number of steps away from the starting point that is at most the distance of the end
point along each axis. -/
theorem eink_draw_line_loop_run_facts (x1 y1 xi yi dx dy : Nat) (sx sy : Int)
    (hsx : sx = 1 ∨ sx = -1) (hsy : sy = 1 ∨ sy = -1)
    (hx1 : (x1 : Int) = xi + sx * dx) (hy1 : (y1 : Int) = yi + sy * dy)
    (hxi : xi < 65536) (hyi : yi < 65536) (hx1b : x1 < 65536) (hy1b : y1 < 65536)
    (hdx : dx ≤ 65535) (hdy : dy ≤ 65535)
    (fuel a b x0 y0 : Nat) (err : Int)
    (ha : a ≤ dx) (hb : b ≤ dy)
    (hx0 : (x0 : Int) = xi + sx * a) (hy0 : (y0 : Int) = yi + sy * b)
    (herr : err = (dx : Int) - dy - a * dy + b * dx)
    (hlo : -2 * (dy : Int) ≤ err) (hhi : err ≤ 2 * (dx : Int))
    (hfuel : (dx - a) + (dy - b) + 1 ≤ fuel) :
    eink_draw_line_loop_checked 262140 x1 y1 dx dy sx sy fuel x0 y0 err = true ∧
    (eink_draw_line_loop_points x1 y1 dx dy sx sy fuel x0 y0 err).1.getLast? = some (x1, y1) ∧
    ∀ p ∈ (eink_draw_line_loop_points x1 y1 dx dy sx sy fuel x0 y0 err).1,
      ∃ a1 b1 : Nat, a1 ≤ dx ∧ b1 ≤ dy ∧ (p.1 : Int) = xi + sx * a1 ∧
        (p.2 : Int) = yi + sy * b1 := by
  induction fuel generalizing a b x0 y0 err with
  | zero => omega
  | succ fuel ih =>
    rw [eink_draw_line_loop_checked, eink_draw_line_loop_points]
    by_cases hbrk : x0 = x1 ∧ y0 = y1
    · rw [if_pos hbrk, if_pos hbrk]
      refine ⟨rfl, by simp [hbrk.1, hbrk.2], ?_⟩
      intro p hp
      rw [List.mem_singleton] at hp
      subst hp
      exact ⟨a, b, ha, hb, hx0, hy0⟩
    · rw [if_neg hbrk, if_neg hbrk]
      obtain ⟨fx, fy, fsome⟩ := eink_draw_line_step_facts x1 y1 xi yi dx dy sx sy hsx hsy
        hx1 hy1 hxi hyi hx1b hy1b a b x0 y0 err ha hb hx0 hy0 herr hbrk
      have hhere : ∃ a1 b1 : Nat, a1 ≤ dx ∧ b1 ≤ dy ∧ (((x0, y0) : Nat × Nat).1 : Int)
          = xi + sx * a1 ∧ (((x0, y0) : Nat × Nat).2 : Int) = yi + sy * b1 :=
        ⟨a, b, ha, hb, hx0, hy0⟩
      by_cases h1 : 2 * err > -(dy : Int)
      · obtain ⟨ha1, hx_lo, hx_hi, hux⟩ := fx h1
        by_cases h2 : 2 * err < (dx : Int)
        · obtain ⟨hb1, hy_lo, hy_hi, huy⟩ := fy h2
          obtain ⟨r1, r2, r3⟩ := ih (a + 1) (b + 1) (u16 ((x0 : Int) + sx))
            (u16 ((y0 : Int) + sy)) (err - dy + dx) (by omega) (by omega) hux huy
            (by rw [herr]; push_cast; ring) (by omega) (by omega) (by omega)
          simp only [h1, h2, if_true]
          refine ⟨?_, getLast?_cons_of_getLast? _ _ _ r2, ?_⟩
          · simp only [Bool.and_eq_true, decide_eq_true_eq]
            exact ⟨⟨⟨by omega, by omega⟩, by omega⟩, r1⟩
          · intro p hp
            rcases List.mem_cons.mp hp with hp | hp
            · rw [hp]; exact hhere
            · exact r3 p hp
        · obtain ⟨r1, r2, r3⟩ := ih (a + 1) b (u16 ((x0 : Int) + sx)) y0 (err - dy)
            (by omega) hb hux hy0 (by rw [herr]; push_cast; ring) (by omega) (by omega)
            (by omega)
          simp only [h1, h2, if_true, if_false]
          refine ⟨?_, getLast?_cons_of_getLast? _ _ _ r2, ?_⟩
          · simp only [Bool.and_eq_true, decide_eq_true_eq]
            exact ⟨⟨⟨by omega, by omega⟩, trivial⟩, r1⟩
          · intro p hp
            rcases List.mem_cons.mp hp with hp | hp
            · rw [hp]; exact hhere
            · exact r3 p hp
      · have h2 : 2 * err < (dx : Int) := by
          rcases fsome with h | h
          · exact absurd h h1
          · exact h
        obtain ⟨hb1, hy_lo, hy_hi, huy⟩ := fy h2
        obtain ⟨r1, r2, r3⟩ := ih a (b + 1) x0 (u16 ((y0 : Int) + sy)) (err + dx)
          ha (by omega) hx0 huy (by rw [herr]; push_cast; ring) (by omega) (by omega)
          (by omega)
        simp only [h1, h2, if_true, if_false]
        refine ⟨?_, getLast?_cons_of_getLast? _ _ _ r2, ?_⟩
        · simp only [Bool.and_eq_true, decide_eq_true_eq]
          exact ⟨⟨⟨by omega, trivial⟩, by omega⟩, r1⟩
        · intro p hp
          rcases List.mem_cons.mp hp with hp | hp
          · rw [hp]; exact hhere
          · exact r3 p hp

/-- The loop of `eink_draw_line` for a line that is at least as long along x as along y:
every iteration but the last steps along x, so that the loop sets one pixel for each of the
x positions left. -/
theorem eink_draw_line_loop_points_length (x1 y1 xi yi dx dy : Nat) (sx sy : Int)
    (hsx : sx = 1 ∨ sx = -1) (hsy : sy = 1 ∨ sy = -1)
    (hx1 : (x1 : Int) = xi + sx * dx) (hy1 : (y1 : Int) = yi + sy * dy)
    (hxi : xi < 65536) (hyi : yi < 65536) (hx1b : x1 < 65536) (hy1b : y1 < 65536)
    (hmaj : dy ≤ dx)
    (fuel a b x0 y0 : Nat) (err P Q : Int)
    (ha : a ≤ dx) (hb : b ≤ dy)
    (hx0 : (x0 : Int) = xi + sx * a) (hy0 : (y0 : Int) = yi + sy * b)
    (hP : P = (a : Int) * dy) (hQ : Q = (b : Int) * dx)
    (herr : err = (dx : Int) - dy - P + Q)
    (hK1 : 2 * Q - dx < 2 * P) (hK2 : 2 * P ≤ 2 * Q + dx)
    (hK3 : dy = dx → 2 * P < 2 * Q + dx)
    (hfuel : (dx - a) + (dy - b) + 1 ≤ fuel) :
    (eink_draw_line_loop_points x1 y1 dx dy sx sy fuel x0 y0 err).1.length = dx - a + 1 := by
  induction fuel generalizing a b x0 y0 err P Q with
  | zero => omega
  | succ fuel ih =>
    rw [eink_draw_line_loop_points]
    by_cases hbrk : x0 = x1 ∧ y0 = y1
    · rw [if_pos hbrk]
      have ea : a = dx := by
        have hx := hbrk.1
        rcases hsx with h | h <;> subst h <;> omega
      rw [ea]
      simp
    · rw [if_neg hbrk]
      have herr' : err = (dx : Int) - dy - a * dy + b * dx := by rw [herr, hP, hQ]
      obtain ⟨fx, fy, -⟩ := eink_draw_line_step_facts x1 y1 xi yi dx dy sx sy hsx hsy
        hx1 hy1 hxi hyi hx1b hy1b a b x0 y0 err ha hb hx0 hy0 herr' hbrk
      have h1 : 2 * err > -(dy : Int) := by
        by_cases hd : dy = dx
        · have := hK3 hd
          omega
        · omega
      obtain ⟨ha1, -, -, hux⟩ := fx h1
      have hP1 : P + dy = ((a + 1 : Nat) : Int) * dy := by rw [hP]; push_cast; ring
      by_cases h2 : 2 * err < (dx : Int)
      · obtain ⟨hb1, -, -, huy⟩ := fy h2
        have hQ1 : Q + dx = ((b + 1 : Nat) : Int) * dx := by rw [hQ]; push_cast; ring
        simp only [h1, h2, if_true, List.length_cons]
        rw [ih (a + 1) (b + 1) _ _ _ (P + dy) (Q + dx) (by omega) (by omega) hux huy hP1 hQ1
          (by omega) (by omega) (by omega) (by intro hd; have := hK3 hd; omega) (by omega)]
        omega
      · simp only [h1, h2, if_true, if_false, List.length_cons]
        rw [ih (a + 1) b _ _ _ (P + dy) Q (by omega) hb hux hy0 hP1 hQ (by omega) (by omega)
          (by omega) (by intro hd; omega) (by omega)]
        omega

/-- The loop of `eink_draw_line` with the roles of x and y exchanged sets the pixels with
their coordinates exchanged. -/
theorem eink_draw_line_loop_points_swap (x1 y1 : Nat) (dx dy sx sy : Int)
    (fuel x0 y0 : Nat) (err : Int) :
    eink_draw_line_loop_points y1 x1 dy dx sy sx fuel y0 x0 (-err) =
      ((eink_draw_line_loop_points x1 y1 dx dy sx sy fuel x0 y0 err).1.map Prod.swap,
        (eink_draw_line_loop_points x1 y1 dx dy sx sy fuel x0 y0 err).2) := by
  induction fuel generalizing x0 y0 err with
  | zero => rfl
  | succ fuel ih =>
    rw [eink_draw_line_loop_points, eink_draw_line_loop_points]
    by_cases hbrk : x0 = x1 ∧ y0 = y1
    · rw [if_pos hbrk, if_pos ⟨hbrk.2, hbrk.1⟩]
      rfl
    · rw [if_neg hbrk, if_neg (fun h => hbrk ⟨h.2, h.1⟩)]
      have c1 : (2 * -err > -dx) ↔ (2 * err < dx) := by constructor <;> intro h <;> omega
      have c2 : (2 * -err < dy) ↔ (2 * err > -dy) := by constructor <;> intro h <;> omega
      simp only [c1, c2]
      by_cases h1 : 2 * err > -dy
      · by_cases h2 : 2 * err < dx
        · simp only [h1, h2, if_true]
          rw [show -err - dx + dy = -(err - dy + dx) by ring, ih]
          rfl
        · simp only [h1, h2, if_true, if_false]
          rw [show -err + dy = -(err - dy) by ring, ih]
          rfl
      · by_cases h2 : 2 * err < dx
        · simp only [h1, h2, if_true, if_false]
          rw [show -err - dx = -(err + dx) by ring, ih]
          rfl
        · simp only [h1, h2, if_false]
          rw [ih]
          rfl

theorem display_buffer_update_hang (s : EinkState) (i : Nat) (f : Nat → Nat) :
    (display_buffer_update s i f).hang = s.hang := by
  unfold display_buffer_update
  cases s.display_buffer[i]? with
  | none => rfl
  | some b => rfl

theorem foldl_plot_hang (color : Nat) (l : List (Nat × Nat)) (s : EinkState) :
    (l.foldl (plot color) s).hang = s.hang := by
  induction l generalizing s with
  | nil => rfl
  | cons p l ih =>
    rw [List.foldl_cons, ih, plot_eq]
    split_ifs
    · rfl
    · exact display_buffer_update_hang _ _ _

/-- The run of `eink_draw_line` between two `uint16_t` end points: the arithmetic stays
within 262140 in absolute value and does not wrap around, the last pixel set is the end
point, and every pixel set lies in the bounding box of the end points. -/
theorem eink_draw_line_run_facts (x0 y0 x1 y1 : Nat) (hx0 : x0 < 65536) (hy0 : y0 < 65536)
    (hx1 : x1 < 65536) (hy1 : y1 < 65536) :
    eink_draw_line_checked 262140 x0 y0 x1 y1 = true ∧
    (eink_draw_line_points x0 y0 x1 y1).getLast? = some (x1, y1) ∧
    ∀ p ∈ eink_draw_line_points x0 y0 x1 y1,
      min x0 x1 ≤ p.1 ∧ p.1 ≤ max x0 x1 ∧ min y0 y1 ≤ p.2 ∧ p.2 ≤ max y0 y1 := by
  have hsx : (if x0 < x1 then (1 : Int) else -1) = 1 ∨ (if x0 < x1 then (1 : Int) else -1) = -1 := by
    split_ifs <;> simp
  have hsy : (if y0 < y1 then (1 : Int) else -1) = 1 ∨ (if y0 < y1 then (1 : Int) else -1) = -1 := by
    split_ifs <;> simp
  have hex : (x1 : Int) = x0 + (if x0 < x1 then (1 : Int) else -1)
      * (((x1 : Int) - x0).natAbs : Nat) := by split_ifs <;> omega
  have hey : (y1 : Int) = y0 + (if y0 < y1 then (1 : Int) else -1)
      * (((y1 : Int) - y0).natAbs : Nat) := by split_ifs <;> omega
  obtain ⟨r1, r2, r3⟩ := eink_draw_line_loop_run_facts x1 y1 x0 y0 ((x1 : Int) - x0).natAbs
    ((y1 : Int) - y0).natAbs _ _ hsx hsy hex hey hx0 hy0 hx1 hy1 (by omega) (by omega)
    (eink_draw_line_fuel x0 y0 x1 y1) 0 0 x0 y0
    ((((x1 : Int) - x0).natAbs : Int) - (((y1 : Int) - y0).natAbs : Int))
    (Nat.zero_le _) (Nat.zero_le _) (by simp) (by simp) (by push_cast; ring) (by omega)
    (by omega) (by unfold eink_draw_line_fuel; omega)
  refine ⟨?_, r2, ?_⟩
  · unfold eink_draw_line_checked
    rw [Bool.and_eq_true, decide_eq_true_eq]
    exact ⟨by omega, r1⟩
  · intro p hp
    obtain ⟨a1, b1, ha1, hb1, hpx, hpy⟩ := r3 p hp
    have hmin : ∀ u v : Nat, min u v ≤ u ∧ min u v ≤ v ∧ (min u v = u ∨ min u v = v) := by
      intro u v; omega
    have hmax : ∀ u v : Nat, u ≤ max u v ∧ v ≤ max u v ∧ (max u v = u ∨ max u v = v) := by
      intro u v; omega
    have mx := hmin x0 x1
    have Mx := hmax x0 x1
    have my := hmin y0 y1
    have My := hmax y0 y1
    refine ⟨?_, ?_, ?_, ?_⟩
    · revert hpx; split_ifs <;> intro hpx <;> omega
    · revert hpx; split_ifs <;> intro hpx <;> omega
    · revert hpy; split_ifs <;> intro hpy <;> omega
    · revert hpy; split_ifs <;> intro hpy <;> omega

/-- The run of `eink_draw_line` between two `uint16_t` end points sets one pixel more than
the larger of the two distances between the end points along the axes. -/
theorem eink_draw_line_points_length (x0 y0 x1 y1 : Nat) (hx0 : x0 < 65536) (hy0 : y0 < 65536)
    (hx1 : x1 < 65536) (hy1 : y1 < 65536) :
    (eink_draw_line_points x0 y0 x1 y1).length
      = max ((x1 : Int) - x0).natAbs ((y1 : Int) - y0).natAbs + 1 := by
  have hsx : (if x0 < x1 then (1 : Int) else -1) = 1 ∨ (if x0 < x1 then (1 : Int) else -1) = -1 := by
    split_ifs <;> simp
  have hsy : (if y0 < y1 then (1 : Int) else -1) = 1 ∨ (if y0 < y1 then (1 : Int) else -1) = -1 := by
    split_ifs <;> simp
  have hex : (x1 : Int) = x0 + (if x0 < x1 then (1 : Int) else -1)
      * (((x1 : Int) - x0).natAbs : Nat) := by split_ifs <;> omega
  have hey : (y1 : Int) = y0 + (if y0 < y1 then (1 : Int) else -1)
      * (((y1 : Int) - y0).natAbs : Nat) := by split_ifs <;> omega
  unfold eink_draw_line_points eink_draw_line_run
  by_cases hmaj : ((y1 : Int) - y0).natAbs ≤ ((x1 : Int) - x0).natAbs
  · rw [Nat.max_eq_left hmaj]
    by_cases hpos : 0 < ((x1 : Int) - x0).natAbs
    · rw [eink_draw_line_loop_points_length x1 y1 x0 y0 _ _ _ _ hsx hsy hex hey hx0 hy0 hx1 hy1
        hmaj _ 0 0 x0 y0 _ 0 0 (Nat.zero_le _) (Nat.zero_le _) (by simp) (by simp) (by simp)
        (by simp) (by ring) (by omega) (by omega) (by intro _; omega)
        (by unfold eink_draw_line_fuel; omega)]
      omega
    · have ex : x0 = x1 := by omega
      have ey : y0 = y1 := by omega
      subst ex ey
      unfold eink_draw_line_fuel
      rw [eink_draw_line_loop_points, if_pos ⟨rfl, rfl⟩]
      simp
  · have hmaj2 : ((x1 : Int) - x0).natAbs ≤ ((y1 : Int) - y0).natAbs := by omega
    rw [Nat.max_eq_right hmaj2]
    have hsw := eink_draw_line_loop_points_swap x1 y1 (((x1 : Int) - x0).natAbs)
      (((y1 : Int) - y0).natAbs) (if x0 < x1 then 1 else -1) (if y0 < y1 then 1 else -1)
      (eink_draw_line_fuel x0 y0 x1 y1) x0 y0
      ((((x1 : Int) - x0).natAbs : Int) - (((y1 : Int) - y0).natAbs : Int))
    have hl := congrArg (fun r => r.1.length) hsw
    simp only [List.length_map] at hl
    rw [← hl, eink_draw_line_loop_points_length y1 x1 y0 x0 _ _ _ _ hsy hsx hey hex hy0 hx0 hy1
      hx1 hmaj2 _ 0 0 y0 x0 _ 0 0 (Nat.zero_le _) (Nat.zero_le _) (by simp) (by simp) (by simp)
      (by simp) (by ring) (by omega) (by omega) (by intro _; omega)
      (by unfold eink_draw_line_fuel; omega)]
    omega

/-! ## Lemmas: what every drawing routine keeps -/

theorem eink_draw_line_loop_keeps (I : EinkState → Prop) (color : Nat)
    (hplot : ∀ s p, I s → I (plot color s p)) (hhang : ∀ s, I s → I { s with hang := true })
    (x1 y1 : Nat) (dx dy sx sy : Int) (fuel : Nat) (s : EinkState) (x0 y0 : Nat) (err : Int)
    (h : I s) : I (eink_draw_line_loop x1 y1 dx dy sx sy color fuel s x0 y0 err) := by
  induction fuel generalizing s x0 y0 err with
  | zero => exact hhang s h
  | succ fuel ih =>
    rw [eink_draw_line_loop]
    simp only []
    split_ifs
    all_goals first | exact hplot s (x0, y0) h | exact ih _ _ _ _ (hplot s (x0, y0) h)

theorem eink_draw_line_keeps (I : EinkState → Prop) (color : Nat)
    (hplot : ∀ s p, I s → I (plot color s p)) (hhang : ∀ s, I s → I { s with hang := true })
    (s : EinkState) (x0 y0 x1 y1 : Nat) (h : I s) :
    I (eink_draw_line s x0 y0 x1 y1 color).1 := by
  unfold eink_draw_line
  by_cases hi : s.eink_initialized = false
  · rw [if_pos hi]
    exact h
  · rw [if_neg hi]
    exact eink_draw_line_loop_keeps I color hplot hhang _ _ _ _ _ _ _ _ _ _ _ h

theorem foldl_keeps {α : Type} (I : EinkState → Prop) (f : EinkState → α → EinkState)
    (hf : ∀ s a, I s → I (f s a)) (l : List α) (s : EinkState) (h : I s) :
    I (l.foldl f s) := by
  induction l generalizing s with
  | nil => exact h
  | cons a l ih => exact ih _ (hf s a h)

theorem eink_draw_rectangle_keeps (I : EinkState → Prop) (color : Nat)
    (hplot : ∀ s p, I s → I (plot color s p)) (hhang : ∀ s, I s → I { s with hang := true })
    (s : EinkState) (x y width height : Nat) (filled : Bool) (h : I s) :
    I (eink_draw_rectangle s x y width height color filled).1 := by
  unfold eink_draw_rectangle
  by_cases hi : s.eink_initialized = false
  · rw [if_pos hi]
    exact h
  rw [if_neg hi]
  by_cases hf : filled = true
  · rw [if_pos hf]
    exact foldl_keeps I _
      (fun s i hs => foldl_keeps I _ (fun s j hs => hplot s (_, _) hs) _ s hs) _ s h
  · rw [if_neg hf]
    exact eink_draw_line_keeps I color hplot hhang _ _ _ _ _
      (eink_draw_line_keeps I color hplot hhang _ _ _ _ _
        (eink_draw_line_keeps I color hplot hhang _ _ _ _ _
          (eink_draw_line_keeps I color hplot hhang _ _ _ _ _ h)))

theorem eink_display_text_loop_keeps (I : EinkState → Prop) (color : Nat)
    (hplot : ∀ s p, I s → I (plot color s p)) (hhang : ∀ s, I s → I { s with hang := true })
    (x font_size : Nat) (text : List Nat) (s : EinkState) (char_x char_y : Nat) (h : I s) :
    I (eink_display_text_loop x font_size color text s char_x char_y) := by
  induction text generalizing s char_x char_y with
  | nil => exact h
  | cons c text ih =>
    rw [eink_display_text_loop]
    split_ifs
    all_goals first
      | exact h
      | exact eink_draw_rectangle_keeps I color hplot hhang _ _ _ _ _ _ h
      | exact ih _ _ _ h
      | exact ih _ _ _ (eink_draw_rectangle_keeps I color hplot hhang _ _ _ _ _ _ h)

theorem eink_display_text_keeps (I : EinkState → Prop) (color : Nat)
    (hplot : ∀ s p, I s → I (plot color s p)) (hhang : ∀ s, I s → I { s with hang := true })
    (s : EinkState) (x y : Nat) (text : Option (List Nat)) (font_size : Nat) (h : I s) :
    I (eink_display_text s x y text font_size color).1 := by
  unfold eink_display_text
  by_cases hi : s.eink_initialized = false ∨ text = none
  · rw [if_pos hi]
    exact h
  · rw [if_neg hi]
    exact eink_display_text_loop_keeps I color hplot hhang _ _ _ _ _ _ h

theorem draw_call_run_keeps (I : EinkState → Prop) (color : Nat)
    (hplot : ∀ s p, I s → I (plot color s p)) (hhang : ∀ s, I s → I { s with hang := true })
    (s : EinkState) (c : draw_call) (hc : draw_call_color c = color) (h : I s) :
    I (draw_call_run s c) := by
  cases c with
  | text x y text font_size color1 =>
    subst hc
    exact eink_display_text_keeps I _ hplot hhang _ _ _ _ _ h
  | line x0 y0 x1 y1 color1 =>
    subst hc
    exact eink_draw_line_keeps I _ hplot hhang _ _ _ _ _ h
  | rectangle x y width height color1 filled =>
    subst hc
    exact eink_draw_rectangle_keeps I _ hplot hhang _ _ _ _ _ _ h

theorem draw_call_run_keeps_all (I : EinkState → Prop)
    (hplot : ∀ color s p, I s → I (plot color s p))
    (hhang : ∀ s, I s → I { s with hang := true })
    (s : EinkState) (c : draw_call) (h : I s) : I (draw_call_run s c) :=
  draw_call_run_keeps I (draw_call_color c) (hplot _) hhang s c rfl h

theorem buffer_ready_plot (color : Nat) (s : EinkState) (p : Nat × Nat) (h : buffer_ready s) :
    buffer_ready (plot color s p) :=
  ⟨(plot_initialized color s p).trans h.1, (plot_length color s p).trans h.2⟩

theorem buffer_ready_hang (s : EinkState) (h : buffer_ready s) :
    buffer_ready { s with hang := true } := h

theorem pixel_drawn_plot (color x y : Nat) (hx : x < EINK_WIDTH) (hy : y < EINK_HEIGHT)
    (hin : (y * EINK_WIDTH + x) / 8 < DISPLAY_BUFFER_SIZE) (s : EinkState) (p : Nat × Nat)
    (h : pixel_drawn color x y s) : pixel_drawn color x y (plot color s p) :=
  ⟨buffer_ready_plot color s p h.1,
    get_pixel_plot_keep color s p x y h.1.1 hx hy (by rw [h.1.2]; exact hin) h.2⟩

theorem pixel_drawn_hang (color x y : Nat) (s : EinkState) (h : pixel_drawn color x y s) :
    pixel_drawn color x y { s with hang := true } := h

/-! ## Lemmas: the pixel a drawing call starts at -/

theorem plot_draws (color : Nat) (s : EinkState) (p : Nat × Nat) (h : buffer_ready s)
    (hx : p.1 < EINK_WIDTH) (hy : p.2 < EINK_HEIGHT)
    (hin : (p.2 * EINK_WIDTH + p.1) / 8 < DISPLAY_BUFFER_SIZE) :
    pixel_drawn color p.1 p.2 (plot color s p) :=
  ⟨buffer_ready_plot color s p h,
    (set_get_pixel_inside s p.1 p.2 color h.1 hx hy (by rw [h.2]; exact hin)).2.2⟩

theorem eink_draw_line_loop_draws_start (x1 y1 : Nat) (dx dy sx sy : Int) (color fuel : Nat)
    (s : EinkState) (x0 y0 : Nat) (err : Int) (h : buffer_ready s) (hx : x0 < EINK_WIDTH)
    (hy : y0 < EINK_HEIGHT) (hin : (y0 * EINK_WIDTH + x0) / 8 < DISPLAY_BUFFER_SIZE) :
    pixel_drawn color x0 y0
      (eink_draw_line_loop x1 y1 dx dy sx sy color (fuel + 1) s x0 y0 err) := by
  have hp := plot_draws color s (x0, y0) h hx hy hin
  rw [eink_draw_line_loop]
  split_ifs
  all_goals first
    | exact hp
    | exact eink_draw_line_loop_keeps _ color (pixel_drawn_plot color x0 y0 hx hy hin)
        (pixel_drawn_hang color x0 y0) _ _ _ _ _ _ _ _ _ _ _ hp

theorem eink_draw_line_draws_start (s : EinkState) (x0 y0 x1 y1 color : Nat)
    (h : buffer_ready s) (hx : x0 < EINK_WIDTH) (hy : y0 < EINK_HEIGHT)
    (hin : (y0 * EINK_WIDTH + x0) / 8 < DISPLAY_BUFFER_SIZE) :
    pixel_drawn color x0 y0 (eink_draw_line s x0 y0 x1 y1 color).1 := by
  unfold eink_draw_line
  rw [if_neg (by rw [h.1]; decide)]
  exact eink_draw_line_loop_draws_start _ _ _ _ _ _ color _ s x0 y0 _ h hx hy hin

theorem eink_draw_rectangle_outline_draws_corner (s : EinkState) (x y width height color : Nat)
    (h : buffer_ready s) (hx : x < EINK_WIDTH) (hy : y < EINK_HEIGHT)
    (hin : (y * EINK_WIDTH + x) / 8 < DISPLAY_BUFFER_SIZE) :
    pixel_drawn color x y (eink_draw_rectangle s x y width height color false).1 := by
  have hk := eink_draw_line_keeps _ color (pixel_drawn_plot color x y hx hy hin)
    (pixel_drawn_hang color x y)
  unfold eink_draw_rectangle
  rw [if_neg (by rw [h.1]; decide), if_neg (by decide)]
  exact hk _ _ _ _ _ (hk _ _ _ _ _ (hk _ _ _ _ _
    (eink_draw_line_draws_start s x y _ _ color h hx hy hin)))

theorem eink_display_text_draws_start (s : EinkState) (x y : Nat) (text : List Nat)
    (font_size color : Nat) (c : Nat) (rest : List Nat) (ht : c_str text = c :: rest)
    (hc : c ≠ 10) (h : buffer_ready s) (hx : x < EINK_WIDTH) (hy : y < EINK_HEIGHT)
    (hin : (y * EINK_WIDTH + x) / 8 < DISPLAY_BUFFER_SIZE) :
    pixel_drawn color x y (eink_display_text s x y (some text) font_size color).1 := by
  unfold eink_display_text
  rw [if_neg (by rw [h.1]; simp)]
  show pixel_drawn color x y (eink_display_text_loop x font_size color (c_str text) s x y)
  rw [ht, eink_display_text_loop]
  simp only [if_neg hc]
  have hg := eink_draw_rectangle_outline_draws_corner s x y (u16 ((font_size : Int) - 2))
    (u16 ((font_size : Int) - 2)) color h hx hy hin
  split_ifs
  all_goals first
    | exact hg
    | exact eink_display_text_loop_keeps _ color (pixel_drawn_plot color x y hx hy hin)
        (pixel_drawn_hang color x y) _ _ _ _ _ _ hg

/-! ## Lemmas: writes outside the framebuffer, a glyph on a shared bit -/

theorem plot_mem_fault (color : Nat) (s : EinkState) (p : Nat × Nat)
    (h : s.mem_fault = true) : (plot color s p).mem_fault = true := by
  rw [plot_eq]
  unfold display_buffer_update
  split_ifs
  · exact h
  · split
    · exact h
    · rfl

theorem foldl_plot_mem_fault (color : Nat) (l : List (Nat × Nat)) (s : EinkState)
    (p : Nat × Nat) (hp : p ∈ l) (h : buffer_ready s) (hx : p.1 < EINK_WIDTH)
    (hy : p.2 < EINK_HEIGHT) (hout : DISPLAY_BUFFER_SIZE ≤ (p.2 * EINK_WIDTH + p.1) / 8) :
    (l.foldl (plot color) s).mem_fault = true := by
  induction l generalizing s with
  | nil => exact absurd hp (List.not_mem_nil _)
  | cons q l ih =>
    rw [List.foldl_cons]
    rcases List.mem_cons.mp hp with hq | hq
    · subst hq
      exact foldl_keeps (fun s => s.mem_fault = true) _ (fun s a hs => plot_mem_fault color s a hs)
        l _ (set_get_pixel_outside s p.1 p.2 color h.1 hx hy (by rw [h.2]; exact hout)).2.1
    · exact ih _ hq (buffer_ready_plot color s q h)

theorem text_glyph_shared (s : EinkState) (h : buffer_ready s) :
    eink_display_text s 0 1 (some (lit "A")) 4 0
      = ((eink_draw_rectangle s 0 1 (4 - 2) (4 - 2) 0 false).1, ERROR_NONE) ∧
    eink_get_pixel (eink_display_text s 0 1 (some (lit "A")) 4 0).1 248 0 = some 0 ∧
    eink_get_pixel (eink_display_text s 0 1 (some (lit "A")) 4 0).1 249 0 = some 0 := by
  have hg : eink_display_text_glyphs 0 1 (lit "A") 4 = [(0, 1)] := by decide
  have he : eink_display_text s 0 1 (some (lit "A")) 4 0
      = ((eink_draw_rectangle s 0 1 (4 - 2) (4 - 2) 0 false).1, ERROR_NONE) := by
    rw [eink_display_text_eq s 0 1 _ 4 0 h.1, hg]
    rfl
  obtain ⟨-, r2, -, r4⟩ := outline_pixel_shared s h.1 h.2
  refine ⟨he, ?_, ?_⟩
  · rw [he]
    exact r4
  · rw [he]
    show eink_get_pixel (eink_draw_rectangle s 0 1 2 2 0 false).1 249 0 = some 0
    rw [r2]
    exact get_pixel_foldl_plot_mem 0 _ s (1, 1) 249 0 (by decide) h.1 (by decide) (by decide)
      (by decide) (by decide) (by decide) (by decide) (by rw [h.2]; decide)

theorem text_glyph_outside_buffer (s : EinkState) (h : buffer_ready s) :
    eink_display_text s 244 119 (some (lit "A")) 5 0
      = ((eink_draw_rectangle s 244 119 (5 - 2) (5 - 2) 0 false).1, ERROR_NONE) ∧
    (eink_display_text s 244 119 (some (lit "A")) 5 0).1.mem_fault = true ∧
    eink_get_pixel (eink_display_text s 244 119 (some (lit "A")) 5 0).1 246 121 = none := by
  have hg : eink_display_text_glyphs 244 119 (lit "A") 5 = [(244, 119)] := by decide
  have he : eink_display_text s 244 119 (some (lit "A")) 5 0
      = ((eink_draw_rectangle s 244 119 (5 - 2) (5 - 2) 0 false).1, ERROR_NONE) := by
    rw [eink_display_text_eq s 244 119 _ 5 0 h.1, hg]
    rfl
  have hr := eink_draw_rectangle_keeps _ 0 (buffer_ready_plot 0) buffer_ready_hang
    s 244 119 (5 - 2) (5 - 2) false h
  have hpts : (246, 121) ∈ eink_draw_line_points 244 119 (u16 ((244 : Int) + 3 - 1)) 119 ++
        (eink_draw_line_points 244 (u16 ((119 : Int) + 3 - 1)) (u16 ((244 : Int) + 3 - 1))
          (u16 ((119 : Int) + 3 - 1)) ++
        (eink_draw_line_points 244 119 244 (u16 ((119 : Int) + 3 - 1)) ++
        eink_draw_line_points (u16 ((244 : Int) + 3 - 1)) 119 (u16 ((244 : Int) + 3 - 1))
          (u16 ((119 : Int) + 3 - 1)))) := by decide
  refine ⟨he, ?_, ?_⟩
  · rw [he]
    show (eink_draw_rectangle s 244 119 3 3 0 false).1.mem_fault = true
    rw [eink_draw_rectangle_outline s 244 119 3 3 0 h.1 (by norm_num) (by norm_num)]
    exact foldl_plot_mem_fault 0 _ s (246, 121) hpts h (by decide) (by decide) (by decide)
  · rw [he]
    exact get_pixel_outside _ 246 121 hr.1 (by decide) (by decide) (by rw [hr.2]; decide)

/-! ## Lemmas: the pixels a drawing call sets -/

theorem eink_draw_rectangle_eq_points (s : EinkState) (x y width height color : Nat)
    (filled : Bool) (h : s.eink_initialized = true) (hx : x < 65536) (hy : y < 65536) :
    (eink_draw_rectangle s x y width height color filled).1 =
      (eink_draw_rectangle_points x y width height filled).foldl (plot color) s := by
  unfold eink_draw_rectangle_points
  cases filled with
  | true => rw [eink_draw_rectangle_filled s x y width height color h, if_pos rfl]
  | false =>
    rw [eink_draw_rectangle_outline s x y width height color h hx hy, if_neg (by decide)]

theorem glyphs_loop_u16 (x font_size : Nat) (hx : x < 65536) (text : List Nat)
    (char_x char_y : Nat) (hcx : char_x < 65536) (hcy : char_y < 65536) :
    ∀ p ∈ (eink_display_text_loop_glyphs x font_size text char_x char_y).1,
      p.1 < 65536 ∧ p.2 < 65536 := by
  have hW : EINK_WIDTH = 250 := rfl
  have hH : EINK_HEIGHT = 122 := rfl
  induction text generalizing char_x char_y with
  | nil => intro p hp; simp [eink_display_text_loop_glyphs] at hp
  | cons c text ih =>
    obtain ⟨x2, y2, go, h2, h3, he⟩ :=
      eink_display_text_loop_glyphs_step x font_size c char_x char_y
    intro p hp
    rw [he text] at hp
    rcases List.mem_append.mp hp with hp | hp
    · by_cases h10 : c = 10
      · simp [h10] at hp
      · simp only [h10, if_false, List.mem_singleton] at hp
        rw [hp]; exact ⟨hcx, hcy⟩
    · cases go with
      | false => simp at hp
      | true =>
        have hy2 := h3 rfl
        exact ih x2 y2 (by omega) (by omega) p (by simpa using hp)

theorem foldl_glyph_eq_points (font_size color : Nat) (l : List (Nat × Nat)) (s : EinkState)
    (h : s.eink_initialized = true) (hl : ∀ p ∈ l, p.1 < 65536 ∧ p.2 < 65536) :
    l.foldl (glyph font_size color) s =
      (l.flatMap (fun p => eink_draw_rectangle_points p.1 p.2 (u16 ((font_size : Int) - 2))
        (u16 ((font_size : Int) - 2)) false)).foldl (plot color) s := by
  induction l generalizing s with
  | nil => rfl
  | cons p l ih =>
    have hp := hl p (List.mem_cons_self _ _)
    have hg : glyph font_size color s p = (eink_draw_rectangle_points p.1 p.2
        (u16 ((font_size : Int) - 2)) (u16 ((font_size : Int) - 2)) false).foldl
          (plot color) s :=
      eink_draw_rectangle_eq_points s p.1 p.2 _ _ color false h hp.1 hp.2
    rw [List.foldl_cons, List.flatMap_cons, List.foldl_append, hg]
    exact ih _ ((foldl_plot_initialized _ _ _).trans h)
      (fun q hq => hl q (List.mem_cons_of_mem _ hq))

theorem eink_display_text_eq_points (s : EinkState) (x y : Nat) (text : List Nat)
    (font_size color : Nat) (h : s.eink_initialized = true) (hx : x < 65536)
    (hy : y < 65536) :
    (eink_display_text s x y (some text) font_size color).1 =
      (eink_display_text_points x y text font_size).foldl (plot color) s := by
  rw [eink_display_text_eq s x y text font_size color h]
  exact foldl_glyph_eq_points font_size color _ s h
    (glyphs_loop_u16 x font_size hx (c_str text) x y hx hy)

theorem draw_call_run_eq_points (s : EinkState) (c : draw_call)
    (h : s.eink_initialized = true) (hc : draw_call_u16 c = true) :
    draw_call_run s c = (draw_call_points c).foldl (plot (draw_call_color c)) s := by
  cases c with
  | text x y text font_size color =>
    simp only [draw_call_u16, Bool.and_eq_true, decide_eq_true_eq] at hc
    exact eink_display_text_eq_points s x y text font_size color h hc.1 hc.2
  | line x0 y0 x1 y1 color =>
    simp only [draw_call_u16, Bool.and_eq_true, decide_eq_true_eq] at hc
    exact eink_draw_line_eq s x0 y0 x1 y1 color h
      (eink_draw_line_run_finished x0 y0 x1 y1 hc.1.1.1 hc.1.1.2 hc.1.2 hc.2)
  | rectangle x y width height color filled =>
    simp only [draw_call_u16, Bool.and_eq_true, decide_eq_true_eq] at hc
    exact eink_draw_rectangle_eq_points s x y width height color filled h hc.1 hc.2

theorem get_pixel_plot_untouched (color : Nat) (s : EinkState) (p : Nat × Nat) (x y : Nat)
    (h : writes_bit_of x y p = false) :
    eink_get_pixel (plot color s p) x y = eink_get_pixel s x y := by
  by_cases hr : p.1 ≥ EINK_WIDTH ∨ p.2 ≥ EINK_HEIGHT
  · rw [plot_eq, if_pos (Or.inr hr)]
  · refine get_pixel_plot_other color s p x y ?_
    simp only [writes_bit_of, Bool.and_eq_false_iff, decide_eq_false_iff_not] at h
    rcases h with ((h | h) | h) | h
    · exact absurd (Or.inl (Nat.le_of_not_lt h)) hr
    · exact absurd (Or.inr (Nat.le_of_not_lt h)) hr
    · exact Or.inl h
    · exact Or.inr h

theorem get_pixel_foldl_plot_untouched (color : Nat) (l : List (Nat × Nat)) (s : EinkState)
    (x y : Nat) (h : l.any (writes_bit_of x y) = false) :
    eink_get_pixel (l.foldl (plot color) s) x y = eink_get_pixel s x y := by
  induction l generalizing s with
  | nil => rfl
  | cons p l ih =>
    rw [List.any_cons, Bool.or_eq_false_iff] at h
    rw [List.foldl_cons, ih _ h.2]
    exact get_pixel_plot_untouched color s p x y h.1

/-- A pixel whose bit no call of `eink_set_pixel` of a drawing call writes keeps its value. -/
theorem pixel_drawn_untouched (color x y : Nat) (s : EinkState) (c : draw_call)
    (hu : draw_call_u16 c = true) (ht : draw_call_touches c x y = false)
    (h : pixel_drawn color x y s) : pixel_drawn color x y (draw_call_run s c) := by
  refine ⟨draw_call_run_keeps_all _ buffer_ready_plot buffer_ready_hang s c h.1, ?_⟩
  rw [draw_call_run_eq_points s c h.1.1 hu,
    get_pixel_foldl_plot_untouched _ _ s x y ht]
  exact h.2

/-- A pixel whose bit a call of `eink_set_pixel` of a drawing call writes has the colour of the
call afterwards. -/
theorem pixel_drawn_touched (x y : Nat) (s : EinkState) (c : draw_call)
    (hx : x < EINK_WIDTH) (hy : y < EINK_HEIGHT)
    (hin : (y * EINK_WIDTH + x) / 8 < DISPLAY_BUFFER_SIZE)
    (hu : draw_call_u16 c = true) (ht : draw_call_touches c x y = true)
    (h : buffer_ready s) : pixel_drawn (draw_call_color c) x y (draw_call_run s c) := by
  refine ⟨draw_call_run_keeps_all _ buffer_ready_plot buffer_ready_hang s c h, ?_⟩
  rw [draw_call_run_eq_points s c h.1 hu]
  unfold draw_call_touches at ht
  obtain ⟨p, hp, hw⟩ := List.any_eq_true.mp ht
  simp only [writes_bit_of, Bool.and_eq_true, decide_eq_true_eq] at hw
  exact get_pixel_foldl_plot_mem _ _ s p x y hp h.1 hw.1.1.1 hw.1.1.2 hx hy hw.1.2 hw.2
    (by rw [h.2]; exact hin)

/-- A pixel drawn in a colour stays as it is through a drawing call of the same colour, and
through one that writes none of its bits. -/
theorem pixel_drawn_draw_call (color x y : Nat) (hx : x < EINK_WIDTH) (hy : y < EINK_HEIGHT)
    (hin : (y * EINK_WIDTH + x) / 8 < DISPLAY_BUFFER_SIZE) (s : EinkState) (c : draw_call)
    (hc : draw_call_color c = color ∨
      (draw_call_u16 c = true ∧ draw_call_touches c x y = false))
    (h : pixel_drawn color x y s) : pixel_drawn color x y (draw_call_run s c) := by
  rcases hc with hc | hc
  · exact draw_call_run_keeps _ color (pixel_drawn_plot color x y hx hy hin)
      (pixel_drawn_hang color x y) s c hc h
  · exact pixel_drawn_untouched color x y s c hc.1 hc.2 h

theorem pixel_drawn_draw_calls (color x y : Nat) (hx : x < EINK_WIDTH) (hy : y < EINK_HEIGHT)
    (hin : (y * EINK_WIDTH + x) / 8 < DISPLAY_BUFFER_SIZE) (calls : List draw_call)
    (s : EinkState)
    (hc : ∀ c ∈ calls, draw_call_color c = color ∨
      (draw_call_u16 c = true ∧ draw_call_touches c x y = false))
    (h : pixel_drawn color x y s) : pixel_drawn color x y (draw_calls_run s calls) := by
  induction calls generalizing s with
  | nil => exact h
  | cons c calls ih =>
    exact ih _ (fun c1 h1 => hc c1 (List.mem_cons_of_mem _ h1))
      (pixel_drawn_draw_call color x y hx hy hin s c (hc c (List.mem_cons_self _ _)) h)

theorem buffer_ready_draw_calls (calls : List draw_call) (s : EinkState) (h : buffer_ready s) :
    buffer_ready (draw_calls_run s calls) := by
  induction calls generalizing s with
  | nil => exact h
  | cons c calls ih =>
    exact ih _ (draw_call_run_keeps_all _ buffer_ready_plot buffer_ready_hang s c h)

theorem draw_calls_run_append (s : EinkState) (a b : List draw_call) :
    draw_calls_run s (a ++ b) = draw_calls_run (draw_calls_run s a) b :=
  List.foldl_append _ _ _ _

/-! ## Lemmas: a pixel through a list of drawing calls -/

theorem draw_calls_keep_sound (color x y : Nat) (hx : x < EINK_WIDTH) (hy : y < EINK_HEIGHT)
    (hin : (y * EINK_WIDTH + x) / 8 < DISPLAY_BUFFER_SIZE) (calls : List draw_call)
    (s : EinkState) (hk : draw_calls_keep color x y calls = true)
    (h : pixel_drawn color x y s) : pixel_drawn color x y (draw_calls_run s calls) := by
  refine pixel_drawn_draw_calls color x y hx hy hin calls s ?_ h
  induction calls with
  | nil => intro c hc; exact absurd hc (List.not_mem_nil _)
  | cons c calls ih =>
    simp only [draw_calls_keep, Bool.and_eq_true, Bool.or_eq_true, decide_eq_true_eq,
      Bool.not_eq_true'] at hk
    intro c1 hc1
    rcases List.mem_cons.mp hc1 with h1 | h1
    · rw [h1]
      exact hk.1
    · exact ih hk.2 c1 h1

theorem draw_call_starts_at_sound (x y : Nat) (hx : x < EINK_WIDTH) (hy : y < EINK_HEIGHT)
    (hin : (y * EINK_WIDTH + x) / 8 < DISPLAY_BUFFER_SIZE) (c : draw_call) (s : EinkState)
    (hs : draw_call_starts_at x y c = true) (h : buffer_ready s) :
    pixel_drawn (draw_call_color c) x y (draw_call_run s c) := by
  cases c with
  | text tx ty text font_size color =>
    simp only [draw_call_starts_at, Bool.and_eq_true, decide_eq_true_eq, bne_iff_ne] at hs
    obtain ⟨⟨h1, h2⟩, h3⟩ := hs
    subst h1
    subst h2
    cases ht : c_str text with
    | nil => rw [ht] at h3; exact absurd rfl h3
    | cons ch rest =>
      rw [ht] at h3
      exact eink_display_text_draws_start s tx ty text font_size color ch rest ht h3 h hx hy hin
  | line x0 y0 x1 y1 color => exact absurd hs (by simp [draw_call_starts_at])
  | rectangle rx ry width height color filled => exact absurd hs (by simp [draw_call_starts_at])

/-- The pixel the call of index `i` sets reads as the colour of the call at the end of the
list. -/
theorem draw_calls_pin_sound (color x y : Nat) (hx : x < EINK_WIDTH) (hy : y < EINK_HEIGHT)
    (hin : (y * EINK_WIDTH + x) / 8 < DISPLAY_BUFFER_SIZE) (i : Nat) (calls : List draw_call)
    (s : EinkState) (hk : draw_calls_pin color x y i calls = true) (h : buffer_ready s) :
    pixel_drawn color x y (draw_calls_run s calls) := by
  induction calls generalizing i s with
  | nil => exact absurd hk (by simp [draw_calls_pin])
  | cons c calls ih =>
    cases i with
    | zero =>
      simp only [draw_calls_pin, Bool.and_eq_true, Bool.or_eq_true, decide_eq_true_eq] at hk
      obtain ⟨⟨hc, hset⟩, hkeep⟩ := hk
      refine draw_calls_keep_sound color x y hx hy hin calls _ hkeep ?_
      rw [← hc]
      rcases hset with hset | hset
      · exact draw_call_starts_at_sound x y hx hy hin c s hset h
      · exact pixel_drawn_touched x y s c hx hy hin hset.1 hset.2 h
    | succ i =>
      exact ih i _ hk (draw_call_run_keeps_all _ buffer_ready_plot buffer_ready_hang s c h)

/-! ## Lemmas: the drawing calls of the screens -/

theorem draw_welcome_screen_calls (d : DisplayState) :
    (draw_welcome_screen d).eink = draw_calls_run d.eink
      [.text 50 30 (lit "OpenEInk") FONT_LARGE_SIZE 0,
       .text 40 50 (lit "Open Source") FONT_MEDIUM_SIZE 0,
       .text 30 70 (lit "E-Ink Firmware") FONT_MEDIUM_SIZE 0,
       .text 60 90 (lit "v1.0.0") FONT_SMALL_SIZE 0,
       .text 20 110 (lit "Press any key to continue") FONT_SMALL_SIZE 0,
       .rectangle 5 5 240 112 0 false] := rfl

theorem draw_settings_screen_calls (d : DisplayState) :
    (draw_settings_screen d).eink = draw_calls_run d.eink
      [.rectangle 0 0 250 20 0 true,
       .text 10 5 (lit "Settings") FONT_MEDIUM_SIZE 1,
       .text 10 30 (lit "Display:") FONT_MEDIUM_SIZE 0,
       .text 20 45 (lit "Brightness: Auto") FONT_SMALL_SIZE 0,
       .text 20 60 (lit "Refresh: Optimized") FONT_SMALL_SIZE 0,
       .text 10 80 (lit "Power:") FONT_MEDIUM_SIZE 0,
       .text 20 95 (lit "Sleep: 30s") FONT_SMALL_SIZE 0,
       .text 10 110 (lit "Press any key to return") FONT_SMALL_SIZE 0] := rfl

theorem draw_about_screen_calls (d : DisplayState) :
    (draw_about_screen d).eink = draw_calls_run d.eink
      [.rectangle 0 0 250 20 0 true,
       .text 10 5 (lit "About") FONT_MEDIUM_SIZE 1,
       .text 10 30 (lit "OpenEInk Firmware") FONT_MEDIUM_SIZE 0,
       .text 10 45 (lit "Version: 1.0.0") FONT_SMALL_SIZE 0,
       .text 10 60 (lit "Build: " ++ d.build_date) FONT_SMALL_SIZE 0,
       .text 10 80 (lit "Features:") FONT_SMALL_SIZE 0,
       .text 15 95 (lit "- No activation required") FONT_SMALL_SIZE 0,
       .text 15 105 (lit "- Open source") FONT_SMALL_SIZE 0,
       .text 15 115 (lit "- Low power design") FONT_SMALL_SIZE 0] := rfl

theorem draw_error_screen_calls (d : DisplayState) (error_msg : List Nat) :
    (draw_error_screen d error_msg).eink = draw_calls_run d.eink
      [.rectangle 0 0 250 20 0 true,
       .text 10 5 (lit "Error") FONT_MEDIUM_SIZE 1,
       .line 50 40 70 60 0,
       .line 70 40 50 60 0,
       .text 10 80 error_msg FONT_MEDIUM_SIZE 0,
       .text 10 110 (lit "Press any key to continue") FONT_SMALL_SIZE 0] := rfl

theorem draw_main_menu_item_0 (d : DisplayState) :
    draw_main_menu_item d 0 = { d with eink := (draw_calls_run d.eink
      ((if d.menu_selection = 0 then [.text 10 30 (lit ">") FONT_MEDIUM_SIZE 0] else []) ++
        [.text 25 30 (lit "Settings") FONT_MEDIUM_SIZE 0])) } := by
  unfold draw_main_menu_item
  by_cases h : d.menu_selection = 0
  · simp only [if_pos h, if_pos h.symm]; rfl
  · simp only [if_neg h, if_neg (Ne.symm h)]; rfl

theorem draw_main_menu_item_1 (d : DisplayState) :
    draw_main_menu_item d 1 = { d with eink := (draw_calls_run d.eink
      ((if d.menu_selection = 1 then [.text 10 50 (lit ">") FONT_MEDIUM_SIZE 0] else []) ++
        [.text 25 50 (lit "About") FONT_MEDIUM_SIZE 0])) } := by
  unfold draw_main_menu_item
  by_cases h : d.menu_selection = 1
  · simp only [if_pos h, if_pos h.symm]; rfl
  · simp only [if_neg h, if_neg (Ne.symm h)]; rfl

theorem draw_main_menu_item_2 (d : DisplayState) :
    draw_main_menu_item d 2 = { d with eink := (draw_calls_run d.eink
      ((if d.menu_selection = 2 then [.text 10 70 (lit ">") FONT_MEDIUM_SIZE 0] else []) ++
        [.text 25 70 (lit "Sleep") FONT_MEDIUM_SIZE 0])) } := by
  unfold draw_main_menu_item
  by_cases h : d.menu_selection = 2
  · simp only [if_pos h, if_pos h.symm]; rfl
  · simp only [if_neg h, if_neg (Ne.symm h)]; rfl

theorem draw_main_menu_calls (d : DisplayState) :
    (draw_main_menu d).eink = draw_calls_run d.eink
      ([.rectangle 0 0 250 20 0 true,
        .text 10 5 (lit "Main Menu") FONT_MEDIUM_SIZE 1] ++
       (if d.menu_selection = 0 then [.text 10 30 (lit ">") FONT_MEDIUM_SIZE 0] else []) ++
       [.text 25 30 (lit "Settings") FONT_MEDIUM_SIZE 0] ++
       (if d.menu_selection = 1 then [.text 10 50 (lit ">") FONT_MEDIUM_SIZE 0] else []) ++
       [.text 25 50 (lit "About") FONT_MEDIUM_SIZE 0] ++
       (if d.menu_selection = 2 then [.text 10 70 (lit ">") FONT_MEDIUM_SIZE 0] else []) ++
       [.text 25 70 (lit "Sleep") FONT_MEDIUM_SIZE 0,
        .line 0 107 250 107 0,
        .text 5 109 d.status_text FONT_SMALL_SIZE 0,
        .rectangle 225 109 20 10 0 false,
        .rectangle 245 112 3 4 0 true]) := by
  have hr : List.range main_menu_count = [0, 1, 2] := by decide
  unfold draw_main_menu
  simp only [hr, List.foldl_cons, List.foldl_nil, draw_main_menu_item_0, draw_main_menu_item_1,
    draw_main_menu_item_2, draw_calls_run_append]
  rfl

/-! ## Lemmas: the pixels of the screens -/

theorem draw_calls_pin_dark (x y : Nat) (hx : x < EINK_WIDTH) (hy : y < EINK_HEIGHT)
    (hin : (y * EINK_WIDTH + x) / 8 < DISPLAY_BUFFER_SIZE) (i : Nat) (calls : List draw_call)
    (s : EinkState) (hk : draw_calls_pin 0 x y i calls = true) (h : buffer_ready s) :
    eink_get_pixel (draw_calls_run s calls) x y = some 0 :=
  (draw_calls_pin_sound 0 x y hx hy hin i calls s hk h).2

theorem draw_calls_pin_light (x y : Nat) (hx : x < EINK_WIDTH) (hy : y < EINK_HEIGHT)
    (hin : (y * EINK_WIDTH + x) / 8 < DISPLAY_BUFFER_SIZE) (i : Nat) (calls : List draw_call)
    (s : EinkState) (hk : draw_calls_pin 1 x y i calls = true) (h : buffer_ready s) :
    eink_get_pixel (draw_calls_run s calls) x y = some 1 :=
  (draw_calls_pin_sound 1 x y hx hy hin i calls s hk h).2

theorem draw_calls_keep_light (x y : Nat) (hx : x < EINK_WIDTH) (hy : y < EINK_HEIGHT)
    (hin : (y * EINK_WIDTH + x) / 8 < DISPLAY_BUFFER_SIZE) (calls : List draw_call)
    (s : EinkState) (hk : draw_calls_keep 1 x y calls = true)
    (h : s.eink_initialized = true)
    (hl : s.display_buffer = List.replicate DISPLAY_BUFFER_SIZE 0xFF) :
    eink_get_pixel (draw_calls_run s calls) x y = some 1 :=
  (draw_calls_keep_sound 1 x y hx hy hin calls s hk
    ⟨⟨h, by rw [hl, List.length_replicate]⟩, get_pixel_all_light s x y h hl hx hy hin⟩).2

set_option maxRecDepth 100000 in
theorem welcome_screen_pixels (s : EinkState) (h : s.eink_initialized = true)
    (hl : s.display_buffer = List.replicate DISPLAY_BUFFER_SIZE 0xFF) :
    (∀ p ∈ [(50, 30), (40, 50), (30, 70), (60, 90), (20, 110), (5, 5), (244, 5), (5, 116),
        (244, 116)],
      eink_get_pixel (draw_calls_run s
        [.text 50 30 (lit "OpenEInk") FONT_LARGE_SIZE 0,
         .text 40 50 (lit "Open Source") FONT_MEDIUM_SIZE 0,
         .text 30 70 (lit "E-Ink Firmware") FONT_MEDIUM_SIZE 0,
         .text 60 90 (lit "v1.0.0") FONT_SMALL_SIZE 0,
         .text 20 110 (lit "Press any key to continue") FONT_SMALL_SIZE 0,
         .rectangle 5 5 240 112 0 false]) p.1 p.2 = some 0) ∧
    (∀ p ∈ [(0, 0), (6, 6), (51, 31)],
      eink_get_pixel (draw_calls_run s
        [.text 50 30 (lit "OpenEInk") FONT_LARGE_SIZE 0,
         .text 40 50 (lit "Open Source") FONT_MEDIUM_SIZE 0,
         .text 30 70 (lit "E-Ink Firmware") FONT_MEDIUM_SIZE 0,
         .text 60 90 (lit "v1.0.0") FONT_SMALL_SIZE 0,
         .text 20 110 (lit "Press any key to continue") FONT_SMALL_SIZE 0,
         .rectangle 5 5 240 112 0 false]) p.1 p.2 = some 1) := by
  have hr : buffer_ready s := ⟨h, by rw [hl, List.length_replicate]⟩
  constructor
  · intro p hp
    simp only [List.mem_cons, List.mem_singleton, List.not_mem_nil, or_false] at hp
    rcases hp with rfl | rfl | rfl | rfl | rfl | rfl | rfl | rfl | rfl
    · exact draw_calls_pin_dark 50 30 (by decide) (by decide) (by decide) 0 _ s (by decide) hr
    · exact draw_calls_pin_dark 40 50 (by decide) (by decide) (by decide) 1 _ s (by decide) hr
    · exact draw_calls_pin_dark 30 70 (by decide) (by decide) (by decide) 2 _ s (by decide) hr
    · exact draw_calls_pin_dark 60 90 (by decide) (by decide) (by decide) 3 _ s (by decide) hr
    · exact draw_calls_pin_dark 20 110 (by decide) (by decide) (by decide) 4 _ s (by decide) hr
    · exact draw_calls_pin_dark 5 5 (by decide) (by decide) (by decide) 5 _ s (by decide) hr
    · exact draw_calls_pin_dark 244 5 (by decide) (by decide) (by decide) 5 _ s (by decide) hr
    · exact draw_calls_pin_dark 5 116 (by decide) (by decide) (by decide) 5 _ s (by decide) hr
    · exact draw_calls_pin_dark 244 116 (by decide) (by decide) (by decide) 5 _ s (by decide)
        hr
  · intro p hp
    simp only [List.mem_cons, List.mem_singleton, List.not_mem_nil, or_false] at hp
    rcases hp with rfl | rfl | rfl
    · exact draw_calls_keep_light 0 0 (by decide) (by decide) (by decide) _ s (by decide) h hl
    · exact draw_calls_keep_light 6 6 (by decide) (by decide) (by decide) _ s (by decide) h hl
    · exact draw_calls_keep_light 51 31 (by decide) (by decide) (by decide) _ s (by decide) h
        hl

set_option maxRecDepth 100000 in
theorem settings_screen_pixels (s : EinkState) (hr : buffer_ready s) :
    (∀ p ∈ [(0, 0), (10, 30), (20, 45), (20, 60), (10, 80), (20, 95), (10, 110)],
      eink_get_pixel (draw_calls_run s
        [.rectangle 0 0 250 20 0 true,
         .text 10 5 (lit "Settings") FONT_MEDIUM_SIZE 1,
         .text 10 30 (lit "Display:") FONT_MEDIUM_SIZE 0,
         .text 20 45 (lit "Brightness: Auto") FONT_SMALL_SIZE 0,
         .text 20 60 (lit "Refresh: Optimized") FONT_SMALL_SIZE 0,
         .text 10 80 (lit "Power:") FONT_MEDIUM_SIZE 0,
         .text 20 95 (lit "Sleep: 30s") FONT_SMALL_SIZE 0,
         .text 10 110 (lit "Press any key to return") FONT_SMALL_SIZE 0]) p.1 p.2 = some 0) ∧
    (∀ p ∈ [(10, 5)],
      eink_get_pixel (draw_calls_run s
        [.rectangle 0 0 250 20 0 true,
         .text 10 5 (lit "Settings") FONT_MEDIUM_SIZE 1,
         .text 10 30 (lit "Display:") FONT_MEDIUM_SIZE 0,
         .text 20 45 (lit "Brightness: Auto") FONT_SMALL_SIZE 0,
         .text 20 60 (lit "Refresh: Optimized") FONT_SMALL_SIZE 0,
         .text 10 80 (lit "Power:") FONT_MEDIUM_SIZE 0,
         .text 20 95 (lit "Sleep: 30s") FONT_SMALL_SIZE 0,
         .text 10 110 (lit "Press any key to return") FONT_SMALL_SIZE 0]) p.1 p.2 = some 1) := by
  constructor
  · intro p hp
    simp only [List.mem_cons, List.mem_singleton, List.not_mem_nil, or_false] at hp
    rcases hp with rfl | rfl | rfl | rfl | rfl | rfl | rfl
    · exact draw_calls_pin_dark 0 0 (by decide) (by decide) (by decide) 0 _ s
        (by decide) hr
    · exact draw_calls_pin_dark 10 30 (by decide) (by decide) (by decide) 2 _ s
        (by decide) hr
    · exact draw_calls_pin_dark 20 45 (by decide) (by decide) (by decide) 3 _ s
        (by decide) hr
    · exact draw_calls_pin_dark 20 60 (by decide) (by decide) (by decide) 4 _ s
        (by decide) hr
    · exact draw_calls_pin_dark 10 80 (by decide) (by decide) (by decide) 5 _ s
        (by decide) hr
    · exact draw_calls_pin_dark 20 95 (by decide) (by decide) (by decide) 6 _ s
        (by decide) hr
    · exact draw_calls_pin_dark 10 110 (by decide) (by decide) (by decide) 7 _ s
        (by decide) hr
  · intro p hp
    simp only [List.mem_cons, List.mem_singleton, List.not_mem_nil, or_false] at hp
    rcases hp with rfl
    · exact draw_calls_pin_light 10 5 (by decide) (by decide) (by decide) 1 _ s
        (by decide) hr

set_option maxRecDepth 100000 in
theorem about_screen_pixels (s : EinkState) (date : List Nat) (hr : buffer_ready s) :
    (∀ p ∈ [(0, 0), (10, 30), (10, 45), (10, 60), (10, 80), (15, 95), (15, 105),
        (15, 115)],
      eink_get_pixel (draw_calls_run s
        [.rectangle 0 0 250 20 0 true,
         .text 10 5 (lit "About") FONT_MEDIUM_SIZE 1,
         .text 10 30 (lit "OpenEInk Firmware") FONT_MEDIUM_SIZE 0,
         .text 10 45 (lit "Version: 1.0.0") FONT_SMALL_SIZE 0,
         .text 10 60 (lit "Build: " ++ date) FONT_SMALL_SIZE 0,
         .text 10 80 (lit "Features:") FONT_SMALL_SIZE 0,
         .text 15 95 (lit "- No activation required") FONT_SMALL_SIZE 0,
         .text 15 105 (lit "- Open source") FONT_SMALL_SIZE 0,
         .text 15 115 (lit "- Low power design") FONT_SMALL_SIZE 0]) p.1 p.2 = some 0) := by
  intro p hp
  simp only [List.mem_cons, List.mem_singleton, List.not_mem_nil, or_false] at hp
  rcases hp with rfl | rfl | rfl | rfl | rfl | rfl | rfl | rfl
  · exact draw_calls_pin_dark 0 0 (by decide) (by decide) (by decide) 0 _ s
      rfl hr
  · exact draw_calls_pin_dark 10 30 (by decide) (by decide) (by decide) 2 _ s
      rfl hr
  · exact draw_calls_pin_dark 10 45 (by decide) (by decide) (by decide) 3 _ s
      rfl hr
  · exact draw_calls_pin_dark 10 60 (by decide) (by decide) (by decide) 4 _ s
      rfl hr
  · exact draw_calls_pin_dark 10 80 (by decide) (by decide) (by decide) 5 _ s
      rfl hr
  · exact draw_calls_pin_dark 15 95 (by decide) (by decide) (by decide) 6 _ s
      rfl hr
  · exact draw_calls_pin_dark 15 105 (by decide) (by decide) (by decide) 7 _ s
      rfl hr
  · exact draw_calls_pin_dark 15 115 (by decide) (by decide) (by decide) 8 _ s
      rfl hr

set_option maxRecDepth 100000 in
theorem error_screen_pixels (s : EinkState) (error_msg : List Nat) (hr : buffer_ready s) :
    (∀ p ∈ [(0, 0), (50, 40), (60, 50), (70, 60), (70, 40), (50, 60), (10, 110)],
      eink_get_pixel (draw_calls_run s
        [.rectangle 0 0 250 20 0 true,
         .text 10 5 (lit "Error") FONT_MEDIUM_SIZE 1,
         .line 50 40 70 60 0,
         .line 70 40 50 60 0,
         .text 10 80 error_msg FONT_MEDIUM_SIZE 0,
         .text 10 110 (lit "Press any key to continue") FONT_SMALL_SIZE 0]) p.1 p.2 = some 0) := by
  intro p hp
  simp only [List.mem_cons, List.mem_singleton, List.not_mem_nil, or_false] at hp
  rcases hp with rfl | rfl | rfl | rfl | rfl | rfl | rfl
  · exact draw_calls_pin_dark 0 0 (by decide) (by decide) (by decide) 0 _ s
      rfl hr
  · exact draw_calls_pin_dark 50 40 (by decide) (by decide) (by decide) 2 _ s
      rfl hr
  · exact draw_calls_pin_dark 60 50 (by decide) (by decide) (by decide) 2 _ s
      rfl hr
  · exact draw_calls_pin_dark 70 60 (by decide) (by decide) (by decide) 2 _ s
      rfl hr
  · exact draw_calls_pin_dark 70 40 (by decide) (by decide) (by decide) 3 _ s
      rfl hr
  · exact draw_calls_pin_dark 50 60 (by decide) (by decide) (by decide) 3 _ s
      rfl hr
  · exact draw_calls_pin_dark 10 110 (by decide) (by decide) (by decide) 5 _ s
      rfl hr

set_option maxRecDepth 100000 in
theorem main_menu_pixels (s : EinkState) (sel : Nat) (status : List Nat)
    (hr : buffer_ready s) :
    (∀ p ∈ [(0, 0), (25, 30), (25, 50), (25, 70), (0, 107), (249, 107),
        (225, 109), (244, 118), (245, 112), (247, 115)],
      eink_get_pixel (draw_calls_run s
        ([.rectangle 0 0 250 20 0 true,
          .text 10 5 (lit "Main Menu") FONT_MEDIUM_SIZE 1] ++
         (if sel = 0 then [.text 10 30 (lit ">") FONT_MEDIUM_SIZE 0] else []) ++
         [.text 25 30 (lit "Settings") FONT_MEDIUM_SIZE 0] ++
         (if sel = 1 then [.text 10 50 (lit ">") FONT_MEDIUM_SIZE 0] else []) ++
         [.text 25 50 (lit "About") FONT_MEDIUM_SIZE 0] ++
         (if sel = 2 then [.text 10 70 (lit ">") FONT_MEDIUM_SIZE 0] else []) ++
         [.text 25 70 (lit "Sleep") FONT_MEDIUM_SIZE 0,
          .line 0 107 250 107 0,
          .text 5 109 status FONT_SMALL_SIZE 0,
          .rectangle 225 109 20 10 0 false,
          .rectangle 245 112 3 4 0 true])) p.1 p.2 = some 0) ∧
    (sel < 3 →
      eink_get_pixel (draw_calls_run s
        ([.rectangle 0 0 250 20 0 true,
          .text 10 5 (lit "Main Menu") FONT_MEDIUM_SIZE 1] ++
         (if sel = 0 then [.text 10 30 (lit ">") FONT_MEDIUM_SIZE 0] else []) ++
         [.text 25 30 (lit "Settings") FONT_MEDIUM_SIZE 0] ++
         (if sel = 1 then [.text 10 50 (lit ">") FONT_MEDIUM_SIZE 0] else []) ++
         [.text 25 50 (lit "About") FONT_MEDIUM_SIZE 0] ++
         (if sel = 2 then [.text 10 70 (lit ">") FONT_MEDIUM_SIZE 0] else []) ++
         [.text 25 70 (lit "Sleep") FONT_MEDIUM_SIZE 0,
          .line 0 107 250 107 0,
          .text 5 109 status FONT_SMALL_SIZE 0,
          .rectangle 225 109 20 10 0 false,
          .rectangle 245 112 3 4 0 true])) 10 (30 + 20 * sel) = some 0) := by
  by_cases h0 : sel = 0
  · subst h0
    constructor
    · intro p hp
      simp only [List.mem_cons, List.mem_singleton, List.not_mem_nil, or_false] at hp
      rcases hp with rfl | rfl | rfl | rfl | rfl | rfl | rfl | rfl | rfl | rfl
      · exact draw_calls_pin_dark 0 0 (by decide) (by decide) (by decide) 0 _ s
          rfl hr
      · exact draw_calls_pin_dark 25 30 (by decide) (by decide) (by decide) 3 _ s
          rfl hr
      · exact draw_calls_pin_dark 25 50 (by decide) (by decide) (by decide) 4 _ s
          rfl hr
      · exact draw_calls_pin_dark 25 70 (by decide) (by decide) (by decide) 5 _ s
          rfl hr
      · exact draw_calls_pin_dark 0 107 (by decide) (by decide) (by decide) 6 _ s
          rfl hr
      · exact draw_calls_pin_dark 249 107 (by decide) (by decide) (by decide) 6 _ s
          rfl hr
      · exact draw_calls_pin_dark 225 109 (by decide) (by decide) (by decide) 8 _ s
          rfl hr
      · exact draw_calls_pin_dark 244 118 (by decide) (by decide) (by decide) 8 _ s
          rfl hr
      · exact draw_calls_pin_dark 245 112 (by decide) (by decide) (by decide) 9 _ s
          rfl hr
      · exact draw_calls_pin_dark 247 115 (by decide) (by decide) (by decide) 9 _ s
          rfl hr
    · intro _
      exact draw_calls_pin_dark 10 30 (by decide) (by decide) (by decide) 2 _ s
        rfl hr
  by_cases h1 : sel = 1
  · subst h1
    constructor
    · intro p hp
      simp only [List.mem_cons, List.mem_singleton, List.not_mem_nil, or_false] at hp
      rcases hp with rfl | rfl | rfl | rfl | rfl | rfl | rfl | rfl | rfl | rfl
      · exact draw_calls_pin_dark 0 0 (by decide) (by decide) (by decide) 0 _ s
          rfl hr
      · exact draw_calls_pin_dark 25 30 (by decide) (by decide) (by decide) 2 _ s
          rfl hr
      · exact draw_calls_pin_dark 25 50 (by decide) (by decide) (by decide) 4 _ s
          rfl hr
      · exact draw_calls_pin_dark 25 70 (by decide) (by decide) (by decide) 5 _ s
          rfl hr
      · exact draw_calls_pin_dark 0 107 (by decide) (by decide) (by decide) 6 _ s
          rfl hr
      · exact draw_calls_pin_dark 249 107 (by decide) (by decide) (by decide) 6 _ s
          rfl hr
      · exact draw_calls_pin_dark 225 109 (by decide) (by decide) (by decide) 8 _ s
          rfl hr
      · exact draw_calls_pin_dark 244 118 (by decide) (by decide) (by decide) 8 _ s
          rfl hr
      · exact draw_calls_pin_dark 245 112 (by decide) (by decide) (by decide) 9 _ s
          rfl hr
      · exact draw_calls_pin_dark 247 115 (by decide) (by decide) (by decide) 9 _ s
          rfl hr
    · intro _
      exact draw_calls_pin_dark 10 50 (by decide) (by decide) (by decide) 3 _ s
        rfl hr
  by_cases h2 : sel = 2
  · subst h2
    constructor
    · intro p hp
      simp only [List.mem_cons, List.mem_singleton, List.not_mem_nil, or_false] at hp
      rcases hp with rfl | rfl | rfl | rfl | rfl | rfl | rfl | rfl | rfl | rfl
      · exact draw_calls_pin_dark 0 0 (by decide) (by decide) (by decide) 0 _ s
          rfl hr
      · exact draw_calls_pin_dark 25 30 (by decide) (by decide) (by decide) 2 _ s
          rfl hr
      · exact draw_calls_pin_dark 25 50 (by decide) (by decide) (by decide) 3 _ s
          rfl hr
      · exact draw_calls_pin_dark 25 70 (by decide) (by decide) (by decide) 5 _ s
          rfl hr
      · exact draw_calls_pin_dark 0 107 (by decide) (by decide) (by decide) 6 _ s
          rfl hr
      · exact draw_calls_pin_dark 249 107 (by decide) (by decide) (by decide) 6 _ s
          rfl hr
      · exact draw_calls_pin_dark 225 109 (by decide) (by decide) (by decide) 8 _ s
          rfl hr
      · exact draw_calls_pin_dark 244 118 (by decide) (by decide) (by decide) 8 _ s
          rfl hr
      · exact draw_calls_pin_dark 245 112 (by decide) (by decide) (by decide) 9 _ s
          rfl hr
      · exact draw_calls_pin_dark 247 115 (by decide) (by decide) (by decide) 9 _ s
          rfl hr
    · intro _
      exact draw_calls_pin_dark 10 70 (by decide) (by decide) (by decide) 4 _ s
        rfl hr
  · rw [if_neg h0, if_neg h1, if_neg h2]
    constructor
    · intro p hp
      simp only [List.mem_cons, List.mem_singleton, List.not_mem_nil, or_false] at hp
      rcases hp with rfl | rfl | rfl | rfl | rfl | rfl | rfl | rfl | rfl | rfl
      · exact draw_calls_pin_dark 0 0 (by decide) (by decide) (by decide) 0 _ s
          rfl hr
      · exact draw_calls_pin_dark 25 30 (by decide) (by decide) (by decide) 2 _ s
          rfl hr
      · exact draw_calls_pin_dark 25 50 (by decide) (by decide) (by decide) 3 _ s
          rfl hr
      · exact draw_calls_pin_dark 25 70 (by decide) (by decide) (by decide) 4 _ s
          rfl hr
      · exact draw_calls_pin_dark 0 107 (by decide) (by decide) (by decide) 5 _ s
          rfl hr
      · exact draw_calls_pin_dark 249 107 (by decide) (by decide) (by decide) 5 _ s
          rfl hr
      · exact draw_calls_pin_dark 225 109 (by decide) (by decide) (by decide) 7 _ s
          rfl hr
      · exact draw_calls_pin_dark 244 118 (by decide) (by decide) (by decide) 7 _ s
          rfl hr
      · exact draw_calls_pin_dark 245 112 (by decide) (by decide) (by decide) 8 _ s
          rfl hr
      · exact draw_calls_pin_dark 247 115 (by decide) (by decide) (by decide) 8 _ s
          rfl hr
    · intro h3
      omega

/-! ## Lemmas: the redraw -/

theorem display_process_draw_welcome (d : DisplayState)
    (h : d.current_screen = SCREEN_WELCOME) :
    display_process_draw d = draw_welcome_screen d := by
  unfold display_process_draw
  rw [h]

theorem display_process_draw_settings (d : DisplayState)
    (h : d.current_screen = SCREEN_SETTINGS) :
    display_process_draw d = draw_settings_screen d := by
  unfold display_process_draw
  rw [h]

theorem display_process_draw_about (d : DisplayState)
    (h : d.current_screen = SCREEN_ABOUT) :
    display_process_draw d = draw_about_screen d := by
  unfold display_process_draw
  rw [h]

theorem display_process_draw_error (d : DisplayState)
    (h : d.current_screen = SCREEN_ERROR) :
    display_process_draw d = draw_error_screen d d.status_text := by
  unfold display_process_draw
  rw [h]

theorem display_process_draw_sleep (d : DisplayState)
    (h : d.current_screen = SCREEN_SLEEP) :
    display_process_draw d = d := by
  unfold display_process_draw
  rw [h]

/-- After `display_process` with the dirty flag true on an initialised driver, the framebuffer
and what `eink_get_pixel` returns are those of the state the draw routine left. -/
theorem display_process_pixels (d : DisplayState) (hd : d.display_needs_refresh = true)
    (hi : d.eink.eink_initialized = true) :
    (display_process d).eink.display_buffer
      = (display_process_draw { d with eink := (eink_clear d.eink).1 }).eink.display_buffer ∧
    (display_process d).eink.eink_initialized = true ∧
    ∀ x y, eink_get_pixel (display_process d).eink x y
      = eink_get_pixel (display_process_draw { d with eink := (eink_clear d.eink).1 }).eink
          x y := by
  obtain ⟨h1, -, -⟩ := display_process_drawn d
  obtain ⟨-, r2, r3, -, -, -⟩ := eink_refresh_ready
    (display_process_draw { d with eink := (eink_clear d.eink).1 }).eink
    EINK_DISPLAY_MODE_PARTIAL (h1.trans hi)
  have e : (display_process d).eink
      = (eink_refresh (display_process_draw { d with eink := (eink_clear d.eink).1 }).eink
          EINK_DISPLAY_MODE_PARTIAL).1 := by
    rw [display_process_dirty d hd]; rfl
  refine ⟨by rw [e, r3], by rw [e, r2],
    fun x y => get_pixel_buffer_eq _ _ x y ?_ (by rw [e, r3])⟩
  rw [e, r2, h1, hi]


/-- The header bar, rows 0 to 19, writes no bit of a pixel whose byte lies after these rows. -/
theorem header_bar_untouched (x y : Nat) (h : 625 ≤ (y * EINK_WIDTH + x) / 8) :
    draw_call_touches (.rectangle 0 0 250 20 0 true) x y = false := by
  have hW : EINK_WIDTH = 250 := rfl
  show (eink_draw_rectangle_points 0 0 250 20 true).any (writes_bit_of x y) = false
  unfold eink_draw_rectangle_points
  rw [if_pos rfl, List.any_eq_false]
  intro p hp
  obtain ⟨i, hi, hp⟩ := List.mem_flatMap.mp hp
  obtain ⟨j, hj, hp⟩ := List.mem_map.mp hp
  rw [List.mem_range] at hi hj
  have h1 : u16 (((0 : Nat) : Int) + (j : Int)) = j := by unfold u16; omega
  have h2 : u16 (((0 : Nat) : Int) + (i : Int)) = i := by unfold u16; omega
  rw [h1, h2] at hp
  subst hp
  simp only [writes_bit_of, Bool.and_eq_true, decide_eq_true_eq]
  intro hw
  have hbyte := hw.1.2
  rw [hW] at hbyte h
  omega

/-- A pixel below the header bar that no later call of another colour writes is light at the
end of a screen that starts with the header bar, when it was light before. -/
theorem draw_calls_keep_light_below_header (x y : Nat) (hx : x < EINK_WIDTH)
    (hy : y < EINK_HEIGHT) (hin : (y * EINK_WIDTH + x) / 8 < DISPLAY_BUFFER_SIZE)
    (calls : List draw_call) (s : EinkState) (hb : 625 ≤ (y * EINK_WIDTH + x) / 8)
    (hk : draw_calls_keep 1 x y calls = true) (h : s.eink_initialized = true)
    (hl : s.display_buffer = List.replicate DISPLAY_BUFFER_SIZE 0xFF) :
    eink_get_pixel (draw_calls_run s (.rectangle 0 0 250 20 0 true :: calls)) x y = some 1 :=
  (draw_calls_keep_sound 1 x y hx hy hin calls _ hk
    (pixel_drawn_untouched 1 x y s (.rectangle 0 0 250 20 0 true) rfl
      (header_bar_untouched x y hb)
      ⟨⟨h, by rw [hl, List.length_replicate]⟩, get_pixel_all_light s x y h hl hx hy hin⟩)).2

theorem draw_call_run_text_c_str (s : EinkState) (x y : Nat) (text1 text2 : List Nat)
    (font_size color : Nat) (h : c_str text1 = c_str text2) :
    draw_call_run s (.text x y text1 font_size color)
      = draw_call_run s (.text x y text2 font_size color) := by
  show (eink_display_text s x y (some text1) font_size color).1
    = (eink_display_text s x y (some text2) font_size color).1
  unfold eink_display_text
  by_cases hi : s.eink_initialized = false
  · rw [if_pos (Or.inl hi), if_pos (Or.inl hi)]
  · rw [if_neg (not_or.mpr ⟨hi, Option.some_ne_none _⟩),
      if_neg (not_or.mpr ⟨hi, Option.some_ne_none _⟩)]
    simp only [Option.getD_some, h]

set_option maxRecDepth 100000 in
theorem sleep_menu_pixels (s : EinkState) (h : s.eink_initialized = true)
    (hl : s.display_buffer = List.replicate DISPLAY_BUFFER_SIZE 0xFF) :
    (∀ p ∈ [(0, 0), (25, 30), (25, 50), (10, 70), (25, 70), (0, 107), (249, 107), (5, 109),
        (225, 109), (244, 118), (245, 112), (247, 115)],
      eink_get_pixel (draw_calls_run s
        [.rectangle 0 0 250 20 0 true,
         .text 10 5 (lit "Main Menu") FONT_MEDIUM_SIZE 1,
         .text 25 30 (lit "Settings") FONT_MEDIUM_SIZE 0,
         .text 25 50 (lit "About") FONT_MEDIUM_SIZE 0,
         .text 10 70 (lit ">") FONT_MEDIUM_SIZE 0,
         .text 25 70 (lit "Sleep") FONT_MEDIUM_SIZE 0,
         .line 0 107 250 107 0,
         .text 5 109 (lit "Entering sleep mode...") FONT_SMALL_SIZE 0,
         .rectangle 225 109 20 10 0 false,
         .rectangle 245 112 3 4 0 true]) p.1 p.2 = some 0) ∧
    (∀ p ∈ [(10, 5), (10, 30), (10, 50), (0, 20)],
      eink_get_pixel (draw_calls_run s
        [.rectangle 0 0 250 20 0 true,
         .text 10 5 (lit "Main Menu") FONT_MEDIUM_SIZE 1,
         .text 25 30 (lit "Settings") FONT_MEDIUM_SIZE 0,
         .text 25 50 (lit "About") FONT_MEDIUM_SIZE 0,
         .text 10 70 (lit ">") FONT_MEDIUM_SIZE 0,
         .text 25 70 (lit "Sleep") FONT_MEDIUM_SIZE 0,
         .line 0 107 250 107 0,
         .text 5 109 (lit "Entering sleep mode...") FONT_SMALL_SIZE 0,
         .rectangle 225 109 20 10 0 false,
         .rectangle 245 112 3 4 0 true]) p.1 p.2 = some 1) := by
  have hr : buffer_ready s := ⟨h, by rw [hl, List.length_replicate]⟩
  constructor
  · intro p hp
    simp only [List.mem_cons, List.mem_singleton, List.not_mem_nil, or_false] at hp
    rcases hp with rfl | rfl | rfl | rfl | rfl | rfl | rfl | rfl | rfl | rfl | rfl | rfl
    · exact draw_calls_pin_dark 0 0 (by decide) (by decide) (by decide) 0 _ s (by decide) hr
    · exact draw_calls_pin_dark 25 30 (by decide) (by decide) (by decide) 2 _ s (by decide) hr
    · exact draw_calls_pin_dark 25 50 (by decide) (by decide) (by decide) 3 _ s (by decide) hr
    · exact draw_calls_pin_dark 10 70 (by decide) (by decide) (by decide) 4 _ s (by decide) hr
    · exact draw_calls_pin_dark 25 70 (by decide) (by decide) (by decide) 5 _ s (by decide) hr
    · exact draw_calls_pin_dark 0 107 (by decide) (by decide) (by decide) 6 _ s (by decide) hr
    · exact draw_calls_pin_dark 249 107 (by decide) (by decide) (by decide) 6 _ s (by decide)
        hr
    · exact draw_calls_pin_dark 5 109 (by decide) (by decide) (by decide) 7 _ s (by decide) hr
    · exact draw_calls_pin_dark 225 109 (by decide) (by decide) (by decide) 8 _ s (by decide)
        hr
    · exact draw_calls_pin_dark 244 118 (by decide) (by decide) (by decide) 8 _ s (by decide)
        hr
    · exact draw_calls_pin_dark 245 112 (by decide) (by decide) (by decide) 9 _ s (by decide)
        hr
    · exact draw_calls_pin_dark 247 115 (by decide) (by decide) (by decide) 9 _ s (by decide)
        hr
  · intro p hp
    simp only [List.mem_cons, List.mem_singleton, List.not_mem_nil, or_false] at hp
    rcases hp with rfl | rfl | rfl | rfl
    · exact draw_calls_pin_light 10 5 (by decide) (by decide) (by decide) 1 _ s (by decide) hr
    · exact draw_calls_keep_light_below_header 10 30 (by decide) (by decide) (by decide) _ s
        (by decide) (by decide) h hl
    · exact draw_calls_keep_light_below_header 10 50 (by decide) (by decide) (by decide) _ s
        (by decide) (by decide) h hl
    · exact draw_calls_keep_light_below_header 0 20 (by decide) (by decide) (by decide) _ s
        (by decide) (by decide) h hl

/-- The drawing calls of the main menu with the cursor on its last entry and a status text
that reads "Entering sleep mode..." as a C string. -/
theorem sleep_menu_calls (s : EinkState) (sel : Nat) (status : List Nat) (hsel : sel = 2)
    (hst : c_str status = lit "Entering sleep mode...") :
    draw_calls_run s
      ([.rectangle 0 0 250 20 0 true,
        .text 10 5 (lit "Main Menu") FONT_MEDIUM_SIZE 1] ++
       (if sel = 0 then [.text 10 30 (lit ">") FONT_MEDIUM_SIZE 0] else []) ++
       [.text 25 30 (lit "Settings") FONT_MEDIUM_SIZE 0] ++
       (if sel = 1 then [.text 10 50 (lit ">") FONT_MEDIUM_SIZE 0] else []) ++
       [.text 25 50 (lit "About") FONT_MEDIUM_SIZE 0] ++
       (if sel = 2 then [.text 10 70 (lit ">") FONT_MEDIUM_SIZE 0] else []) ++
       [.text 25 70 (lit "Sleep") FONT_MEDIUM_SIZE 0,
        .line 0 107 250 107 0,
        .text 5 109 status FONT_SMALL_SIZE 0,
        .rectangle 225 109 20 10 0 false,
        .rectangle 245 112 3 4 0 true])
    = draw_calls_run s
        [.rectangle 0 0 250 20 0 true,
         .text 10 5 (lit "Main Menu") FONT_MEDIUM_SIZE 1,
         .text 25 30 (lit "Settings") FONT_MEDIUM_SIZE 0,
         .text 25 50 (lit "About") FONT_MEDIUM_SIZE 0,
         .text 10 70 (lit ">") FONT_MEDIUM_SIZE 0,
         .text 25 70 (lit "Sleep") FONT_MEDIUM_SIZE 0,
         .line 0 107 250 107 0,
         .text 5 109 (lit "Entering sleep mode...") FONT_SMALL_SIZE 0,
         .rectangle 225 109 20 10 0 false,
         .rectangle 245 112 3 4 0 true] := by
  subst hsel
  have hc : c_str status = c_str (lit "Entering sleep mode...") := by
    rw [hst]; decide
  rw [if_neg (by decide : ¬ (2 : Nat) = 0), if_neg (by decide : ¬ (2 : Nat) = 1), if_pos rfl]
  simp only [draw_calls_run, List.append_assoc, List.cons_append, List.nil_append,
    List.foldl_cons, List.foldl_nil]
  rw [draw_call_run_text_c_str _ 5 109 status (lit "Entering sleep mode...") _ _ hc]

/-! ## The framebuffer -/

/-- C1, at an input where the code departs from it: the coordinate (246, 121) is in range and
`eink_set_pixel(246, 121, 1)` on the initialised driver returns `ERROR_NONE`, but the byte it
modifies is `display_buffer[3812]`, outside the 3812-byte array (the framebuffer itself stays as
it was), and the following `eink_get_pixel(246, 121)` reads outside the array as well, so that
the colour it reports is not a bit of the framebuffer. -/
theorem last_row_pixel_outside_buffer :
    ready_state.eink_initialized = true ∧ 246 < EINK_WIDTH ∧ 121 < EINK_HEIGHT ∧
    (eink_set_pixel ready_state 246 121 1).2 = ERROR_NONE ∧
    (eink_set_pixel ready_state 246 121 1).1.mem_fault = true ∧
    (eink_set_pixel ready_state 246 121 1).1.display_buffer = ready_state.display_buffer ∧
    eink_get_pixel (eink_set_pixel ready_state 246 121 1).1 246 121 = none := by
  obtain ⟨h, hbuf, -, -⟩ := ready_state_ready
  have hlen : ready_state.display_buffer.length = DISPLAY_BUFFER_SIZE := by simp [hbuf]
  exact ⟨h, by decide, by decide, set_get_pixel_outside ready_state 246 121 1 h (by decide)
    (by decide) (by rw [hlen]; decide)⟩

/-- C2: on an initialised driver, for every coordinate with `x >= EINK_WIDTH` or
`y >= EINK_HEIGHT` (whatever the values, those of `uint16_t` included) `eink_get_pixel` returns
the sentinel 0xFF, and `eink_set_pixel` returns `ERROR_INVALID_PARAM` and changes nothing: the
framebuffer, and the whole driver state, are what they were. -/
theorem pixel_out_of_range (s : EinkState) (x y color : Nat)
    (h : s.eink_initialized = true) (hout : x ≥ EINK_WIDTH ∨ y ≥ EINK_HEIGHT) :
    eink_get_pixel s x y = some 0xFF ∧
    (eink_set_pixel s x y color).2 = ERROR_INVALID_PARAM ∧
    (eink_set_pixel s x y color).1.display_buffer = s.display_buffer ∧
    (eink_set_pixel s x y color).1 = s := by
  unfold eink_get_pixel eink_set_pixel
  rw [if_pos (Or.inr hout), if_neg (by simp [h]), if_pos hout]
  exact ⟨rfl, rfl, rfl, rfl⟩

theorem pixel_out_of_range_witness :
    ready_state.eink_initialized = true ∧ (65535 ≥ EINK_WIDTH ∨ 7 ≥ EINK_HEIGHT) ∧
    eink_get_pixel ready_state 65535 7 = some 0xFF ∧
    (eink_set_pixel ready_state 65535 7 0).2 = ERROR_INVALID_PARAM ∧
    (eink_set_pixel ready_state 65535 7 0).1.display_buffer = ready_state.display_buffer ∧
    (eink_set_pixel ready_state 65535 7 0).1 = ready_state :=
  ⟨ready_state_ready.1, Or.inl (by decide),
    pixel_out_of_range ready_state 65535 7 0 ready_state_ready.1 (Or.inl (by decide))⟩

/-- C3, at an input where the code departs from it: `display_buffer` has
`EINK_WIDTH * EINK_HEIGHT / 8 = 3812` bytes, with indices 0 to 3811, while the in-range
coordinate (246, 121) has the byte index `(121 * 250 + 246) / 8 = 3812`; `eink_set_pixel`
accepts the coordinate (it returns `ERROR_NONE`) and accesses the array outside of its
bounds. -/
theorem pixel_byte_index_outside_buffer :
    246 < EINK_WIDTH ∧ 121 < EINK_HEIGHT ∧
    DISPLAY_BUFFER_SIZE = 3812 ∧
    ready_state.display_buffer.length = DISPLAY_BUFFER_SIZE ∧
    (121 * EINK_WIDTH + 246) / 8 = DISPLAY_BUFFER_SIZE ∧
    ready_state.mem_fault = false ∧
    (eink_set_pixel ready_state 246 121 0).2 = ERROR_NONE ∧
    (eink_set_pixel ready_state 246 121 0).1.mem_fault = true := by
  obtain ⟨h, hbuf, -, hf⟩ := ready_state_ready
  have hlen : ready_state.display_buffer.length = DISPLAY_BUFFER_SIZE := by simp [hbuf]
  have hset := set_get_pixel_outside ready_state 246 121 0 h (by decide) (by decide)
    (by rw [hlen]; decide)
  exact ⟨by decide, by decide, by decide, hlen, by decide, hf, hset.1, hset.2.1⟩

/-! ## Refresh -/

/-- C4 as stated fails: on the freshly initialised driver (refresh counter 0), of ten
consecutive calls `eink_refresh(Partial)` the first loads the full-update table (not the
partial-update one) and the tenth loads the partial-update table (not the full-update one). -/
theorem refresh_first_of_ten_is_full :
    ready_state.eink_initialized = true ∧ ready_state.refresh_counter = 0 ∧
    waveform_of_call ready_state (List.replicate 10 EINK_DISPLAY_MODE_PARTIAL) 0
      = some lut_full_update ∧
    waveform_of_call ready_state (List.replicate 10 EINK_DISPLAY_MODE_PARTIAL) 9
      = some lut_partial_update ∧
    lut_full_update ≠ lut_partial_update := by
  obtain ⟨h, -, hc, -⟩ := ready_state_ready
  refine ⟨h, hc, ?_, ?_, by decide⟩
  · rw [waveform_of_call_eq _ _ _ h (by rw [hc]; norm_num) (by simp), hc]
    simp [DISPLAY_FULL_REFRESH_INTERVAL]
  · rw [waveform_of_call_eq _ _ _ h (by rw [hc]; norm_num) (by simp), hc]
    simp [DISPLAY_FULL_REFRESH_INTERVAL, EINK_DISPLAY_MODE_PARTIAL, EINK_DISPLAY_MODE_FULL]

/-- C4 as amended: starting from an initialised driver with refresh counter 0, of
`DISPLAY_FULL_REFRESH_INTERVAL = 10` consecutive calls `eink_refresh(Partial)` the first loads
the full-update waveform table and calls 2 to 10 load the partial-update table (call number
`n + 1` is the one with `n` calls before it). -/
theorem refresh_partial_ten_calls (s : EinkState) (h : s.eink_initialized = true)
    (hc : s.refresh_counter = 0) :
    waveform_of_call s (List.replicate DISPLAY_FULL_REFRESH_INTERVAL EINK_DISPLAY_MODE_PARTIAL) 0
      = some lut_full_update ∧
    ∀ n, 1 ≤ n → n < DISPLAY_FULL_REFRESH_INTERVAL →
      waveform_of_call s
        (List.replicate DISPLAY_FULL_REFRESH_INTERVAL EINK_DISPLAY_MODE_PARTIAL) n
        = some lut_partial_update := by
  constructor
  · rw [waveform_of_call_eq _ _ _ h (by rw [hc]; norm_num)
      (by simp [DISPLAY_FULL_REFRESH_INTERVAL]), hc]
    simp [DISPLAY_FULL_REFRESH_INTERVAL]
  · intro n h1 h2
    have h2' : n < 10 := h2
    rw [waveform_of_call_eq _ _ _ h (by rw [hc]; norm_num) (by simpa using h2), hc]
    have h3 : ¬ (0 + n) % 2 ^ 32 % DISPLAY_FULL_REFRESH_INTERVAL = 0 := by
      have e : (0 + n) % 2 ^ 32 = n := by
        rw [Nat.zero_add]; exact Nat.mod_eq_of_lt (by omega)
      rw [e]
      show ¬ n % 10 = 0
      omega
    have h4 : ¬ (List.replicate DISPLAY_FULL_REFRESH_INTERVAL EINK_DISPLAY_MODE_PARTIAL).getD n
        EINK_DISPLAY_MODE_PARTIAL = EINK_DISPLAY_MODE_FULL := by
      simp [EINK_DISPLAY_MODE_PARTIAL, EINK_DISPLAY_MODE_FULL, List.getD_eq_getElem?_getD,
        List.getElem?_replicate, h2]
    rw [if_neg (not_or.mpr ⟨h4, h3⟩)]

theorem refresh_partial_ten_calls_witness :
    ready_state.eink_initialized = true ∧ ready_state.refresh_counter = 0 ∧
    waveform_of_call ready_state
      (List.replicate DISPLAY_FULL_REFRESH_INTERVAL EINK_DISPLAY_MODE_PARTIAL) 0
      = some lut_full_update ∧
    waveform_of_call ready_state
      (List.replicate DISPLAY_FULL_REFRESH_INTERVAL EINK_DISPLAY_MODE_PARTIAL) 4
      = some lut_partial_update :=
  have h := refresh_partial_ten_calls ready_state ready_state_ready.1 ready_state_ready.2.2.1
  ⟨ready_state_ready.1, ready_state_ready.2.2.1, h.1, h.2 4 (by decide) (by decide)⟩

/-- C5: for every initialised driver state (any value of the `uint32_t` refresh counter, so
also just before it wraps around) and every ten requested modes, at least one of the ten
consecutive calls of `eink_refresh` loads the full-update waveform table. -/
theorem full_refresh_within_interval (s : EinkState) (modes : List Nat)
    (h : s.eink_initialized = true) (hc : s.refresh_counter < 2 ^ 32)
    (hlen : modes.length = DISPLAY_FULL_REFRESH_INTERVAL) :
    ∃ n, n < DISPLAY_FULL_REFRESH_INTERVAL ∧
      waveform_of_call s modes n = some lut_full_update := by
  have hlen' : modes.length = 10 := hlen
  have key : ∃ n, n < 10 ∧
      (s.refresh_counter + n) % 2 ^ 32 % DISPLAY_FULL_REFRESH_INTERVAL = 0 := by
    by_cases hw : s.refresh_counter + 9 < 2 ^ 32
    · refine ⟨(10 - s.refresh_counter % 10) % 10, by omega, ?_⟩
      have h1 : s.refresh_counter + (10 - s.refresh_counter % 10) % 10 < 2 ^ 32 := by omega
      rw [Nat.mod_eq_of_lt h1]
      show (s.refresh_counter + (10 - s.refresh_counter % 10) % 10) % 10 = 0
      omega
    · refine ⟨2 ^ 32 - s.refresh_counter, by omega, ?_⟩
      have h1 : s.refresh_counter + (2 ^ 32 - s.refresh_counter) = 2 ^ 32 := by omega
      rw [h1, Nat.mod_self]
      rfl
  obtain ⟨n, hn, hz⟩ := key
  refine ⟨n, hn, ?_⟩
  rw [waveform_of_call_eq _ _ _ h hc (by omega), if_pos (Or.inr hz)]

theorem full_refresh_within_interval_witness :
    ready_state.eink_initialized = true ∧ ready_state.refresh_counter < 2 ^ 32 ∧
    ∃ n, n < DISPLAY_FULL_REFRESH_INTERVAL ∧
      waveform_of_call ready_state [1, 1, 1, 1, 1, 1, 1, 1, 1, 1] n = some lut_full_update :=
  ⟨ready_state_ready.1, by rw [ready_state_ready.2.2.1]; norm_num,
    full_refresh_within_interval ready_state [1, 1, 1, 1, 1, 1, 1, 1, 1, 1] ready_state_ready.1
      (by rw [ready_state_ready.2.2.1]; norm_num) rfl⟩

/-- C6 as stated fails: the bytes 0x20 and 0xFF that end the sequence are not data of the
command 0x22; for `eink_refresh(Full)` on the initialised driver the bus does not carry the
sequence that has them with the command/data line high. -/
theorem refresh_bus_not_as_stated :
    ready_state.eink_initialized = true ∧
    bus_bytes false (refresh_events ready_state EINK_DISPLAY_MODE_FULL) ≠
      [(false, 0x44), (true, 0x00), (true, (EINK_WIDTH - 1) >>> 3),
       (false, 0x45), (true, 0x00), (true, 0x00), (true, (EINK_HEIGHT - 1) &&& 0xFF),
         (true, (EINK_HEIGHT - 1) >>> 8),
       (false, 0x4E), (true, 0x00),
       (false, 0x4F), (true, 0x00), (true, 0x00),
       (false, 0x24)] ++
      (ready_state.display_buffer.map (fun b => (true, b)) ++
      ((false, 0x32) :: (lut_full_update.map (fun b => (true, b)) ++
      [(false, 0x22), (true, 0xC4), (true, 0x20), (true, 0xFF)]))) := by
  obtain ⟨h, hbuf, -, -⟩ := ready_state_ready
  have hlen : ready_state.display_buffer.length = DISPLAY_BUFFER_SIZE := by simp [hbuf]
  have htake : ready_state.display_buffer.take 3812 = ready_state.display_buffer :=
    List.take_of_length_le (by rw [hlen]; decide)
  have hlut : refresh_lut ready_state EINK_DISPLAY_MODE_FULL = lut_full_update := by
    simp [refresh_lut]
  refine ⟨h, ?_⟩
  rw [bus_bytes_refresh _ _ _ h, htake, hlut]
  intro heq
  have h1 := List.append_cancel_left heq
  have h2 := List.append_cancel_left h1
  have h3 := List.append_cancel_left (List.cons.inj h2).2
  exact absurd h3 (by decide)

/-- C6 as amended: on an initialised driver (any level of the command/data line before the
call) `eink_refresh(mode)` returns `ERROR_NONE` and puts on the bus exactly: command 0x44 with
data 0x00, `(EINK_WIDTH-1)>>3`; command 0x45 with data 0x00, 0x00, `(EINK_HEIGHT-1)&0xFF`,
`(EINK_HEIGHT-1)>>8`; command 0x4E with data 0x00; command 0x4F with data 0x00, 0x00; command
0x24 with all bytes of the framebuffer in index order as data; command 0x32 with the 30 bytes
of the full-update table as data if `mode == 0` or `refresh_counter % 10 == 0` and those of the
partial-update table otherwise; command 0x22 with data 0xC4; then the commands 0x20 and 0xFF,
both sent with the command/data line low and without data; and nothing else. -/
theorem refresh_bus_sequence (s : EinkState) (mode : Nat) (dc : Bool)
    (h : s.eink_initialized = true) (hlen : s.display_buffer.length = DISPLAY_BUFFER_SIZE) :
    (eink_refresh s mode).2 = ERROR_NONE ∧
    lut_full_update.length = 30 ∧ lut_partial_update.length = 30 ∧
    bus_bytes dc (refresh_events s mode) =
      [(false, 0x44), (true, 0x00), (true, (EINK_WIDTH - 1) >>> 3),
       (false, 0x45), (true, 0x00), (true, 0x00), (true, (EINK_HEIGHT - 1) &&& 0xFF),
         (true, (EINK_HEIGHT - 1) >>> 8),
       (false, 0x4E), (true, 0x00),
       (false, 0x4F), (true, 0x00), (true, 0x00),
       (false, 0x24)] ++
      (s.display_buffer.map (fun b => (true, b)) ++
      ((false, 0x32) ::
        ((if mode = 0 ∨ s.refresh_counter % 10 = 0 then lut_full_update
          else lut_partial_update).map (fun b => (true, b)) ++
      [(false, 0x22), (true, 0xC4), (false, 0x20), (false, 0xFF)]))) := by
  have htake : s.display_buffer.take 3812 = s.display_buffer :=
    List.take_of_length_le (by rw [hlen]; decide)
  refine ⟨(eink_refresh_ready s mode h).1, rfl, rfl, ?_⟩
  rw [bus_bytes_refresh _ _ _ h, htake]
  rfl

theorem refresh_bus_sequence_witness :
    ready_state.eink_initialized = true ∧
    ready_state.display_buffer.length = DISPLAY_BUFFER_SIZE ∧
    (eink_refresh ready_state 1).2 = ERROR_NONE ∧
    lut_full_update.length = 30 ∧ lut_partial_update.length = 30 ∧
    bus_bytes false (refresh_events ready_state 1) =
      [(false, 0x44), (true, 0x00), (true, (EINK_WIDTH - 1) >>> 3),
       (false, 0x45), (true, 0x00), (true, 0x00), (true, (EINK_HEIGHT - 1) &&& 0xFF),
         (true, (EINK_HEIGHT - 1) >>> 8),
       (false, 0x4E), (true, 0x00),
       (false, 0x4F), (true, 0x00), (true, 0x00),
       (false, 0x24)] ++
      (ready_state.display_buffer.map (fun b => (true, b)) ++
      ((false, 0x32) ::
        ((if 1 = 0 ∨ ready_state.refresh_counter % 10 = 0 then lut_full_update
          else lut_partial_update).map (fun b => (true, b)) ++
      [(false, 0x22), (true, 0xC4), (false, 0x20), (false, 0xFF)]))) :=
  have hlen : ready_state.display_buffer.length = DISPLAY_BUFFER_SIZE := by
    simp [ready_state_ready.2.1]
  ⟨ready_state_ready.1, hlen, refresh_bus_sequence ready_state 1 false ready_state_ready.1 hlen⟩

/-! ## Sleep and wake-up -/

/-- C7 as stated fails: after `eink_init` and `eink_sleep` the call `eink_refresh(Partial)`
does not fail; it returns `ERROR_NONE` (zero), streams the framebuffer after the write-RAM
command and increments the refresh counter. -/
theorem refresh_after_sleep_succeeds :
    (eink_refresh (eink_sleep ready_state).1 EINK_DISPLAY_MODE_PARTIAL).2 = ERROR_NONE ∧
    (eink_refresh (eink_sleep ready_state).1 EINK_DISPLAY_MODE_PARTIAL).1.refresh_counter
      = (eink_sleep ready_state).1.refresh_counter + 1 ∧
    (∃ pre post,
      bus_bytes false (refresh_events (eink_sleep ready_state).1 EINK_DISPLAY_MODE_PARTIAL)
        = pre ++ ((false, EINK_CMD_WRITE_RAM) ::
            ((List.replicate DISPLAY_BUFFER_SIZE 0xFF).map (fun b => (true, b)) ++ post))) := by
  obtain ⟨h, hbuf, hc, -⟩ := ready_state_ready
  obtain ⟨-, h1, h2, h3, -⟩ := eink_sleep_ready ready_state h
  obtain ⟨h4, -, -, h5, -, -⟩ := eink_refresh_ready (eink_sleep ready_state).1
    EINK_DISPLAY_MODE_PARTIAL h1
  refine ⟨h4, ?_, ?_⟩
  · rw [h5, h3, hc]; rfl
  · have htake : (List.replicate DISPLAY_BUFFER_SIZE 0xFF).take 3812
        = List.replicate DISPLAY_BUFFER_SIZE 0xFF :=
      List.take_of_length_le (by rw [List.length_replicate]; decide)
    rw [bus_bytes_refresh _ _ _ h1, h2, hbuf, htake]
    exact ⟨[(false, 0x44), (true, 0x00), (true, 0x1F), (false, 0x45), (true, 0x00), (true, 0x00),
      (true, 0x79), (true, 0x00), (false, 0x4E), (true, 0x00), (false, 0x4F), (true, 0x00),
      (true, 0x00)], _, rfl⟩

/-- C7 as amended: the driver keeps no Sleeping state.  From any state, after `eink_init`
followed by `eink_sleep` (which sends the deep-sleep command 0x10 with data 0x01 and returns
`ERROR_NONE`) the driver is still initialised, and `eink_refresh(mode)` returns `ERROR_NONE`
for every mode, streaming the framebuffer and incrementing `refresh_counter` (modulo 2^32);
after a subsequent `eink_wakeup`, which returns `ERROR_NONE`, `eink_refresh(Full)` returns
`ERROR_NONE` and loads the full-update waveform table. -/
theorem sleep_wakeup_refresh (s : EinkState) :
    (eink_init s).2 = ERROR_NONE ∧
    (eink_sleep (eink_init s).1).2 = ERROR_NONE ∧
    bus_bytes false ((eink_sleep (eink_init s).1).1.trace.drop (eink_init s).1.trace.length)
      = [(false, 0x10), (true, 0x01)] ∧
    (eink_sleep (eink_init s).1).1.eink_initialized = true ∧
    (∀ mode,
      (eink_refresh (eink_sleep (eink_init s).1).1 mode).2 = ERROR_NONE ∧
      (eink_refresh (eink_sleep (eink_init s).1).1 mode).1.refresh_counter
        = ((eink_init s).1.refresh_counter + 1) % 2 ^ 32 ∧
      ∃ pre post,
        bus_bytes false (refresh_events (eink_sleep (eink_init s).1).1 mode)
          = pre ++ ((false, EINK_CMD_WRITE_RAM) ::
              (((eink_init s).1.display_buffer.take 3812).map (fun b => (true, b)) ++ post))) ∧
    (eink_wakeup (eink_sleep (eink_init s).1).1).2 = ERROR_NONE ∧
    (eink_refresh (eink_wakeup (eink_sleep (eink_init s).1).1).1 EINK_DISPLAY_MODE_FULL).2
      = ERROR_NONE ∧
    lut_written (bus_bytes false
      (refresh_events (eink_wakeup (eink_sleep (eink_init s).1).1).1 EINK_DISPLAY_MODE_FULL))
      = some lut_full_update := by
  obtain ⟨hi, h0⟩ := eink_init_initialized s
  obtain ⟨h1, h2, h3, h4, h5⟩ := eink_sleep_ready (eink_init s).1 h0
  obtain ⟨h6, h7, -, -⟩ := eink_wakeup_ready (eink_sleep (eink_init s).1).1 h2
  refine ⟨hi, h1, ?_, h2, ?_, h6, (eink_refresh_ready _ _ h7).1, ?_⟩
  · rw [h5, List.drop_left]
    rfl
  · intro mode
    obtain ⟨h8, -, -, h9, -, -⟩ := eink_refresh_ready (eink_sleep (eink_init s).1).1 mode h2
    refine ⟨h8, by rw [h9, h4], ?_⟩
    rw [bus_bytes_refresh _ _ _ h2, h3]
    exact ⟨[(false, 0x44), (true, 0x00), (true, 0x1F), (false, 0x45), (true, 0x00), (true, 0x00),
      (true, 0x79), (true, 0x00), (false, 0x4E), (true, 0x00), (false, 0x4F), (true, 0x00),
      (true, 0x00)], _, rfl⟩
  · rw [lut_written_refresh _ _ _ h7]
    simp [refresh_lut]

/-! ## The screen state machine -/

/-- C8: the menu cursor stays an index of the menu.  `menu_selection < main_menu_count` (with
`main_menu_count = 3`) holds in the initial state; from a state where it holds it holds again
after `display_handle_button` with any button id and any event value, after each of the other
public operations of the display manager, and hence after every finite sequence of button
events; and from cursor 0, on any screen, 100 consecutive calls for button 1 with the same
event value, press or not, leave the cursor at 0. -/
theorem menu_cursor_in_range (d : DisplayState) (h : d.menu_selection < main_menu_count) :
    main_menu_count = 3 ∧
    (∀ busy date, (display_power_on busy date).menu_selection < main_menu_count) ∧
    (∀ button_id event,
      (display_handle_button d button_id event).menu_selection < main_menu_count) ∧
    (display_init d).1.menu_selection < main_menu_count ∧
    (display_welcome_screen d).menu_selection < main_menu_count ∧
    (display_main_menu d).menu_selection < main_menu_count ∧
    (∀ error_msg, (display_error_screen d error_msg).menu_selection < main_menu_count) ∧
    (display_process d).menu_selection < main_menu_count ∧
    (∀ text, (display_set_status d text).menu_selection < main_menu_count) ∧
    (display_force_refresh d).menu_selection < main_menu_count ∧
    (∀ events, (handle_buttons d events).menu_selection < main_menu_count) ∧
    (∀ event, d.menu_selection = 0 →
      (handle_buttons d (List.replicate 100 (1, event))).menu_selection = 0) := by
  have h3 : (0 : Nat) < main_menu_count := by decide
  refine ⟨rfl, fun _ _ => h3, fun b e => display_handle_button_in_range d b e h, ?_, h,
    h3, fun _ => h, ?_, ?_, h, fun events => handle_buttons_in_range events d h,
    fun event h0 => handle_buttons_up_at_top 100 event d h0⟩
  · unfold display_init
    simp only []
    split_ifs <;> exact h
  · rw [(display_process_ui d).1.2.1]; exact h
  · intro text
    cases text <;> exact h

theorem menu_cursor_in_range_witness :
    (display_power_on (fun _ => false) []).menu_selection < main_menu_count ∧
    (handle_buttons (display_power_on (fun _ => false) []) [(2, 1), (2, 1), (3, 1), (1, 1)]
      ).menu_selection < main_menu_count ∧
    (handle_buttons (display_power_on (fun _ => false) []) (List.replicate 100 (1, 1))
      ).menu_selection = 0 :=
  have h := menu_cursor_in_range (display_power_on (fun _ => false) []) (by decide)
  ⟨by decide, h.2.2.2.2.2.2.2.2.2.2.1 _, h.2.2.2.2.2.2.2.2.2.2.2 1 rfl⟩

/-- C9: on the Welcome screen, `display_handle_button` with the event value the handler
treats as a press (`event == 1`) and any button id sets the screen to MainMenu, the menu cursor
to 0 and the dirty flag to true.  This is the second step of the scenario: `display_init`
after power-on returns `ERROR_NONE` with the Welcome screen and the dirty flag true, the press
leads to MainMenu with cursor 0 and the dirty flag true, and `display_process` then leaves the
dirty flag false on the same screen and cursor. -/
theorem welcome_press_opens_main_menu (d : DisplayState) (button_id : Nat)
    (h : d.current_screen = SCREEN_WELCOME) :
    ((display_handle_button d button_id 1).current_screen = SCREEN_MAIN_MENU ∧
     (display_handle_button d button_id 1).menu_selection = 0 ∧
     (display_handle_button d button_id 1).display_needs_refresh = true) ∧
    ∀ busy date,
      (display_init (display_power_on busy date)).2 = ERROR_NONE ∧
      (display_init (display_power_on busy date)).1.current_screen = SCREEN_WELCOME ∧
      (display_init (display_power_on busy date)).1.display_needs_refresh = true ∧
      (display_handle_button (display_init (display_power_on busy date)).1 button_id 1
        ).current_screen = SCREEN_MAIN_MENU ∧
      (display_handle_button (display_init (display_power_on busy date)).1 button_id 1
        ).menu_selection = 0 ∧
      (display_handle_button (display_init (display_power_on busy date)).1 button_id 1
        ).display_needs_refresh = true ∧
      (display_process (display_handle_button (display_init (display_power_on busy date)).1
        button_id 1)).display_needs_refresh = false ∧
      (display_process (display_handle_button (display_init (display_power_on busy date)).1
        button_id 1)).current_screen = SCREEN_MAIN_MENU ∧
      (display_process (display_handle_button (display_init (display_power_on busy date)).1
        button_id 1)).menu_selection = 0 := by
  have key : ∀ d0 : DisplayState, d0.current_screen = SCREEN_WELCOME →
      display_handle_button d0 button_id 1 = display_main_menu d0 := by
    intro d0 h0
    unfold display_handle_button
    rw [h0]
    rfl
  refine ⟨by rw [key d h]; exact ⟨rfl, rfl, rfl⟩, ?_⟩
  intro busy date
  obtain ⟨h1, h2, h3, -, -⟩ := display_init_welcome (display_power_on busy date)
  obtain ⟨⟨h4, h5, -, -⟩, h6⟩ := display_process_ui
    (display_handle_button (display_init (display_power_on busy date)).1 button_id 1)
  rw [h4, h5, key _ h2]
  exact ⟨h1, h2, h3, rfl, rfl, rfl, by rw [← key _ h2]; exact h6, rfl, rfl⟩

theorem welcome_press_opens_main_menu_witness :
    welcome_state.current_screen = SCREEN_WELCOME ∧
    (display_handle_button welcome_state 2 1).current_screen = SCREEN_MAIN_MENU ∧
    (display_handle_button welcome_state 2 1).menu_selection = 0 ∧
    (display_handle_button welcome_state 2 1).display_needs_refresh = true :=
  have h : welcome_state.current_screen = SCREEN_WELCOME := (display_init_welcome _).2.1
  ⟨h, (welcome_press_opens_main_menu welcome_state 2 h).1⟩

/-- C10: on the MainMenu screen with the cursor `c` inside the menu of length
`main_menu_count`, a button-1 press sets the cursor to `max(c-1, 0)` and a button-2 press sets
it to `min(c+1, main_menu_count-1)`; the screen stays MainMenu, and the dirty flag becomes true
exactly when the cursor value changed and is otherwise left as it was. -/
theorem main_menu_up_down (d : DisplayState) (h : d.current_screen = SCREEN_MAIN_MENU)
    (hc : d.menu_selection < main_menu_count) :
    (((display_handle_button d 1 1).menu_selection : Int)
      = max ((d.menu_selection : Int) - 1) 0 ∧
     (display_handle_button d 1 1).current_screen = SCREEN_MAIN_MENU ∧
     (display_handle_button d 1 1).display_needs_refresh
      = if (display_handle_button d 1 1).menu_selection ≠ d.menu_selection then true
        else d.display_needs_refresh) ∧
    (((display_handle_button d 2 1).menu_selection : Int)
      = min ((d.menu_selection : Int) + 1) ((main_menu_count : Int) - 1) ∧
     (display_handle_button d 2 1).current_screen = SCREEN_MAIN_MENU ∧
     (display_handle_button d 2 1).display_needs_refresh
      = if (display_handle_button d 2 1).menu_selection ≠ d.menu_selection then true
        else d.display_needs_refresh) := by
  have hc3 : d.menu_selection < 3 := hc
  rw [main_menu_button_1 d h, main_menu_button_2 d h, main_menu_count_eq]
  constructor
  · by_cases h0 : d.menu_selection > 0
    · have e : (d.menu_selection - 1) % 256 = d.menu_selection - 1 :=
        Nat.mod_eq_of_lt (by omega)
      rw [if_pos h0, e]
      refine ⟨?_, h, ?_⟩
      · show ((d.menu_selection - 1 : Nat) : Int) = _
        omega
      · show true = if d.menu_selection - 1 ≠ d.menu_selection then true else _
        rw [if_pos (by omega)]
    · rw [if_neg h0]
      refine ⟨by omega, h, ?_⟩
      rw [if_neg (by simp)]
  · by_cases h0 : (d.menu_selection : Int) < ((3 : Nat) : Int) - 1
    · have e : (d.menu_selection + 1) % 256 = d.menu_selection + 1 :=
        Nat.mod_eq_of_lt (by omega)
      rw [if_pos h0, e]
      refine ⟨?_, h, ?_⟩
      · show ((d.menu_selection + 1 : Nat) : Int) = _
        omega
      · show true = if d.menu_selection + 1 ≠ d.menu_selection then true else _
        rw [if_pos (by omega)]
    · rw [if_neg h0]
      refine ⟨by omega, h, ?_⟩
      rw [if_neg (by simp)]

theorem main_menu_up_down_witness :
    (display_main_menu welcome_state).current_screen = SCREEN_MAIN_MENU ∧
    (display_main_menu welcome_state).menu_selection < main_menu_count ∧
    ((display_handle_button (display_main_menu welcome_state) 1 1).menu_selection : Int)
      = max (((display_main_menu welcome_state).menu_selection : Int) - 1) 0 ∧
    ((display_handle_button (display_main_menu welcome_state) 2 1).menu_selection : Int)
      = min (((display_main_menu welcome_state).menu_selection : Int) + 1)
          ((main_menu_count : Int) - 1) :=
  have h := main_menu_up_down (display_main_menu welcome_state) rfl (by decide)
  ⟨rfl, by decide, h.1.1, h.2.1⟩

/-- C11: on the MainMenu screen, `display_handle_button` for button 3 with the event value the
handler treats as a press (`event == 1`) calls the action of the entry at the cursor, the
entries being Settings, About, Sleep in this order: at cursor 0 it is `menu_action_settings`
(screen Settings, dirty flag true), at cursor 1 `menu_action_about` (screen About, dirty flag
true), at cursor 2 `menu_action_sleep`, which ends on the Sleep screen; the cursor is the same
after the call as before. -/
theorem main_menu_select (d : DisplayState) (h : d.current_screen = SCREEN_MAIN_MENU) :
    main_menu_items.map (fun item => item.title) = [lit "Settings", lit "About", lit "Sleep"] ∧
    (d.menu_selection = 0 →
      display_handle_button d 3 1 = menu_action_settings d ∧
      (display_handle_button d 3 1).current_screen = SCREEN_SETTINGS ∧
      (display_handle_button d 3 1).display_needs_refresh = true) ∧
    (d.menu_selection = 1 →
      display_handle_button d 3 1 = menu_action_about d ∧
      (display_handle_button d 3 1).current_screen = SCREEN_ABOUT ∧
      (display_handle_button d 3 1).display_needs_refresh = true) ∧
    (d.menu_selection = 2 →
      display_handle_button d 3 1 = menu_action_sleep d ∧
      (display_handle_button d 3 1).current_screen = SCREEN_SLEEP) ∧
    (display_handle_button d 3 1).menu_selection = d.menu_selection := by
  refine ⟨rfl, ?_, ?_, ?_, ?_⟩
  · intro hc
    have e : display_handle_button d 3 1 = menu_action_settings d := by
      rw [main_menu_button_3 d h, hc]; rfl
    rw [e]; exact ⟨rfl, rfl, rfl⟩
  · intro hc
    have e : display_handle_button d 3 1 = menu_action_about d := by
      rw [main_menu_button_3 d h, hc]; rfl
    rw [e]; exact ⟨rfl, rfl, rfl⟩
  · intro hc
    have e : display_handle_button d 3 1 = menu_action_sleep d := by
      rw [main_menu_button_3 d h, hc]; rfl
    rw [e]; exact ⟨rfl, rfl⟩
  · rw [main_menu_button_3 d h]
    cases main_menu_items[d.menu_selection]? with
    | none => rfl
    | some item =>
      cases hact : item.action with
      | none => simp only [hact]
      | some action => simp only [hact]; exact menu_action_call_cursor d action

theorem main_menu_select_witness :
    (display_main_menu welcome_state).current_screen = SCREEN_MAIN_MENU ∧
    (display_main_menu welcome_state).menu_selection = 0 ∧
    display_handle_button (display_main_menu welcome_state) 3 1
      = menu_action_settings (display_main_menu welcome_state) ∧
    (display_handle_button (display_main_menu welcome_state) 3 1).current_screen
      = SCREEN_SETTINGS ∧
    (display_handle_button (display_main_menu welcome_state) 3 1).display_needs_refresh
      = true :=
  ⟨rfl, rfl, (main_menu_select (display_main_menu welcome_state) rfl).2.1 rfl⟩

/-- C12: on each of the screens Settings, About and Error, `display_handle_button` with the
event value the handler treats as a press (`event == 1`) and any button id sets the screen to
MainMenu, the dirty flag to true and the menu cursor to 0, whatever the cursor was. -/
theorem back_to_main_menu (d : DisplayState) (button_id : Nat)
    (h : d.current_screen = SCREEN_SETTINGS ∨ d.current_screen = SCREEN_ABOUT ∨
      d.current_screen = SCREEN_ERROR) :
    (display_handle_button d button_id 1).current_screen = SCREEN_MAIN_MENU ∧
    (display_handle_button d button_id 1).display_needs_refresh = true ∧
    (display_handle_button d button_id 1).menu_selection = 0 := by
  rw [display_handle_button_back d button_id h]
  exact ⟨rfl, rfl, rfl⟩

theorem back_to_main_menu_witness :
    ((menu_action_about { welcome_state with menu_selection := 1 }).current_screen
        = SCREEN_SETTINGS ∨
      (menu_action_about { welcome_state with menu_selection := 1 }).current_screen
        = SCREEN_ABOUT ∨
      (menu_action_about { welcome_state with menu_selection := 1 }).current_screen
        = SCREEN_ERROR) ∧
    (menu_action_about { welcome_state with menu_selection := 1 }).menu_selection = 1 ∧
    (display_handle_button (menu_action_about { welcome_state with menu_selection := 1 }) 2 1
      ).current_screen = SCREEN_MAIN_MENU ∧
    (display_handle_button (menu_action_about { welcome_state with menu_selection := 1 }) 2 1
      ).display_needs_refresh = true ∧
    (display_handle_button (menu_action_about { welcome_state with menu_selection := 1 }) 2 1
      ).menu_selection = 0 :=
  ⟨Or.inr (Or.inl rfl), rfl,
    back_to_main_menu (menu_action_about { welcome_state with menu_selection := 1 }) 2
      (Or.inr (Or.inl rfl))⟩

/-- C13: the Sleep screen is terminal for button input.  While the screen is Sleep,
`display_handle_button` with any button id and any event value returns the state unchanged
(screen, menu cursor, dirty flag, status text, framebuffer, refresh counter and all the rest),
and so does every finite sequence of such calls: the screen is still Sleep after it. -/
theorem sleep_screen_terminal (d : DisplayState) (h : d.current_screen = SCREEN_SLEEP) :
    (∀ button_id event, display_handle_button d button_id event = d) ∧
    (∀ events, handle_buttons d events = d) ∧
    (∀ events,
      (handle_buttons d events).current_screen = SCREEN_SLEEP ∧
      (handle_buttons d events).menu_selection = d.menu_selection ∧
      (handle_buttons d events).display_needs_refresh = d.display_needs_refresh ∧
      (handle_buttons d events).status_text = d.status_text ∧
      (handle_buttons d events).eink.display_buffer = d.eink.display_buffer ∧
      (handle_buttons d events).eink.refresh_counter = d.eink.refresh_counter) := by
  refine ⟨fun b e => display_handle_button_sleep d b e h,
    fun events => handle_buttons_sleep events d h, fun events => ?_⟩
  rw [handle_buttons_sleep events d h]
  exact ⟨h, rfl, rfl, rfl, rfl, rfl⟩

theorem sleep_screen_terminal_witness :
    (menu_action_sleep welcome_state).current_screen = SCREEN_SLEEP ∧
    handle_buttons (menu_action_sleep welcome_state) [(1, 1), (2, 1), (3, 1), (3, 0), (7, 2)]
      = menu_action_sleep welcome_state :=
  ⟨rfl, (sleep_screen_terminal (menu_action_sleep welcome_state) rfl).2.1 _⟩

/-- C14, at inputs where the code departs from it: `BUTTON_EVENT_PRESS` is 0,
`BUTTON_EVENT_RELEASE` is 1 and `BUTTON_EVENT_LONG_PRESS` is 2, and the handler compares the
event with the constant 1.  A call with `BUTTON_EVENT_PRESS` leaves every state unchanged (as
does one with `BUTTON_EVENT_LONG_PRESS`), so that no transition is applied on a press, and a
call with `BUTTON_EVENT_RELEASE` on the Welcome screen opens the main menu. -/
theorem press_event_is_not_the_handled_one :
    BUTTON_EVENT_PRESS = 0 ∧ BUTTON_EVENT_RELEASE = 1 ∧ BUTTON_EVENT_LONG_PRESS = 2 ∧
    (∀ d button_id, display_handle_button d button_id BUTTON_EVENT_PRESS = d) ∧
    (∀ d button_id, display_handle_button d button_id BUTTON_EVENT_LONG_PRESS = d) ∧
    welcome_state.current_screen = SCREEN_WELCOME ∧
    (display_handle_button welcome_state 1 BUTTON_EVENT_PRESS).current_screen
      = SCREEN_WELCOME ∧
    (display_handle_button welcome_state 1 BUTTON_EVENT_RELEASE).current_screen
      = SCREEN_MAIN_MENU ∧
    (display_handle_button welcome_state 1 BUTTON_EVENT_RELEASE).display_needs_refresh
      = true := by
  have hw : welcome_state.current_screen = SCREEN_WELCOME := (display_init_welcome _).2.1
  have hp : ∀ d button_id, display_handle_button d button_id BUTTON_EVENT_PRESS = d :=
    fun d b => display_handle_button_ignored d b _ (by decide)
  have hr : display_handle_button welcome_state 1 BUTTON_EVENT_RELEASE
      = display_main_menu welcome_state := by
    unfold display_handle_button
    rw [hw]
    rfl
  refine ⟨rfl, rfl, rfl, hp, fun d b => display_handle_button_ignored d b _ (by decide), hw,
    ?_, ?_, ?_⟩
  · rw [hp]; exact hw
  · rw [hr]; rfl
  · rw [hr]; rfl

/-! ## Redraw -/

/-- C15: with the dirty flag false `display_process` returns the state unchanged (framebuffer,
refresh counter, screen state, trace and all the rest).  With the dirty flag true on an
initialised driver it clears the framebuffer (`eink_clear` returns `ERROR_NONE` and leaves
every byte 0xFF), runs the draw routine of the current screen on the cleared framebuffer
(which makes no SDK call and leaves the refresh counter alone), and calls `eink_refresh` with
mode 1 once: the driver afterwards is the one `eink_refresh(1)` leaves from the drawn state,
the trace has grown by the events of that one call, the refresh counter by one (modulo 2^32),
the framebuffer is the drawn one; the dirty flag is false and the screen and the menu cursor
are as before.  What is drawn is stated screen by screen: the framebuffer at the end is the
cleared one after the driver calls listed (the texts, lines and rectangles of the screen with
the arguments `display_manager.c` passes, the marker `>` of the main menu in front of the
entry the cursor is on), and `eink_get_pixel` returns 0 for the pixels listed first, which
these calls set dark (the corner of the first glyph of each text, the ends and the crossing
of the lines, corners of the rectangles, the corner of the header bar), and 1 for the pixels
listed second, which they leave or set light (on the Welcome screen a pixel outside the frame,
one inside it and one inside the first glyph; on the Settings screen the corner of the first
glyph of the title, drawn light on the dark bar); on the Sleep screen nothing is drawn and
every byte stays 0xFF. -/
theorem display_process_cycle (d : DisplayState) :
    (d.display_needs_refresh = false → display_process d = d) ∧
    (d.display_needs_refresh = true → d.eink.eink_initialized = true →
      (eink_clear d.eink).2 = ERROR_NONE ∧
      (eink_clear d.eink).1.display_buffer = List.replicate DISPLAY_BUFFER_SIZE 0xFF ∧
      (display_process_draw { d with eink := (eink_clear d.eink).1 }).eink.trace
        = d.eink.trace ∧
      (display_process_draw { d with eink := (eink_clear d.eink).1 }).eink.refresh_counter
        = d.eink.refresh_counter ∧
      (display_process d).eink
        = (eink_refresh (display_process_draw { d with eink := (eink_clear d.eink).1 }).eink
            EINK_DISPLAY_MODE_PARTIAL).1 ∧
      (eink_refresh (display_process_draw { d with eink := (eink_clear d.eink).1 }).eink
        EINK_DISPLAY_MODE_PARTIAL).2 = ERROR_NONE ∧
      (display_process d).eink.trace
        = d.eink.trace ++
          refresh_events (display_process_draw { d with eink := (eink_clear d.eink).1 }).eink
            EINK_DISPLAY_MODE_PARTIAL ∧
      (display_process d).eink.refresh_counter = (d.eink.refresh_counter + 1) % 2 ^ 32 ∧
      (display_process d).eink.display_buffer
        = (display_process_draw { d with eink := (eink_clear d.eink).1 }
          ).eink.display_buffer ∧
      (display_process d).display_needs_refresh = false ∧
      (display_process d).current_screen = d.current_screen ∧
      (display_process d).menu_selection = d.menu_selection ∧
      (d.current_screen = SCREEN_WELCOME →
        (display_process d).eink.display_buffer
          = (draw_calls_run (eink_clear d.eink).1
            [.text 50 30 (lit "OpenEInk") FONT_LARGE_SIZE 0,
             .text 40 50 (lit "Open Source") FONT_MEDIUM_SIZE 0,
             .text 30 70 (lit "E-Ink Firmware") FONT_MEDIUM_SIZE 0,
             .text 60 90 (lit "v1.0.0") FONT_SMALL_SIZE 0,
             .text 20 110 (lit "Press any key to continue") FONT_SMALL_SIZE 0,
             .rectangle 5 5 240 112 0 false]).display_buffer ∧
        (∀ p ∈ [(50, 30), (40, 50), (30, 70), (60, 90), (20, 110), (5, 5),
            (244, 5), (5, 116), (244, 116)],
          eink_get_pixel (display_process d).eink p.1 p.2 = some 0) ∧
        (∀ p ∈ [(0, 0), (6, 6), (51, 31)],
          eink_get_pixel (display_process d).eink p.1 p.2 = some 1)) ∧
      (d.current_screen = SCREEN_MAIN_MENU →
        (display_process d).eink.display_buffer
          = (draw_calls_run (eink_clear d.eink).1
            ([.rectangle 0 0 250 20 0 true,
              .text 10 5 (lit "Main Menu") FONT_MEDIUM_SIZE 1] ++
             (if d.menu_selection = 0 then [.text 10 30 (lit ">") FONT_MEDIUM_SIZE 0]
              else []) ++
             [.text 25 30 (lit "Settings") FONT_MEDIUM_SIZE 0] ++
             (if d.menu_selection = 1 then [.text 10 50 (lit ">") FONT_MEDIUM_SIZE 0]
              else []) ++
             [.text 25 50 (lit "About") FONT_MEDIUM_SIZE 0] ++
             (if d.menu_selection = 2 then [.text 10 70 (lit ">") FONT_MEDIUM_SIZE 0]
              else []) ++
             [.text 25 70 (lit "Sleep") FONT_MEDIUM_SIZE 0,
              .line 0 107 250 107 0,
              .text 5 109 d.status_text FONT_SMALL_SIZE 0,
              .rectangle 225 109 20 10 0 false,
              .rectangle 245 112 3 4 0 true])).display_buffer ∧
        (∀ p ∈ [(0, 0), (25, 30), (25, 50), (25, 70), (0, 107), (249, 107),
            (225, 109), (244, 118), (245, 112), (247, 115)],
          eink_get_pixel (display_process d).eink p.1 p.2 = some 0) ∧
        (d.menu_selection < 3 →
          eink_get_pixel (display_process d).eink 10 (30 + 20 * d.menu_selection) = some 0)) ∧
      (d.current_screen = SCREEN_SETTINGS →
        (display_process d).eink.display_buffer
          = (draw_calls_run (eink_clear d.eink).1
            [.rectangle 0 0 250 20 0 true,
             .text 10 5 (lit "Settings") FONT_MEDIUM_SIZE 1,
             .text 10 30 (lit "Display:") FONT_MEDIUM_SIZE 0,
             .text 20 45 (lit "Brightness: Auto") FONT_SMALL_SIZE 0,
             .text 20 60 (lit "Refresh: Optimized") FONT_SMALL_SIZE 0,
             .text 10 80 (lit "Power:") FONT_MEDIUM_SIZE 0,
             .text 20 95 (lit "Sleep: 30s") FONT_SMALL_SIZE 0,
             .text 10 110 (lit "Press any key to return") FONT_SMALL_SIZE 0]).display_buffer ∧
        (∀ p ∈ [(0, 0), (10, 30), (20, 45), (20, 60), (10, 80), (20, 95),
            (10, 110)],
          eink_get_pixel (display_process d).eink p.1 p.2 = some 0) ∧
        (∀ p ∈ [(10, 5)],
          eink_get_pixel (display_process d).eink p.1 p.2 = some 1)) ∧
      (d.current_screen = SCREEN_ABOUT →
        (display_process d).eink.display_buffer
          = (draw_calls_run (eink_clear d.eink).1
            [.rectangle 0 0 250 20 0 true,
             .text 10 5 (lit "About") FONT_MEDIUM_SIZE 1,
             .text 10 30 (lit "OpenEInk Firmware") FONT_MEDIUM_SIZE 0,
             .text 10 45 (lit "Version: 1.0.0") FONT_SMALL_SIZE 0,
             .text 10 60 (lit "Build: " ++ d.build_date) FONT_SMALL_SIZE 0,
             .text 10 80 (lit "Features:") FONT_SMALL_SIZE 0,
             .text 15 95 (lit "- No activation required") FONT_SMALL_SIZE 0,
             .text 15 105 (lit "- Open source") FONT_SMALL_SIZE 0,
             .text 15 115 (lit "- Low power design") FONT_SMALL_SIZE 0]).display_buffer ∧
        (∀ p ∈ [(0, 0), (10, 30), (10, 45), (10, 60), (10, 80), (15, 95),
            (15, 105), (15, 115)],
          eink_get_pixel (display_process d).eink p.1 p.2 = some 0)) ∧
      (d.current_screen = SCREEN_ERROR →
        (display_process d).eink.display_buffer
          = (draw_calls_run (eink_clear d.eink).1
            [.rectangle 0 0 250 20 0 true,
             .text 10 5 (lit "Error") FONT_MEDIUM_SIZE 1,
             .line 50 40 70 60 0,
             .line 70 40 50 60 0,
             .text 10 80 d.status_text FONT_MEDIUM_SIZE 0,
             .text 10 110 (lit "Press any key to continue") FONT_SMALL_SIZE 0]).display_buffer ∧
        (∀ p ∈ [(0, 0), (50, 40), (60, 50), (70, 60), (70, 40), (50, 60),
            (10, 110)],
          eink_get_pixel (display_process d).eink p.1 p.2 = some 0)) ∧
      (d.current_screen = SCREEN_SLEEP →
        (display_process d).eink.display_buffer = List.replicate DISPLAY_BUFFER_SIZE 0xFF)) := by
  constructor
  · intro h
    unfold display_process
    rw [if_pos h]
  · intro h hi
    obtain ⟨h1, h2, h3⟩ := display_process_drawn d
    obtain ⟨h4, h5⟩ := eink_clear_ready d.eink hi
    obtain ⟨⟨h6, h7, -, -⟩, h8⟩ := display_process_ui d
    obtain ⟨r1, -, r3, r4, -, -⟩ := eink_refresh_ready _ EINK_DISPLAY_MODE_PARTIAL (h1.trans hi)
    have e : (display_process d).eink
        = (eink_refresh (display_process_draw { d with eink := (eink_clear d.eink).1 }).eink
            EINK_DISPLAY_MODE_PARTIAL).1 := by
      rw [display_process_dirty d h]; rfl
    obtain ⟨hb, -, hpix⟩ := display_process_pixels d h hi
    have hci : (eink_clear d.eink).1.eink_initialized = true :=
      (driver_vars_fields (eink_clear_driver_vars d.eink)).1.trans hi
    have hr : buffer_ready (eink_clear d.eink).1 :=
      ⟨hci, by rw [h5, List.length_replicate]⟩
    refine ⟨h4, h5, h3, h2, e, r1, ?_, ?_, ?_, h8, h6, h7, ?_, ?_, ?_, ?_, ?_, ?_⟩
    · rw [e, eink_refresh_trace _ _ (h1.trans hi), h3]
    · rw [e, r4, h2]
    · rw [e, r3]
    · intro hs
      have hX := draw_welcome_screen_calls { d with eink := (eink_clear d.eink).1 }
      rw [← display_process_draw_welcome { d with eink := (eink_clear d.eink).1 } hs] at hX
      obtain ⟨w1, w2⟩ := welcome_screen_pixels (eink_clear d.eink).1 hci h5
      refine ⟨by rw [hb, hX], fun p hp => ?_, fun p hp => ?_⟩
      · rw [hpix, hX]; exact w1 p hp
      · rw [hpix, hX]; exact w2 p hp
    · intro hs
      have hX := draw_main_menu_calls { d with eink := (eink_clear d.eink).1 }
      rw [← display_process_draw_main_menu { d with eink := (eink_clear d.eink).1 } hs] at hX
      obtain ⟨w1, w2⟩ := main_menu_pixels (eink_clear d.eink).1 d.menu_selection
        d.status_text hr
      refine ⟨by rw [hb, hX], fun p hp => ?_, fun hsel => ?_⟩
      · rw [hpix, hX]; exact w1 p hp
      · rw [hpix, hX]; exact w2 hsel
    · intro hs
      have hX := draw_settings_screen_calls { d with eink := (eink_clear d.eink).1 }
      rw [← display_process_draw_settings { d with eink := (eink_clear d.eink).1 } hs] at hX
      obtain ⟨w1, w2⟩ := settings_screen_pixels (eink_clear d.eink).1 hr
      refine ⟨by rw [hb, hX], fun p hp => ?_, fun p hp => ?_⟩
      · rw [hpix, hX]; exact w1 p hp
      · rw [hpix, hX]; exact w2 p hp
    · intro hs
      have hX := draw_about_screen_calls { d with eink := (eink_clear d.eink).1 }
      rw [← display_process_draw_about { d with eink := (eink_clear d.eink).1 } hs] at hX
      have w1 := about_screen_pixels (eink_clear d.eink).1 d.build_date hr
      refine ⟨by rw [hb, hX], fun p hp => ?_⟩
      rw [hpix, hX]; exact w1 p hp
    · intro hs
      have hX := draw_error_screen_calls { d with eink := (eink_clear d.eink).1 } d.status_text
      rw [← display_process_draw_error { d with eink := (eink_clear d.eink).1 } hs] at hX
      have w1 := error_screen_pixels (eink_clear d.eink).1 d.status_text hr
      refine ⟨by rw [hb, hX], fun p hp => ?_⟩
      rw [hpix, hX]; exact w1 p hp
    · intro hs
      rw [hb, display_process_draw_sleep { d with eink := (eink_clear d.eink).1 } hs]
      exact h5

theorem display_process_cycle_witness :
    welcome_state.display_needs_refresh = true ∧ welcome_state.eink.eink_initialized = true ∧
    welcome_state.current_screen = SCREEN_WELCOME ∧
    (display_process welcome_state).eink.refresh_counter
      = (welcome_state.eink.refresh_counter + 1) % 2 ^ 32 ∧
    (display_process welcome_state).display_needs_refresh = false ∧
    display_process (display_process welcome_state) = display_process welcome_state ∧
    (display_process welcome_state).eink.display_buffer
      = (draw_calls_run (eink_clear welcome_state.eink).1
        [.text 50 30 (lit "OpenEInk") FONT_LARGE_SIZE 0,
         .text 40 50 (lit "Open Source") FONT_MEDIUM_SIZE 0,
         .text 30 70 (lit "E-Ink Firmware") FONT_MEDIUM_SIZE 0,
         .text 60 90 (lit "v1.0.0") FONT_SMALL_SIZE 0,
         .text 20 110 (lit "Press any key to continue") FONT_SMALL_SIZE 0,
         .rectangle 5 5 240 112 0 false]).display_buffer ∧
    (∀ p ∈ [(50, 30), (40, 50), (30, 70), (60, 90), (20, 110), (5, 5),
        (244, 5), (5, 116), (244, 116)],
      eink_get_pixel (display_process welcome_state).eink p.1 p.2 = some 0) ∧
    (∀ p ∈ [(0, 0), (6, 6), (51, 31)],
      eink_get_pixel (display_process welcome_state).eink p.1 p.2 = some 1) :=
  have hw := display_init_welcome (display_power_on (fun _ => false) (lit "May 28 2025"))
  have h := (display_process_cycle welcome_state).2 hw.2.2.1 hw.2.2.2.2
  ⟨hw.2.2.1, hw.2.2.2.2, hw.2.1, h.2.2.2.2.2.2.2.1, h.2.2.2.2.2.2.2.2.2.1,
    (display_process_cycle (display_process welcome_state)).1 h.2.2.2.2.2.2.2.2.2.1,
    h.2.2.2.2.2.2.2.2.2.2.2.2.1 hw.2.1⟩

/-- C16 as stated fails: from the main menu with the cursor on the Sleep entry, the call
`display_handle_button(3, 1)` changes the screen from MainMenu to Sleep and leaves the dirty
flag false. -/
theorem sleep_action_leaves_dirty_false :
    sleep_entry_state.current_screen = SCREEN_MAIN_MENU ∧
    sleep_entry_state.menu_selection = 2 ∧
    (display_handle_button sleep_entry_state 3 1).current_screen = SCREEN_SLEEP ∧
    (display_handle_button sleep_entry_state 3 1).current_screen
      ≠ sleep_entry_state.current_screen ∧
    (display_handle_button sleep_entry_state 3 1).display_needs_refresh = false := by
  have hs : sleep_entry_state.current_screen = SCREEN_MAIN_MENU := rfl
  have hc : sleep_entry_state.menu_selection = 2 := rfl
  have e : display_handle_button sleep_entry_state 3 1 = menu_action_sleep sleep_entry_state := by
    rw [main_menu_button_3 _ hs, hc]; rfl
  obtain ⟨h1, h2⟩ := menu_action_sleep_end sleep_entry_state
  refine ⟨hs, hc, by rw [e]; exact h1, by rw [e, h1, hs]; exact (by decide), ?_⟩
  rw [e]
  exact h2

/-- C16 as amended: for every state and every call `display_handle_button(button, event)`, if
the screen or the menu cursor after the call differs from its value before it, then the dirty
flag is true after the call, except when the call ran the sleep action (button 3 with event 1
on the MainMenu screen with the cursor on entry 2): that call ends on the Sleep screen with the
dirty flag false. -/
theorem dirty_when_screen_or_cursor_changes (d : DisplayState) (button_id event : Nat)
    (h : (display_handle_button d button_id event).current_screen ≠ d.current_screen ∨
      (display_handle_button d button_id event).menu_selection ≠ d.menu_selection) :
    (display_handle_button d button_id event).display_needs_refresh = true ∨
    (d.current_screen = SCREEN_MAIN_MENU ∧ button_id = 3 ∧ event = 1 ∧
      d.menu_selection = 2 ∧
      (display_handle_button d button_id event).current_screen = SCREEN_SLEEP ∧
      (display_handle_button d button_id event).display_needs_refresh = false) := by
  rcases display_handle_button_cases d button_id event
    with e | e | e | e | ⟨hs, hb, he, item, action, hget, hact, e⟩ | e
  · rw [e] at h
    exact absurd h (by simp)
  · rw [e]; exact Or.inl rfl
  · rw [e]; exact Or.inl rfl
  · rw [e]; exact Or.inl rfl
  · rw [e]
    rcases menu_action_call_effect d action with ⟨k, -⟩ | ⟨ka, k1, k2, -⟩
    · exact Or.inl k
    · exact Or.inr ⟨hs, hb, he, sleep_entry_index _ item hget (ka ▸ hact), k1, k2⟩
  · rw [e] at h
    exact absurd h (by simp [display_fault])

theorem dirty_when_screen_or_cursor_changes_witness :
    ((display_handle_button welcome_state 1 1).current_screen ≠ welcome_state.current_screen ∨
      (display_handle_button welcome_state 1 1).menu_selection
        ≠ welcome_state.menu_selection) ∧
    ((display_handle_button welcome_state 1 1).display_needs_refresh = true ∨
      (welcome_state.current_screen = SCREEN_MAIN_MENU ∧ 1 = 3 ∧ 1 = 1 ∧
        welcome_state.menu_selection = 2 ∧
        (display_handle_button welcome_state 1 1).current_screen = SCREEN_SLEEP ∧
        (display_handle_button welcome_state 1 1).display_needs_refresh = false)) :=
  ⟨Or.inl (by decide),
    dirty_when_screen_or_cursor_changes welcome_state 1 1 (Or.inl (by decide))⟩

/-- C17 as stated fails: with the driver not initialised and the dirty flag set, `eink_clear`
and `eink_refresh` both return `ERROR_INIT_FAILED`, and `display_process` sets the dirty flag
to false all the same. -/
theorem dirty_cleared_without_driver :
    cold_dirty_state.display_needs_refresh = true ∧
    cold_dirty_state.eink.eink_initialized = false ∧
    (eink_clear cold_dirty_state.eink).2 = ERROR_INIT_FAILED ∧
    (eink_refresh (display_process_draw
      { cold_dirty_state with eink := (eink_clear cold_dirty_state.eink).1 }).eink 1).2
      = ERROR_INIT_FAILED ∧
    ERROR_INIT_FAILED ≠ ERROR_NONE ∧
    (display_process cold_dirty_state).display_needs_refresh = false := by
  have hi : cold_dirty_state.eink.eink_initialized = false := rfl
  refine ⟨rfl, hi, rfl, ?_, by decide, (display_process_ui _).2⟩
  rw [eink_refresh_cold _ _ ((display_process_drawn cold_dirty_state).1.trans hi)]

/-- C17 as amended: whenever the dirty flag is set, `display_process` issues `eink_clear`, the
draw routine and one `eink_refresh(1)` and then sets the dirty flag to false, whatever the two
calls returned: on an initialised driver both return `ERROR_NONE`, on a driver that is not
initialised both return `ERROR_INIT_FAILED` and the driver is left as it was. -/
theorem display_process_clears_dirty (d : DisplayState) (h : d.display_needs_refresh = true) :
    (display_process d).display_needs_refresh = false ∧
    (display_process d).eink
      = (eink_refresh (display_process_draw { d with eink := (eink_clear d.eink).1 }).eink
          1).1 ∧
    (d.eink.eink_initialized = true →
      (eink_clear d.eink).2 = ERROR_NONE ∧
      (eink_refresh (display_process_draw { d with eink := (eink_clear d.eink).1 }).eink 1).2
        = ERROR_NONE) ∧
    (d.eink.eink_initialized = false →
      (eink_clear d.eink).2 = ERROR_INIT_FAILED ∧
      (eink_refresh (display_process_draw { d with eink := (eink_clear d.eink).1 }).eink 1).2
        = ERROR_INIT_FAILED ∧
      driver_vars (display_process d).eink = driver_vars d.eink) := by
  have e : (display_process d).eink
      = (eink_refresh (display_process_draw { d with eink := (eink_clear d.eink).1 }).eink
          1).1 := by
    rw [display_process_dirty d h]
  refine ⟨(display_process_ui d).2, e, ?_, ?_⟩
  · intro hi
    exact ⟨(eink_clear_ready d.eink hi).1,
      (eink_refresh_ready _ 1 ((display_process_drawn d).1.trans hi)).1⟩
  · intro hi
    have hc : (eink_clear d.eink).2 = ERROR_INIT_FAILED := by
      unfold eink_clear
      rw [if_pos hi]
    have hr := eink_refresh_cold
      (display_process_draw { d with eink := (eink_clear d.eink).1 }).eink 1
      ((display_process_drawn d).1.trans hi)
    refine ⟨hc, by rw [hr], ?_⟩
    rw [e, hr, display_process_draw_driver_vars]
    exact eink_clear_driver_vars d.eink

theorem display_process_clears_dirty_witness :
    welcome_state.display_needs_refresh = true ∧
    (display_process welcome_state).display_needs_refresh = false :=
  have hw := display_init_welcome (display_power_on (fun _ => false) (lit "May 28 2025"))
  ⟨hw.2.2.1, (display_process_clears_dirty welcome_state hw.2.2.1).1⟩

/-- C18: for every state of the display manager and every finite sequence of calls of
`display_handle_button` followed by one call of `display_process`, the refresh counter at the
end is the one at the start or one more (modulo 2^32): at most one refresh is performed. -/
theorem refresh_at_most_once (d : DisplayState) (events : List (Nat × Nat)) :
    (display_process (handle_buttons d events)).eink.refresh_counter
      = d.eink.refresh_counter ∨
    (display_process (handle_buttons d events)).eink.refresh_counter
      = (d.eink.refresh_counter + 1) % 2 ^ 32 := by
  rcases handle_buttons_counter events d d.eink.refresh_counter (Or.inl rfl)
    with h | ⟨-, h2, h3⟩
  · rcases display_process_counter (handle_buttons d events) with k | k
    · exact Or.inl (k.trans h)
    · exact Or.inr (by rw [k, h])
  · right
    unfold display_process
    rw [if_pos h2]
    exact h3

/-- C19: on the MainMenu screen with the cursor on the Sleep entry (entry 2) and the driver
initialised, `display_handle_button(3, 1)` runs the sleep action.  It sets the status text to
"Entering sleep mode...", clears the framebuffer, redraws the main menu with the new status
text and calls `eink_refresh(1)` once; the SDK calls of that refresh, all of them, are
followed by the deep-sleep command 0x10 with data 0x01 and by nothing else.  At the end the
framebuffer is the redrawn one, the refresh counter is one more (modulo 2^32), the screen is
Sleep and the dirty flag is false.  The redraw is the whole main menu: the framebuffer at the
end is the cleared one after the ten driver calls listed (header bar, title, the three
entries with the marker `>` in front of the last, the line of the status bar, the status text
"Entering sleep mode...", the two rectangles of the battery), and `eink_get_pixel` returns 0
for the pixels listed first (the corner of the header bar, the corner of the first glyph of
each entry, of the marker and of the status text, the two ends of the status line, corners of
the battery rectangles) and 1 for the pixels listed second (the corner of the first glyph of
the title, drawn light on the dark bar, the places of the marker in front of the two other
entries, and the first pixel below the header bar). -/
theorem sleep_action_sequence (d : DisplayState) (hs : d.current_screen = SCREEN_MAIN_MENU)
    (hc : d.menu_selection = 2) (hi : d.eink.eink_initialized = true) :
    display_handle_button d 3 1 = menu_action_sleep d ∧
    (display_handle_button d 3 1).status_text
      = status_text_assign d.status_text (lit "Entering sleep mode...") ∧
    c_str (display_handle_button d 3 1).status_text = lit "Entering sleep mode..." ∧
    (display_handle_button d 3 1).eink.display_buffer
      = (draw_main_menu { display_set_status d (some (lit "Entering sleep mode...")) with
          eink := (eink_clear d.eink).1 }).eink.display_buffer ∧
    (eink_clear d.eink).1.display_buffer = List.replicate DISPLAY_BUFFER_SIZE 0xFF ∧
    (display_handle_button d 3 1).eink.trace
      = d.eink.trace ++
        (refresh_events
          (draw_main_menu { display_set_status d (some (lit "Entering sleep mode...")) with
            eink := (eink_clear d.eink).1 }).eink 1 ++
         (cmd 0x10 ++ dat 0x01)) ∧
    bus_bytes false ((display_handle_button d 3 1).eink.trace.drop d.eink.trace.length)
      = bus_bytes false (refresh_events
          (draw_main_menu { display_set_status d (some (lit "Entering sleep mode...")) with
            eink := (eink_clear d.eink).1 }).eink 1) ++
        [(false, 0x10), (true, 0x01)] ∧
    (display_handle_button d 3 1).eink.refresh_counter
      = (d.eink.refresh_counter + 1) % 2 ^ 32 ∧
    (display_handle_button d 3 1).current_screen = SCREEN_SLEEP ∧
    (display_handle_button d 3 1).display_needs_refresh = false ∧
    (display_handle_button d 3 1).eink.display_buffer
      = (draw_calls_run (eink_clear d.eink).1
        [.rectangle 0 0 250 20 0 true,
         .text 10 5 (lit "Main Menu") FONT_MEDIUM_SIZE 1,
         .text 25 30 (lit "Settings") FONT_MEDIUM_SIZE 0,
         .text 25 50 (lit "About") FONT_MEDIUM_SIZE 0,
         .text 10 70 (lit ">") FONT_MEDIUM_SIZE 0,
         .text 25 70 (lit "Sleep") FONT_MEDIUM_SIZE 0,
         .line 0 107 250 107 0,
         .text 5 109 (lit "Entering sleep mode...") FONT_SMALL_SIZE 0,
         .rectangle 225 109 20 10 0 false,
         .rectangle 245 112 3 4 0 true]).display_buffer ∧
    (∀ p ∈ [(0, 0), (25, 30), (25, 50), (10, 70), (25, 70), (0, 107), (249, 107), (5, 109),
        (225, 109), (244, 118), (245, 112), (247, 115)],
      eink_get_pixel (display_handle_button d 3 1).eink p.1 p.2 = some 0) ∧
    (∀ p ∈ [(10, 5), (10, 30), (10, 50), (0, 20)],
      eink_get_pixel (display_handle_button d 3 1).eink p.1 p.2 = some 1) := by
  have e : display_handle_button d 3 1 = menu_action_sleep d := by
    rw [main_menu_button_3 d hs, hc]; rfl
  obtain ⟨p1, p2, p3⟩ := process_main_menu_then_sleep
    (display_set_status d (some (lit "Entering sleep mode..."))) rfl hs hi
  have hstatus : (menu_action_sleep d).status_text
      = status_text_assign d.status_text (lit "Entering sleep mode...") :=
    (display_process_ui (display_set_status d (some (lit "Entering sleep mode...")))).1.2.2.1
  have htrace : (menu_action_sleep d).eink.trace
      = d.eink.trace ++
        (refresh_events
          (draw_main_menu { display_set_status d (some (lit "Entering sleep mode...")) with
            eink := (eink_clear d.eink).1 }).eink 1 ++
         (cmd 0x10 ++ dat 0x01)) := p2
  have hci : (eink_clear d.eink).1.eink_initialized = true :=
    (driver_vars_fields (eink_clear_driver_vars d.eink)).1.trans hi
  have h5 := (eink_clear_ready d.eink hi).2
  have hX : (draw_main_menu { display_set_status d (some (lit "Entering sleep mode...")) with
      eink := (eink_clear d.eink).1 }).eink = draw_calls_run (eink_clear d.eink).1 _ :=
    (draw_main_menu_calls { display_set_status d (some (lit "Entering sleep mode...")) with
      eink := (eink_clear d.eink).1 }).trans
      (sleep_menu_calls (eink_clear d.eink).1 d.menu_selection
        (status_text_assign d.status_text (lit "Entering sleep mode...")) hc
        (c_str_sleep_status d.status_text))
  have hbuf : (menu_action_sleep d).eink.display_buffer
      = (draw_calls_run (eink_clear d.eink).1 _).display_buffer :=
    p1.trans (congrArg EinkState.display_buffer hX)
  have hinit : (menu_action_sleep d).eink.eink_initialized = true :=
    (eink_sleep_ready _ (display_process_pixels
      (display_set_status d (some (lit "Entering sleep mode..."))) rfl hi).2.1).2.1
  have hpix : ∀ x y, eink_get_pixel (menu_action_sleep d).eink x y
      = eink_get_pixel (draw_calls_run (eink_clear d.eink).1 _) x y := fun x y =>
    get_pixel_buffer_eq _ _ x y
      (hinit.trans (buffer_ready_draw_calls _ _
        ⟨hci, by rw [h5, List.length_replicate]⟩).1.symm) hbuf
  obtain ⟨w1, w2⟩ := sleep_menu_pixels (eink_clear d.eink).1 hci h5
  rw [e]
  refine ⟨rfl, hstatus, by rw [hstatus]; exact c_str_sleep_status _, p1, h5, htrace, ?_, p3,
    (menu_action_sleep_end d).1, (menu_action_sleep_end d).2, hbuf, fun p hp => ?_,
    fun p hp => ?_⟩
  · rw [htrace, List.drop_left]
    exact bus_bytes_append_low _ _ false
  · rw [hpix]; exact w1 p hp
  · rw [hpix]; exact w2 p hp

theorem sleep_action_sequence_witness :
    sleep_entry_state.current_screen = SCREEN_MAIN_MENU ∧
    sleep_entry_state.menu_selection = 2 ∧
    sleep_entry_state.eink.eink_initialized = true ∧
    (display_handle_button sleep_entry_state 3 1).current_screen = SCREEN_SLEEP ∧
    (display_handle_button sleep_entry_state 3 1).eink.refresh_counter
      = (sleep_entry_state.eink.refresh_counter + 1) % 2 ^ 32 ∧
    c_str (display_handle_button sleep_entry_state 3 1).status_text
      = lit "Entering sleep mode..." ∧
    (display_handle_button sleep_entry_state 3 1).eink.display_buffer
      = (draw_calls_run (eink_clear sleep_entry_state.eink).1
        [.rectangle 0 0 250 20 0 true,
         .text 10 5 (lit "Main Menu") FONT_MEDIUM_SIZE 1,
         .text 25 30 (lit "Settings") FONT_MEDIUM_SIZE 0,
         .text 25 50 (lit "About") FONT_MEDIUM_SIZE 0,
         .text 10 70 (lit ">") FONT_MEDIUM_SIZE 0,
         .text 25 70 (lit "Sleep") FONT_MEDIUM_SIZE 0,
         .line 0 107 250 107 0,
         .text 5 109 (lit "Entering sleep mode...") FONT_SMALL_SIZE 0,
         .rectangle 225 109 20 10 0 false,
         .rectangle 245 112 3 4 0 true]).display_buffer ∧
    (∀ p ∈ [(0, 0), (25, 30), (25, 50), (10, 70), (25, 70), (0, 107), (249, 107), (5, 109),
        (225, 109), (244, 118), (245, 112), (247, 115)],
      eink_get_pixel (display_handle_button sleep_entry_state 3 1).eink p.1 p.2 = some 0) ∧
    (∀ p ∈ [(10, 5), (10, 30), (10, 50), (0, 20)],
      eink_get_pixel (display_handle_button sleep_entry_state 3 1).eink p.1 p.2 = some 1) :=
  have hi : sleep_entry_state.eink.eink_initialized = true :=
    (display_init_welcome (display_power_on (fun _ => false) (lit "May 28 2025"))).2.2.2.2
  have h := sleep_action_sequence sleep_entry_state rfl rfl hi
  ⟨rfl, rfl, hi, h.2.2.2.2.2.2.2.2.1, h.2.2.2.2.2.2.2.1, h.2.2.1,
    h.2.2.2.2.2.2.2.2.2.2⟩

/-! ## Lines -/

/-- C20 as stated fails: from (0,0) to (2,1) `eink_draw_line` passes the coordinates (0,0),
(1,0), (2,1) to `eink_set_pixel`, and from (2,1) to (0,0) the coordinates (2,1), (1,1), (0,0);
the two sets differ in (1,0), and on the freshly initialised driver the two calls with colour 0
leave framebuffers in which the pixel (1,0) is dark after the first and light after the
second. -/
theorem draw_line_not_symmetric :
    eink_draw_line_points 0 0 2 1 = [(0, 0), (1, 0), (2, 1)] ∧
    eink_draw_line_points 2 1 0 0 = [(2, 1), (1, 1), (0, 0)] ∧
    (1, 0) ∈ eink_draw_line_points 0 0 2 1 ∧ (1, 0) ∉ eink_draw_line_points 2 1 0 0 ∧
    (eink_draw_line ready_state 0 0 2 1 0).1
      = (eink_draw_line_points 0 0 2 1).foldl (plot 0) ready_state ∧
    (eink_draw_line ready_state 2 1 0 0 0).1
      = (eink_draw_line_points 2 1 0 0).foldl (plot 0) ready_state ∧
    eink_get_pixel (eink_draw_line ready_state 0 0 2 1 0).1 1 0 = some 0 ∧
    eink_get_pixel (eink_draw_line ready_state 2 1 0 0 0).1 1 0 = some 1 := by
  obtain ⟨h, hbuf, -, -⟩ := ready_state_ready
  have hlen : ready_state.display_buffer.length = DISPLAY_BUFFER_SIZE := by simp [hbuf]
  have e1 := eink_draw_line_eq ready_state 0 0 2 1 0 h (by decide)
  have e2 := eink_draw_line_eq ready_state 2 1 0 0 0 h (by decide)
  refine ⟨eink_draw_line_points_example.1, eink_draw_line_points_example.2, by decide,
    by decide, e1, e2, ?_, ?_⟩
  · rw [e1, eink_draw_line_points_example.1]
    show eink_get_pixel (plot 0 (plot 0 (plot 0 ready_state (0, 0)) (1, 0)) (2, 1)) 1 0 = _
    rw [get_pixel_plot_other 0 _ (2, 1) 1 0 (Or.inl (by decide))]
    exact (set_get_pixel_inside (plot 0 ready_state (0, 0)) 1 0 0
      ((plot_initialized 0 ready_state (0, 0)).trans h) (by decide) (by decide)
      (by rw [plot_length, hlen]; decide)).2.2
  · rw [e2, eink_draw_line_points_example.2]
    show eink_get_pixel (plot 0 (plot 0 (plot 0 ready_state (2, 1)) (1, 1)) (0, 0)) 1 0 = _
    rw [get_pixel_plot_other 0 _ (0, 0) 1 0 (Or.inr (by decide)),
      get_pixel_plot_other 0 _ (1, 1) 1 0 (Or.inl (by decide)),
      get_pixel_plot_other 0 _ (2, 1) 1 0 (Or.inl (by decide))]
    exact get_pixel_ready 1 0 (by decide) (by decide) (by decide)

/-- C20 as amended: `eink_draw_line` is symmetric in direction for the lines along one row or
one column.  For `uint16_t` endpoints with `x0 = x1` or `y0 = y1` and every colour, the
coordinates passed to `eink_set_pixel` by `eink_draw_line(a, b)` are those passed by
`eink_draw_line(b, a)` in reverse order, so the two sets are equal, and both calls return the
same value and leave the same driver state, framebuffer included, when started from the same
state.  (On an initialised driver the state a call leaves is the one after plotting its
coordinates in order.) -/
theorem draw_line_axis_symmetric (s : EinkState) (x0 y0 x1 y1 color : Nat)
    (h : x0 = x1 ∨ y0 = y1)
    (hx0 : x0 < 65536) (hy0 : y0 < 65536) (hx1 : x1 < 65536) (hy1 : y1 < 65536) :
    eink_draw_line_points x1 y1 x0 y0 = (eink_draw_line_points x0 y0 x1 y1).reverse ∧
    (∀ p, p ∈ eink_draw_line_points x0 y0 x1 y1 ↔ p ∈ eink_draw_line_points x1 y1 x0 y0) ∧
    (s.eink_initialized = true →
      (eink_draw_line s x0 y0 x1 y1 color).1
        = (eink_draw_line_points x0 y0 x1 y1).foldl (plot color) s ∧
      (eink_draw_line s x1 y1 x0 y0 color).1
        = (eink_draw_line_points x1 y1 x0 y0).foldl (plot color) s) ∧
    eink_draw_line s x0 y0 x1 y1 color = eink_draw_line s x1 y1 x0 y0 color ∧
    (eink_draw_line s x0 y0 x1 y1 color).1.display_buffer
      = (eink_draw_line s x1 y1 x0 y0 color).1.display_buffer := by
  obtain ⟨r1, r2, hrev⟩ := axis_line_reverse x0 y0 x1 y1 h hx0 hy0 hx1 hy1
  have hmem : ∀ p, p ∈ eink_draw_line_points x0 y0 x1 y1 ↔
      p ∈ eink_draw_line_points x1 y1 x0 y0 := by
    intro p
    rw [hrev, List.mem_reverse]
  have heq : eink_draw_line s x0 y0 x1 y1 color = eink_draw_line s x1 y1 x0 y0 color := by
    by_cases hi : s.eink_initialized = true
    · have e1 := eink_draw_line_eq s x0 y0 x1 y1 color hi r1
      have e2 := eink_draw_line_eq s x1 y1 x0 y0 color hi r2
      have hs : (eink_draw_line s x0 y0 x1 y1 color).1
          = (eink_draw_line s x1 y1 x0 y0 color).1 := by
        rw [e1, e2, hrev, foldl_plot_reverse]
      have hr : ∀ a b c d, (eink_draw_line s a b c d color).2 = ERROR_NONE := by
        intro a b c d
        unfold eink_draw_line
        rw [if_neg (by simp [hi])]
      exact Prod.ext hs ((hr _ _ _ _).trans (hr _ _ _ _).symm)
    · unfold eink_draw_line
      rw [if_pos (by simpa using hi), if_pos (by simpa using hi)]
  refine ⟨hrev, hmem, fun hi => ⟨eink_draw_line_eq s x0 y0 x1 y1 color hi r1,
    eink_draw_line_eq s x1 y1 x0 y0 color hi r2⟩, heq, by rw [heq]⟩

theorem draw_line_axis_symmetric_witness :
    (3 = 10 ∨ 7 = 7) ∧
    eink_draw_line_points 10 7 3 7 = (eink_draw_line_points 3 7 10 7).reverse ∧
    eink_draw_line ready_state 3 7 10 7 0 = eink_draw_line ready_state 10 7 3 7 0 :=
  have h := draw_line_axis_symmetric ready_state 3 7 10 7 0 (Or.inr rfl) (by decide)
    (by decide) (by decide) (by decide)
  ⟨Or.inr rfl, h.1, h.2.2.2.1⟩

/-- C21, at inputs where the code departs from it: on the initialised driver the call
`eink_draw_line(246, 121, 246, 121, 1)`, with equal in-range end points, returns `ERROR_NONE`,
but the one pixel it writes has the byte index 3812, outside the 3812-byte framebuffer: the
framebuffer stays as it was, and `eink_get_pixel(246, 121)` reads outside the array instead of
returning the colour.  The same holds for the end point (249, 121) of the bottom row drawn by
`eink_draw_line(0, 121, 249, 121, 0)`, whose other end point (0, 121) does read as 0. -/
theorem line_endpoint_outside_buffer :
    ready_state.eink_initialized = true ∧ 246 < EINK_WIDTH ∧ 249 < EINK_WIDTH ∧
    121 < EINK_HEIGHT ∧
    (eink_draw_line ready_state 246 121 246 121 1).2 = ERROR_NONE ∧
    eink_draw_line_points 246 121 246 121 = [(246, 121)] ∧
    (eink_draw_line ready_state 246 121 246 121 1).1.mem_fault = true ∧
    (eink_draw_line ready_state 246 121 246 121 1).1.display_buffer
      = ready_state.display_buffer ∧
    eink_get_pixel (eink_draw_line ready_state 246 121 246 121 1).1 246 121 = none ∧
    (eink_draw_line ready_state 0 121 249 121 0).2 = ERROR_NONE ∧
    eink_get_pixel (eink_draw_line ready_state 0 121 249 121 0).1 0 121 = some 0 ∧
    eink_get_pixel (eink_draw_line ready_state 0 121 249 121 0).1 249 121 = none := by
  obtain ⟨h, hbuf, -, -⟩ := ready_state_ready
  have hlen : ready_state.display_buffer.length = DISPLAY_BUFFER_SIZE := by simp [hbuf]
  have hret : ∀ x0 y0 x1 y1 c, (eink_draw_line ready_state x0 y0 x1 y1 c).2 = ERROR_NONE := by
    intro x0 y0 x1 y1 c
    unfold eink_draw_line
    rw [if_neg (by simp [h])]
  have hpts : eink_draw_line_points 246 121 246 121 = [(246, 121)] := by decide
  have hdot : (eink_draw_line ready_state 246 121 246 121 1).1
      = (eink_set_pixel ready_state 246 121 1).1 := by
    rw [eink_draw_line_eq ready_state 246 121 246 121 1 h (by decide), hpts]
    rfl
  obtain ⟨-, hf, hb, hg⟩ := set_get_pixel_outside ready_state 246 121 1 h (by decide)
    (by decide) (by rw [hlen]; decide)
  have hrow := hline_run_finished 0 249 121 (by norm_num) (by norm_num)
  have hrow0 := (draw_line_endpoints_stored ready_state 0 121 249 121 0 h hrow).1
    (by decide) (by decide) (by rw [hlen]; decide)
  refine ⟨h, by decide, by decide, by decide, hret _ _ _ _ _, hpts, ?_, ?_, ?_, hret _ _ _ _ _,
    hrow0, ?_⟩
  · rw [hdot]; exact hf
  · rw [hdot]; exact hb
  · rw [hdot]; exact hg
  · rw [eink_draw_line_eq ready_state 0 121 249 121 0 h hrow]
    exact get_pixel_outside _ 249 121 ((foldl_plot_initialized _ _ _).trans h) (by decide)
      (by decide) (by rw [foldl_plot_length, hlen]; decide)

/-! ## Rectangles -/

/-- C22, at an input where the code departs from it: on the initialised driver with the
framebuffer all light, `eink_draw_rectangle(0, 1, 1, 1, 0, true)` is a filled rectangle of one
pixel inside the panel; afterwards `eink_get_pixel` returns 0 for its pixel (0, 1), and also for
the pixel (248, 0) outside the rectangle, which read as 1 before: the two coordinates have the
same byte index 31 and the same bit index 0. -/
theorem filled_rectangle_changes_outside_pixel :
    ready_state.eink_initialized = true ∧
    ready_state.display_buffer = List.replicate DISPLAY_BUFFER_SIZE 0xFF ∧
    0 + 1 ≤ EINK_WIDTH ∧ 1 + 1 ≤ EINK_HEIGHT ∧ 248 < EINK_WIDTH ∧ 0 < EINK_HEIGHT ∧
    ¬ (0 ≤ 248 ∧ 248 < 0 + 1 ∧ 1 ≤ 0 ∧ 0 < 1 + 1) ∧
    (1 * EINK_WIDTH + 0) / 8 = (0 * EINK_WIDTH + 248) / 8 ∧ 0 % 8 = 248 % 8 ∧
    (eink_draw_rectangle ready_state 0 1 1 1 0 true).2 = ERROR_NONE ∧
    eink_get_pixel (eink_draw_rectangle ready_state 0 1 1 1 0 true).1 0 1 = some 0 ∧
    eink_get_pixel ready_state 248 0 = some 1 ∧
    eink_get_pixel (eink_draw_rectangle ready_state 0 1 1 1 0 true).1 248 0 = some 0 := by
  obtain ⟨h, hbuf, -, -⟩ := ready_state_ready
  have hlen : ready_state.display_buffer.length = DISPLAY_BUFFER_SIZE := by simp [hbuf]
  obtain ⟨r1, r2, r3⟩ := filled_pixel_shared ready_state h hlen
  exact ⟨h, hbuf, by decide, by decide, by decide, by decide, by decide, by decide, by decide,
    r1, r2, get_pixel_ready 248 0 (by decide) (by decide) (by decide), r3⟩

/-- C23, at an input where the code departs from it: on the initialised driver with the
framebuffer all light, `eink_draw_rectangle(0, 1, 2, 2, 0, false)` is the outline of a
rectangle of width 2 and height 2 inside the panel, whose four lines pass the four boundary
pixels to `eink_set_pixel`; afterwards `eink_get_pixel` returns 0 for the corner (0, 1), and
also for the pixel (248, 0) outside the rectangle, which read as 1 before: the two coordinates
have the same byte index 31 and the same bit index 0. -/
theorem outline_rectangle_changes_outside_pixel :
    ready_state.eink_initialized = true ∧
    ready_state.display_buffer = List.replicate DISPLAY_BUFFER_SIZE 0xFF ∧
    0 + 2 ≤ EINK_WIDTH ∧ 1 + 2 ≤ EINK_HEIGHT ∧ 248 < EINK_WIDTH ∧ 0 < EINK_HEIGHT ∧
    ¬ (0 ≤ 248 ∧ 248 < 0 + 2 ∧ 1 ≤ 0 ∧ 0 < 1 + 2) ∧
    (1 * EINK_WIDTH + 0) / 8 = (0 * EINK_WIDTH + 248) / 8 ∧ 0 % 8 = 248 % 8 ∧
    (eink_draw_rectangle ready_state 0 1 2 2 0 false).2 = ERROR_NONE ∧
    (eink_draw_rectangle ready_state 0 1 2 2 0 false).1 =
      [(0, 1), (1, 1), (0, 2), (1, 2), (0, 1), (0, 2), (1, 1), (1, 2)].foldl (plot 0)
        ready_state ∧
    eink_get_pixel (eink_draw_rectangle ready_state 0 1 2 2 0 false).1 0 1 = some 0 ∧
    eink_get_pixel ready_state 248 0 = some 1 ∧
    eink_get_pixel (eink_draw_rectangle ready_state 0 1 2 2 0 false).1 248 0 = some 0 := by
  obtain ⟨h, hbuf, -, -⟩ := ready_state_ready
  have hlen : ready_state.display_buffer.length = DISPLAY_BUFFER_SIZE := by simp [hbuf]
  obtain ⟨r1, r2, r3, r4⟩ := outline_pixel_shared ready_state h hlen
  exact ⟨h, hbuf, by decide, by decide, by decide, by decide, by decide, by decide, by decide,
    r1, r2, r3, get_pixel_ready 248 0 (by decide) (by decide) (by decide), r4⟩

/-! ## Text -/

/-- The calls `eink_display_text` makes for a text that fits: on an initialised driver, for a
glyph size `s` with `3 ≤ s` (and `s < 256`, the parameter being a `uint8_t`) and a text made of
the lines `lines` separated by newline characters, every line of length `L` with
`x + L * s < EINK_WIDTH` and the last line with `y + i * (s + 2) < EINK_HEIGHT`,
`eink_display_text` returns `ERROR_NONE` and what it draws is,
for character `j` of line `i` in reading order, the outline rectangle of width and height
`s - 2` with its top-left corner at `(x + j * s, y + i * (s + 2))`, and nothing else: the
newline characters draw nothing and the loop reads the whole text. -/
theorem display_text_grid (st : EinkState) (x y s color : Nat) (lines : List (List Nat))
    (hinit : st.eink_initialized = true) (hs : 3 ≤ s) (hs8 : s < 256) (hne : lines ≠ [])
    (hchars : ∀ line ∈ lines, ∀ c ∈ line, c ≠ 10 ∧ c ≠ 0)
    (hfx : ∀ line ∈ lines, x + line.length * s < EINK_WIDTH)
    (hfy : y + (lines.length - 1) * (s + 2) < EINK_HEIGHT) :
    (List.intercalate [10] lines).splitOn 10 = lines ∧
    (eink_display_text st x y (some (List.intercalate [10] lines)) s color).2 = ERROR_NONE ∧
    eink_display_text_glyphs x y (List.intercalate [10] lines) s = text_grid x y s lines 0 ∧
    eink_display_text_stops x y (List.intercalate [10] lines) s = false ∧
    (eink_display_text st x y (some (List.intercalate [10] lines)) s color).1 =
      (text_grid x y s lines 0).foldl
        (fun st p => (eink_draw_rectangle st p.1 p.2 (s - 2) (s - 2) color false).1) st := by
  have hz := c_str_intercalate lines (fun l hl c hc => (hchars l hl c hc).2)
  have hg := glyphs_lines x y s lines 0 hne (fun l hl c hc => (hchars l hl c hc).1) hfx
    (by rw [Nat.zero_add]; exact hfy)
  rw [Nat.zero_mul, Nat.add_zero] at hg
  have hside : u16 ((s : Int) - 2) = s - 2 := by
    unfold u16
    omega
  have hglyphs : eink_display_text_glyphs x y (List.intercalate [10] lines) s
      = text_grid x y s lines 0 := by
    unfold eink_display_text_glyphs
    rw [hz, hg]
  refine ⟨List.splitOn_intercalate lines 10 (fun l hl hc => (hchars l hl 10 hc).1 rfl) hne,
    ?_, hglyphs, ?_, ?_⟩
  · rw [eink_display_text_eq st x y _ s color hinit]
  · unfold eink_display_text_stops
    rw [hz, hg]
  · rw [eink_display_text_eq st x y _ s color hinit, hglyphs]
    unfold glyph
    rw [hside]

theorem display_text_grid_witness :
    ready_state.eink_initialized = true ∧ 3 ≤ 8 ∧ 8 < 256 ∧
    ([[72, 105], [], [33]] : List (List Nat)) ≠ [] ∧
    (∀ line ∈ ([[72, 105], [], [33]] : List (List Nat)), ∀ c ∈ line, c ≠ 10 ∧ c ≠ 0) ∧
    (∀ line ∈ ([[72, 105], [], [33]] : List (List Nat)), 10 + line.length * 8 < EINK_WIDTH) ∧
    20 + (([[72, 105], [], [33]] : List (List Nat)).length - 1) * (8 + 2) < EINK_HEIGHT ∧
    List.intercalate [10] [[72, 105], [], [33]] = [72, 105, 10, 10, 33] ∧
    text_grid 10 20 8 [[72, 105], [], [33]] 0 = [(10, 20), (18, 20), (10, 40)] ∧
    ((List.intercalate [10] [[72, 105], [], [33]]).splitOn 10 = [[72, 105], [], [33]] ∧
    (eink_display_text ready_state 10 20 (some (List.intercalate [10] [[72, 105], [], [33]]))
        8 0).2 = ERROR_NONE ∧
    eink_display_text_glyphs 10 20 (List.intercalate [10] [[72, 105], [], [33]]) 8
      = text_grid 10 20 8 [[72, 105], [], [33]] 0 ∧
    eink_display_text_stops 10 20 (List.intercalate [10] [[72, 105], [], [33]]) 8 = false ∧
    (eink_display_text ready_state 10 20 (some (List.intercalate [10] [[72, 105], [], [33]]))
        8 0).1 =
      (text_grid 10 20 8 [[72, 105], [], [33]] 0).foldl
        (fun st p => (eink_draw_rectangle st p.1 p.2 (8 - 2) (8 - 2) 0 false).1) ready_state) :=
  ⟨ready_state_ready.1, by decide, by decide, by decide, by decide, by decide, by decide,
    by decide, by decide,
    display_text_grid ready_state 10 20 8 0 [[72, 105], [], [33]] ready_state_ready.1
      (by decide) (by decide) (by decide) (by decide) (by decide) (by decide)⟩

/-- C24, at inputs where the code departs from it: on the initialised driver with the
framebuffer all light, the one-character text "A" with glyph size 4 at the origin (0, 1) meets
the conditions of the claim, and `eink_display_text` returns `ERROR_NONE` after the one call
`eink_draw_rectangle(0, 1, 2, 2, 0, false)`; afterwards `eink_get_pixel` returns 0 also for
(248, 0) and (249, 0), two pixels of the row above the square, which read as 1 before.  With
glyph size 5 at the origin (244, 119) the conditions are met as well, and the corner (246, 121)
of the square of side 3 is written outside the framebuffer: `eink_get_pixel(246, 121)` reads
outside the array instead of returning 0. -/
theorem display_text_glyph_changes_outside_pixel :
    ready_state.eink_initialized = true ∧
    ready_state.display_buffer = List.replicate DISPLAY_BUFFER_SIZE 0xFF ∧
    ready_state.mem_fault = false ∧
    lit "A" = [65] ∧
    (3 ≤ 4 ∧ 0 + 1 * 4 < EINK_WIDTH ∧ 1 + 0 * (4 + 2) < EINK_HEIGHT) ∧
    eink_display_text ready_state 0 1 (some (lit "A")) 4 0
      = ((eink_draw_rectangle ready_state 0 1 (4 - 2) (4 - 2) 0 false).1, ERROR_NONE) ∧
    ¬ (0 ≤ 248 ∧ 248 < 0 + 2 ∧ 1 ≤ 0 ∧ 0 < 1 + 2) ∧
    ¬ (0 ≤ 249 ∧ 249 < 0 + 2 ∧ 1 ≤ 0 ∧ 0 < 1 + 2) ∧
    eink_get_pixel ready_state 248 0 = some 1 ∧
    eink_get_pixel (eink_display_text ready_state 0 1 (some (lit "A")) 4 0).1 248 0 = some 0 ∧
    eink_get_pixel ready_state 249 0 = some 1 ∧
    eink_get_pixel (eink_display_text ready_state 0 1 (some (lit "A")) 4 0).1 249 0 = some 0 ∧
    (3 ≤ 5 ∧ 244 + 1 * 5 < EINK_WIDTH ∧ 119 + 0 * (5 + 2) < EINK_HEIGHT) ∧
    eink_display_text ready_state 244 119 (some (lit "A")) 5 0
      = ((eink_draw_rectangle ready_state 244 119 (5 - 2) (5 - 2) 0 false).1, ERROR_NONE) ∧
    (244 + (5 - 2) - 1 = 246 ∧ 119 + (5 - 2) - 1 = 121 ∧ 246 < EINK_WIDTH ∧
      121 < EINK_HEIGHT) ∧
    (eink_display_text ready_state 244 119 (some (lit "A")) 5 0).1.mem_fault = true ∧
    eink_get_pixel (eink_display_text ready_state 244 119 (some (lit "A")) 5 0).1 246 121
      = none := by
  obtain ⟨h, hbuf, -, hf⟩ := ready_state_ready
  have hr : buffer_ready ready_state := ⟨h, by simp [hbuf]⟩
  obtain ⟨a1, a2, a3⟩ := text_glyph_shared ready_state hr
  obtain ⟨b1, b2, b3⟩ := text_glyph_outside_buffer ready_state hr
  exact ⟨h, hbuf, hf, by decide, by decide, a1, by decide, by decide,
    get_pixel_ready 248 0 (by decide) (by decide) (by decide), a2,
    get_pixel_ready 249 0 (by decide) (by decide) (by decide), a3, by decide, b1, by decide,
    b2, b3⟩

/-- C25: on an initialised driver, for every text, every glyph size and every origin with
`x < EINK_WIDTH`, `eink_display_text` returns `ERROR_NONE`, what it draws are the glyphs
recorded, all of them with the top-left `x` below `EINK_WIDTH`, and all of them but the first
with the top-left `y` below `EINK_HEIGHT` (all of them when the text starts with a newline or
`y < EINK_HEIGHT`: only the glyph of the first character can lie lower); and once the loop has
found the cursor `y` at or beyond `EINK_HEIGHT` after a character, it has left: whatever text
`more` follows is not looked at and changes neither the glyphs drawn nor the result. -/
theorem display_text_wraps_and_truncates (st : EinkState) (x y s color : Nat)
    (text more : List Nat) (hinit : st.eink_initialized = true) (hx : x < EINK_WIDTH) :
    (eink_display_text st x y (some text) s color).2 = ERROR_NONE ∧
    (eink_display_text st x y (some text) s color).1 =
      (eink_display_text_glyphs x y text s).foldl (glyph s color) st ∧
    (∀ p ∈ eink_display_text_glyphs x y text s, p.1 < EINK_WIDTH) ∧
    (∀ p ∈ (eink_display_text_glyphs x y text s).tail, p.2 < EINK_HEIGHT) ∧
    ((c_str text).head? = some 10 ∨ y < EINK_HEIGHT →
      ∀ p ∈ eink_display_text_glyphs x y text s, p.2 < EINK_HEIGHT) ∧
    (eink_display_text_stops x y text s = true → (∀ c ∈ text, c ≠ 0) →
      eink_display_text_glyphs x y (text ++ more) s = eink_display_text_glyphs x y text s ∧
      eink_display_text st x y (some (text ++ more)) s color
        = eink_display_text st x y (some text) s color) := by
  have hlater : ∀ p ∈ (eink_display_text_glyphs x y text s).tail, p.2 < EINK_HEIGHT := by
    unfold eink_display_text_glyphs
    cases hc : c_str text with
    | nil => intro p hp; simp [eink_display_text_loop_glyphs] at hp
    | cons c rest =>
      have h := glyphs_later_y_lt x s c rest x y
      by_cases h10 : c = 10
      · rw [if_pos h10, List.drop_zero] at h
        intro p hp
        exact h p (List.mem_of_mem_tail hp)
      · rw [if_neg h10, List.drop_one] at h
        exact h
  refine ⟨?_, ?_, ?_, hlater, ?_, ?_⟩
  · rw [eink_display_text_eq st x y text s color hinit]
  · rw [eink_display_text_eq st x y text s color hinit]
  · exact glyphs_x_lt x s hx (c_str text) x y hx
  · rintro (h10 | hy)
    · unfold eink_display_text_glyphs
      cases hc : c_str text with
      | nil => intro p hp; simp [eink_display_text_loop_glyphs] at hp
      | cons c rest =>
        rw [hc] at h10
        have hc10 : c = 10 := by simpa using h10
        have h := glyphs_later_y_lt x s c rest x y
        rw [if_pos hc10, List.drop_zero] at h
        exact h
    · exact glyphs_y_lt x s (c_str text) x y hy
  · intro hstop hz
    have hct : c_str text = text := by
      unfold c_str
      rw [List.takeWhile_eq_self_iff]
      intro c hc
      simpa using hz c hc
    have hcm : c_str (text ++ more) = text ++ c_str more := by
      unfold c_str
      rw [List.takeWhile_append_of_pos]
      intro c hc
      simpa using hz c hc
    unfold eink_display_text_stops at hstop
    rw [hct] at hstop
    have hg : eink_display_text_glyphs x y (text ++ more) s
        = eink_display_text_glyphs x y text s := by
      unfold eink_display_text_glyphs
      rw [hcm, hct, glyphs_stop_append x s text (c_str more) x y hstop]
    refine ⟨hg, ?_⟩
    rw [eink_display_text_eq st x y _ s color hinit,
      eink_display_text_eq st x y text s color hinit, hg]

theorem display_text_wraps_and_truncates_witness :
    ready_state.eink_initialized = true ∧ 244 < EINK_WIDTH ∧
    eink_display_text_glyphs 244 110 [65, 66, 67] 8 = [(244, 110), (244, 120)] ∧
    eink_display_text_stops 244 110 [65, 66] 8 = true ∧
    ((eink_display_text ready_state 244 110 (some [65, 66]) 8 0).2 = ERROR_NONE ∧
    (eink_display_text ready_state 244 110 (some [65, 66]) 8 0).1 =
      (eink_display_text_glyphs 244 110 [65, 66] 8).foldl (glyph 8 0) ready_state ∧
    (∀ p ∈ eink_display_text_glyphs 244 110 [65, 66] 8, p.1 < EINK_WIDTH) ∧
    (∀ p ∈ (eink_display_text_glyphs 244 110 [65, 66] 8).tail, p.2 < EINK_HEIGHT) ∧
    ((c_str [65, 66]).head? = some 10 ∨ 110 < EINK_HEIGHT →
      ∀ p ∈ eink_display_text_glyphs 244 110 [65, 66] 8, p.2 < EINK_HEIGHT) ∧
    (eink_display_text_stops 244 110 [65, 66] 8 = true → (∀ c ∈ [65, 66], c ≠ 0) →
      eink_display_text_glyphs 244 110 ([65, 66] ++ [67]) 8
        = eink_display_text_glyphs 244 110 [65, 66] 8 ∧
      eink_display_text ready_state 244 110 (some ([65, 66] ++ [67])) 8 0
        = eink_display_text ready_state 244 110 (some [65, 66]) 8 0)) :=
  ⟨ready_state_ready.1, by decide, by decide, by decide,
    display_text_wraps_and_truncates ready_state 244 110 8 0 [65, 66] [67]
      ready_state_ready.1 (by decide)⟩

/-! ## Start-up and the busy-wait -/

/-- The bytes of the framebuffer after start-up and after a clear: after `eink_init` on an
uninitialised driver `s`, and after `eink_clear` on an initialised driver `t` whatever its
framebuffer held (`eink_clear` returns `ERROR_NONE`), the framebuffer holds 0xFF in each of its
`EINK_WIDTH * EINK_HEIGHT / 8` bytes, hence a 1 in each of its bits, and `eink_get_pixel`
returns 1 (light) for every pixel stored in it, that is for every in-range coordinate whose
byte index lies inside the framebuffer. -/
theorem init_and_clear_leave_all_light (s t : EinkState)
    (hs : s.eink_initialized = false) (ht : t.eink_initialized = true) :
    ((eink_init s).2 = ERROR_NONE ∧
      (eink_init s).1.display_buffer = List.replicate DISPLAY_BUFFER_SIZE 0xFF ∧
      (∀ b ∈ (eink_init s).1.display_buffer, b = 0xFF ∧ ∀ k < 8, b &&& (0x80 >>> k) ≠ 0) ∧
      ∀ x y, x < EINK_WIDTH → y < EINK_HEIGHT →
        (y * EINK_WIDTH + x) / 8 < (eink_init s).1.display_buffer.length →
        eink_get_pixel (eink_init s).1 x y = some 1) ∧
    ((eink_clear t).2 = ERROR_NONE ∧
      (eink_clear t).1.display_buffer = List.replicate DISPLAY_BUFFER_SIZE 0xFF ∧
      (∀ b ∈ (eink_clear t).1.display_buffer, b = 0xFF ∧ ∀ k < 8, b &&& (0x80 >>> k) ≠ 0) ∧
      ∀ x y, x < EINK_WIDTH → y < EINK_HEIGHT →
        (y * EINK_WIDTH + x) / 8 < (eink_clear t).1.display_buffer.length →
        eink_get_pixel (eink_clear t).1 x y = some 1) := by
  have hbit : ∀ k < 8, 255 &&& (0x80 >>> k) ≠ 0 := by decide
  obtain ⟨i1, i3, i2, -, -⟩ := eink_init_fresh s hs
  obtain ⟨c1, c2⟩ := eink_clear_ready t ht
  have c3 : (eink_clear t).1.eink_initialized = true :=
    (driver_vars_fields (eink_clear_driver_vars t)).1.trans ht
  refine ⟨⟨i1, i2, ?_, ?_⟩, c1, c2, ?_, ?_⟩
  · intro b hb
    rw [i2] at hb
    rw [List.eq_of_mem_replicate hb]
    exact ⟨rfl, hbit⟩
  · intro x y hx hy hin
    rw [i2, List.length_replicate] at hin
    exact get_pixel_all_light _ x y i3 i2 hx hy hin
  · intro b hb
    rw [c2] at hb
    rw [List.eq_of_mem_replicate hb]
    exact ⟨rfl, hbit⟩
  · intro x y hx hy hin
    rw [c2, List.length_replicate] at hin
    exact get_pixel_all_light _ x y c3 c2 hx hy hin

theorem init_and_clear_leave_all_light_witness :
    (power_on (fun _ => true)).eink_initialized = false ∧
    (plot 0 ready_state (3, 4)).eink_initialized = true ∧
    ((eink_init (power_on (fun _ => true))).2 = ERROR_NONE ∧
      (eink_init (power_on (fun _ => true))).1.display_buffer
        = List.replicate DISPLAY_BUFFER_SIZE 0xFF ∧
      (∀ b ∈ (eink_init (power_on (fun _ => true))).1.display_buffer,
        b = 0xFF ∧ ∀ k < 8, b &&& (0x80 >>> k) ≠ 0) ∧
      ∀ x y, x < EINK_WIDTH → y < EINK_HEIGHT →
        (y * EINK_WIDTH + x) / 8 < (eink_init (power_on (fun _ => true))).1.display_buffer.length →
        eink_get_pixel (eink_init (power_on (fun _ => true))).1 x y = some 1) ∧
    ((eink_clear (plot 0 ready_state (3, 4))).2 = ERROR_NONE ∧
      (eink_clear (plot 0 ready_state (3, 4))).1.display_buffer
        = List.replicate DISPLAY_BUFFER_SIZE 0xFF ∧
      (∀ b ∈ (eink_clear (plot 0 ready_state (3, 4))).1.display_buffer,
        b = 0xFF ∧ ∀ k < 8, b &&& (0x80 >>> k) ≠ 0) ∧
      ∀ x y, x < EINK_WIDTH → y < EINK_HEIGHT →
        (y * EINK_WIDTH + x) / 8 < (eink_clear (plot 0 ready_state (3, 4))).1.display_buffer.length →
        eink_get_pixel (eink_clear (plot 0 ready_state (3, 4))).1 x y = some 1) :=
  ⟨rfl, (plot_initialized 0 ready_state (3, 4)).trans ready_state_ready.1,
    init_and_clear_leave_all_light (power_on (fun _ => true)) (plot 0 ready_state (3, 4)) rfl
      ((plot_initialized 0 ready_state (3, 4)).trans ready_state_ready.1)⟩

/-- C26, at an input where the code departs from it: `eink_init` at power-on returns
`ERROR_NONE` and leaves 0xFF in each of the 3812 bytes of the framebuffer, and so does
`eink_clear` on the initialised driver after a pixel was set dark; but the in-range pixel
(246, 121) has the byte index 3812 and no bit in the framebuffer, so that in both states
`eink_get_pixel(246, 121)` reads outside the array instead of returning 1, while a stored
pixel such as (245, 121) reads as 1. -/
theorem cleared_pixel_outside_buffer :
    (power_on (fun _ => false)).eink_initialized = false ∧
    (eink_init (power_on (fun _ => false))).2 = ERROR_NONE ∧
    (eink_init (power_on (fun _ => false))).1.display_buffer
      = List.replicate DISPLAY_BUFFER_SIZE 0xFF ∧
    (plot 0 ready_state (3, 4)).eink_initialized = true ∧
    (eink_clear (plot 0 ready_state (3, 4))).2 = ERROR_NONE ∧
    (eink_clear (plot 0 ready_state (3, 4))).1.display_buffer
      = List.replicate DISPLAY_BUFFER_SIZE 0xFF ∧
    246 < EINK_WIDTH ∧ 121 < EINK_HEIGHT ∧
    (121 * EINK_WIDTH + 246) / 8 = DISPLAY_BUFFER_SIZE ∧
    eink_get_pixel (eink_init (power_on (fun _ => false))).1 246 121 = none ∧
    eink_get_pixel (eink_clear (plot 0 ready_state (3, 4))).1 246 121 = none ∧
    eink_get_pixel (eink_init (power_on (fun _ => false))).1 245 121 = some 1 ∧
    eink_get_pixel (eink_clear (plot 0 ready_state (3, 4))).1 245 121 = some 1 := by
  obtain ⟨i1, i3, i2, -, -⟩ := eink_init_fresh (power_on (fun _ => false)) rfl
  have ht : (plot 0 ready_state (3, 4)).eink_initialized = true :=
    (plot_initialized 0 ready_state (3, 4)).trans ready_state_ready.1
  obtain ⟨c1, c2⟩ := eink_clear_ready (plot 0 ready_state (3, 4)) ht
  have c3 : (eink_clear (plot 0 ready_state (3, 4))).1.eink_initialized = true :=
    (driver_vars_fields (eink_clear_driver_vars _)).1.trans ht
  refine ⟨rfl, i1, i2, ht, c1, c2, by decide, by decide, by decide, ?_, ?_, ?_, ?_⟩
  · exact get_pixel_outside _ 246 121 i3 (by decide) (by decide)
      (by rw [i2, List.length_replicate]; decide)
  · exact get_pixel_outside _ 246 121 c3 (by decide) (by decide)
      (by rw [c2, List.length_replicate]; decide)
  · exact get_pixel_all_light _ 245 121 i3 i2 (by decide) (by decide) (by decide)
  · exact get_pixel_all_light _ 245 121 c3 c2 (by decide) (by decide) (by decide)

/-- C27: a busy timeout is not fatal.  On an initialised driver, for every behaviour `busy` of
the busy pin (low at once, low late, never low) and every requested mode, `eink_refresh`
returns `ERROR_NONE`, increases `refresh_counter` by exactly 1 modulo 2^32, leaves the driver
initialised, and its busy-wait ends without running out of fuel. -/
theorem refresh_survives_busy_timeout (s : EinkState) (busy : Nat → Bool) (mode : Nat)
    (h : s.eink_initialized = true) :
    (eink_refresh { s with busy_pin := busy } mode).2 = ERROR_NONE ∧
    (eink_refresh { s with busy_pin := busy } mode).1.refresh_counter
      = (s.refresh_counter + 1) % 2 ^ 32 ∧
    (eink_refresh { s with busy_pin := busy } mode).1.eink_initialized = true ∧
    (eink_refresh { s with busy_pin := busy } mode).1.hang = s.hang := by
  obtain ⟨h1, h2, -, h4, -, -⟩ := eink_refresh_ready { s with busy_pin := busy } mode h
  exact ⟨h1, h4, h2, eink_refresh_hang { s with busy_pin := busy } mode⟩

set_option maxRecDepth 8000 in
theorem refresh_survives_busy_timeout_witness :
    ready_state.eink_initialized = true ∧
    (eink_refresh { ready_state with busy_pin := fun _ => true } EINK_DISPLAY_MODE_PARTIAL).2
      = ERROR_NONE ∧
    (eink_refresh { ready_state with busy_pin := fun _ => true }
        EINK_DISPLAY_MODE_PARTIAL).1.refresh_counter
      = (ready_state.refresh_counter + 1) % 2 ^ 32 ∧
    (eink_refresh { ready_state with busy_pin := fun _ => true }
        EINK_DISPLAY_MODE_PARTIAL).1.eink_initialized = true ∧
    (eink_refresh { ready_state with busy_pin := fun _ => true }
        EINK_DISPLAY_MODE_PARTIAL).1.hang = ready_state.hang :=
  ⟨ready_state_ready.1,
    refresh_survives_busy_timeout ready_state (fun _ => true) EINK_DISPLAY_MODE_PARTIAL
      ready_state_ready.1⟩

/-- C28, at an input where the code departs from it: with a busy pin that never goes low
`eink_wait_busy` returns (the fuel of the loop is not used up), but only after 501 reads of
the pin and 501 delays of 10 ms, one more than the 500 polls of the timeout: the counter is
compared with `timeout > 500` after it has been incremented. -/
theorem wait_busy_stuck_pin_polls :
    (eink_wait_busy (power_on (fun _ => true))).hang = false ∧
    (eink_wait_busy (power_on (fun _ => true))).busy_reads = 501 ∧
    (eink_wait_busy (power_on (fun _ => true))).trace
      = List.replicate 501 (.timer_usleep 10000) ∧
    wait_polls (power_on (fun _ => true)) = 501 := by
  obtain ⟨h1, h2⟩ := eink_wait_busy_loop_stuck 501 0 (power_on (fun _ => true)) (by omega)
    (by omega) (fun _ => rfl)
  have ht : (eink_wait_busy (power_on (fun _ => true))).trace
      = List.replicate 501 (.timer_usleep 10000) := by
    unfold eink_wait_busy
    rw [h1]
    rfl
  refine ⟨eink_wait_busy_hang _, ?_, ht, ?_⟩
  · unfold eink_wait_busy
    rw [h2]
    rfl
  · unfold wait_polls
    rw [ht, List.length_replicate]
    rfl

/-- C30: `eink_init` on a driver that is already initialised returns `ERROR_NONE` and the
state it was called in: nothing is added to the trace of SDK calls (no pin or bus traffic), and
the framebuffer, the refresh counter and the initialised flag are what they were. -/
theorem init_when_ready (s : EinkState) (h : s.eink_initialized = true) :
    (eink_init s).2 = ERROR_NONE ∧
    (eink_init s).1 = s ∧
    (eink_init s).1.trace = s.trace ∧
    (eink_init s).1.display_buffer = s.display_buffer ∧
    (eink_init s).1.refresh_counter = s.refresh_counter ∧
    (eink_init s).1.eink_initialized = true := by
  unfold eink_init
  rw [if_pos h]
  exact ⟨rfl, rfl, rfl, rfl, rfl, h⟩

theorem init_when_ready_witness :
    (eink_refresh (plot 0 ready_state (3, 4)) 0).1.eink_initialized = true ∧
    (eink_init (eink_refresh (plot 0 ready_state (3, 4)) 0).1).2 = ERROR_NONE ∧
    (eink_init (eink_refresh (plot 0 ready_state (3, 4)) 0).1).1
      = (eink_refresh (plot 0 ready_state (3, 4)) 0).1 ∧
    (eink_init (eink_refresh (plot 0 ready_state (3, 4)) 0).1).1.trace
      = (eink_refresh (plot 0 ready_state (3, 4)) 0).1.trace ∧
    (eink_init (eink_refresh (plot 0 ready_state (3, 4)) 0).1).1.display_buffer
      = (eink_refresh (plot 0 ready_state (3, 4)) 0).1.display_buffer ∧
    (eink_init (eink_refresh (plot 0 ready_state (3, 4)) 0).1).1.refresh_counter
      = (eink_refresh (plot 0 ready_state (3, 4)) 0).1.refresh_counter ∧
    (eink_init (eink_refresh (plot 0 ready_state (3, 4)) 0).1).1.eink_initialized = true :=
  have h : (eink_refresh (plot 0 ready_state (3, 4)) 0).1.eink_initialized = true :=
    (eink_refresh_ready _ 0
      ((plot_initialized 0 ready_state (3, 4)).trans ready_state_ready.1)).2.1
  ⟨h, init_when_ready _ h⟩

/-! ## Calls before start-up -/

/-- C31, at an input where the code departs from it: at power-on, before any `eink_init`, the
call `eink_display_text(0, 0, "A", 8, 0)` with a valid text returns `ERROR_INVALID_PARAM`
(0x07) and not `ERROR_INIT_FAILED` (0x01), which is what the seven other operations return in
that state; like them it leaves the whole driver state, trace of SDK calls, framebuffer and
refresh counter included, as it was. -/
theorem display_text_before_init_error_code :
    (power_on (fun _ => false)).eink_initialized = false ∧
    ERROR_INVALID_PARAM ≠ ERROR_INIT_FAILED ∧
    eink_display_text (power_on (fun _ => false)) 0 0 (some (lit "A")) 8 0
      = (power_on (fun _ => false), ERROR_INVALID_PARAM) ∧
    eink_clear (power_on (fun _ => false)) = (power_on (fun _ => false), ERROR_INIT_FAILED) ∧
    eink_set_pixel (power_on (fun _ => false)) 0 0 0
      = (power_on (fun _ => false), ERROR_INIT_FAILED) ∧
    eink_draw_line (power_on (fun _ => false)) 0 0 8 8 0
      = (power_on (fun _ => false), ERROR_INIT_FAILED) ∧
    eink_draw_rectangle (power_on (fun _ => false)) 0 0 8 8 0 false
      = (power_on (fun _ => false), ERROR_INIT_FAILED) ∧
    eink_refresh (power_on (fun _ => false)) EINK_DISPLAY_MODE_FULL
      = (power_on (fun _ => false), ERROR_INIT_FAILED) ∧
    eink_sleep (power_on (fun _ => false)) = (power_on (fun _ => false), ERROR_INIT_FAILED) ∧
    eink_wakeup (power_on (fun _ => false))
      = (power_on (fun _ => false), ERROR_INIT_FAILED) := by
  obtain ⟨h1, h2, h3, h4, h5, h6, h7, h8⟩ := calls_before_init (power_on (fun _ => false)) rfl
    0 0 8 8 8 8 0 8 EINK_DISPLAY_MODE_FULL false (some (lit "A"))
  exact ⟨rfl, by decide, h8, h1, h2, h3, h4, h5, h6, h7⟩

/-! ## The status text -/

/-- C32: with `status_text` the 64-byte array, `display_set_status(text)` for a non-null
`text` leaves in it the first `min(strlen(text), 63)` characters of `text` followed by NUL
bytes up to the end of the array (so the array still has 64 bytes, the string in it is `text`
cut to 63 characters, and it is terminated inside the array), sets `display_needs_refresh`,
and leaves the screen, the menu cursor and the driver as they were; for the null pointer it
returns the state unchanged, `display_needs_refresh` included. -/
theorem set_status_truncates (d : DisplayState) (text : List Nat)
    (hlen : d.status_text.length = 64) :
    (display_set_status d (some text)).status_text
      = (c_str text).take 63 ++ List.replicate (64 - min (c_str text).length 63) 0 ∧
    ((c_str text).take 63).length = min (c_str text).length 63 ∧
    (display_set_status d (some text)).status_text.length = 64 ∧
    c_str (display_set_status d (some text)).status_text = (c_str text).take 63 ∧
    (display_set_status d (some text)).display_needs_refresh = true ∧
    (display_set_status d (some text)).current_screen = d.current_screen ∧
    (display_set_status d (some text)).menu_selection = d.menu_selection ∧
    (display_set_status d (some text)).eink = d.eink ∧
    display_set_status d none = d := by
  have hs : (display_set_status d (some text)).status_text
      = (c_str text).take 63 ++ List.replicate (64 - min (c_str text).length 63) 0 :=
    status_text_assign_eq d.status_text text hlen
  have ht : ((c_str text).take 63).length = min (c_str text).length 63 := by
    rw [List.length_take, Nat.min_comm]
  refine ⟨hs, ht, ?_, ?_, rfl, rfl, rfl, rfl, rfl⟩
  · rw [hs, List.length_append, List.length_replicate, ht]
    omega
  · rw [hs]
    exact c_str_append_zeros _ _
      (fun c hc => c_str_ne_zero text c (List.mem_of_mem_take hc)) (by omega)

theorem set_status_truncates_witness :
    welcome_state.status_text.length = 64 ∧
    ((display_set_status welcome_state (some (List.replicate 70 65))).status_text
      = (c_str (List.replicate 70 65)).take 63 ++
          List.replicate (64 - min (c_str (List.replicate 70 65)).length 63) 0 ∧
    ((c_str (List.replicate 70 65)).take 63).length
      = min (c_str (List.replicate 70 65)).length 63 ∧
    (display_set_status welcome_state (some (List.replicate 70 65))).status_text.length = 64 ∧
    c_str (display_set_status welcome_state (some (List.replicate 70 65))).status_text
      = (c_str (List.replicate 70 65)).take 63 ∧
    (display_set_status welcome_state (some (List.replicate 70 65))).display_needs_refresh
      = true ∧
    (display_set_status welcome_state (some (List.replicate 70 65))).current_screen
      = welcome_state.current_screen ∧
    (display_set_status welcome_state (some (List.replicate 70 65))).menu_selection
      = welcome_state.menu_selection ∧
    (display_set_status welcome_state (some (List.replicate 70 65))).eink = welcome_state.eink ∧
    display_set_status welcome_state none = welcome_state) :=
  ⟨welcome_state_status_length,
    set_status_truncates welcome_state (List.replicate 70 65) welcome_state_status_length⟩

/-! ## Pixel addressing -/

/-- C33, at an input where the code departs from it: (0, 1) and (248, 0) are distinct in-range
coordinates with the same byte index 31 and the same bit index 0, and on the initialised driver
`eink_get_pixel(248, 0)` returns 1 before the call `eink_set_pixel(0, 1, 0)` and 0 after it. -/
theorem distinct_pixels_share_bit :
    ready_state.eink_initialized = true ∧
    0 < EINK_WIDTH ∧ 1 < EINK_HEIGHT ∧ 248 < EINK_WIDTH ∧ 0 < EINK_HEIGHT ∧
    ((0, 1) : Nat × Nat) ≠ (248, 0) ∧
    (1 * EINK_WIDTH + 0) / 8 = (0 * EINK_WIDTH + 248) / 8 ∧ 0 % 8 = 248 % 8 ∧
    (eink_set_pixel ready_state 0 1 0).2 = ERROR_NONE ∧
    eink_get_pixel ready_state 248 0 = some 1 ∧
    eink_get_pixel (eink_set_pixel ready_state 0 1 0).1 248 0 = some 0 := by
  obtain ⟨h, hbuf, -, -⟩ := ready_state_ready
  have hlen : ready_state.display_buffer.length = DISPLAY_BUFFER_SIZE := by simp [hbuf]
  obtain ⟨r1, r2⟩ := set_pixel_shared_bit ready_state h hlen
  exact ⟨h, by decide, by decide, by decide, by decide, by decide, by decide, by decide, r1,
    get_pixel_ready 248 0 (by decide) (by decide) (by decide), r2⟩

/-! ## The line loop -/

/-- C34: for every pair of end points of `uint16_t`, inside or outside the panel,
`eink_draw_line` on an initialised driver returns `ERROR_NONE` with its loop left through the
`break` (the fuel of the loop, one iteration for each unit step plus one, is not used up);
the last pixel it passes to `eink_set_pixel` is the end point `(x1, y1)`; and every value of
`int` it computes is at most 262140 in absolute value, far inside the 32-bit `int` of the
target, while every value it assigns to `x0` and `y0` lies between 0 and 65535, so that
neither wraps around. -/
theorem draw_line_terminates (s : EinkState) (x0 y0 x1 y1 color : Nat)
    (h : s.eink_initialized = true)
    (hx0 : x0 < 65536) (hy0 : y0 < 65536) (hx1 : x1 < 65536) (hy1 : y1 < 65536) :
    (eink_draw_line s x0 y0 x1 y1 color).2 = ERROR_NONE ∧
    (eink_draw_line s x0 y0 x1 y1 color).1.hang = s.hang ∧
    (eink_draw_line_run x0 y0 x1 y1).2 = true ∧
    (eink_draw_line s x0 y0 x1 y1 color).1
      = (eink_draw_line_points x0 y0 x1 y1).foldl (plot color) s ∧
    (eink_draw_line_points x0 y0 x1 y1).length ≤ eink_draw_line_fuel x0 y0 x1 y1 ∧
    (eink_draw_line_points x0 y0 x1 y1).getLast? = some (x1, y1) ∧
    eink_draw_line_checked 262140 x0 y0 x1 y1 = true ∧
    (262140 : Int) ≤ 2 ^ 31 - 1 := by
  have hrun := eink_draw_line_run_finished x0 y0 x1 y1 hx0 hy0 hx1 hy1
  have heq := eink_draw_line_eq s x0 y0 x1 y1 color h hrun
  obtain ⟨r1, r2, -⟩ := eink_draw_line_run_facts x0 y0 x1 y1 hx0 hy0 hx1 hy1
  refine ⟨?_, ?_, hrun, heq, ?_, r2, r1, by norm_num⟩
  · unfold eink_draw_line
    rw [if_neg (by simp [h])]
  · rw [heq, foldl_plot_hang]
  · rw [eink_draw_line_points_length x0 y0 x1 y1 hx0 hy0 hx1 hy1]
    unfold eink_draw_line_fuel
    omega

theorem draw_line_terminates_witness :
    ready_state.eink_initialized = true ∧
    (eink_draw_line ready_state 65535 0 0 65535 1).2 = ERROR_NONE ∧
    (eink_draw_line ready_state 65535 0 0 65535 1).1.hang = ready_state.hang ∧
    (eink_draw_line_run 65535 0 0 65535).2 = true ∧
    (eink_draw_line ready_state 65535 0 0 65535 1).1
      = (eink_draw_line_points 65535 0 0 65535).foldl (plot 1) ready_state ∧
    (eink_draw_line_points 65535 0 0 65535).length ≤ eink_draw_line_fuel 65535 0 0 65535 ∧
    (eink_draw_line_points 65535 0 0 65535).getLast? = some (0, 65535) ∧
    eink_draw_line_checked 262140 65535 0 0 65535 = true ∧
    (262140 : Int) ≤ 2 ^ 31 - 1 :=
  ⟨ready_state_ready.1,
    draw_line_terminates ready_state 65535 0 0 65535 1 ready_state_ready.1 (by norm_num)
      (by norm_num) (by norm_num) (by norm_num)⟩

/-- C35: for every pair of end points of `uint16_t`, the calls of `eink_set_pixel` that
`eink_draw_line` makes on an initialised driver are `max(|x1 - x0|, |y1 - y0|) + 1` in number,
and each of them passes a coordinate inside the bounding box of the two end points; along one
row, and along one column, the coordinates passed are exactly those of the segment between the
end points. -/
theorem draw_line_point_count (s : EinkState) (x0 y0 x1 y1 color : Nat)
    (h : s.eink_initialized = true)
    (hx0 : x0 < 65536) (hy0 : y0 < 65536) (hx1 : x1 < 65536) (hy1 : y1 < 65536) :
    (eink_draw_line s x0 y0 x1 y1 color).1
      = (eink_draw_line_points x0 y0 x1 y1).foldl (plot color) s ∧
    (eink_draw_line_points x0 y0 x1 y1).length
      = max ((x1 : Int) - x0).natAbs ((y1 : Int) - y0).natAbs + 1 ∧
    (∀ p ∈ eink_draw_line_points x0 y0 x1 y1,
      min x0 x1 ≤ p.1 ∧ p.1 ≤ max x0 x1 ∧ min y0 y1 ≤ p.2 ∧ p.2 ≤ max y0 y1) ∧
    (∀ p, p ∈ eink_draw_line_points x0 y0 x1 y0 ↔
      p.2 = y0 ∧ min x0 x1 ≤ p.1 ∧ p.1 ≤ max x0 x1) ∧
    (∀ p, p ∈ eink_draw_line_points x0 y0 x0 y1 ↔
      p.1 = x0 ∧ min y0 y1 ≤ p.2 ∧ p.2 ≤ max y0 y1) := by
  have hrun := eink_draw_line_run_finished x0 y0 x1 y1 hx0 hy0 hx1 hy1
  obtain ⟨-, -, r3⟩ := eink_draw_line_run_facts x0 y0 x1 y1 hx0 hy0 hx1 hy1
  refine ⟨eink_draw_line_eq s x0 y0 x1 y1 color h hrun,
    eink_draw_line_points_length x0 y0 x1 y1 hx0 hy0 hx1 hy1, r3, ?_, ?_⟩
  · intro p
    unfold eink_draw_line_points
    rw [hline_run x0 x1 y0 hx0 hx1]
    obtain ⟨px, py⟩ := p
    split_ifs with hle
    · simp only [List.mem_map, List.mem_range'_1, Prod.mk.injEq]
      constructor
      · rintro ⟨u, hu, rfl, rfl⟩
        exact ⟨rfl, by omega, by omega⟩
      · rintro ⟨rfl, h1, h2⟩
        exact ⟨px, by omega, rfl, rfl⟩
    · simp only [List.mem_reverse, List.mem_map, List.mem_range'_1, Prod.mk.injEq]
      constructor
      · rintro ⟨u, hu, rfl, rfl⟩
        exact ⟨rfl, by omega, by omega⟩
      · rintro ⟨rfl, h1, h2⟩
        exact ⟨px, by omega, rfl, rfl⟩
  · intro p
    unfold eink_draw_line_points
    rw [vline_run x0 y0 y1 hy0 hy1]
    obtain ⟨px, py⟩ := p
    split_ifs with hle
    · simp only [List.mem_map, List.mem_range'_1, Prod.mk.injEq]
      constructor
      · rintro ⟨u, hu, rfl, rfl⟩
        exact ⟨rfl, by omega, by omega⟩
      · rintro ⟨rfl, h1, h2⟩
        exact ⟨py, by omega, rfl, rfl⟩
    · simp only [List.mem_reverse, List.mem_map, List.mem_range'_1, Prod.mk.injEq]
      constructor
      · rintro ⟨u, hu, rfl, rfl⟩
        exact ⟨rfl, by omega, by omega⟩
      · rintro ⟨rfl, h1, h2⟩
        exact ⟨py, by omega, rfl, rfl⟩

theorem draw_line_point_count_witness :
    ready_state.eink_initialized = true ∧
    eink_draw_line_points 2 9 7 6 = [(2, 9), (3, 8), (4, 8), (5, 7), (6, 7), (7, 6)] ∧
    ((eink_draw_line ready_state 2 9 7 6 0).1
      = (eink_draw_line_points 2 9 7 6).foldl (plot 0) ready_state ∧
    (eink_draw_line_points 2 9 7 6).length
      = max ((7 : Int) - 2).natAbs ((6 : Int) - 9).natAbs + 1 ∧
    (∀ p ∈ eink_draw_line_points 2 9 7 6,
      min 2 7 ≤ p.1 ∧ p.1 ≤ max 2 7 ∧ min 9 6 ≤ p.2 ∧ p.2 ≤ max 9 6) ∧
    (∀ p, p ∈ eink_draw_line_points 2 9 7 9 ↔
      p.2 = 9 ∧ min 2 7 ≤ p.1 ∧ p.1 ≤ max 2 7) ∧
    (∀ p, p ∈ eink_draw_line_points 2 9 2 6 ↔
      p.1 = 2 ∧ min 9 6 ≤ p.2 ∧ p.2 ≤ max 9 6)) :=
  ⟨ready_state_ready.1, by decide,
    draw_line_point_count ready_state 2 9 7 6 0 ready_state_ready.1 (by norm_num)
      (by norm_num) (by norm_num) (by norm_num)⟩

/-! ## The RAM window -/

/-- C36, at an input where the code departs from it: a call of `eink_refresh` on the
initialised driver sets the RAM window to the byte columns 0x00 to 0x1F and the rows 0x0000 to
0x0079, which is `(((EINK_WIDTH - 1) >> 3) - 0 + 1) * ((EINK_HEIGHT - 1) - 0 + 1) = 32 * 122 =
3904` bytes, and after the write-RAM command 0x24 it sends the 3812 bytes of `display_buffer`,
`EINK_WIDTH * EINK_HEIGHT / 8`: 92 bytes less than the window holds. -/
theorem refresh_window_larger_than_buffer :
    ready_state.eink_initialized = true ∧
    (bus_bytes false (refresh_events ready_state EINK_DISPLAY_MODE_FULL)).take 14 =
      [(false, 0x44), (true, 0x00), (true, 0x1F),
       (false, 0x45), (true, 0x00), (true, 0x00), (true, 0x79), (true, 0x00),
       (false, 0x4E), (true, 0x00),
       (false, 0x4F), (true, 0x00), (true, 0x00),
       (false, 0x24)] ∧
    (((bus_bytes false (refresh_events ready_state EINK_DISPLAY_MODE_FULL)).drop 14).takeWhile
      (fun p => p.1 = true)).length = 3812 ∧
    (EINK_WIDTH - 1) >>> 3 = 0x1F ∧ EINK_HEIGHT - 1 = 0x79 ∧
    (((EINK_WIDTH - 1) >>> 3) - 0 + 1) * ((EINK_HEIGHT - 1) - 0 + 1) = 3904 ∧
    DISPLAY_BUFFER_SIZE = 3812 ∧
    ready_state.display_buffer.length = DISPLAY_BUFFER_SIZE ∧
    (((EINK_WIDTH - 1) >>> 3) - 0 + 1) * ((EINK_HEIGHT - 1) - 0 + 1) ≠ DISPLAY_BUFFER_SIZE := by
  obtain ⟨h, hbuf, -, -⟩ := ready_state_ready
  have hlen : ready_state.display_buffer.length = DISPLAY_BUFFER_SIZE := by simp [hbuf]
  obtain ⟨r1, r2⟩ := refresh_window_and_stream ready_state EINK_DISPLAY_MODE_FULL h hlen
  exact ⟨h, r1, r2, by decide, by decide, by decide, by decide, hlen, by decide⟩

/-! ## Empty rectangles -/

/-- C37, at inputs where the code departs from it: on the initialised driver with the
framebuffer all light, `eink_draw_rectangle(5, 5, 0, 0, 0, true)` changes nothing, but
`eink_draw_rectangle(5, 5, 0, 0, 0, false)` computes `x + width - 1 = 4` and
`y + height - 1 = 4`, draws its four lines between 5 and 4 and sets the four pixels (4, 4),
(5, 4), (4, 5), (5, 5): `eink_get_pixel(4, 4)` returns 0 afterwards.  The same happens to the
glyph of `eink_display_text(5, 5, "A", 2, 0)`.  At the left edge the width 0 wraps to the end
65535: `eink_draw_rectangle(0, 5, 0, 1, 0, false)` sets every pixel of row 5. -/
theorem empty_outline_rectangle_sets_pixels :
    ready_state.eink_initialized = true ∧
    ready_state.display_buffer = List.replicate DISPLAY_BUFFER_SIZE 0xFF ∧
    eink_draw_rectangle ready_state 5 5 0 0 0 true = (ready_state, ERROR_NONE) ∧
    eink_get_pixel ready_state 4 4 = some 1 ∧
    (eink_draw_rectangle ready_state 5 5 0 0 0 false).2 = ERROR_NONE ∧
    (eink_draw_rectangle ready_state 5 5 0 0 0 false).1 =
      [(5, 5), (4, 5), (5, 4), (4, 4), (5, 5), (5, 4), (4, 5), (4, 4)].foldl (plot 0)
        ready_state ∧
    eink_get_pixel (eink_draw_rectangle ready_state 5 5 0 0 0 false).1 4 4 = some 0 ∧
    (eink_draw_rectangle ready_state 5 5 0 0 0 false).1.display_buffer
      ≠ ready_state.display_buffer ∧
    eink_display_text ready_state 5 5 (some (lit "A")) 2 0
      = ((eink_draw_rectangle ready_state 5 5 0 0 0 false).1, ERROR_NONE) ∧
    u16 (((0 : Nat) : Int) + (0 : Nat) - 1) = 65535 ∧
    (eink_draw_rectangle ready_state 0 5 0 1 0 false).2 = ERROR_NONE ∧
    (∀ px, px < EINK_WIDTH →
      eink_get_pixel (eink_draw_rectangle ready_state 0 5 0 1 0 false).1 px 5 = some 0) := by
  obtain ⟨h, hbuf, -, -⟩ := ready_state_ready
  have hlen : ready_state.display_buffer.length = DISPLAY_BUFFER_SIZE := by simp [hbuf]
  obtain ⟨r1, r2, r3⟩ := outline_empty_sets_pixels ready_state h hlen
  have hbefore := get_pixel_ready 4 4 (by decide) (by decide) (by decide)
  refine ⟨h, hbuf, eink_draw_rectangle_filled_empty ready_state 5 5 0 0 0 h (Or.inl rfl),
    hbefore, r1, r2, r3, ?_, display_text_size_two ready_state h,
    (outline_zero_width_sets_row ready_state h hlen 0 (by decide)).1,
    (outline_zero_width_sets_row ready_state h hlen 0 (by decide)).2.1,
    fun px hpx => (outline_zero_width_sets_row ready_state h hlen px hpx).2.2⟩
  intro hne
  have hsame := get_pixel_buffer_eq _ ready_state 4 4
    ((driver_vars_fields (eink_draw_rectangle_driver_vars ready_state 5 5 0 0 0 false)).1) hne
  rw [r3, hbefore] at hsame
  exact absurd hsame (by decide)

end OpenEink
